import Mathlib

/-!
# ROHC compressor core: SDVL coding, the IR/FO/SO state machine and the packets

A shallow embedding of `src/common/sdvl.c`, of the state, packet and
extension decisions, the feedback handling, the IP-ID behaviour detection and
the packet building of `src/comp/c_generic.c`, and of the UDP profile of
`src/comp/c_udp.c`, with the properties of the specification proved (or
refuted) over it.

C `int` values are modelled by `Int`.  The bit operators of C are modelled on
the 32-bit two's complement pattern of their operands.
-/

namespace Rohc

/-! ## C integer operators -/

/-- The unsigned 32-bit pattern of a C `int` (two's complement). -/
def to_u32 (x : Int) : Nat := (x % 4294967296).toNat

/-- The C `int` that has the given 32-bit pattern. -/
def of_u32 (n : Nat) : Int :=
  if n % 4294967296 < 2147483648 then ((n % 4294967296 : Nat) : Int)
  else ((n % 4294967296 : Nat) : Int) - 4294967296

/-- C `a & b` on `int`. -/
def int_and (a b : Int) : Int := of_u32 (to_u32 a &&& to_u32 b)

/-- C `a | b` on `int`. -/
def int_or (a b : Int) : Int := of_u32 (to_u32 a ||| to_u32 b)

/-- C `a ^ b` on `int`. -/
def int_xor (a b : Int) : Int := of_u32 (to_u32 a ^^^ to_u32 b)

/-- C `a << k` on `int` (the low 32 bits of the shifted pattern). -/
def int_shl (a : Int) (k : Nat) : Int := of_u32 (to_u32 a <<< k)

/-- C `a >> k` on `int`: the arithmetic (sign-propagating) right shift. -/
def int_shr (a : Int) (k : Nat) : Int := a / 2 ^ k

/-! ## SDVL (`src/common/sdvl.c`) -/

/-- `c_bytesSdvl` (sdvl.c:20-36): the number of bytes needed for the SDVL
encoding of `value`; 5 stands for "does not fit". -/
def c_bytesSdvl (value : Int) : Int :=
  if value ≤ 127 then 1
  else if value ≤ 16383 then 2
  else if value ≤ 2097151 then 3
  else if value ≤ 536870911 then 4
  else 5

/-- What a call of `c_encodeSdvl` yields: the returned boolean and the bytes
stored through `*dest++ = ...`, in the order `dest[0]`, `dest[1]`, ... -/
structure sdvl_encoded where
  status : Bool
  written : List Int
deriving DecidableEq, Repr

/-- `c_encodeSdvl` (sdvl.c:49-99).  `dest_null` tells whether the destination
pointer is `NULL`. -/
def c_encodeSdvl (dest_null : Bool) (value : Int) : sdvl_encoded :=
  if dest_null then ⟨false, []⟩
  else
    let size := c_bytesSdvl value
    if size > 4 then ⟨false, []⟩
    else if size = 4 then
      ⟨true, [int_and (int_xor (int_shl 7 5) (int_and (int_shr value 24) 31)) 255,
              int_and (int_shr value 16) 255,
              int_and (int_shr value 8) 255,
              int_and value 255]⟩
    else if size = 3 then
      ⟨true, [int_and (int_xor (int_shl 6 5) (int_and (int_shr value 16) 31)) 255,
              int_and (int_shr value 8) 255,
              int_and value 255]⟩
    else if size = 2 then
      ⟨true, [int_and (int_xor (int_shl 2 6) (int_and (int_shr value 8) 63)) 255,
              int_and value 255]⟩
    else if size = 1 then
      ⟨true, [int_and value 255]⟩
    else ⟨true, []⟩

/-- The byte `data[i]` of a buffer (0 past the end of the modelled bytes). -/
def byte_at (data : List Int) (i : Nat) : Int := data.getD i 0

/-- Modelled from the spec: the `GET_BIT_*` macros are declared in a header
that is not part of the sources; `GET_BIT_7` is the leading bit of a byte (the
SDVL discriminator "0" against "1.."). -/
def GET_BIT_7 (x : Int) : Int := int_shr (int_and x 0x80) 7

/-- Modelled from the spec: the two leading bits of a byte (pattern "10"). -/
def GET_BIT_6_7 (x : Int) : Int := int_shr (int_and x 0xc0) 6

/-- Modelled from the spec: the three leading bits of a byte (patterns "110"
and "111"). -/
def GET_BIT_5_7 (x : Int) : Int := int_shr (int_and x 0xe0) 5

/-- Modelled from the spec: the 7 value bits left by a 1-bit discriminator. -/
def GET_BIT_0_6 (x : Int) : Int := int_and x 0x7f

/-- Modelled from the spec: the 6 value bits left by a 2-bit discriminator. -/
def GET_BIT_0_5 (x : Int) : Int := int_and x 0x3f

/-- Modelled from the spec: the 5 value bits left by a 3-bit discriminator. -/
def GET_BIT_0_4 (x : Int) : Int := int_and x 0x1f

/-- Modelled from the spec: all 8 bits of a byte. -/
def GET_BIT_0_7 (x : Int) : Int := int_and x 0xff

/-- `d_sdvalue_size` (sdvl.c:110-129). -/
def d_sdvalue_size (data : List Int) : Int :=
  if GET_BIT_7 (byte_at data 0) = 0 then 1
  else if GET_BIT_6_7 (byte_at data 0) = int_shr 0x8 2 then 2
  else if GET_BIT_5_7 (byte_at data 0) = int_shr 0xc 1 then 3
  else if GET_BIT_5_7 (byte_at data 0) = int_shr 0xe 1 then 4
  else -1

/-- `d_sdvalue_decode` (sdvl.c:140-161). -/
def d_sdvalue_decode (data : List Int) : Int :=
  if GET_BIT_7 (byte_at data 0) = 0 then GET_BIT_0_6 (byte_at data 0)
  else if GET_BIT_6_7 (byte_at data 0) = int_shr 0x8 2 then
    int_or (int_shl (GET_BIT_0_5 (byte_at data 0)) 8) (GET_BIT_0_7 (byte_at data 1))
  else if GET_BIT_5_7 (byte_at data 0) = int_shr 0xc 1 then
    int_or (int_or (int_shl (GET_BIT_0_4 (byte_at data 0)) 16)
                   (int_shl (GET_BIT_0_7 (byte_at data 1)) 8))
           (GET_BIT_0_7 (byte_at data 2))
  else if GET_BIT_5_7 (byte_at data 0) = int_shr 0xe 1 then
    int_or (int_or (int_or (int_shl (GET_BIT_0_4 (byte_at data 0)) 24)
                           (int_shl (GET_BIT_0_7 (byte_at data 1)) 16))
                   (int_shl (GET_BIT_0_7 (byte_at data 2)) 8))
           (GET_BIT_0_7 (byte_at data 3))
  else -1

/-! ## Compressor context (`src/comp/c_generic.c`) -/

/-- The compressor states (`rohc_c_state`). -/
inductive rohc_c_state where
  | IR
  | FO
  | SO
deriving DecidableEq, Repr

/-- The operating modes (`rohc_mode`). -/
inductive rohc_mode where
  | U_MODE
  | O_MODE
  | R_MODE
deriving DecidableEq, Repr

/-- The packet types a generic context can select. -/
inductive rohc_packet where
  | PACKET_IR
  | PACKET_IR_DYN
  | PACKET_UO_0
  | PACKET_UO_1
  | PACKET_UOR_2
deriving DecidableEq, Repr

/-- The extensions of the UO-2 packet. -/
inductive rohc_ext where
  | PACKET_NOEXT
  | PACKET_EXT_0
  | PACKET_EXT_1
  | PACKET_EXT_2
  | PACKET_EXT_3
deriving DecidableEq, Repr

/-- The thresholds `MAX_IR_COUNT`, `MAX_FO_COUNT`, `CHANGE_TO_FO_COUNT` and
`CHANGE_TO_IR_COUNT` used by `c_generic.c`.  They are defined in a header that
is not part of the sources, so the functions below take them as a parameter. -/
structure generic_limits where
  MAX_IR_COUNT : Int
  MAX_FO_COUNT : Int
  CHANGE_TO_FO_COUNT : Int
  CHANGE_TO_IR_COUNT : Int
deriving DecidableEq, Repr

/-- The fields of an IPv4 header (`struct iphdr`) that `c_generic.c` reads.
The 16-bit fields hold the value as it is read from the packet, that is in
network byte order. -/
structure iphdr where
  version : Int := 4
  ihl : Int := 5
  tos : Int := 0
  tot_len : Int := 0
  id : Int := 0
  frag_off : Int := 0
  ttl : Int := 0
  protocol : Int := 0
  check : Int := 0
  saddr : Int := 0
  daddr : Int := 0
deriving DecidableEq, Repr

/-- Modelled from the spec: an entry of a W-LSB window (`wlsb.c` is not part
of the sources).  Each entry stores the SN at which the reference was sent and
the reference value. -/
structure wlsb_entry where
  sn : Int
  value : Int
deriving DecidableEq, Repr

/-- The fields of `struct ip_header_info`: the W-LSB window of the IP-ID, the
last header sent, the RND and NBO flags with their previous values, the IP-ID
offset and the change counters. -/
structure ip_header_info where
  ip_id_window : List wlsb_entry := []
  old_ip : iphdr := {}
  rnd : Int := 0
  old_rnd : Int := 0
  nbo : Int := 1
  old_nbo : Int := 1
  id_delta : Int := 0
  tos_count : Int := 0
  ttl_count : Int := 0
  df_count : Int := 0
  protocol_count : Int := 0
  rnd_count : Int := 0
  nbo_count : Int := 0
deriving DecidableEq, Repr

/-- The per-packet variables of `struct generic_tmp_variables`; the defaults
are the values set by `c_init_tmp_variables` (c_generic.c:215-227), `none`
standing for the packet type -1. -/
structure generic_tmp_variables where
  nr_of_ip_hdr : Int := -1
  changed_fields : Int := -1
  changed_fields2 : Int := -1
  send_static : Int := -1
  send_dynamic : Int := -1
  nr_ip_id_bits : Int := -1
  nr_sn_bits : Int := -1
  nr_ip_id_bits2 : Int := -1
  packet_type : Option rohc_packet := none
  max_size : Int := -1
deriving DecidableEq, Repr

/-- The fields of a UDP header (`struct udphdr`), as they are read from the
packet. -/
structure udphdr where
  source : Int := 0
  dest : Int := 0
  len : Int := 0
  check : Int := 0
deriving DecidableEq, Repr

/-- The UDP part of a context (`struct sc_udp_context`), with the fields
`c_udp.c` uses; `send_udp_dynamic` is its temporary variable
(`tmp_variables.send_udp_dynamic`).  The defaults are the values set by
`c_udp_create` (c_udp.c:85-89). -/
structure sc_udp_context where
  udp_checksum_change_count : Int := 0
  old_udp : udphdr := {}
  send_udp_dynamic : Int := -1
deriving DecidableEq, Repr

/-- The two functions the pointer `g_context->decide_state` is set to:
`decide_state` by `c_generic_create` (c_generic.c:342) and `udp_decide_state`
by `c_udp_create` (c_udp.c:94). -/
inductive decide_state_handler where
  | generic
  | udp
deriving DecidableEq, Repr

/-- The functions of a profile the pointers `code_static_part`,
`code_dynamic_part` and `code_UO_packet_tail` are set to: those of `c_udp.c`
(c_udp.c:96-99).  A `NULL` pointer is `none`. -/
inductive next_header_handler where
  | udp
deriving DecidableEq, Repr

/-- The generic part of a compression context (`struct c_generic_context`);
the defaults of `sn`, of the six counters and of the profile-specific fields
are the values set by `c_generic_create` (c_generic.c:309-346).  The pointers
`init_at_IR` and `code_UO_packet_head` are `NULL` in every context the sources
create (c_generic.c:343-345, c_udp.c:95-98) and are left out. -/
structure c_generic_context where
  sn : Int := 0
  sn_window : List wlsb_entry := []
  ir_count : Int := 0
  fo_count : Int := 0
  so_count : Int := 0
  go_back_fo_count : Int := 0
  go_back_ir_count : Int := 0
  ir_dyn_count : Int := 0
  ip_flags : ip_header_info := {}
  ip2_flags : ip_header_info := {}
  is_ip2_initialized : Int := 0
  tmp_variables : generic_tmp_variables := {}
  specific : Option sc_udp_context := none
  next_header_proto : Int := 0
  next_header_len : Int := 0
  decide_state : Option decide_state_handler := some decide_state_handler.generic
  code_static_part : Option next_header_handler := none
  code_dynamic_part : Option next_header_handler := none
  code_UO_packet_tail : Option next_header_handler := none
deriving DecidableEq, Repr

/-- The compression context (`struct c_context`) with its generic part. -/
structure c_context where
  mode : rohc_mode := rohc_mode.U_MODE
  state : rohc_c_state := rohc_c_state.IR
  specific : c_generic_context := {}
deriving DecidableEq, Repr

open rohc_c_state rohc_mode rohc_packet rohc_ext

/-- `change_state` (c_generic.c:413-432). -/
def change_state (context : c_context) (new_state : rohc_c_state) : c_context :=
  if context.state ≠ new_state then
    { context with
      specific := { context.specific with ir_count := 0, fo_count := 0, so_count := 0 }
      state := new_state }
  else context

/-- `periodic_down_transition` (c_generic.c:746-768). -/
def periodic_down_transition (L : generic_limits) (context : c_context) : c_context :=
  let c1 :=
    if context.specific.go_back_fo_count ≥ L.CHANGE_TO_FO_COUNT then
      change_state
        { context with
          specific := { context.specific with go_back_fo_count := 0, ir_dyn_count := 0 } } FO
    else if context.specific.go_back_ir_count ≥ L.CHANGE_TO_IR_COUNT then
      change_state
        { context with specific := { context.specific with go_back_ir_count := 0 } } IR
    else context
  let c2 :=
    if c1.state = SO then
      { c1 with
        specific := { c1.specific with go_back_fo_count := c1.specific.go_back_fo_count + 1 } }
    else c1
  if c2.state = SO ∨ c2.state = FO then
    { c2 with
      specific := { c2.specific with go_back_ir_count := c2.specific.go_back_ir_count + 1 } }
  else c2

/-- The `next_state` computed by the `if` chain of `decide_state`
(c_generic.c:787-811). -/
def decide_next_state (L : generic_limits) (context : c_context) : rohc_c_state :=
  let curr_state := context.state
  let ir_count := context.specific.ir_count
  let fo_count := context.specific.fo_count
  let send_static := context.specific.tmp_variables.send_static
  let send_dynamic := context.specific.tmp_variables.send_dynamic
  if curr_state = IR ∧ send_dynamic ≠ 0 ∧ ir_count ≥ L.MAX_IR_COUNT then FO
  else if curr_state = IR ∧ send_static ≠ 0 ∧ ir_count ≥ L.MAX_IR_COUNT then FO
  else if curr_state = IR ∧ context.specific.ir_count ≥ L.MAX_IR_COUNT then SO
  else if curr_state = FO ∧ send_dynamic ≠ 0 ∧ fo_count ≥ L.MAX_FO_COUNT then FO
  else if curr_state = FO ∧ send_static ≠ 0 ∧ fo_count ≥ L.MAX_FO_COUNT then FO
  else if curr_state = FO ∧ fo_count ≥ L.MAX_FO_COUNT then SO
  else if curr_state = SO ∧ send_dynamic ≠ 0 then FO
  else if curr_state = SO ∧ send_static ≠ 0 then FO
  else curr_state

/-- `decide_state` (c_generic.c:781-817). -/
def decide_state (L : generic_limits) (context : c_context) : c_context :=
  let c1 := change_state context (decide_next_state L context)
  if c1.mode = U_MODE then periodic_down_transition L c1 else c1

/-- `decide_FO_packet` (c_generic.c:882-908): the context after the call and
the packet type. -/
def decide_FO_packet (L : generic_limits) (context : c_context) : c_context × rohc_packet :=
  let nr_of_ip_hdr := context.specific.tmp_variables.nr_of_ip_hdr
  let send_static := context.specific.tmp_variables.send_static
  let send_dynamic := context.specific.tmp_variables.send_dynamic
  if context.specific.ir_dyn_count < L.MAX_FO_COUNT then
    ({ context with
       specific := { context.specific with ir_dyn_count := context.specific.ir_dyn_count + 1 } },
     PACKET_IR_DYN)
  else if send_static ≠ 0 then (context, PACKET_UOR_2)
  else if nr_of_ip_hdr = 1 ∧ send_dynamic > 2 then (context, PACKET_IR_DYN)
  else if nr_of_ip_hdr > 1 ∧ send_dynamic > 4 then (context, PACKET_IR_DYN)
  else (context, PACKET_UOR_2)

/-- `decide_SO_packet` (c_generic.c:923-966). -/
def decide_SO_packet (context : c_context) : rohc_packet :=
  let g_context := context.specific
  let nr_of_ip_hdr := g_context.tmp_variables.nr_of_ip_hdr
  let nr_sn_bits := g_context.tmp_variables.nr_sn_bits
  let nr_ip_id_bits := g_context.tmp_variables.nr_ip_id_bits
  let nr_ip_id_bits2 := g_context.tmp_variables.nr_ip_id_bits2
  if nr_of_ip_hdr = 1 then
    if g_context.ip_flags.rnd = 1 ∧ nr_sn_bits ≤ 4 then PACKET_UO_0
    else if nr_sn_bits ≤ 4 ∧ nr_ip_id_bits = 0 then PACKET_UO_0
    else if nr_sn_bits = 5 ∧ nr_ip_id_bits = 0 then PACKET_UOR_2
    else if nr_sn_bits ≤ 5 ∧ nr_ip_id_bits ≤ 6 then PACKET_UO_1
    else PACKET_UOR_2
  else
    if g_context.ip_flags.rnd = 1 ∧ g_context.ip2_flags.rnd = 1 ∧ nr_sn_bits ≤ 4 then
      PACKET_UO_0
    else if nr_sn_bits ≤ 4 ∧ (g_context.ip_flags.rnd = 1 ∨ nr_ip_id_bits = 0) ∧
        (g_context.ip2_flags.rnd = 1 ∨ nr_ip_id_bits2 = 0) then PACKET_UO_0
    else if nr_sn_bits ≤ 5 ∧ nr_ip_id_bits ≤ 6 ∧
        (g_context.ip2_flags.rnd = 1 ∨ nr_ip_id_bits2 = 0) then PACKET_UO_1
    else PACKET_UOR_2

/-- `decide_packet` (c_generic.c:982-1017): the context after the call and the
packet type. -/
def decide_packet (L : generic_limits) (context : c_context) : c_context × rohc_packet :=
  match context.state with
  | IR =>
    ({ context with
       specific := { context.specific with ir_count := context.specific.ir_count + 1 } },
     PACKET_IR)
  | FO =>
    decide_FO_packet L
      { context with
        specific := { context.specific with fo_count := context.specific.fo_count + 1 } }
  | SO =>
    let c1 : c_context :=
      { context with
        specific := { context.specific with so_count := context.specific.so_count + 1 } }
    (c1, decide_SO_packet c1)

/-- `decide_extension` (c_generic.c:2469-2520). -/
def decide_extension (context : c_context) : rohc_ext :=
  let g_context := context.specific
  let send_static := g_context.tmp_variables.send_static
  let send_dynamic := g_context.tmp_variables.send_dynamic
  let nr_ip_id_bits := g_context.tmp_variables.nr_ip_id_bits
  let nr_ip_id_bits2 := g_context.tmp_variables.nr_ip_id_bits2
  let nr_sn_bits := g_context.tmp_variables.nr_sn_bits
  if g_context.tmp_variables.nr_of_ip_hdr = 1 then
    if send_static > 0 then PACKET_EXT_3
    else if send_dynamic > 0 then PACKET_EXT_3
    else if nr_sn_bits < 5 ∧ (nr_ip_id_bits = 0 ∨ g_context.ip_flags.rnd = 1) then PACKET_NOEXT
    else if nr_sn_bits ≤ 8 ∧ nr_ip_id_bits ≤ 3 then PACKET_EXT_0
    else if nr_sn_bits ≤ 8 ∧ nr_ip_id_bits ≤ 11 then PACKET_EXT_1
    else PACKET_EXT_3
  else
    if send_static > 0 ∨ send_dynamic > 0 then PACKET_EXT_3
    else if nr_sn_bits < 5 ∧ (nr_ip_id_bits = 0 ∨ g_context.ip_flags.rnd = 1) ∧
        (nr_ip_id_bits2 = 0 ∨ g_context.ip2_flags.rnd = 1) then PACKET_NOEXT
    else if nr_sn_bits ≤ 8 ∧ nr_ip_id_bits ≤ 3 ∧
        (nr_ip_id_bits2 = 0 ∨ g_context.ip2_flags.rnd = 1) then PACKET_EXT_0
    else if nr_sn_bits ≤ 8 ∧ nr_ip_id_bits ≤ 11 ∧
        (nr_ip_id_bits2 = 0 ∨ g_context.ip2_flags.rnd = 1) then PACKET_EXT_1
    else if nr_sn_bits ≤ 3 ∧ nr_ip_id_bits ≤ 11 ∧ nr_ip_id_bits2 ≤ 8 then PACKET_EXT_2
    else PACKET_EXT_3

/-! ## Bits placed in the packets -/

/-- The number of SN bits the packet holds, read off the code that builds it:
the two SN octets of IR and IR-DYN (c_generic.c:1226-1228, 1352-1354),
`sn & 0x0f` in UO-0 (1682), `sn & 0x1f` in UO-1 (1765) and in UO-2 without
extension (1871), `(sn & 0xff) >> 3` with `sn & 0x07` for EXT-0, EXT-1 and
EXT-2 (1880, 1962, 2002, 2059), and for EXT-3 either `sn & 0x1f` or, when
`nr_sn_bits > 5`, five bits of `sn >> 8` with the octet `sn & 0xff`
(1910-1913, 2198-2203). -/
def sn_bits_coded (context : c_context) (packet : rohc_packet) (ext : rohc_ext) : Int :=
  match packet with
  | PACKET_IR => 16
  | PACKET_IR_DYN => 16
  | PACKET_UO_0 => 4
  | PACKET_UO_1 => 5
  | PACKET_UOR_2 =>
    match ext with
    | PACKET_NOEXT => 5
    | PACKET_EXT_0 => 8
    | PACKET_EXT_1 => 8
    | PACKET_EXT_2 => 8
    | PACKET_EXT_3 => if context.specific.tmp_variables.nr_sn_bits > 5 then 13 else 5

/-- The test that guards the 2-byte IP-ID field of EXT-3
(c_generic.c:2211-2213, 2246-2248 and 2448-2449); `rnd_count` is the value of
the counter of the header when the test is evaluated. -/
def ext3_ip_id_test (L : generic_limits) (nr_ip_id_bits rnd rnd_count : Int) : Bool :=
  decide ((nr_ip_id_bits > 0 ∧ rnd = 0) ∨ (rnd_count - 1 < L.MAX_FO_COUNT ∧ rnd = 0))

/-- The number of IP-ID bits of the outer header (`ip_flags`) the packet
holds: the full IP-ID in the dynamic chain of IR and IR-DYN (1476),
`id_delta & 0x3f` in UO-1 (1760), `id_delta & 0x07` in EXT-0 (1963), 11 bits
in EXT-1 and EXT-2 (2003-2009, 2060-2066).  In EXT-3 the 2-byte IP-ID is
written under `ext3_ip_id_test`; with two IP headers it is written by
`header_fields` for the outer header, which is only called when `have_outer`
is set (2257-2259). -/
def outer_ip_id_bits_coded (L : generic_limits) (context : c_context) (packet : rohc_packet)
    (ext : rohc_ext) (have_outer : Bool) (rnd_count : Int) : Int :=
  match packet with
  | PACKET_IR => 16
  | PACKET_IR_DYN => 16
  | PACKET_UO_0 => 0
  | PACKET_UO_1 => 6
  | PACKET_UOR_2 =>
    match ext with
    | PACKET_NOEXT => 0
    | PACKET_EXT_0 => 3
    | PACKET_EXT_1 => 11
    | PACKET_EXT_2 => 11
    | PACKET_EXT_3 =>
      if context.specific.tmp_variables.nr_of_ip_hdr = 1 then
        if ext3_ip_id_test L context.specific.tmp_variables.nr_ip_id_bits
            context.specific.ip_flags.rnd rnd_count then 16 else 0
      else if have_outer ∧ ext3_ip_id_test L context.specific.tmp_variables.nr_ip_id_bits
          context.specific.ip_flags.rnd rnd_count then 16
      else 0

/-- The number of IP-ID bits of the inner header (`ip2_flags`) the packet
holds when there are two IP headers: the full IP-ID in IR and IR-DYN, the
octet `ip2_flags.id_delta & 0xff` in EXT-2 (2071), and in EXT-3 the 2-byte
IP-ID of part 6 (2246-2254). -/
def inner_ip_id_bits_coded (L : generic_limits) (context : c_context) (packet : rohc_packet)
    (ext : rohc_ext) (rnd_count2 : Int) : Int :=
  match packet with
  | PACKET_IR => 16
  | PACKET_IR_DYN => 16
  | PACKET_UO_0 => 0
  | PACKET_UO_1 => 0
  | PACKET_UOR_2 =>
    match ext with
    | PACKET_NOEXT => 0
    | PACKET_EXT_0 => 0
    | PACKET_EXT_1 => 0
    | PACKET_EXT_2 => 8
    | PACKET_EXT_3 =>
      if ext3_ip_id_test L context.specific.tmp_variables.nr_ip_id_bits2
          context.specific.ip2_flags.rnd rnd_count2 then 16 else 0

/-! ## Traces and the transition rules of the specification -/

/-- The context with `send_static` and `send_dynamic` set, as
`c_generic_encode` does before it decides the state (c_generic.c:563-565). -/
def set_changes (context : c_context) (send_static send_dynamic : Int) : c_context :=
  { context with
    specific :=
      { context.specific with
        tmp_variables :=
          { context.specific.tmp_variables with
            send_static := send_static, send_dynamic := send_dynamic } } }

/-- One packet through `decide_state ; decide_packet` (steps 3 and 5 of
`c_generic_encode`). -/
def encode_step (L : generic_limits) (context : c_context) (send_static send_dynamic : Int) :
    c_context × rohc_packet :=
  decide_packet L (decide_state L (set_changes context send_static send_dynamic))

/-- Feed `n` packets with `send_static = 0` and `send_dynamic = 0`: the
final context and the packet types emitted, oldest first. -/
def feed_stable (L : generic_limits) : Nat → c_context → c_context × List rohc_packet
  | 0, context => (context, [])
  | n + 1, context =>
    let r := feed_stable L n context
    let s := encode_step L r.1 0 0
    (s.1, r.2 ++ [s.2])

/-- The IR/FO/SO transition rules in the words of the specification (4.4):
IR goes to FO on any change and to SO without change once
`ir_count ≥ MAX_IR_COUNT`; FO goes to SO once `fo_count ≥ MAX_FO_COUNT`
without change; SO and FO go to FO on any change; otherwise the state is
kept.  A change is a nonzero count of changed static or dynamic fields. -/
def spec_transition (L : generic_limits) (state : rohc_c_state)
    (ir_count fo_count send_static send_dynamic : Int) : rohc_c_state :=
  match state with
  | IR =>
    if ir_count ≥ L.MAX_IR_COUNT then
      if send_static ≠ 0 ∨ send_dynamic ≠ 0 then FO else SO
    else IR
  | FO =>
    if send_static ≠ 0 ∨ send_dynamic ≠ 0 then FO
    else if fo_count ≥ L.MAX_FO_COUNT then SO
    else FO
  | SO => if send_static ≠ 0 ∨ send_dynamic ≠ 0 then FO else SO

/-- Modelled from the spec: the header that defines the thresholds is not
part of the sources.  `MAX_IR_COUNT = 3` is the value the specification
names; the other three are sample values, used only to evaluate the functions
on concrete contexts. -/
def sample_limits : generic_limits :=
  { MAX_IR_COUNT := 3, MAX_FO_COUNT := 3, CHANGE_TO_FO_COUNT := 700, CHANGE_TO_IR_COUNT := 1700 }

/-! ## Feedback (`c_generic_feedback`) -/

/-- `change_mode` (c_generic.c:394-404). -/
def change_mode (context : c_context) (new_mode : rohc_mode) : c_context :=
  if context.mode ≠ new_mode then change_state { context with mode := new_mode } IR
  else context

/-- Modelled from the spec: `c_ack_sn_wlsb` is defined in `wlsb.c`, which is
not part of the sources.  `ack(sn)` removes from the window every reference
whose SN at sending is at most `sn`. -/
def c_ack_sn_wlsb (s : List wlsb_entry) (sn : Int) : List wlsb_entry :=
  s.filter (fun e => decide (sn < e.sn))

/-- The acknowledgement type of a feedback (`feedback->acktype`). -/
inductive feedback_ack where
  | ACK
  | NACK
  | STATIC_NACK
  | RESERVED
deriving DecidableEq, Repr

/-- The fields of `struct c_feedback` that `c_generic_feedback` reads: the
feedback type, the bytes of the whole feedback with their number, the offset
and the size of the profile-specific part, and the acknowledgement type. -/
structure c_feedback where
  type : Int := 1
  data : List Int := []
  size : Int := 0
  specific_offset : Nat := 0
  specific_size : Int := 0
  acktype : feedback_ack := feedback_ack.ACK
deriving DecidableEq, Repr

/-- The local variables of the FEEDBACK-2 branch of `c_generic_feedback`
(c_generic.c:644-651): the feedback bytes (the CRC option is zeroed in
place), the index of `p` in them, `remaining`, `sn`, `crc`, `crc_used` and
`sn_not_valid`. -/
structure feedback2_vars where
  data : List Int
  p : Nat
  remaining : Int
  sn : Int
  crc : Int := 0
  crc_used : Int := 0
  sn_not_valid : Int := 0
deriving DecidableEq, Repr

/-- One turn of the option loop of `c_generic_feedback` (c_generic.c:655-680).
`sn` is an `unsigned int`, so its update is taken modulo `2^32`. -/
def feedback2_option (v : feedback2_vars) : feedback2_vars :=
  let opt := int_shr (byte_at v.data v.p) 4
  let optlen := int_and (byte_at v.data v.p) 0x0f
  let v1 : feedback2_vars :=
    if opt = 1 then
      { v with crc := byte_at v.data (v.p + 1), crc_used := 1, data := v.data.set (v.p + 1) 0 }
    else if opt = 3 then { v with sn_not_valid := 1 }
    else if opt = 4 then
      { v with sn := (v.sn * 256 + byte_at v.data (v.p + 1)) % 4294967296 }
    else v
  { v1 with remaining := v1.remaining - (1 + optlen), p := v1.p + (1 + optlen).toNat }

/-- The option loop `while(remaining > 0)` of `c_generic_feedback`
(c_generic.c:653-681), run for at most `fuel` turns.  Every turn lowers
`remaining` by at least 1, so `fuel = remaining` turns are enough
(`feedback2_options_done`). -/
def feedback2_options : Nat → feedback2_vars → feedback2_vars
  | 0, v => v
  | fuel + 1, v => if v.remaining > 0 then feedback2_options fuel (feedback2_option v) else v

/-- The variables of the FEEDBACK-2 branch after the option loop
(c_generic.c:644-681). -/
def feedback2_parse (feedback : c_feedback) : feedback2_vars :=
  let p := feedback.specific_offset
  let v0 : feedback2_vars :=
    { data := feedback.data
      p := p + 2
      remaining := feedback.specific_size - 2
      sn := int_shl (int_and (byte_at feedback.data p) 15) 8 + byte_at feedback.data (p + 1) }
  feedback2_options v0.remaining.toNat v0

/-- The value of `CRC_TYPE_8` (crc.h:38). -/
def CRC_TYPE_8 : Int := 5

/-- Modelled from the spec: the values of `rohc_mode` are declared in a
header that is not part of the sources.  The 2-bit mode field of FEEDBACK-2
names the operating mode: 1 is U, 2 is O and 3 is R. -/
def mode_of_bits (mode : Int) : rohc_mode :=
  if mode = 1 then U_MODE else if mode = 2 then O_MODE else R_MODE

/-- The ACK branch of `c_generic_feedback` (c_generic.c:638-639 and 703-704):
`c_ack_sn_wlsb` on the IP-ID window of `ip_flags` and on the SN window. -/
def feedback_ack_windows (context : c_context) (sn : Int) : c_context :=
  { context with
    specific :=
      { context.specific with
        ip_flags :=
          { context.specific.ip_flags with
            ip_id_window := c_ack_sn_wlsb context.specific.ip_flags.ip_id_window sn }
        sn_window := c_ack_sn_wlsb context.specific.sn_window sn } }

/-- The mode change of the FEEDBACK-2 branch (c_generic.c:690-696): the mode
is changed only when the mode field is not 0 and a CRC option was given. -/
def feedback2_change_mode (context : c_context) (mode crc_used : Int) : c_context :=
  if mode ≠ 0 then
    if crc_used ≠ 0 then change_mode context (mode_of_bits mode) else context
  else context

/-- The `switch(feedback->acktype)` of the FEEDBACK-2 branch
(c_generic.c:698-729). -/
def feedback2_acktype (context : c_context) (acktype : feedback_ack) (sn sn_not_valid : Int) :
    c_context :=
  match acktype with
  | feedback_ack.ACK =>
    if sn_not_valid = 0 then feedback_ack_windows context sn else context
  | feedback_ack.NACK =>
    if context.state = SO then
      let c2 := change_state context FO
      { c2 with specific := { c2.specific with ir_dyn_count := 0 } }
    else if context.state = FO then
      { context with specific := { context.specific with ir_dyn_count := 0 } }
    else context
  | feedback_ack.STATIC_NACK => change_state context IR
  | feedback_ack.RESERVED => context

/-- `c_generic_feedback` (c_generic.c:622-737): the context after the call.
`crc_calculate` (type, bytes, length) is the CRC function of `crc.c`, which is
not part of the sources. -/
def c_generic_feedback (crc_calculate : Int → List Int → Int → Int) (context : c_context)
    (feedback : c_feedback) : c_context :=
  let p := feedback.specific_offset
  if feedback.type = 1 then
    feedback_ack_windows context (byte_at feedback.data p)
  else if feedback.type = 2 then
    let mode := int_and (int_shr (byte_at feedback.data p) 4) 3
    let v := feedback2_parse feedback
    if v.crc_used ≠ 0 ∧ crc_calculate CRC_TYPE_8 v.data feedback.size ≠ v.crc then context
    else
      feedback2_acktype (feedback2_change_mode context mode v.crc_used) feedback.acktype
        v.sn v.sn_not_valid
  else context

/-! ## IP-ID behaviour (`check_ip_identification`) -/

/-- The byte swap `(id >> 8) | ((id << 8) & 0xff00)` of
`check_ip_identification` (c_generic.c:2783-2784). -/
def swap_bytes (id : Int) : Int := int_or (int_shr id 8) (int_and (int_shl id 8) 0xff00)

/-- The platform function `ntohs`, for a little-endian host: it swaps the two
bytes of a 16-bit value. -/
def ntohs (x : Int) : Int := swap_bytes x

/-- The value of `nbo` that `check_ip_identification` computes from the
host-order IP-IDs (c_generic.c:2767-2793); -1 stands for "not found". -/
def check_ip_identification_nbo (IPID_MAX_DELTA old_id new_id : Int) : Int :=
  let nbo : Int :=
    if (new_id - old_id) < IPID_MAX_DELTA ∧ (new_id - old_id) > 0 then 1
    else if (old_id + IPID_MAX_DELTA) > 0xffff ∧
        new_id < int_and (old_id + IPID_MAX_DELTA) 0xffff then 1
    else -1
  if nbo = -1 then
    let old_id := swap_bytes old_id
    let new_id := swap_bytes new_id
    if (new_id - old_id) < IPID_MAX_DELTA ∧ (new_id - old_id) > 0 then 0
    else if (old_id + IPID_MAX_DELTA) > 0xffff ∧
        new_id < int_and (old_id + IPID_MAX_DELTA) 0xffff then 0
    else nbo
  else nbo

/-- `check_ip_identification` (c_generic.c:2763-2806).  `IPID_MAX_DELTA` is
defined in a header that is not part of the sources and is a parameter. -/
def check_ip_identification (IPID_MAX_DELTA : Int) (header_info : ip_header_info)
    (ip : iphdr) : ip_header_info :=
  let old_id := ntohs header_info.old_ip.id
  let new_id := ntohs ip.id
  let nbo := check_ip_identification_nbo IPID_MAX_DELTA old_id new_id
  if nbo = -1 then { header_info with rnd := 1 }
  else { header_info with rnd := 0, nbo := nbo }

/-! ## Packets, the buffer under build and what lies outside the sources -/

/-- `IPPROTO_IPIP` of the system header `<netinet/in.h>` (the value of
`ROHC_IPPROTO_IPIP` in `ip_numbers.h`). -/
def IPPROTO_IPIP : Int := 4

/-- `IPPROTO_UDP` of the system header `<netinet/in.h>` (the value of
`ROHC_IPPROTO_UDP` in `ip_numbers.h`). -/
def IPPROTO_UDP : Int := 17

/-- `IP_DF` of the system header `<netinet/ip.h>`: the "don't fragment" bit of
the host-order `frag_off` field. -/
def IP_DF : Int := 0x4000

/-- `CRC_TYPE_3` (crc.h:32). -/
def CRC_TYPE_3 : Int := 2

/-- `CRC_TYPE_7` (crc.h:36). -/
def CRC_TYPE_7 : Int := 4

/-- C `~a` on `int`. -/
def int_not (a : Int) : Int := -a - 1

/-- The conversion of a C `int` to `unsigned char`. -/
def to_uchar (x : Int) : Int := x % 256

/-- The conversion of a C `int` to `unsigned short`. -/
def to_ushort (x : Int) : Int := x % 65536

/-- The test `(ntohs(ip->frag_off) & (~IP_DF)) != 0` that discards the IP
fragments (c_generic.c:256, 279, 529, 535, 1488 and c_udp.c:145, 169). -/
def ip_fragment_test (ip : iphdr) : Bool :=
  decide (int_and (ntohs ip.frag_off) (int_not IP_DF) ≠ 0)

/-- The IP packet handed to the profile through the pointer `ip`: the header
at `ip`, the header at `ip + 1` (which the code reads only when the protocol
of the first one is `IPPROTO_IPIP`), the UDP header that follows the last IP
header (`next_header`) and the octets at `ip`, over which the CRC of the UO
packets is computed. -/
structure ip_packet where
  ip : iphdr := {}
  ip2 : iphdr := {}
  udp : udphdr := {}
  octets : List Int := []

/-- The `unsigned char *dest` buffer: the octet stored at each position. -/
def store (dest : Int → Int) (i v : Int) : Int → Int :=
  fun j => if j = i then to_uchar v else dest j

/-- `memcpy(&dest[counter], &x, 2)` for a 16-bit field `x` of a header: the
two octets of `x` in memory order, which on the little-endian host modelled
by `ntohs` is the octet `x & 0xff` first. -/
def memcpy2 (dest : Int → Int) (counter x : Int) : Int → Int :=
  store (store dest counter x) (counter + 1) (x / 256)

/-- `memcpy(&dest[counter], &x, 4)` for a 32-bit field `x` of a header, in
memory order (little-endian host). -/
def memcpy4 (dest : Int → Int) (counter x : Int) : Int → Int :=
  store (store (memcpy2 dest counter x) (counter + 2) (x / 65536)) (counter + 3) (x / 16777216)

/-- The octets `dest[0]`, ..., `dest[length - 1]` of a buffer. -/
def octets_of (dest : Int → Int) (length : Int) : List Int :=
  (List.range length.toNat).map (fun i => dest (i : Int))

/-- The octets `dest[start]`, ..., `dest[start + length - 1]` of a buffer. -/
def octets_from (dest : Int → Int) (start length : Int) : List Int :=
  (List.range length.toNat).map (fun i => dest (start + (i : Int)))

/-- The two octets of a 16-bit header field in the order of the packet (the
memory order of the field). -/
def field_octets (x : Int) : List Int := [x % 256, x / 256 % 256]

/-- The fragments in the words of the specification: MF = 1 or a fragment
offset that is not 0, where MF is bit 13 and the offset the 13 low bits of
the host-order `frag_off` field. -/
def spec_is_fragment (ip : iphdr) : Bool :=
  decide (ntohs ip.frag_off / 8192 % 2 = 1 ∨ ntohs ip.frag_off % 8192 ≠ 0)

/-- What `code_cid_values` yields: the buffer with the CID octets, the
position it returns and the position it stores in `*first_position`. -/
structure cid_values where
  dest : Int → Int
  counter : Int
  first_position : Int

/-- What `c_generic.c` and `c_udp.c` use and the sources do not contain: the
thresholds, `IPID_MAX_DELTA`, the `MOD_*` masks and the `GET_DF` macro of the
missing headers, `crc_calculate` (type, octets, length) of `crc.c`,
`code_cid_values` (context, buffer, size) of the CID code, `c_get_k_wlsb`
(window, value) and `c_add_wlsb` (window, SN, time, value) of `wlsb.c`, and
the profile identifier `context->profile->id`.  The functions of the model
take them as a parameter. -/
structure generic_deps where
  L : generic_limits
  IPID_MAX_DELTA : Int
  MOD_TOS : Int
  MOD_TOT_LEN : Int
  MOD_ID : Int
  MOD_FRAG_OFF : Int
  MOD_TTL : Int
  MOD_PROTOCOL : Int
  MOD_CHECK : Int
  MOD_SADDR : Int
  MOD_DADDR : Int
  GET_DF : Int → Int
  crc_calculate : Int → List Int → Int → Int
  code_cid_values : c_context → (Int → Int) → Int → cid_values
  c_get_k_wlsb : List wlsb_entry → Int → Int
  c_add_wlsb : List wlsb_entry → Int → Int → Int → List wlsb_entry
  profile_id : Int

/-- The state of a packet under build: the context, the buffer `dest` and the
position `counter`. -/
structure packet_build where
  context : c_context
  dest : Int → Int
  counter : Int

/-- Which of `g_context->ip_flags` and `g_context->ip2_flags` a
`struct ip_header_info *` argument points to. -/
inductive ip_header_pos where
  | outer
  | inner
deriving DecidableEq, Repr

/-- The header info a `struct ip_header_info *` argument points to. -/
def header_info_of (context : c_context) (pos : ip_header_pos) : ip_header_info :=
  match pos with
  | ip_header_pos.outer => context.specific.ip_flags
  | ip_header_pos.inner => context.specific.ip2_flags

/-- A write through a `struct ip_header_info *` argument. -/
def set_header_info (context : c_context) (pos : ip_header_pos) (header_info : ip_header_info) :
    c_context :=
  match pos with
  | ip_header_pos.outer =>
    { context with specific := { context.specific with ip_flags := header_info } }
  | ip_header_pos.inner =>
    { context with specific := { context.specific with ip2_flags := header_info } }

/-- The UDP part `g_context->specific` points to.  The code reads it without
a test only in contexts that have one; the default value stands for the
object behind a `NULL` pointer, which the code never reads. -/
def udp_part (context : c_context) : sc_udp_context :=
  context.specific.specific.getD {}

/-- A write to the UDP part of the context. -/
def set_udp_part (context : c_context) (udp_context : sc_udp_context) : c_context :=
  { context with specific := { context.specific with specific := some udp_context } }

/-- Modelled from the spec: the numeric value of a mode (`context->mode` is an
enumeration of a header that is not part of the sources), the inverse of
`mode_of_bits`. -/
def mode_bits (mode : rohc_mode) : Int :=
  match mode with
  | U_MODE => 1
  | O_MODE => 2
  | R_MODE => 3

/-! ## Creation of a context (`c_generic_create`, `c_udp_create`) -/

/-- A header whose octets are all zero, as `bzero` leaves it. -/
def zeroed_iphdr : iphdr := { version := 0, ihl := 0 }

/-- A header info whose octets are all zero, as `bzero` leaves it
(c_generic.c:295). -/
def zeroed_header_info : ip_header_info := { old_ip := zeroed_iphdr, nbo := 0, old_nbo := 0 }

/-- `c_init_header_info` (c_generic.c:175-207): the header info after the
call.  The new W-LSB window is empty; the failure of the allocation is not
modelled. -/
def c_init_header_info (L : generic_limits) (header_info : ip_header_info) (ip : iphdr) :
    ip_header_info :=
  { header_info with
    ip_id_window := []
    old_ip := ip
    rnd := 0
    old_rnd := header_info.old_rnd
    nbo := 1
    old_nbo := 1
    tos_count := L.MAX_FO_COUNT
    ttl_count := L.MAX_FO_COUNT
    df_count := L.MAX_FO_COUNT
    protocol_count := L.MAX_FO_COUNT
    rnd_count := L.MAX_FO_COUNT
    nbo_count := L.MAX_FO_COUNT }

/-- The generic context `c_generic_create` builds (c_generic.c:288-346). -/
def created_generic_context (L : generic_limits) (ip : iphdr) : c_generic_context :=
  { sn := 0
    sn_window := []
    ir_count := 0
    fo_count := 0
    so_count := 0
    go_back_fo_count := 0
    go_back_ir_count := 0
    ir_dyn_count := 0
    ip_flags := c_init_header_info L zeroed_header_info ip
    ip2_flags := zeroed_header_info
    is_ip2_initialized := 0
    tmp_variables := {}
    specific := none
    next_header_proto := 0
    next_header_len := 0
    decide_state := some decide_state_handler.generic
    code_static_part := none
    code_dynamic_part := none
    code_UO_packet_tail := none }

/-- `c_generic_create` (c_generic.c:240-355): the value returned and the
context after the call.  `ip2` is the header at `ip + 1`.  The failures of the
allocations are not modelled. -/
def c_generic_create (L : generic_limits) (context : c_context) (ip ip2 : iphdr) :
    Int × c_context :=
  if ip.version ≠ 4 then (0, context)
  else if ip.ihl * 4 ≠ 20 then (0, context)
  else if ip_fragment_test ip then (-1, context)
  else if ip.protocol = IPPROTO_IPIP ∧ ip2.version ≠ 4 then (0, context)
  else if ip.protocol = IPPROTO_IPIP ∧ ip2.ihl * 4 ≠ 20 then (0, context)
  else if ip.protocol = IPPROTO_IPIP ∧ ip_fragment_test ip2 then (0, context)
  else (1, { context with specific := created_generic_context L ip })

/-- `c_udp_create` (c_udp.c:45-107): the value returned and the context after
the call.  The test `!c_generic_create(context, ip)` holds only for the value
0; after any other value the function goes on with the generic part
`context->specific` points to.  `c_generic_destroy` (label `clean`) frees
that part, which the model leaves as it is. -/
def c_udp_create (L : generic_limits) (context : c_context) (pkt : ip_packet) :
    Int × c_context :=
  let r := c_generic_create L context pkt.ip pkt.ip2
  if r.1 = 0 then (0, r.2)
  else
    let last_ip_header := if pkt.ip.protocol = IPPROTO_IPIP then pkt.ip2 else pkt.ip
    if last_ip_header.protocol = IPPROTO_UDP then
      (1, { r.2 with
            specific :=
              { r.2.specific with
                specific :=
                  some { udp_checksum_change_count := 0, old_udp := pkt.udp,
                         send_udp_dynamic := -1 }
                next_header_proto := IPPROTO_UDP
                next_header_len := 8
                decide_state := some decide_state_handler.udp
                code_static_part := some next_header_handler.udp
                code_dynamic_part := some next_header_handler.udp
                code_UO_packet_tail := some next_header_handler.udp } })
    else (0, r.2)

/-- `c_udp_check_context` (c_udp.c:129-190).  The pointer `ip2` is not `NULL`
exactly when the protocol of the outer header is `IPPROTO_IPIP`. -/
def c_udp_check_context (context : c_context) (pkt : ip_packet) : Int :=
  let g_context := context.specific
  let udp_context := udp_part context
  if ip_fragment_test pkt.ip then -1
  else
    let is_ip_same : Bool :=
      decide (g_context.ip_flags.old_ip.saddr = pkt.ip.saddr ∧
              g_context.ip_flags.old_ip.daddr = pkt.ip.daddr)
    let is_ip2_same : Bool :=
      if pkt.ip.protocol = IPPROTO_IPIP then
        decide (g_context.ip2_flags.old_ip.saddr = pkt.ip2.saddr ∧
                g_context.ip2_flags.old_ip.daddr = pkt.ip2.daddr)
      else true
    let last_ip_header := if pkt.ip.protocol = IPPROTO_IPIP then pkt.ip2 else pkt.ip
    if pkt.ip.protocol = IPPROTO_IPIP ∧ ip_fragment_test pkt.ip2 then -1
    else
      let is_udp_same : Bool :=
        if last_ip_header.protocol = IPPROTO_UDP then
          decide (udp_context.old_udp.source = pkt.udp.source ∧
                  udp_context.old_udp.dest = pkt.udp.dest)
        else false
      if is_ip_same ∧ is_ip2_same ∧ is_udp_same then 1 else 0

/-! ## Changed fields -/

/-- `changed_fields` (c_generic.c:2728-2753). -/
def changed_fields (E : generic_deps) (header_info : ip_header_info) (ip : iphdr) : Int :=
  let r0 : Int := 0
  let r1 := if header_info.old_ip.tos ≠ ip.tos then to_ushort (int_or r0 E.MOD_TOS) else r0
  let r2 :=
    if header_info.old_ip.tot_len ≠ ip.tot_len then to_ushort (int_or r1 E.MOD_TOT_LEN) else r1
  let r3 := if header_info.old_ip.id ≠ ip.id then to_ushort (int_or r2 E.MOD_ID) else r2
  let r4 :=
    if header_info.old_ip.frag_off ≠ ip.frag_off then to_ushort (int_or r3 E.MOD_FRAG_OFF)
    else r3
  let r5 := if header_info.old_ip.ttl ≠ ip.ttl then to_ushort (int_or r4 E.MOD_TTL) else r4
  let r6 :=
    if header_info.old_ip.protocol ≠ ip.protocol then to_ushort (int_or r5 E.MOD_PROTOCOL)
    else r5
  let r7 := if header_info.old_ip.check ≠ ip.check then to_ushort (int_or r6 E.MOD_CHECK) else r6
  let r8 := if header_info.old_ip.saddr ≠ ip.saddr then to_ushort (int_or r7 E.MOD_SADDR) else r7
  if header_info.old_ip.daddr ≠ ip.daddr then to_ushort (int_or r8 E.MOD_DADDR) else r8

/-- `is_changed` (c_generic.c:2278-2281), as the truth value of its result. -/
def is_changed (changed_fields check_field : Int) : Bool :=
  decide (int_and changed_fields check_field ≠ 0)

/-- `changed_static_one_hdr` (c_generic.c:2568-2592): the context after the
call and the number of fields that changed. -/
def changed_static_one_hdr (E : generic_deps) (changed_fields : Int) (pos : ip_header_pos)
    (context : c_context) : c_context × Int :=
  let header_info := header_info_of context pos
  if is_changed changed_fields E.MOD_PROTOCOL ∨ header_info.protocol_count < E.L.MAX_FO_COUNT then
    if is_changed changed_fields E.MOD_PROTOCOL then
      let c1 := set_header_info context pos { header_info with protocol_count := 0 }
      ({ c1 with specific := { c1.specific with fo_count := 0 } }, 1)
    else (context, 1)
  else (context, 0)

/-- `changed_static_both_hdr` (c_generic.c:2532-2555). -/
def changed_static_both_hdr (E : generic_deps) (context : c_context) : c_context × Int :=
  let changed_fields := to_ushort context.specific.tmp_variables.changed_fields
  let changed_fields2 := to_ushort context.specific.tmp_variables.changed_fields2
  let r1 := changed_static_one_hdr E changed_fields ip_header_pos.outer context
  if r1.1.specific.tmp_variables.nr_of_ip_hdr > 1 then
    let r2 := changed_static_one_hdr E changed_fields2 ip_header_pos.inner r1.1
    (r2.1, r1.2 + r2.2)
  else r1

/-- The TOS block of `changed_dynamic_one_hdr` (c_generic.c:2654-2663). -/
def changed_dynamic_tos (E : generic_deps) (changed_fields : Int) (pos : ip_header_pos)
    (context : c_context) : c_context × Int :=
  let header_info := header_info_of context pos
  if is_changed changed_fields E.MOD_TOS ∨ header_info.tos_count < E.L.MAX_FO_COUNT then
    if is_changed changed_fields E.MOD_TOS then
      let c1 := set_header_info context pos { header_info with tos_count := 0 }
      ({ c1 with specific := { c1.specific with fo_count := 0 } }, 1)
    else (context, 1)
  else (context, 0)

/-- The TTL block of `changed_dynamic_one_hdr` (c_generic.c:2665-2674). -/
def changed_dynamic_ttl (E : generic_deps) (changed_fields : Int) (pos : ip_header_pos)
    (context : c_context) : c_context × Int :=
  let header_info := header_info_of context pos
  if is_changed changed_fields E.MOD_TTL ∨ header_info.ttl_count < E.L.MAX_FO_COUNT then
    if is_changed changed_fields E.MOD_TTL then
      let c1 := set_header_info context pos { header_info with ttl_count := 0 }
      ({ c1 with specific := { c1.specific with fo_count := 0 } }, 1)
    else (context, 1)
  else (context, 0)

/-- The DF block of `changed_dynamic_one_hdr` (c_generic.c:2676-2685); the
counter it resets is `ttl_count`. -/
def changed_dynamic_df (E : generic_deps) (pos : ip_header_pos) (ip : iphdr)
    (context : c_context) : c_context × Int :=
  let header_info := header_info_of context pos
  if E.GET_DF ip.frag_off ≠ E.GET_DF header_info.old_ip.frag_off ∨
      header_info.df_count < E.L.MAX_FO_COUNT then
    if E.GET_DF ip.frag_off ≠ E.GET_DF header_info.old_ip.frag_off then
      let c1 := set_header_info context pos { header_info with ttl_count := 0 }
      ({ c1 with specific := { c1.specific with fo_count := 0 } }, 1)
    else (context, 1)
  else (context, 0)

/-- The RND block of `changed_dynamic_one_hdr` (c_generic.c:2687-2698): the
context and the number of flags counted. -/
def changed_dynamic_rnd (E : generic_deps) (pos : ip_header_pos) (context : c_context) :
    c_context × Int :=
  let header_info := header_info_of context pos
  if header_info.rnd ≠ header_info.old_rnd ∨ header_info.rnd_count < E.L.MAX_FO_COUNT then
    if header_info.rnd ≠ header_info.old_rnd then
      let c1 := set_header_info context pos { header_info with rnd_count := 0 }
      ({ c1 with specific := { c1.specific with fo_count := 0 } }, 1)
    else (context, 1)
  else (context, 0)

/-- The NBO block of `changed_dynamic_one_hdr` (c_generic.c:2700-2711): the
context and the number of flags counted. -/
def changed_dynamic_nbo (E : generic_deps) (pos : ip_header_pos) (context : c_context) :
    c_context × Int :=
  let header_info := header_info_of context pos
  if header_info.nbo ≠ header_info.old_nbo ∨ header_info.nbo_count < E.L.MAX_FO_COUNT then
    if header_info.nbo ≠ header_info.old_nbo then
      let c1 := set_header_info context pos { header_info with nbo_count := 0 }
      ({ c1 with specific := { c1.specific with fo_count := 0 } }, 1)
    else (context, 1)
  else (context, 0)

/-- `changed_dynamic_one_hdr` (c_generic.c:2643-2717): the context after the
call and the number of fields that changed. -/
def changed_dynamic_one_hdr (E : generic_deps) (changed_fields : Int) (pos : ip_header_pos)
    (ip : iphdr) (context : c_context) : c_context × Int :=
  let r1 := changed_dynamic_tos E changed_fields pos context
  let r2 := changed_dynamic_ttl E changed_fields pos r1.1
  let r3 := changed_dynamic_df E pos ip r2.1
  let r4 := changed_dynamic_rnd E pos r3.1
  let r5 := changed_dynamic_nbo E pos r4.1
  let nb_fields := r1.2 + r2.2 + r3.2
  let nb_flags := r4.2 + r5.2
  (r5.1, if nb_flags > 0 then nb_fields + 1 else nb_fields)

/-- `changed_dynamic_both_hdr` (c_generic.c:2604-2630). -/
def changed_dynamic_both_hdr (E : generic_deps) (context : c_context) (ip ip2 : iphdr) :
    c_context × Int :=
  let changed_fields := to_ushort context.specific.tmp_variables.changed_fields
  let changed_fields2 := to_ushort context.specific.tmp_variables.changed_fields2
  let r1 := changed_dynamic_one_hdr E changed_fields ip_header_pos.outer ip context
  if r1.1.specific.tmp_variables.nr_of_ip_hdr > 1 then
    let r2 := changed_dynamic_one_hdr E changed_fields2 ip_header_pos.inner ip2 r1.1
    (r2.1, r1.2 + r2.2)
  else r1

/-- `update_variables` (c_generic.c:830-869). -/
def update_variables (E : generic_deps) (context : c_context) (ip ip2 : iphdr) : c_context :=
  let g := context.specific
  let id_delta := if g.ip_flags.nbo ≠ 0 then ntohs ip.id - g.sn else ip.id - g.sn
  let id_delta2 :=
    if g.tmp_variables.nr_of_ip_hdr > 1 then
      if g.ip2_flags.nbo ≠ 0 then ntohs ip2.id - g.sn else ip2.id - g.sn
    else g.ip2_flags.id_delta
  let nr_ip_id_bits := E.c_get_k_wlsb g.ip_flags.ip_id_window id_delta
  let nr_sn_bits := E.c_get_k_wlsb g.sn_window g.sn
  let ip_flags : ip_header_info :=
    { g.ip_flags with
      id_delta := id_delta
      ip_id_window := E.c_add_wlsb g.ip_flags.ip_id_window g.sn 0 id_delta }
  let sn_window := E.c_add_wlsb g.sn_window g.sn 0 g.sn
  if g.tmp_variables.nr_of_ip_hdr > 1 then
    { context with
      specific :=
        { g with
          ip_flags := ip_flags
          sn_window := sn_window
          ip2_flags :=
            { g.ip2_flags with
              id_delta := id_delta2
              ip_id_window := E.c_add_wlsb g.ip2_flags.ip_id_window g.sn 0 id_delta2 }
          tmp_variables :=
            { g.tmp_variables with
              nr_ip_id_bits := nr_ip_id_bits
              nr_sn_bits := nr_sn_bits
              nr_ip_id_bits2 := E.c_get_k_wlsb g.ip2_flags.ip_id_window id_delta2 } } }
  else
    { context with
      specific :=
        { g with
          ip_flags := ip_flags
          sn_window := sn_window
          tmp_variables :=
            { g.tmp_variables with
              nr_ip_id_bits := nr_ip_id_bits
              nr_sn_bits := nr_sn_bits } } }

/-! ## The UDP profile (`c_udp.c`) -/

/-- `udp_changed_udp_dynamic` (c_udp.c:419-439): the context after the call
and the value returned. -/
def udp_changed_udp_dynamic (L : generic_limits) (context : c_context) (udp : udphdr) :
    c_context × Int :=
  let udp_context := udp_part context
  if (udp.check ≠ 0 ∧ udp_context.old_udp.check = 0) ∨
      (udp.check = 0 ∧ udp_context.old_udp.check ≠ 0) ∨
      (udp_context.udp_checksum_change_count < L.MAX_IR_COUNT) then
    if (udp.check ≠ 0 ∧ udp_context.old_udp.check = 0) ∨
        (udp.check = 0 ∧ udp_context.old_udp.check ≠ 0) then
      (set_udp_part context { udp_context with udp_checksum_change_count := 0 }, 1)
    else (context, 1)
  else (context, 0)

/-- `udp_decide_state` (c_udp.c:273-286). -/
def udp_decide_state (L : generic_limits) (context : c_context) : c_context :=
  if (udp_part context).send_udp_dynamic ≠ 0 then change_state context IR
  else decide_state L context

/-- `udp_code_UO_packet_tail` (c_udp.c:308-324). -/
def udp_code_UO_packet_tail (udp : udphdr) (s : packet_build) : packet_build :=
  if udp.check ≠ 0 then
    { s with dest := memcpy2 s.dest s.counter udp.check, counter := s.counter + 2 }
  else s

/-- `udp_code_static_udp_part` (c_udp.c:348-366). -/
def udp_code_static_udp_part (udp : udphdr) (s : packet_build) : packet_build :=
  { s with
    dest := memcpy2 (memcpy2 s.dest s.counter udp.source) (s.counter + 2) udp.dest
    counter := s.counter + 2 + 2 }

/-- `udp_code_dynamic_udp_part` (c_udp.c:388-409). -/
def udp_code_dynamic_udp_part (udp : udphdr) (s : packet_build) : packet_build :=
  let udp_context := udp_part s.context
  { context :=
      set_udp_part s.context
        { udp_context with
          udp_checksum_change_count := udp_context.udp_checksum_change_count + 1 }
    dest := memcpy2 s.dest s.counter udp.check
    counter := s.counter + 2 }

/-! ## The chains of the IR and IR-DYN packets -/

/-- `code_generic_static_part` (c_generic.c:1393-1424). -/
def code_generic_static_part (pos : ip_header_pos) (ip : iphdr) (s : packet_build) :
    packet_build :=
  let header_info := header_info_of s.context pos
  let d1 := store s.dest s.counter 0x40
  let d2 := store d1 (s.counter + 1) ip.protocol
  let d3 := memcpy4 d2 (s.counter + 2) ip.saddr
  let d4 := memcpy4 d3 (s.counter + 6) ip.daddr
  { context :=
      set_header_info s.context pos
        { header_info with protocol_count := header_info.protocol_count + 1 }
    dest := d4
    counter := s.counter + 10 }

/-- The flags octet `df_rnd_nbo` of `code_generic_dynamic_part`
(c_generic.c:1494-1498). -/
def df_rnd_nbo (dont_fragment rnd nbo : Int) : Int :=
  let b0 := to_uchar (int_shl dont_fragment 7)
  let b1 := if rnd ≠ 0 then to_uchar (int_or b0 0x40) else b0
  if nbo ≠ 0 then to_uchar (int_or b1 0x20) else b1

/-- `code_generic_dynamic_part` (c_generic.c:1455-1515); the position -1 is
returned for a fragment, after the first four octets were stored. -/
def code_generic_dynamic_part (pos : ip_header_pos) (ip : iphdr) (s : packet_build) :
    packet_build :=
  let header_info := header_info_of s.context pos
  let d1 := store s.dest s.counter ip.tos
  let d2 := store d1 (s.counter + 1) ip.ttl
  let h2 : ip_header_info :=
    { header_info with
      tos_count := header_info.tos_count + 1, ttl_count := header_info.ttl_count + 1 }
  let d3 := memcpy2 d2 (s.counter + 2) ip.id
  let fragment := to_ushort (ntohs ip.frag_off)
  let dont_fragment := int_and (int_shr fragment 14) 1
  if int_and fragment (int_not IP_DF) ≠ 0 then
    { context := set_header_info s.context pos h2, dest := d3, counter := -1 }
  else
    { context :=
        set_header_info s.context pos
          { h2 with
            df_count := h2.df_count + 1
            rnd_count := h2.rnd_count + 1
            nbo_count := h2.nbo_count + 1 }
      dest := store d3 (s.counter + 4) (df_rnd_nbo dont_fragment header_info.rnd header_info.nbo)
      counter := s.counter + 5 }

/-- The call through `g_context->code_static_part` when the pointer is not
`NULL` (c_generic.c:1192-1199). -/
def next_header_static_part (pkt : ip_packet) (s : packet_build) : packet_build :=
  match s.context.specific.code_static_part with
  | some next_header_handler.udp => udp_code_static_udp_part pkt.udp s
  | none => s

/-- The call through `g_context->code_dynamic_part` when the pointer is not
`NULL` (c_generic.c:1216-1223, 1342-1348). -/
def next_header_dynamic_part (pkt : ip_packet) (s : packet_build) : packet_build :=
  match s.context.specific.code_dynamic_part with
  | some next_header_handler.udp => udp_code_dynamic_udp_part pkt.udp s
  | none => s

/-- The dynamic chain of the IR and IR-DYN packets (c_generic.c:1203-1223 and
1329-1348): the dynamic part of the outer header, of the inner header when
there are two, and of the next header; a negative position ends the chain. -/
def code_dynamic_chain (pkt : ip_packet) (s : packet_build) : packet_build :=
  let nr_of_ip_hdr := s.context.specific.tmp_variables.nr_of_ip_hdr
  let s1 := code_generic_dynamic_part ip_header_pos.outer pkt.ip s
  if s1.counter < 0 then s1
  else
    let s2 := if nr_of_ip_hdr > 1 then code_generic_dynamic_part ip_header_pos.inner pkt.ip2 s1
      else s1
    if s2.counter < 0 then s2
    else next_header_dynamic_part pkt s2

/-- The static chain of the IR packet (c_generic.c:1180-1199). -/
def code_static_chain (pkt : ip_packet) (s : packet_build) : packet_build :=
  let nr_of_ip_hdr := s.context.specific.tmp_variables.nr_of_ip_hdr
  let s1 := code_generic_static_part ip_header_pos.outer pkt.ip s
  if s1.counter < 0 then s1
  else
    let s2 := if nr_of_ip_hdr > 1 then code_generic_static_part ip_header_pos.inner pkt.ip2 s1
      else s1
    if s2.counter < 0 then s2
    else next_header_static_part pkt s2

/-- The end of `code_IR_packet` and of `code_IR_DYN_packet`
(c_generic.c:1226-1233 and 1352-1358): the two octets of the SN, then the CRC
computed over the header and stored at `crc_position`. -/
def code_sn_and_crc (E : generic_deps) (crc_position : Int) (s : packet_build) : packet_build :=
  let sn := s.context.specific.sn
  let d1 := store s.dest s.counter (int_shr sn 8)
  let d2 := store d1 (s.counter + 1) (int_and sn 0xff)
  let counter := s.counter + 2
  { s with
    dest := store d2 crc_position (E.crc_calculate CRC_TYPE_8 (octets_of d2 counter) counter)
    counter := counter }

/-- `code_IR_packet` (c_generic.c:1132-1239). -/
def code_IR_packet (E : generic_deps) (context : c_context) (pkt : ip_packet)
    (dest : Int → Int) : packet_build :=
  let cid := E.code_cid_values context dest context.specific.tmp_variables.max_size
  let first_position := cid.first_position
  let type := to_uchar (int_or (to_uchar 0xfc) 1)
  let d1 := store cid.dest first_position type
  let d2 := store d1 cid.counter E.profile_id
  let crc_position := cid.counter + 1
  let d3 := store d2 crc_position 0
  let s1 := code_static_chain pkt { context := context, dest := d3, counter := crc_position + 1 }
  if s1.counter < 0 then s1
  else
    let s2 := code_dynamic_chain pkt s1
    if s2.counter < 0 then s2
    else code_sn_and_crc E crc_position s2

/-- `code_IR_DYN_packet` (c_generic.c:1286-1364). -/
def code_IR_DYN_packet (E : generic_deps) (context : c_context) (pkt : ip_packet)
    (dest : Int → Int) : packet_build :=
  let cid := E.code_cid_values context dest context.specific.tmp_variables.max_size
  let first_position := cid.first_position
  let d1 := store cid.dest first_position 0xf8
  let d2 := store d1 cid.counter E.profile_id
  let crc_position := cid.counter + 1
  let d3 := store d2 crc_position 0
  let s2 := code_dynamic_chain pkt { context := context, dest := d3, counter := crc_position + 1 }
  if s2.counter < 0 then s2
  else code_sn_and_crc E crc_position s2

/-! ## The UO packets -/

/-- `code_UO_packet_tail` (c_generic.c:1580-1617).  The pointer `next_header`
is never `NULL` when `c_generic_encode` builds a packet (c_generic.c:518). -/
def code_UO_packet_tail (pkt : ip_packet) (s : packet_build) : packet_build :=
  let g_context := s.context.specific
  let nr_of_ip_hdr := g_context.tmp_variables.nr_of_ip_hdr
  let s1 :=
    if g_context.ip_flags.rnd = 1 then
      { s with dest := memcpy2 s.dest s.counter pkt.ip.id, counter := s.counter + 2 }
    else s
  let s2 :=
    if nr_of_ip_hdr > 1 ∧ g_context.ip2_flags.rnd = 1 then
      { s1 with dest := memcpy2 s1.dest s1.counter pkt.ip2.id, counter := s1.counter + 2 }
    else s1
  match g_context.code_UO_packet_tail with
  | some next_header_handler.udp => udp_code_UO_packet_tail pkt.udp s2
  | none => s2

/-- The tail of a UO packet in the words of the specification: the 2-byte
outer IP-ID if the outer RND is 1, the 2-byte inner IP-ID if an inner header
is present and the inner RND is 1, the 2-byte UDP checksum if the checksum
`context_check` stored in the context is not zero. -/
def spec_uo_tail (outer_rnd : Int) (inner_present : Bool) (inner_rnd context_check : Int)
    (pkt : ip_packet) : List Int :=
  (if outer_rnd = 1 then field_octets pkt.ip.id else []) ++
  (if inner_present ∧ inner_rnd = 1 then field_octets pkt.ip2.id else []) ++
  (if context_check ≠ 0 then field_octets pkt.udp.check else [])

/-- The CRC-3 of the UO-0 and UO-1 packets (c_generic.c:1683-1685 and
1766-1768), computed over the IP headers and the next header. -/
def uo_crc3 (E : generic_deps) (context : c_context) (pkt : ip_packet) : Int :=
  let nr_of_ip_hdr := context.specific.tmp_variables.nr_of_ip_hdr
  E.crc_calculate CRC_TYPE_3 pkt.octets
    ((if nr_of_ip_hdr = 1 then 1 else 2) * 20 + context.specific.next_header_len)

/-- The CRC-7 of the UO-2 packet (c_generic.c:1857-1859). -/
def uo_crc7 (E : generic_deps) (context : c_context) (pkt : ip_packet) : Int :=
  let nr_of_ip_hdr := context.specific.tmp_variables.nr_of_ip_hdr
  E.crc_calculate CRC_TYPE_7 pkt.octets (nr_of_ip_hdr * 20 + context.specific.next_header_len)

/-- `code_UO0_packet` (c_generic.c:1652-1692). -/
def code_UO0_packet (E : generic_deps) (context : c_context) (pkt : ip_packet)
    (dest : Int → Int) : packet_build :=
  let g_context := context.specific
  let cid := E.code_cid_values context dest g_context.tmp_variables.max_size
  let first_position := cid.first_position
  let f_byte := to_uchar (int_shl (int_and g_context.sn 0x0f) 3)
  let f_byte := to_uchar (int_or f_byte (uo_crc3 E context pkt))
  code_UO_packet_tail pkt
    { context := context, dest := store cid.dest first_position f_byte, counter := cid.counter }

/-- `code_UO1_packet` (c_generic.c:1729-1776). -/
def code_UO1_packet (E : generic_deps) (context : c_context) (pkt : ip_packet)
    (dest : Int → Int) : packet_build :=
  let g_context := context.specific
  let cid := E.code_cid_values context dest g_context.tmp_variables.max_size
  let first_position := cid.first_position
  let f_byte := to_uchar (int_and g_context.ip_flags.id_delta 0x3f)
  let f_byte := to_uchar (int_or f_byte 0x80)
  let d1 := store cid.dest first_position f_byte
  let s_byte := to_uchar (int_shl (int_and g_context.sn 0x1f) 3)
  let s_byte := to_uchar (int_or s_byte (uo_crc3 E context pkt))
  code_UO_packet_tail pkt
    { context := context, dest := store d1 cid.counter s_byte, counter := cid.counter + 1 }

/-- `code_EXT0_packet` (c_generic.c:1952-1968). -/
def code_EXT0_packet (s : packet_build) : packet_build :=
  let g_context := s.context.specific
  let f_byte := to_uchar (int_shl (int_and g_context.sn 0x07) 3)
  let f_byte := to_uchar (int_or f_byte (int_and g_context.ip_flags.id_delta 0x07))
  { s with dest := store s.dest s.counter f_byte, counter := s.counter + 1 }

/-- `code_EXT1_packet` (c_generic.c:1991-2014). -/
def code_EXT1_packet (s : packet_build) : packet_build :=
  let g_context := s.context.specific
  let f_byte := to_uchar (int_shl (int_and g_context.sn 0x07) 3)
  let f_byte := to_uchar (int_or f_byte (int_shr (int_and g_context.ip_flags.id_delta 0x0700) 8))
  let f_byte := to_uchar (int_or f_byte 0x40)
  let s_byte := to_uchar (int_and g_context.ip_flags.id_delta 0xff)
  { s with
    dest := store (store s.dest s.counter f_byte) (s.counter + 1) s_byte
    counter := s.counter + 2 }

/-- `code_EXT2_packet` (c_generic.c:2041-2075). -/
def code_EXT2_packet (s : packet_build) : packet_build :=
  let g_context := s.context.specific
  let f_byte := to_uchar (int_shl (int_and g_context.sn 0x07) 3)
  let f_byte := to_uchar (int_or f_byte (int_shr (int_and g_context.ip_flags.id_delta 0x0700) 8))
  let f_byte := to_uchar (int_or f_byte 0x80)
  let s_byte := to_uchar (int_and g_context.ip_flags.id_delta 0xff)
  { s with
    dest :=
      store (store (store s.dest s.counter f_byte) (s.counter + 1) s_byte) (s.counter + 2)
        (int_and g_context.ip2_flags.id_delta 0xff)
    counter := s.counter + 3 }

/-- The test `(nr_ip_id_bits > 0 && rnd == 0) || (rnd_count < MAX_FO_COUNT &&
rnd == 0)` of the I flag of EXT-3 (c_generic.c:2149-2151 and 2164-2166). -/
def ext3_I_flag_test (L : generic_limits) (nr_ip_id_bits rnd rnd_count : Int) : Bool :=
  decide ((nr_ip_id_bits > 0 ∧ rnd = 0) ∨ (rnd_count < L.MAX_FO_COUNT ∧ rnd = 0))

/-- `header_flags` (c_generic.c:2322-2364). -/
def header_flags (E : generic_deps) (pos : ip_header_pos) (changed_f : Int) (ip : iphdr)
    (is_outer : Bool) (nr_ip_id_bits : Int) (s : packet_build) : packet_build :=
  let header_info := header_info_of s.context pos
  let f0 : Int := 0
  let f1 :=
    if is_changed changed_f E.MOD_TOS ∨ header_info.tos_count < E.L.MAX_FO_COUNT then
      int_or f0 0x80
    else f0
  let f2 :=
    if is_changed changed_f E.MOD_TTL ∨ header_info.ttl_count < E.L.MAX_FO_COUNT then
      int_or f1 0x40
    else f1
  let f3 :=
    if is_changed changed_f E.MOD_PROTOCOL ∨ header_info.protocol_count < E.L.MAX_FO_COUNT then
      int_or f2 0x10
    else f2
  let f4 := int_or f3 (int_shl (E.GET_DF ip.frag_off) 5)
  let f5 := int_or f4 (int_shl header_info.nbo 2)
  let f6 := int_or f5 (int_shl header_info.rnd 1)
  let h1 : ip_header_info :=
    { header_info with
      df_count := header_info.df_count + 1
      nbo_count := header_info.nbo_count + 1
      rnd_count := header_info.rnd_count + 1 }
  let f7 :=
    if is_outer ∧ ext3_ip_id_test E.L nr_ip_id_bits h1.rnd h1.rnd_count then int_or f6 0x01
    else f6
  { context := set_header_info s.context pos h1
    dest := store s.dest s.counter f7
    counter := s.counter + 1 }

/-- The TOS field of `header_fields` (c_generic.c:2419-2425). -/
def header_fields_tos (E : generic_deps) (pos : ip_header_pos) (changed_f : Int) (ip : iphdr)
    (s : packet_build) : packet_build :=
  let header_info := header_info_of s.context pos
  if is_changed changed_f E.MOD_TOS ∨ header_info.tos_count < E.L.MAX_FO_COUNT then
    { context :=
        set_header_info s.context pos { header_info with tos_count := header_info.tos_count + 1 }
      dest := store s.dest s.counter ip.tos
      counter := s.counter + 1 }
  else s

/-- The TTL field of `header_fields` (c_generic.c:2428-2434). -/
def header_fields_ttl (E : generic_deps) (pos : ip_header_pos) (changed_f : Int) (ip : iphdr)
    (s : packet_build) : packet_build :=
  let header_info := header_info_of s.context pos
  if is_changed changed_f E.MOD_TTL ∨ header_info.ttl_count < E.L.MAX_FO_COUNT then
    { context :=
        set_header_info s.context pos { header_info with ttl_count := header_info.ttl_count + 1 }
      dest := store s.dest s.counter ip.ttl
      counter := s.counter + 1 }
  else s

/-- The protocol field of `header_fields` (c_generic.c:2437-2443). -/
def header_fields_protocol (E : generic_deps) (pos : ip_header_pos) (changed_f : Int)
    (ip : iphdr) (s : packet_build) : packet_build :=
  let header_info := header_info_of s.context pos
  if is_changed changed_f E.MOD_PROTOCOL ∨ header_info.protocol_count < E.L.MAX_FO_COUNT then
    { context :=
        set_header_info s.context pos
          { header_info with protocol_count := header_info.protocol_count + 1 }
      dest := store s.dest s.counter ip.protocol
      counter := s.counter + 1 }
  else s

/-- The IP-ID field of `header_fields` and of part 6 of `code_EXT3_packet`
(c_generic.c:2446-2456, 2211-2219 and 2246-2254). -/
def ext3_ip_id_field (E : generic_deps) (pos : ip_header_pos) (ip : iphdr)
    (nr_ip_id_bits : Int) (s : packet_build) : packet_build :=
  let header_info := header_info_of s.context pos
  if ext3_ip_id_test E.L nr_ip_id_bits header_info.rnd header_info.rnd_count then
    { s with dest := memcpy2 s.dest s.counter ip.id, counter := s.counter + 2 }
  else s

/-- `header_fields` (c_generic.c:2409-2459). -/
def header_fields (E : generic_deps) (pos : ip_header_pos) (changed_f : Int) (ip : iphdr)
    (is_outer : Bool) (nr_ip_id_bits : Int) (s : packet_build) : packet_build :=
  let s1 := header_fields_tos E pos changed_f ip s
  let s2 := header_fields_ttl E pos changed_f ip s1
  let s3 := header_fields_protocol E pos changed_f ip s2
  if is_outer then ext3_ip_id_field E pos ip nr_ip_id_bits s3 else s3

/-- The test `changed_dynamic_one_hdr(...) || changed_static_one_hdr(...)` of
`code_EXT3_packet` (c_generic.c:2155-2156, 2170-2171 and 2178-2179): the
context after the calls and the truth value; the second function is called
only when the first one returns 0. -/
def ext3_header_changed (E : generic_deps) (changed_f : Int) (pos : ip_header_pos) (ip : iphdr)
    (context : c_context) : c_context × Bool :=
  let r1 := changed_dynamic_one_hdr E changed_f pos ip context
  if r1.2 ≠ 0 then (r1.1, true)
  else
    let r2 := changed_static_one_hdr E changed_f pos r1.1
    (r2.1, decide (r2.2 ≠ 0))

/-- The octet of the SN in EXT-3 (part 4, c_generic.c:2198-2203 and
2234-2238). -/
def ext3_sn_field (nr_sn_bits : Int) (s : packet_build) : packet_build :=
  if nr_sn_bits > 5 then
    { s with
      dest := store s.dest s.counter (int_and s.context.specific.sn 0xff)
      counter := s.counter + 1 }
  else s

/-- `code_EXT3_packet` (c_generic.c:2115-2265). -/
def code_EXT3_packet (E : generic_deps) (pkt : ip_packet) (s : packet_build) : packet_build :=
  let g_context := s.context.specific
  let nr_of_ip_hdr := g_context.tmp_variables.nr_of_ip_hdr
  let nr_sn_bits := g_context.tmp_variables.nr_sn_bits
  let changed_f := to_ushort g_context.tmp_variables.changed_fields
  let changed_f2 := to_ushort g_context.tmp_variables.changed_fields2
  let nr_ip_id_bits := g_context.tmp_variables.nr_ip_id_bits
  let nr_ip_id_bits2 := g_context.tmp_variables.nr_ip_id_bits2
  let f0 : Int := to_uchar 0xc0
  let f1 := if nr_sn_bits > 5 then to_uchar (int_or f0 0x20) else f0
  let f2 := to_uchar (int_or f1 (int_shl (mode_bits s.context.mode) 3))
  if nr_of_ip_hdr = 1 then
    let f3 :=
      if ext3_I_flag_test E.L nr_ip_id_bits g_context.ip_flags.rnd g_context.ip_flags.rnd_count
      then to_uchar (int_or f2 0x04) else f2
    let r := ext3_header_changed E changed_f ip_header_pos.outer pkt.ip s.context
    let have_inner := r.2
    let f4 := if have_inner then to_uchar (int_or f3 0x02) else f3
    let s1 : packet_build :=
      { context := r.1, dest := store s.dest s.counter f4, counter := s.counter + 1 }
    let s2 :=
      if have_inner then
        header_flags E ip_header_pos.outer changed_f pkt.ip false nr_ip_id_bits s1
      else s1
    let s3 := ext3_sn_field nr_sn_bits s2
    let s4 :=
      if have_inner then
        header_fields E ip_header_pos.outer changed_f pkt.ip false nr_ip_id_bits s3
      else s3
    ext3_ip_id_field E ip_header_pos.outer pkt.ip nr_ip_id_bits s4
  else
    let f3 :=
      if ext3_I_flag_test E.L nr_ip_id_bits g_context.ip2_flags.rnd g_context.ip2_flags.rnd_count
      then to_uchar (int_or f2 0x04) else f2
    let r := ext3_header_changed E changed_f ip_header_pos.outer pkt.ip s.context
    let have_outer := r.2
    let f4 := if have_outer then to_uchar (int_or f3 0x01) else f3
    let r2 := ext3_header_changed E changed_f2 ip_header_pos.inner pkt.ip2 r.1
    let have_inner := r2.2
    let f5 := if have_inner then to_uchar (int_or f4 0x02) else f4
    let s1 : packet_build :=
      { context := r2.1, dest := store s.dest s.counter f5, counter := s.counter + 1 }
    let s2 :=
      if have_inner then
        header_flags E ip_header_pos.inner changed_f2 pkt.ip2 false nr_ip_id_bits2 s1
      else s1
    let s3 :=
      if have_outer then
        header_flags E ip_header_pos.outer changed_f pkt.ip true nr_ip_id_bits s2
      else s2
    let s4 := ext3_sn_field nr_sn_bits s3
    let s5 :=
      if have_inner then
        header_fields E ip_header_pos.inner changed_f2 pkt.ip2 false nr_ip_id_bits2 s4
      else s4
    let s6 := ext3_ip_id_field E ip_header_pos.inner pkt.ip2 nr_ip_id_bits2 s5
    if have_outer then
      header_fields E ip_header_pos.outer changed_f pkt.ip true nr_ip_id_bits s6
    else s6

/-- The first octet of the UO-2 base header, `f_byte` of `code_UO2_packet`
(c_generic.c:1853, 1871, 1880, 1890, 1900 and 1910-1913). -/
def uo2_f_byte (context : c_context) (extension : rohc_ext) : Int :=
  let g_context := context.specific
  let nr_sn_bits := g_context.tmp_variables.nr_sn_bits
  let f_byte : Int := to_uchar 0xc0
  match extension with
  | PACKET_NOEXT => to_uchar (int_or f_byte (int_and g_context.sn 0x1f))
  | PACKET_EXT_0 => to_uchar (int_or f_byte (int_shr (int_and g_context.sn 0xff) 3))
  | PACKET_EXT_1 => to_uchar (int_or f_byte (int_shr (int_and g_context.sn 0xff) 3))
  | PACKET_EXT_2 => to_uchar (int_or f_byte (int_shr (int_and g_context.sn 0xff) 3))
  | PACKET_EXT_3 =>
    if nr_sn_bits > 5 then to_uchar (int_or f_byte (int_shr g_context.sn 8))
    else to_uchar (int_or f_byte (int_and g_context.sn 0x1f))

/-- The second octet of the UO-2 base header, `s_byte` of `code_UO2_packet`
(c_generic.c:1857-1859, 1873, 1882, 1892, 1902 and 1915). -/
def uo2_s_byte (crc7 : Int) (extension : rohc_ext) : Int :=
  let s_byte := to_uchar crc7
  match extension with
  | PACKET_NOEXT => to_uchar (int_and s_byte (int_not 0x80))
  | PACKET_EXT_0 => to_uchar (int_or s_byte 0x80)
  | PACKET_EXT_1 => to_uchar (int_or s_byte 0x80)
  | PACKET_EXT_2 => to_uchar (int_or s_byte 0x80)
  | PACKET_EXT_3 => to_uchar (int_or s_byte 0x80)

/-- The extension of the UO-2 packet, part 5 of `code_UO2_packet`
(c_generic.c:1884, 1894, 1904 and 1917). -/
def code_extension (E : generic_deps) (extension : rohc_ext) (pkt : ip_packet)
    (s : packet_build) : packet_build :=
  match extension with
  | PACKET_NOEXT => s
  | PACKET_EXT_0 => code_EXT0_packet s
  | PACKET_EXT_1 => code_EXT1_packet s
  | PACKET_EXT_2 => code_EXT2_packet s
  | PACKET_EXT_3 => code_EXT3_packet E pkt s

/-- `code_UO2_packet` (c_generic.c:1819-1931). -/
def code_UO2_packet (E : generic_deps) (context : c_context) (pkt : ip_packet)
    (dest : Int → Int) : packet_build :=
  let g_context := context.specific
  let cid := E.code_cid_values context dest g_context.tmp_variables.max_size
  let first_position := cid.first_position
  let crc7 := uo_crc7 E context pkt
  let s_byte_position := cid.counter
  let extension := decide_extension context
  let f_byte := uo2_f_byte context extension
  let s_byte := uo2_s_byte crc7 extension
  let s1 := code_extension E extension pkt
    { context := context, dest := cid.dest, counter := cid.counter + 1 }
  code_UO_packet_tail pkt
    { s1 with dest := store (store s1.dest first_position f_byte) s_byte_position s_byte }

/-- `code_packet` (c_generic.c:1030-1082).  The packet type is one of the
five types whenever `c_generic_encode` calls the function; -1 stands for the
call of the other case, which the code does not guard. -/
def code_packet (E : generic_deps) (context : c_context) (pkt : ip_packet)
    (dest : Int → Int) : packet_build :=
  match context.specific.tmp_variables.packet_type with
  | some PACKET_IR => code_IR_packet E context pkt dest
  | some PACKET_IR_DYN => code_IR_DYN_packet E context pkt dest
  | some PACKET_UO_0 => code_UO0_packet E context pkt dest
  | some PACKET_UO_1 => code_UO1_packet E context pkt dest
  | some PACKET_UOR_2 => code_UO2_packet E context pkt dest
  | none => { context := context, dest := dest, counter := -1 }

/-! ## Encoding of a packet (`c_generic_encode`, `c_udp_encode`) -/

/-- What an encoding function yields: the context and the buffer after the
call, the value stored in `*payload_offset` and the value returned. -/
structure encoded where
  context : c_context
  dest : Int → Int
  payload_offset : Int
  size : Int

/-- The call through `g_context->decide_state` (c_generic.c:572-573). -/
def call_decide_state (L : generic_limits) (context : c_context) : c_context :=
  match context.specific.decide_state with
  | some decide_state_handler.generic => decide_state L context
  | some decide_state_handler.udp => udp_decide_state L context
  | none => context

/-- Step 2 of `c_generic_encode` (c_generic.c:546-565): the behaviour of the
IP-ID, the SN and the changed fields. -/
def encode_detect_changes (E : generic_deps) (context : c_context) (pkt : ip_packet) :
    c_context :=
  let g := context.specific
  let c1 : c_context :=
    if g.sn ≠ 0 then
      { context with
        specific :=
          { g with
            ip_flags := check_ip_identification E.IPID_MAX_DELTA g.ip_flags pkt.ip
            ip2_flags :=
              if g.tmp_variables.nr_of_ip_hdr > 1 then
                check_ip_identification E.IPID_MAX_DELTA g.ip2_flags pkt.ip2
              else g.ip2_flags } }
    else context
  let c2 : c_context := { c1 with specific := { c1.specific with sn := c1.specific.sn + 1 } }
  let c3 : c_context :=
    { c2 with
      specific :=
        { c2.specific with
          tmp_variables :=
            { c2.specific.tmp_variables with
              changed_fields := changed_fields E c2.specific.ip_flags pkt.ip
              changed_fields2 :=
                if c2.specific.tmp_variables.nr_of_ip_hdr > 1 then
                  changed_fields E c2.specific.ip2_flags pkt.ip2
                else c2.specific.tmp_variables.changed_fields2 } } }
  let r4 := changed_static_both_hdr E c3
  let c4 : c_context :=
    { r4.1 with
      specific :=
        { r4.1.specific with
          tmp_variables := { r4.1.specific.tmp_variables with send_static := r4.2 } } }
  let r5 := changed_dynamic_both_hdr E c4 pkt.ip pkt.ip2
  { r5.1 with
    specific :=
      { r5.1.specific with
        tmp_variables := { r5.1.specific.tmp_variables with send_dynamic := r5.2 } } }

/-- The update of the context after the packet was built
(c_generic.c:591-600); the statistics `num_sent_ir` and `num_sent_ir_dyn` of
the framework are left out. -/
def encode_update_context (context : c_context) (pkt : ip_packet) : c_context :=
  let g := context.specific
  let ip_flags : ip_header_info :=
    { g.ip_flags with old_ip := pkt.ip, old_rnd := g.ip_flags.rnd, old_nbo := g.ip_flags.nbo }
  if g.tmp_variables.nr_of_ip_hdr > 1 then
    { context with
      specific :=
        { g with
          ip_flags := ip_flags
          ip2_flags :=
            { g.ip2_flags with
              old_ip := pkt.ip2, old_rnd := g.ip2_flags.rnd, old_nbo := g.ip2_flags.nbo } } }
  else { context with specific := { g with ip_flags := ip_flags } }

/-- Steps 2 to 6 of `c_generic_encode` (c_generic.c:541-609). -/
def c_generic_encode_steps (E : generic_deps) (context : c_context) (pkt : ip_packet)
    (dest : Int → Int) (payload_offset : Int) : encoded :=
  let c5 := encode_detect_changes E context pkt
  let c6 := call_decide_state E.L c5
  let c7 := update_variables E c6 pkt.ip pkt.ip2
  let r8 := decide_packet E.L c7
  let c8 : c_context :=
    { r8.1 with
      specific :=
        { r8.1.specific with
          tmp_variables := { r8.1.specific.tmp_variables with packet_type := some r8.2 } } }
  let r := code_packet E c8 pkt dest
  if r.counter < 0 then
    { context := r.context, dest := r.dest, payload_offset := payload_offset, size := -1 }
  else
    { context := encode_update_context r.context pkt
      dest := r.dest
      payload_offset := payload_offset
      size := r.counter }

/-- The start of `c_generic_encode` (c_generic.c:477-508): the temporary
variables, the number of IP headers and the first use of the inner header. -/
def encode_init (L : generic_limits) (context : c_context) (pkt : ip_packet) (dest_size : Int) :
    c_context :=
  let g := context.specific
  let tmp : generic_tmp_variables :=
    { g.tmp_variables with
      changed_fields2 := 0
      nr_ip_id_bits2 := 0
      packet_type := some PACKET_IR
      max_size := dest_size }
  if pkt.ip.protocol = IPPROTO_IPIP then
    if g.is_ip2_initialized = 0 then
      { context with
        specific :=
          { g with
            tmp_variables := { tmp with nr_of_ip_hdr := 2 }
            ip2_flags := c_init_header_info L g.ip2_flags pkt.ip2
            is_ip2_initialized := 1 } }
    else { context with specific := { g with tmp_variables := { tmp with nr_of_ip_hdr := 2 } } }
  else { context with specific := { g with tmp_variables := { tmp with nr_of_ip_hdr := 1 } } }

/-- `c_generic_encode` (c_generic.c:458-610) for a context that has its
generic part.  The pointer `ip2` is not `NULL` exactly when the protocol of
the outer header is `IPPROTO_IPIP`; `payload_offset` is the value stored in
`*payload_offset` before the call. -/
def c_generic_encode (E : generic_deps) (context : c_context) (pkt : ip_packet)
    (dest : Int → Int) (dest_size : Int) (payload_offset : Int) : encoded :=
  let c1 := encode_init E.L context pkt dest_size
  let g := c1.specific
  let last_ip_header := if pkt.ip.protocol = IPPROTO_IPIP then pkt.ip2 else pkt.ip
  if g.next_header_proto ≠ 0 ∧ last_ip_header.protocol ≠ g.next_header_proto then
    { context := c1, dest := dest, payload_offset := payload_offset, size := -1 }
  else
    let offset := g.tmp_variables.nr_of_ip_hdr * 20 + g.next_header_len
    if ip_fragment_test pkt.ip then
      { context := c1, dest := dest, payload_offset := offset, size := -1 }
    else if pkt.ip.protocol = IPPROTO_IPIP ∧ ip_fragment_test pkt.ip2 then
      { context := c1, dest := dest, payload_offset := offset, size := -1 }
    else c_generic_encode_steps E c1 pkt dest offset

/-- The start of `c_udp_encode` for a UDP packet (c_udp.c:244-245):
`send_udp_dynamic` is set to the value `udp_changed_udp_dynamic` returns. -/
def udp_encode_init (L : generic_limits) (context : c_context) (udp : udphdr) : c_context :=
  let r1 := udp_changed_udp_dynamic L context udp
  set_udp_part r1.1 { udp_part r1.1 with send_udp_dynamic := r1.2 }

/-- `c_udp_encode` (c_udp.c:205-259) for a context that has its generic
part. -/
def c_udp_encode (E : generic_deps) (context : c_context) (pkt : ip_packet)
    (dest : Int → Int) (dest_size : Int) (payload_offset : Int) : encoded :=
  match context.specific.specific with
  | none => { context := context, dest := dest, payload_offset := payload_offset, size := 0 }
  | some _ =>
    let last_ip_header := if pkt.ip.protocol = IPPROTO_IPIP then pkt.ip2 else pkt.ip
    if last_ip_header.protocol ≠ IPPROTO_UDP then
      { context := context, dest := dest, payload_offset := payload_offset, size := 0 }
    else
      let c1 := udp_encode_init E.L context pkt.udp
      let r := c_generic_encode E c1 pkt dest dest_size payload_offset
      if r.size < 0 then r
      else if r.context.specific.tmp_variables.packet_type = some PACKET_IR ∨
          r.context.specific.tmp_variables.packet_type = some PACKET_IR_DYN then
        { r with context := set_udp_part r.context { udp_part r.context with old_udp := pkt.udp } }
      else r

/-! ## Views of a context used in the proofs -/

/-- What the functions that build a packet read in the context and the chains
of the IP headers and the extensions never write: everything but the change
counters of the two header infos and `fo_count`. -/
def coding_view (c : c_context) :
    rohc_mode × rohc_c_state × Int × generic_tmp_variables × Int × Int × Int × Int × Int × Int ×
      Option sc_udp_context × Option next_header_handler × Option next_header_handler ×
      Option next_header_handler × Int × Option decide_state_handler :=
  (c.mode, c.state, c.specific.sn, c.specific.tmp_variables, c.specific.ip_flags.rnd,
    c.specific.ip2_flags.rnd, c.specific.ip_flags.nbo, c.specific.ip2_flags.nbo,
    c.specific.ip_flags.id_delta, c.specific.ip2_flags.id_delta, c.specific.specific,
    c.specific.code_static_part, c.specific.code_dynamic_part,
    c.specific.code_UO_packet_tail, c.specific.next_header_len, c.specific.decide_state)

/-- What steps 2 to 5 of `c_generic_encode` never write: the UDP part, the
functions of the profile and the number of IP headers. -/
def profile_view (c : c_context) :
    Option sc_udp_context × Option decide_state_handler × Option next_header_handler × Int :=
  (c.specific.specific, c.specific.decide_state, c.specific.code_UO_packet_tail,
    c.specific.tmp_variables.nr_of_ip_hdr)

/-- Sample values of what lies outside the sources, used only to evaluate the
functions on concrete inputs: the sample thresholds, `IPID_MAX_DELTA = 20`,
one bit for each `MOD_*` mask, `GET_DF` as bit 14 of the host-order field,
constant CRC and W-LSB functions, and the CID code of a small CID 0, which
reserves position 0 for the first octet of the packet. -/
def sample_deps : generic_deps :=
  { L := sample_limits
    IPID_MAX_DELTA := 20
    MOD_TOS := 0x0001
    MOD_TOT_LEN := 0x0002
    MOD_ID := 0x0004
    MOD_FRAG_OFF := 0x0008
    MOD_TTL := 0x0010
    MOD_PROTOCOL := 0x0020
    MOD_CHECK := 0x0040
    MOD_SADDR := 0x0080
    MOD_DADDR := 0x0100
    GET_DF := fun x => int_and (int_shr (ntohs x) 14) 1
    crc_calculate := fun _ _ _ => 0
    code_cid_values := fun _ dest _ => { dest := dest, counter := 1, first_position := 0 }
    c_get_k_wlsb := fun _ _ => 0
    c_add_wlsb := fun w sn _ value => w ++ [{ sn := sn, value := value }]
    profile_id := 2 }

/-! ## Sequences of packets and what the parser of the feedback touches -/

/-- The arguments of one call of `c_generic_encode` on a context: the packet,
the buffer `dest`, its size and the value of `*payload_offset`. -/
structure encode_call where
  pkt : ip_packet := {}
  dest : Int → Int := fun _ => 0
  dest_size : Int := 0
  payload_offset : Int := 0

/-- The context after `c_generic_encode` was called on each packet of a
sequence, in order; the context is carried from one call to the next whatever
the call returns.  The counters of the context are integers without a bound:
the function follows the C code as long as no counter leaves the range of the
C type `int`, which for the change counters of the header infos holds as long
as `MAX_FO_COUNT` plus the number of calls is at most 2147483647. -/
def encode_packets (E : generic_deps) (context : c_context) : List encode_call → c_context
  | [] => context
  | a :: rest =>
    encode_packets E (c_generic_encode E context a.pkt a.dest a.dest_size a.payload_offset).context
      rest

/-- The six change counters of a header info are at most `MAX_FO_COUNT`: the
cap in the words of the specification. -/
def counters_capped (L : generic_limits) (header_info : ip_header_info) : Prop :=
  header_info.tos_count ≤ L.MAX_FO_COUNT ∧ header_info.ttl_count ≤ L.MAX_FO_COUNT ∧
  header_info.df_count ≤ L.MAX_FO_COUNT ∧ header_info.protocol_count ≤ L.MAX_FO_COUNT ∧
  header_info.rnd_count ≤ L.MAX_FO_COUNT ∧ header_info.nbo_count ≤ L.MAX_FO_COUNT

instance counters_capped_decidable (L : generic_limits) (header_info : ip_header_info) :
    Decidable (counters_capped L header_info) := by
  unfold counters_capped
  infer_instance

/-- A header info with its six change counters set to 0. -/
def erase_counters_info (header_info : ip_header_info) : ip_header_info :=
  { header_info with
    tos_count := 0, ttl_count := 0, df_count := 0, protocol_count := 0, rnd_count := 0
    nbo_count := 0 }

/-- A context with the counters set to 0 that the change detection and the
building of a packet write: `fo_count`, the change counters of the two header
infos and `udp_checksum_change_count` (of the UDP part as `udp_part` reads
it).  Two contexts with the same image differ in these counters only. -/
def erase_counters (c : c_context) : c_context :=
  { c with
    specific :=
      { c.specific with
        fo_count := 0
        ip_flags := erase_counters_info c.specific.ip_flags
        ip2_flags := erase_counters_info c.specific.ip2_flags
        specific := some { udp_part c with udp_checksum_change_count := 0 } } }

/-- A context with the state and the counters set to fixed values that the
decisions of the state and of the packet write: the state, `ir_count`,
`fo_count`, `so_count`, `go_back_fo_count`, `go_back_ir_count` and
`ir_dyn_count`.  Two contexts with the same image differ in these only. -/
def erase_state (c : c_context) : c_context :=
  { c with
    state := IR
    specific :=
      { c.specific with
        ir_count := 0, fo_count := 0, so_count := 0, go_back_fo_count := 0
        go_back_ir_count := 0, ir_dyn_count := 0 } }

/-- The indices of the feedback bytes that one turn of the option loop of
`c_generic_feedback` reads or writes (c_generic.c:655-675), in order: `p[0]`
for `opt` and `p[0]` for `optlen`; then `p[1]`, read and set to zero, for a
CRC option; `p[1]`, read, for an SN option. -/
def feedback2_option_accesses (v : feedback2_vars) : List Nat :=
  let opt := int_shr (byte_at v.data v.p) 4
  if opt = 1 then [v.p, v.p, v.p + 1, v.p + 1]
  else if opt = 4 then [v.p, v.p, v.p + 1]
  else [v.p, v.p]

/-- The indices read or written by the option loop `while(remaining > 0)`
(c_generic.c:655-680), run for at most `fuel` turns. -/
def feedback2_options_accesses : Nat → feedback2_vars → List Nat
  | 0, _ => []
  | fuel + 1, v =>
    if v.remaining > 0 then
      feedback2_option_accesses v ++ feedback2_options_accesses fuel (feedback2_option v)
    else []

/-- The indices of the feedback bytes that the parser of the FEEDBACK-2
branch reads or writes (c_generic.c:646-681): `p[0]` for the mode, `p[0]` and
`p[1]` for the SN, then those of the option loop. -/
def feedback2_accesses (feedback : c_feedback) : List Nat :=
  let p := feedback.specific_offset
  let v0 : feedback2_vars :=
    { data := feedback.data
      p := p + 2
      remaining := feedback.specific_size - 2
      sn := int_shl (int_and (byte_at feedback.data p) 15) 8 + byte_at feedback.data (p + 1) }
  [p, p, p + 1] ++ feedback2_options_accesses v0.remaining.toNat v0

/-- The number of turns the option loop `while(remaining > 0)` makes, counted
for at most `fuel` turns. -/
def feedback2_options_turns : Nat → feedback2_vars → Nat
  | 0, _ => 0
  | fuel + 1, v =>
    if v.remaining > 0 then feedback2_options_turns fuel (feedback2_option v) + 1 else 0

/-- The start of step 2 of `c_generic_encode` (c_generic.c:546-559): the
behaviour of the IP-ID of the headers, the SN and the changed fields; the
counts of the changed static and dynamic fields follow
(`encode_detect_changes`). -/
def encode_changed_fields (E : generic_deps) (context : c_context) (pkt : ip_packet) :
    c_context :=
  let g := context.specific
  let c1 : c_context :=
    if g.sn ≠ 0 then
      { context with
        specific :=
          { g with
            ip_flags := check_ip_identification E.IPID_MAX_DELTA g.ip_flags pkt.ip
            ip2_flags :=
              if g.tmp_variables.nr_of_ip_hdr > 1 then
                check_ip_identification E.IPID_MAX_DELTA g.ip2_flags pkt.ip2
              else g.ip2_flags } }
    else context
  let c2 : c_context := { c1 with specific := { c1.specific with sn := c1.specific.sn + 1 } }
  { c2 with
    specific :=
      { c2.specific with
        tmp_variables :=
          { c2.specific.tmp_variables with
            changed_fields := changed_fields E c2.specific.ip_flags pkt.ip
            changed_fields2 :=
              if c2.specific.tmp_variables.nr_of_ip_hdr > 1 then
                changed_fields E c2.specific.ip2_flags pkt.ip2
              else c2.specific.tmp_variables.changed_fields2 } } }

/-- The end of step 2 of `c_generic_encode` (c_generic.c:561-564): the counts
of the changed static and dynamic fields, stored in `send_static` and
`send_dynamic`. -/
def encode_count_changes (E : generic_deps) (context : c_context) (pkt : ip_packet) :
    c_context :=
  let r4 := changed_static_both_hdr E context
  let c4 : c_context :=
    { r4.1 with
      specific :=
        { r4.1.specific with
          tmp_variables := { r4.1.specific.tmp_variables with send_static := r4.2 } } }
  let r5 := changed_dynamic_both_hdr E c4 pkt.ip pkt.ip2
  { r5.1 with
    specific :=
      { r5.1.specific with
        tmp_variables := { r5.1.specific.tmp_variables with send_dynamic := r5.2 } } }

/-- Steps 2 to 5 of `c_generic_encode` (c_generic.c:546-582): the detection
of the changes, the decision of the state, the update of the variables and
the decision of the packet, whose type is stored in
`tmp_variables.packet_type`; `code_packet` is called on this context. -/
def encode_decide (E : generic_deps) (context : c_context) (pkt : ip_packet) : c_context :=
  let c5 := encode_detect_changes E context pkt
  let c6 := call_decide_state E.L c5
  let c7 := update_variables E c6 pkt.ip pkt.ip2
  let r8 := decide_packet E.L c7
  { r8.1 with
    specific :=
      { r8.1.specific with
        tmp_variables := { r8.1.specific.tmp_variables with packet_type := some r8.2 } } }

/-! ## Bounds on the change counters -/

/-- Bounds for the six change counters of a header info, or the amounts by
which a step may raise them. -/
structure counter_bounds where
  tos : Int := 0
  ttl : Int := 0
  df : Int := 0
  protocol : Int := 0
  rnd : Int := 0
  nbo : Int := 0

/-- Bounds raised, counter by counter, by the amounts given. -/
def bounds_add (b d : counter_bounds) : counter_bounds :=
  { tos := b.tos + d.tos, ttl := b.ttl + d.ttl, df := b.df + d.df
    protocol := b.protocol + d.protocol, rnd := b.rnd + d.rnd, nbo := b.nbo + d.nbo }

/-- The bounds of the header at `pos'` after a step that writes the header at
`pos`: raised by `d` when the two are the same header, kept otherwise. -/
def bounds_at (pos pos' : ip_header_pos) (b d : counter_bounds) : counter_bounds :=
  if pos = pos' then bounds_add b d else b

/-- Every bound of `b` is at most the one of `b'`. -/
def bounds_le (b b' : counter_bounds) : Prop :=
  b.tos ≤ b'.tos ∧ b.ttl ≤ b'.ttl ∧ b.df ≤ b'.df ∧ b.protocol ≤ b'.protocol ∧
  b.rnd ≤ b'.rnd ∧ b.nbo ≤ b'.nbo

/-- The same bound for the six counters. -/
def uniform_bounds (B : Int) : counter_bounds :=
  { tos := B, ttl := B, df := B, protocol := B, rnd := B, nbo := B }

/-- Each of the six change counters of a header info lies between 0 and its
bound. -/
def counters_within (header_info : ip_header_info) (b : counter_bounds) : Prop :=
  (0 ≤ header_info.tos_count ∧ header_info.tos_count ≤ b.tos) ∧
  (0 ≤ header_info.ttl_count ∧ header_info.ttl_count ≤ b.ttl) ∧
  (0 ≤ header_info.df_count ∧ header_info.df_count ≤ b.df) ∧
  (0 ≤ header_info.protocol_count ∧ header_info.protocol_count ≤ b.protocol) ∧
  (0 ≤ header_info.rnd_count ∧ header_info.rnd_count ≤ b.rnd) ∧
  (0 ≤ header_info.nbo_count ∧ header_info.nbo_count ≤ b.nbo)

/-- The change counters of the outer header info lie within `bo` and those of
the inner header info within `bi`. -/
def context_counters_within (c : c_context) (bo bi : counter_bounds) : Prop :=
  counters_within c.specific.ip_flags bo ∧ counters_within c.specific.ip2_flags bi

instance bounds_le_decidable (b b' : counter_bounds) : Decidable (bounds_le b b') := by
  unfold bounds_le
  infer_instance

instance counters_within_decidable (header_info : ip_header_info) (b : counter_bounds) :
    Decidable (counters_within header_info b) := by
  unfold counters_within
  infer_instance

instance context_counters_within_decidable (c : c_context) (bo bi : counter_bounds) :
    Decidable (context_counters_within c bo bi) := by
  unfold context_counters_within
  infer_instance

/-! ## The layout of the UO tail and of the chains -/

/-- The position at which `code_UO0_packet`, `code_UO1_packet` and
`code_UO2_packet` call `code_UO_packet_tail` (c_generic.c:1688, 1772 and
1921), that is the end of the base header, with its extension for UO-2:
`counter` after `code_cid_values` for UO-0, one octet further for UO-1, and
for UO-2 the position the extension ends at, the extension starting one octet
after `counter`.  The value is -1 for the packets that have no tail. -/
def uo_tail_position (E : generic_deps) (context : c_context) (pkt : ip_packet)
    (dest : Int → Int) : Int :=
  let cid := E.code_cid_values context dest context.specific.tmp_variables.max_size
  match context.specific.tmp_variables.packet_type with
  | some PACKET_UO_0 => cid.counter
  | some PACKET_UO_1 => cid.counter + 1
  | some PACKET_UOR_2 =>
    (code_extension E (decide_extension context) pkt
      { context := context, dest := cid.dest, counter := cid.counter + 1 }).counter
  | _ => -1

/-- The four octets of a 32-bit header field in the order of the packet (the
memory order of the field). -/
def field_octets4 (x : Int) : List Int :=
  [x % 256, x / 256 % 256, x / 65536 % 256, x / 16777216 % 256]

/-- The static part of an IPv4 header in an IR packet, in the words of the
specification: the version nibble 4 with a zero nibble, the protocol, the
4-byte source address and the 4-byte destination address. -/
def spec_ipv4_static (ip : iphdr) : List Int :=
  [0x40, ip.protocol % 256] ++ field_octets4 ip.saddr ++ field_octets4 ip.daddr

/-- The static part of the UDP header, in the words of the specification: the
2-byte source port and the 2-byte destination port. -/
def spec_udp_static (udp : udphdr) : List Int :=
  field_octets udp.source ++ field_octets udp.dest

/-- The dynamic part of an IPv4 header that is not a fragment: TOS, TTL, the
2-byte IP-ID and the flags octet `DF RND NBO 0 0 0 0 0`, where DF is bit 14 of
the host-order `frag_off` field and RND and NBO are set for the values of the
header info that are not 0.  The part has five octets: the code stores no
octet for a list of extension headers. -/
def spec_ipv4_dynamic (ip : iphdr) (rnd nbo : Int) : List Int :=
  [ip.tos % 256, ip.ttl % 256] ++ field_octets ip.id ++
    [128 * (ntohs ip.frag_off / 16384) + (if rnd ≠ 0 then 64 else 0) +
      (if nbo ≠ 0 then 32 else 0)]

/-- The dynamic part of the UDP header, in the words of the specification:
the 2-byte checksum. -/
def spec_udp_dynamic (udp : udphdr) : List Int := field_octets udp.check

/-- The static chain of an IR packet: the static part of the outer header, of
the inner header when there are two IP headers, and of the UDP header in a
context of the UDP profile. -/
def spec_static_chain (context : c_context) (pkt : ip_packet) : List Int :=
  spec_ipv4_static pkt.ip ++
  (if context.specific.tmp_variables.nr_of_ip_hdr > 1 then spec_ipv4_static pkt.ip2 else []) ++
  (if context.specific.code_static_part = none then [] else spec_udp_static pkt.udp)

/-- The dynamic chain of an IR or IR-DYN packet: the dynamic part of the
outer header, of the inner header when there are two IP headers, and of the
UDP header in a context of the UDP profile. -/
def spec_dynamic_chain (context : c_context) (pkt : ip_packet) : List Int :=
  spec_ipv4_dynamic pkt.ip context.specific.ip_flags.rnd context.specific.ip_flags.nbo ++
  (if context.specific.tmp_variables.nr_of_ip_hdr > 1 then
    spec_ipv4_dynamic pkt.ip2 context.specific.ip2_flags.rnd context.specific.ip2_flags.nbo
  else []) ++
  (if context.specific.code_dynamic_part = none then [] else spec_udp_dynamic pkt.udp)

/-! ## Lemmas on the C integer operators -/

theorem to_u32_of_nonneg (a : Int) (h0 : 0 ≤ a) (h1 : a < 4294967296) :
    to_u32 a = a.toNat := by
  unfold to_u32
  rw [Int.emod_eq_of_lt h0 h1]

theorem of_u32_of_lt (n : Nat) (h : n < 2147483648) : of_u32 n = (n : Int) := by
  unfold of_u32
  have h1 : n % 4294967296 = n := Nat.mod_eq_of_lt (by omega)
  rw [h1, if_pos h]

theorem int_and_low_mask (a : Int) (k : Nat) (h0 : 0 ≤ a) (h1 : a < 2147483648)
    (hk : k ≤ 31) : int_and a ((2 : Int) ^ k - 1) = a % 2 ^ k := by
  obtain ⟨n, rfl⟩ := Int.eq_ofNat_of_zero_le h0
  have hn : n < 2147483648 := by exact_mod_cast h1
  have hpow : (2 : Nat) ^ k ≤ 2 ^ 31 := Nat.pow_le_pow_right (by norm_num) hk
  have hpos : 0 < (2 : Nat) ^ k := Nat.pow_pos (by norm_num)
  have hm : ((2 : Int) ^ k - 1) = ((2 ^ k - 1 : Nat) : Int) := by
    rw [Nat.cast_sub hpos]; simp
  unfold int_and
  rw [hm, to_u32_of_nonneg _ (by positivity) (by omega),
    to_u32_of_nonneg _ (by positivity) (by omega)]
  simp only [Int.toNat_ofNat]
  rw [Nat.and_pow_two_sub_one_eq_mod, of_u32_of_lt]
  · simp
  · have := Nat.mod_lt n hpos
    omega

theorem int_and_255 (a : Int) (h0 : 0 ≤ a) (h1 : a < 2147483648) :
    int_and a 255 = a % 256 := by
  simpa using int_and_low_mask a 8 h0 h1 (by norm_num)

theorem int_and_127 (a : Int) (h0 : 0 ≤ a) (h1 : a < 2147483648) :
    int_and a 127 = a % 128 := by
  simpa using int_and_low_mask a 7 h0 h1 (by norm_num)

theorem int_and_63 (a : Int) (h0 : 0 ≤ a) (h1 : a < 2147483648) :
    int_and a 63 = a % 64 := by
  simpa using int_and_low_mask a 6 h0 h1 (by norm_num)

theorem int_and_31 (a : Int) (h0 : 0 ≤ a) (h1 : a < 2147483648) :
    int_and a 31 = a % 32 := by
  simpa using int_and_low_mask a 5 h0 h1 (by norm_num)

theorem int_shl_of_nonneg (a : Int) (k : Nat) (h0 : 0 ≤ a)
    (h1 : a * 2 ^ k < 2147483648) : int_shl a k = a * 2 ^ k := by
  obtain ⟨n, rfl⟩ := Int.eq_ofNat_of_zero_le h0
  have hk : n * 2 ^ k < 2147483648 := by exact_mod_cast h1
  have hpos : 0 < (2 : Nat) ^ k := Nat.pow_pos (by norm_num)
  have hn : n < 2147483648 := lt_of_le_of_lt (Nat.le_mul_of_pos_right n hpos) hk
  unfold int_shl
  rw [to_u32_of_nonneg _ (by positivity) (by omega)]
  simp only [Int.toNat_ofNat]
  rw [Nat.shiftLeft_eq, of_u32_of_lt _ hk]
  push_cast
  rfl

theorem int_or_disjoint (a b : Int) (i : Nat) (ha : 0 ≤ a) (hb : 0 ≤ b)
    (hdvd : (2 : Int) ^ i ∣ a) (hlt : b < 2 ^ i) (hsum : a + b < 2147483648) :
    int_or a b = a + b := by
  obtain ⟨m, rfl⟩ := Int.eq_ofNat_of_zero_le ha
  obtain ⟨n, rfl⟩ := Int.eq_ofNat_of_zero_le hb
  have hd : (2 : Nat) ^ i ∣ m := by exact_mod_cast hdvd
  have hl : n < 2 ^ i := by exact_mod_cast hlt
  have hs : m + n < 2147483648 := by exact_mod_cast hsum
  obtain ⟨c, rfl⟩ := hd
  unfold int_or
  rw [to_u32_of_nonneg _ (by positivity) (by omega),
    to_u32_of_nonneg _ (by positivity) (by omega)]
  simp only [Int.toNat_ofNat]
  rw [← Nat.mul_add_lt_is_or hl c, of_u32_of_lt _ hs]
  push_cast
  rfl

theorem first_byte_four : ∀ n : Nat, n < 32 →
    GET_BIT_7 (int_and (int_xor (int_shl 7 5) (n : Int)) 255) = 1 ∧
    GET_BIT_6_7 (int_and (int_xor (int_shl 7 5) (n : Int)) 255) = 3 ∧
    GET_BIT_5_7 (int_and (int_xor (int_shl 7 5) (n : Int)) 255) = 7 ∧
    GET_BIT_0_4 (int_and (int_xor (int_shl 7 5) (n : Int)) 255) = (n : Int) := by
  decide

theorem first_byte_three : ∀ n : Nat, n < 32 →
    GET_BIT_7 (int_and (int_xor (int_shl 6 5) (n : Int)) 255) = 1 ∧
    GET_BIT_6_7 (int_and (int_xor (int_shl 6 5) (n : Int)) 255) = 3 ∧
    GET_BIT_5_7 (int_and (int_xor (int_shl 6 5) (n : Int)) 255) = 6 ∧
    GET_BIT_0_4 (int_and (int_xor (int_shl 6 5) (n : Int)) 255) = (n : Int) := by
  decide

theorem first_byte_two : ∀ n : Nat, n < 64 →
    GET_BIT_7 (int_and (int_xor (int_shl 2 6) (n : Int)) 255) = 1 ∧
    GET_BIT_6_7 (int_and (int_xor (int_shl 2 6) (n : Int)) 255) = 2 ∧
    GET_BIT_0_5 (int_and (int_xor (int_shl 2 6) (n : Int)) 255) = (n : Int) := by
  decide

theorem first_byte_one : ∀ n : Nat, n < 128 →
    GET_BIT_7 (n : Int) = 0 ∧ GET_BIT_0_6 (n : Int) = (n : Int) := by
  decide

theorem decode_one (b : Int) (rest : List Int) (h0 : 0 ≤ b) (h1 : b < 128) :
    d_sdvalue_decode (b :: rest) = b ∧ d_sdvalue_size (b :: rest) = 1 := by
  obtain ⟨n, rfl⟩ := Int.eq_ofNat_of_zero_le h0
  have hn : n < 128 := by exact_mod_cast h1
  obtain ⟨h7, h06⟩ := first_byte_one n hn
  simp [d_sdvalue_decode, d_sdvalue_size, byte_at, h7, h06]

theorem decode_two (x b1 : Int) (rest : List Int) (hx0 : 0 ≤ x) (hx1 : x < 64)
    (hb0 : 0 ≤ b1) (hb1 : b1 < 256) :
    d_sdvalue_decode (int_and (int_xor (int_shl 2 6) x) 255 :: b1 :: rest)
      = x * 256 + b1 ∧
    d_sdvalue_size (int_and (int_xor (int_shl 2 6) x) 255 :: b1 :: rest) = 2 := by
  obtain ⟨n, rfl⟩ := Int.eq_ofNat_of_zero_le hx0
  have hn : n < 64 := by exact_mod_cast hx1
  obtain ⟨h7, h67, h05⟩ := first_byte_two n hn
  have hs : int_shr 0x8 2 = 2 := by decide
  have e1 : GET_BIT_0_7 b1 = b1 := by
    unfold GET_BIT_0_7
    rw [show (0xff : Int) = 255 from rfl, int_and_255 b1 hb0 (by omega)]
    omega
  have e2 : int_shl (n : Int) 8 = (n : Int) * 256 := by
    rw [int_shl_of_nonneg _ _ hx0 (by norm_num; omega)]; norm_num
  constructor
  · simp only [d_sdvalue_decode, byte_at, List.getD_cons_zero, List.getD_cons_succ, h7, h67, hs,
      h05, e1, e2]
    simp only [one_ne_zero, if_false, if_true]
    exact int_or_disjoint _ _ 8 (by omega) hb0 (Dvd.intro_left (n : Int) (by norm_num)) (by norm_num; omega)
      (by omega)
  · simp [d_sdvalue_size, byte_at, h7, h67, hs]

theorem GET_BIT_0_7_byte (b : Int) (h0 : 0 ≤ b) (h1 : b < 256) : GET_BIT_0_7 b = b := by
  unfold GET_BIT_0_7
  rw [show (0xff : Int) = 255 from rfl, int_and_255 b h0 (by omega)]
  omega

theorem decode_three (x b1 b2 : Int) (rest : List Int) (hx0 : 0 ≤ x) (hx1 : x < 32)
    (hb0 : 0 ≤ b1) (hb1 : b1 < 256) (hc0 : 0 ≤ b2) (hc1 : b2 < 256) :
    d_sdvalue_decode (int_and (int_xor (int_shl 6 5) x) 255 :: b1 :: b2 :: rest)
      = x * 65536 + b1 * 256 + b2 ∧
    d_sdvalue_size (int_and (int_xor (int_shl 6 5) x) 255 :: b1 :: b2 :: rest) = 3 := by
  obtain ⟨n, rfl⟩ := Int.eq_ofNat_of_zero_le hx0
  have hn : n < 32 := by exact_mod_cast hx1
  obtain ⟨h7, h67, h57, h04⟩ := first_byte_three n hn
  have hs2 : int_shr 0x8 2 = 2 := by decide
  have hs3 : int_shr 0xc 1 = 6 := by decide
  have e1 := GET_BIT_0_7_byte b1 hb0 hb1
  have e2 := GET_BIT_0_7_byte b2 hc0 hc1
  have s1 : int_shl (n : Int) 16 = (n : Int) * 65536 := by
    rw [int_shl_of_nonneg _ _ hx0 (by norm_num; omega)]; norm_num
  have s2 : int_shl b1 8 = b1 * 256 := by
    rw [int_shl_of_nonneg _ _ hb0 (by norm_num; omega)]; norm_num
  have o1 : int_or ((n : Int) * 65536) (b1 * 256) = (n : Int) * 65536 + b1 * 256 :=
    int_or_disjoint _ _ 16 (by omega) (by omega) (Dvd.intro_left (n : Int) (by norm_num))
      (by norm_num; omega) (by omega)
  have o2 : int_or ((n : Int) * 65536 + b1 * 256) b2 = (n : Int) * 65536 + b1 * 256 + b2 :=
    int_or_disjoint _ _ 8 (by omega) hc0
      (Dvd.intro_left ((n : Int) * 256 + b1) (by norm_num; ring)) (by norm_num; omega) (by omega)
  constructor
  · simp only [d_sdvalue_decode, byte_at, List.getD_cons_zero, List.getD_cons_succ, h7, h67, h57,
      hs2, hs3, h04, e1, e2, s1, s2, o1, o2]
    simp
  · simp [d_sdvalue_size, byte_at, h7, h67, h57, hs2, hs3]

theorem decode_four (x b1 b2 b3 : Int) (rest : List Int) (hx0 : 0 ≤ x) (hx1 : x < 32)
    (hb0 : 0 ≤ b1) (hb1 : b1 < 256) (hc0 : 0 ≤ b2) (hc1 : b2 < 256)
    (hd0 : 0 ≤ b3) (hd1 : b3 < 256) :
    d_sdvalue_decode (int_and (int_xor (int_shl 7 5) x) 255 :: b1 :: b2 :: b3 :: rest)
      = x * 16777216 + b1 * 65536 + b2 * 256 + b3 ∧
    d_sdvalue_size (int_and (int_xor (int_shl 7 5) x) 255 :: b1 :: b2 :: b3 :: rest) = 4 := by
  obtain ⟨n, rfl⟩ := Int.eq_ofNat_of_zero_le hx0
  have hn : n < 32 := by exact_mod_cast hx1
  obtain ⟨h7, h67, h57, h04⟩ := first_byte_four n hn
  have hs2 : int_shr 0x8 2 = 2 := by decide
  have hs3 : int_shr 0xc 1 = 6 := by decide
  have hs4 : int_shr 0xe 1 = 7 := by decide
  have e1 := GET_BIT_0_7_byte b1 hb0 hb1
  have e2 := GET_BIT_0_7_byte b2 hc0 hc1
  have e3 := GET_BIT_0_7_byte b3 hd0 hd1
  have s1 : int_shl (n : Int) 24 = (n : Int) * 16777216 := by
    rw [int_shl_of_nonneg _ _ hx0 (by norm_num; omega)]; norm_num
  have s2 : int_shl b1 16 = b1 * 65536 := by
    rw [int_shl_of_nonneg _ _ hb0 (by norm_num; omega)]; norm_num
  have s3 : int_shl b2 8 = b2 * 256 := by
    rw [int_shl_of_nonneg _ _ hc0 (by norm_num; omega)]; norm_num
  have o1 : int_or ((n : Int) * 16777216) (b1 * 65536) = (n : Int) * 16777216 + b1 * 65536 :=
    int_or_disjoint _ _ 24 (by omega) (by omega) (Dvd.intro_left (n : Int) (by norm_num))
      (by norm_num; omega) (by omega)
  have o2 : int_or ((n : Int) * 16777216 + b1 * 65536) (b2 * 256)
      = (n : Int) * 16777216 + b1 * 65536 + b2 * 256 :=
    int_or_disjoint _ _ 16 (by omega) (by omega)
      (Dvd.intro_left ((n : Int) * 256 + b1) (by norm_num; ring)) (by norm_num; omega) (by omega)
  have o3 : int_or ((n : Int) * 16777216 + b1 * 65536 + b2 * 256) b3
      = (n : Int) * 16777216 + b1 * 65536 + b2 * 256 + b3 :=
    int_or_disjoint _ _ 8 (by omega) hd0
      (Dvd.intro_left ((n : Int) * 65536 + b1 * 256 + b2) (by norm_num; ring))
      (by norm_num; omega) (by omega)
  constructor
  · simp only [d_sdvalue_decode, byte_at, List.getD_cons_zero, List.getD_cons_succ, h7, h67, h57,
      hs2, hs3, hs4, h04, e1, e2, e3, s1, s2, s3, o1, o2, o3]
    simp
  · simp [d_sdvalue_size, byte_at, h7, h67, h57, hs2, hs3, hs4]

/-! ## SDVL: the encoder on each range -/

theorem c_encodeSdvl_one (v : Int) (h : v ≤ 127) :
    c_encodeSdvl false v = ⟨true, [int_and v 255]⟩ := by
  simp [c_encodeSdvl, c_bytesSdvl, h]

theorem c_encodeSdvl_two (v : Int) (h : 127 < v) (h1 : v ≤ 16383) :
    c_encodeSdvl false v =
      ⟨true, [int_and (int_xor (int_shl 2 6) (int_and (int_shr v 8) 63)) 255,
              int_and v 255]⟩ := by
  have h2 : ¬ v ≤ 127 := by omega
  simp [c_encodeSdvl, c_bytesSdvl, h1, h2]

theorem c_encodeSdvl_three (v : Int) (h : 16383 < v) (h1 : v ≤ 2097151) :
    c_encodeSdvl false v =
      ⟨true, [int_and (int_xor (int_shl 6 5) (int_and (int_shr v 16) 31)) 255,
              int_and (int_shr v 8) 255,
              int_and v 255]⟩ := by
  have h2 : ¬ v ≤ 127 := by omega
  have h3 : ¬ v ≤ 16383 := by omega
  simp [c_encodeSdvl, c_bytesSdvl, h1, h2, h3]

theorem c_encodeSdvl_four (v : Int) (h : 2097151 < v) (h1 : v ≤ 536870911) :
    c_encodeSdvl false v =
      ⟨true, [int_and (int_xor (int_shl 7 5) (int_and (int_shr v 24) 31)) 255,
              int_and (int_shr v 16) 255,
              int_and (int_shr v 8) 255,
              int_and v 255]⟩ := by
  have h2 : ¬ v ≤ 127 := by omega
  have h3 : ¬ v ≤ 16383 := by omega
  have h4 : ¬ v ≤ 2097151 := by omega
  simp [c_encodeSdvl, c_bytesSdvl, h1, h2, h3, h4]

theorem c_encodeSdvl_too_large (v : Int) (h : 536870911 < v) :
    c_encodeSdvl false v = ⟨false, []⟩ := by
  have h1 : ¬ v ≤ 536870911 := by omega
  have h2 : ¬ v ≤ 127 := by omega
  have h3 : ¬ v ≤ 16383 := by omega
  have h4 : ¬ v ≤ 2097151 := by omega
  simp [c_encodeSdvl, c_bytesSdvl, h1, h2, h3, h4]

/-- The value and the length the decoder recovers from the bytes
`c_encodeSdvl` stores for a value in `[0, 2^29)`, whatever follows them. -/
theorem sdvl_decode_encode (v : Int) (h0 : 0 ≤ v) (h1 : v < 536870912) (rest : List Int) :
    d_sdvalue_decode ((c_encodeSdvl false v).written ++ rest) = v ∧
    d_sdvalue_size ((c_encodeSdvl false v).written ++ rest) = c_bytesSdvl v ∧
    ((c_encodeSdvl false v).written.length : Int) = c_bytesSdvl v := by
  have hlow : int_and v 255 = v % 256 := int_and_255 v h0 (by omega)
  have hs8 : int_shr v 8 = v / 256 := by simp [int_shr]
  have hs16 : int_shr v 16 = v / 65536 := by simp [int_shr]
  have hs24 : int_shr v 24 = v / 16777216 := by simp [int_shr]
  have hm8 : int_and (v / 256) 255 = v / 256 % 256 := int_and_255 _ (by omega) (by omega)
  have hm16 : int_and (v / 65536) 255 = v / 65536 % 256 := int_and_255 _ (by omega) (by omega)
  by_cases c1 : v ≤ 127
  · have hb : c_bytesSdvl v = 1 := by simp [c_bytesSdvl, c1]
    rw [c_encodeSdvl_one v c1, hb, hlow]
    have hv : v % 256 = v := by omega
    obtain ⟨d, s⟩ := decode_one v rest h0 (by omega)
    simp only [List.cons_append, List.nil_append, hv]
    exact ⟨d, s, by simp⟩
  by_cases c2 : v ≤ 16383
  · have hb : c_bytesSdvl v = 2 := by simp [c_bytesSdvl, c1, c2]
    rw [c_encodeSdvl_two v (by omega) c2, hb, hlow, hs8]
    have hx : int_and (v / 256) 63 = v / 256 := by
      rw [int_and_63 _ (by omega) (by omega)]; omega
    obtain ⟨d, s⟩ := decode_two (v / 256) (v % 256) rest (by omega) (by omega) (by omega)
      (by omega)
    simp only [List.cons_append, List.nil_append, hx]
    exact ⟨by rw [d]; omega, s, by simp⟩
  by_cases c3 : v ≤ 2097151
  · have hb : c_bytesSdvl v = 3 := by simp [c_bytesSdvl, c1, c2, c3]
    rw [c_encodeSdvl_three v (by omega) c3, hb, hlow, hs8, hs16, hm8]
    have hx : int_and (v / 65536) 31 = v / 65536 := by
      rw [int_and_31 _ (by omega) (by omega)]; omega
    obtain ⟨d, s⟩ := decode_three (v / 65536) (v / 256 % 256) (v % 256) rest (by omega)
      (by omega) (by omega) (by omega) (by omega) (by omega)
    simp only [List.cons_append, List.nil_append, hx]
    exact ⟨by rw [d]; omega, s, by simp⟩
  · have hb : c_bytesSdvl v = 4 := by
      have c4 : v ≤ 536870911 := by omega
      simp [c_bytesSdvl, c1, c2, c3, c4]
    rw [c_encodeSdvl_four v (by omega) (by omega), hb, hlow, hs8, hs16, hs24, hm8, hm16]
    have hx : int_and (v / 16777216) 31 = v / 16777216 := by
      rw [int_and_31 _ (by omega) (by omega)]; omega
    obtain ⟨d, s⟩ := decode_four (v / 16777216) (v / 65536 % 256) (v / 256 % 256) (v % 256)
      rest (by omega) (by omega) (by omega) (by omega) (by omega) (by omega) (by omega)
      (by omega)
    simp only [List.cons_append, List.nil_append, hx]
    exact ⟨by rw [d]; omega, s, by simp⟩

theorem c_encodeSdvl_status (v : Int) :
    (c_encodeSdvl false v).status = true ↔ v < 536870912 := by
  by_cases c4 : v ≤ 536870911
  · have hlt : v < 536870912 := by omega
    simp only [hlt, iff_true]
    by_cases c1 : v ≤ 127
    · rw [c_encodeSdvl_one v c1]
    by_cases c2 : v ≤ 16383
    · rw [c_encodeSdvl_two v (by omega) c2]
    by_cases c3 : v ≤ 2097151
    · rw [c_encodeSdvl_three v (by omega) c3]
    · rw [c_encodeSdvl_four v (by omega) c4]
  · rw [c_encodeSdvl_too_large v (by omega)]
    simp
    omega

/-! ## Claims on SDVL -/

/-- C1: SDVL round trip.  For every integer `v` with `0 ≤ v < 2^29`,
`c_encodeSdvl` (with a non-null destination) succeeds, and `d_sdvalue_decode`
applied to the bytes it wrote, whatever follows them in memory, returns `v`. -/
theorem C1_sdvl_round_trip (v : Int) (h0 : 0 ≤ v) (h1 : v < 536870912) (rest : List Int) :
    (c_encodeSdvl false v).status = true ∧
    d_sdvalue_decode ((c_encodeSdvl false v).written ++ rest) = v :=
  ⟨(c_encodeSdvl_status v).mpr h1, (sdvl_decode_encode v h0 h1 rest).1⟩

/-- Witness of C1 at `v = 2^29 - 1`, the largest value that can be encoded. -/
theorem C1_sdvl_round_trip_witness :
    (0 : Int) ≤ 536870911 ∧ (536870911 : Int) < 536870912 ∧
    (c_encodeSdvl false 536870911).status = true ∧
    d_sdvalue_decode ((c_encodeSdvl false 536870911).written ++ [7]) = 536870911 :=
  ⟨by decide, by decide, C1_sdvl_round_trip 536870911 (by decide) (by decide) [7]⟩

/-- C2: SDVL length agreement.  For every `v` with `0 ≤ v < 2^29`, the number
of bytes `c_encodeSdvl` writes equals `c_bytesSdvl v`, and `d_sdvalue_size`
applied to the bytes written (it reads the first one) returns that same
number. -/
theorem C2_sdvl_length_agreement (v : Int) (h0 : 0 ≤ v) (h1 : v < 536870912)
    (rest : List Int) :
    ((c_encodeSdvl false v).written.length : Int) = c_bytesSdvl v ∧
    d_sdvalue_size ((c_encodeSdvl false v).written ++ rest) = c_bytesSdvl v :=
  ⟨(sdvl_decode_encode v h0 h1 rest).2.2, (sdvl_decode_encode v h0 h1 rest).2.1⟩

/-- Witness of C2 at `v = 16384`, the smallest value that takes 3 bytes. -/
theorem C2_sdvl_length_agreement_witness :
    (0 : Int) ≤ 16384 ∧ (16384 : Int) < 536870912 ∧
    ((c_encodeSdvl false 16384).written.length : Int) = c_bytesSdvl 16384 ∧
    d_sdvalue_size ((c_encodeSdvl false 16384).written ++ []) = c_bytesSdvl 16384 :=
  ⟨by decide, by decide, C2_sdvl_length_agreement 16384 (by decide) (by decide) []⟩

/-- C3, as stated, fails: `c_encodeSdvl` reports success for the negative value
`-1` (it stores the single byte 255), so success is not confined to
`[0, 2^29)`. -/
theorem C3_negative_value_accepted :
    ¬ ((c_encodeSdvl false (-1)).status = true → (0 : Int) ≤ -1 ∧ (-1 : Int) < 536870912) ∧
    c_encodeSdvl false (-1) = ⟨true, [255]⟩ := by
  decide

/-- C3 amended: with a non-null destination, `c_encodeSdvl` reports failure and
writes nothing for every `v ≥ 2^29`, and it reports success exactly for the
values `v < 2^29`: every `v` in `[0, 2^29)` succeeds and there is no lower
bound check. -/
theorem C3_sdvl_encode_domain (v : Int) :
    ((c_encodeSdvl false v).status = true ↔ v < 536870912) ∧
    (536870912 ≤ v → c_encodeSdvl false v = ⟨false, []⟩) :=
  ⟨c_encodeSdvl_status v, fun h => c_encodeSdvl_too_large v (by omega)⟩

/-- Witness of C3 amended at `v = 2^29`, the smallest rejected value. -/
theorem C3_sdvl_encode_domain_witness :
    (536870912 : Int) ≤ 536870912 ∧ c_encodeSdvl false 536870912 = ⟨false, []⟩ :=
  ⟨by decide, (C3_sdvl_encode_domain 536870912).2 (by decide)⟩

/-- C4: `c_bytesSdvl v` is 1 if `v ≤ 127`, 2 if `127 < v ≤ 16383`, 3 if
`16383 < v ≤ 2097151`, 4 if `2097151 < v ≤ 536870911`, and for `v ≥ 2^29` it
is a value outside `1..4` (namely 5). -/
theorem C4_c_bytesSdvl_ranges (v : Int) :
    (v ≤ 127 → c_bytesSdvl v = 1) ∧
    (127 < v → v ≤ 16383 → c_bytesSdvl v = 2) ∧
    (16383 < v → v ≤ 2097151 → c_bytesSdvl v = 3) ∧
    (2097151 < v → v ≤ 536870911 → c_bytesSdvl v = 4) ∧
    (536870912 ≤ v → c_bytesSdvl v = 5 ∧ ¬ (1 ≤ c_bytesSdvl v ∧ c_bytesSdvl v ≤ 4)) := by
  unfold c_bytesSdvl
  refine ⟨fun h => ?_, fun h h1 => ?_, fun h h1 => ?_, fun h h1 => ?_, fun h => ?_⟩
  · simp [h]
  · simp [not_le.mpr h, h1]
  · have h2 : ¬ v ≤ 127 := by omega
    simp [not_le.mpr h, h1, h2]
  · have h2 : ¬ v ≤ 127 := by omega
    have h3 : ¬ v ≤ 16383 := by omega
    simp [not_le.mpr h, h1, h2, h3]
  · have h2 : ¬ v ≤ 127 := by omega
    have h3 : ¬ v ≤ 16383 := by omega
    have h4 : ¬ v ≤ 2097151 := by omega
    have h5 : ¬ v ≤ 536870911 := by omega
    simp [h2, h3, h4, h5]

/-- Witness of C4 on the boundary of each range. -/
theorem C4_c_bytesSdvl_ranges_witness :
    c_bytesSdvl 127 = 1 ∧ c_bytesSdvl 128 = 2 ∧ c_bytesSdvl 16384 = 3 ∧
    c_bytesSdvl 536870911 = 4 ∧
    (c_bytesSdvl 536870912 = 5 ∧ ¬ (1 ≤ c_bytesSdvl 536870912 ∧ c_bytesSdvl 536870912 ≤ 4)) :=
  ⟨(C4_c_bytesSdvl_ranges 127).1 (by decide),
   (C4_c_bytesSdvl_ranges 128).2.1 (by decide) (by decide),
   (C4_c_bytesSdvl_ranges 16384).2.2.1 (by decide) (by decide),
   (C4_c_bytesSdvl_ranges 536870911).2.2.2.1 (by decide) (by decide),
   (C4_c_bytesSdvl_ranges 536870912).2.2.2.2 (by decide)⟩

/-! ## The state machine: general lemmas -/

theorem change_state_state (c : c_context) (s : rohc_c_state) :
    (change_state c s).state = s := by
  unfold change_state
  split_ifs with h
  · rfl
  · simpa using h

theorem change_state_mode (c : c_context) (s : rohc_c_state) :
    (change_state c s).mode = c.mode := by
  unfold change_state
  split_ifs <;> rfl

theorem change_state_same (c : c_context) : change_state c c.state = c := by
  simp [change_state]

theorem change_state_go_back (c : c_context) (s : rohc_c_state) :
    (change_state c s).specific.go_back_fo_count = c.specific.go_back_fo_count ∧
    (change_state c s).specific.go_back_ir_count = c.specific.go_back_ir_count ∧
    (change_state c s).specific.ir_dyn_count = c.specific.ir_dyn_count ∧
    (change_state c s).specific.tmp_variables = c.specific.tmp_variables := by
  unfold change_state
  split_ifs <;> simp

theorem change_state_counts (c : c_context) (s : rohc_c_state) (h : c.state ≠ s) :
    (change_state c s).specific.ir_count = 0 ∧
    (change_state c s).specific.fo_count = 0 ∧
    (change_state c s).specific.so_count = 0 := by
  simp [change_state, h]

/-- The `if` chain of `decide_state` computes the transition rules of the
specification. -/
theorem decide_next_state_eq_spec (L : generic_limits) (c : c_context) :
    decide_next_state L c =
      spec_transition L c.state c.specific.ir_count c.specific.fo_count
        c.specific.tmp_variables.send_static c.specific.tmp_variables.send_dynamic := by
  unfold decide_next_state spec_transition
  cases hs : c.state <;> simp <;> split_ifs <;> simp_all

/-- The state `periodic_down_transition` leaves. -/
theorem periodic_down_transition_state (L : generic_limits) (c : c_context) :
    (periodic_down_transition L c).state =
      if c.specific.go_back_fo_count ≥ L.CHANGE_TO_FO_COUNT then FO
      else if c.specific.go_back_ir_count ≥ L.CHANGE_TO_IR_COUNT then IR
      else c.state := by
  unfold periodic_down_transition
  by_cases h1 : c.specific.go_back_fo_count ≥ L.CHANGE_TO_FO_COUNT
  · simp only [h1, if_true]
    split_ifs <;> simp [change_state_state]
  · by_cases h2 : c.specific.go_back_ir_count ≥ L.CHANGE_TO_IR_COUNT
    · simp only [h1, h2, if_true, if_false]
      split_ifs <;> simp [change_state_state]
    · simp only [h1, h2, if_false]
      split_ifs <;> simp

/-- The state `decide_state` leaves: the transition rules, overridden in
U-mode by a periodic transition that is due. -/
theorem decide_state_state (L : generic_limits) (c : c_context) :
    (decide_state L c).state =
      if c.mode = U_MODE then
        if c.specific.go_back_fo_count ≥ L.CHANGE_TO_FO_COUNT then FO
        else if c.specific.go_back_ir_count ≥ L.CHANGE_TO_IR_COUNT then IR
        else spec_transition L c.state c.specific.ir_count c.specific.fo_count
          c.specific.tmp_variables.send_static c.specific.tmp_variables.send_dynamic
      else spec_transition L c.state c.specific.ir_count c.specific.fo_count
        c.specific.tmp_variables.send_static c.specific.tmp_variables.send_dynamic := by
  unfold decide_state
  simp only [change_state_mode]
  by_cases hm : c.mode = U_MODE
  · simp only [hm, if_true]
    rw [periodic_down_transition_state]
    obtain ⟨h1, h2, -, -⟩ := change_state_go_back c (decide_next_state L c)
    rw [h1, h2, change_state_state, decide_next_state_eq_spec]
  · simp only [hm, if_false]
    rw [change_state_state, decide_next_state_eq_spec]

theorem periodic_down_transition_go_back (L : generic_limits) (c : c_context) :
    (periodic_down_transition L c).mode = c.mode ∧
    ((periodic_down_transition L c).specific.go_back_ir_count = 0 ∨
     (periodic_down_transition L c).specific.go_back_ir_count = 1 ∨
     (periodic_down_transition L c).specific.go_back_ir_count = c.specific.go_back_ir_count ∨
     (periodic_down_transition L c).specific.go_back_ir_count
       = c.specific.go_back_ir_count + 1) := by
  simp only [periodic_down_transition, change_state]
  constructor
  · split_ifs <;> rfl
  · split_ifs <;> simp

theorem periodic_down_transition_counts (L : generic_limits) (c : c_context)
    (h1 : c.specific.ir_count = 0) (h2 : c.specific.fo_count = 0)
    (h3 : c.specific.so_count = 0) :
    (periodic_down_transition L c).specific.ir_count = 0 ∧
    (periodic_down_transition L c).specific.fo_count = 0 ∧
    (periodic_down_transition L c).specific.so_count = 0 := by
  simp only [periodic_down_transition, change_state]
  split_ifs <;> simp [h1, h2, h3]

theorem decide_state_go_back_ir (L : generic_limits) (c : c_context) :
    (decide_state L c).specific.go_back_ir_count = 0 ∨
    (decide_state L c).specific.go_back_ir_count = 1 ∨
    (decide_state L c).specific.go_back_ir_count = c.specific.go_back_ir_count ∨
    (decide_state L c).specific.go_back_ir_count = c.specific.go_back_ir_count + 1 := by
  simp only [decide_state]
  obtain ⟨-, h2, -, -⟩ := change_state_go_back c (decide_next_state L c)
  split_ifs
  · have h := (periodic_down_transition_go_back L (change_state c (decide_next_state L c))).2
    rw [h2] at h
    exact h
  · right; right; left; exact h2

theorem decide_state_mode (L : generic_limits) (c : c_context) :
    (decide_state L c).mode = c.mode := by
  simp only [decide_state]
  split_ifs
  · rw [(periodic_down_transition_go_back L _).1, change_state_mode]
  · rw [change_state_mode]

/-- In state IR, below `MAX_IR_COUNT` and with no periodic transition due,
`decide_state` changes nothing. -/
theorem decide_state_IR_unchanged (L : generic_limits) (c : c_context) (hs : c.state = IR)
    (hc : c.specific.ir_count < L.MAX_IR_COUNT)
    (hp : c.mode = U_MODE →
      c.specific.go_back_fo_count < L.CHANGE_TO_FO_COUNT ∧
      c.specific.go_back_ir_count < L.CHANGE_TO_IR_COUNT) :
    decide_state L c = c := by
  have hn : decide_next_state L c = c.state := by
    rw [decide_next_state_eq_spec, hs]
    simp [spec_transition, not_le.mpr hc]
  simp only [decide_state]
  rw [hn, change_state_same]
  split_ifs with hm
  · obtain ⟨p1, p2⟩ := hp hm
    simp [periodic_down_transition, not_le.mpr p1, not_le.mpr p2, hs]
  · rfl

theorem decide_packet_frame (L : generic_limits) (c : c_context) :
    (decide_packet L c).1.state = c.state ∧ (decide_packet L c).1.mode = c.mode ∧
    (decide_packet L c).1.specific.go_back_fo_count = c.specific.go_back_fo_count ∧
    (decide_packet L c).1.specific.go_back_ir_count = c.specific.go_back_ir_count ∧
    (decide_packet L c).1.specific.tmp_variables = c.specific.tmp_variables ∧
    (decide_packet L c).1.specific.ip_flags = c.specific.ip_flags ∧
    (decide_packet L c).1.specific.ip2_flags = c.specific.ip2_flags := by
  unfold decide_packet
  cases hs : c.state
  · simp [hs]
  · simp only [decide_FO_packet]
    split_ifs <;> simp [hs]
  · simp [hs]

theorem decide_packet_IR (L : generic_limits) (c : c_context) (hs : c.state = IR) :
    (decide_packet L c).2 = PACKET_IR ∧
    (decide_packet L c).1.specific.ir_count = c.specific.ir_count + 1 := by
  unfold decide_packet
  simp [hs]

theorem set_changes_frame (c : c_context) (ss sd : Int) :
    (set_changes c ss sd).state = c.state ∧ (set_changes c ss sd).mode = c.mode ∧
    (set_changes c ss sd).specific.ir_count = c.specific.ir_count ∧
    (set_changes c ss sd).specific.fo_count = c.specific.fo_count ∧
    (set_changes c ss sd).specific.go_back_fo_count = c.specific.go_back_fo_count ∧
    (set_changes c ss sd).specific.go_back_ir_count = c.specific.go_back_ir_count ∧
    (set_changes c ss sd).specific.tmp_variables.send_static = ss ∧
    (set_changes c ss sd).specific.tmp_variables.send_dynamic = sd := by
  simp [set_changes]

/-- The IR phase of a stable flow: after `k ≤ MAX_IR_COUNT` packets the state
is still IR, `ir_count = k`, and only IR packets were sent. -/
theorem feed_stable_IR_phase (L : generic_limits) (c : c_context)
    (hfo : 0 < L.CHANGE_TO_FO_COUNT) (hir : 0 < L.CHANGE_TO_IR_COUNT)
    (hstate : c.state = IR) (hic : c.specific.ir_count = 0)
    (hgf : c.specific.go_back_fo_count = 0) (hgi : c.specific.go_back_ir_count = 0)
    (k : Nat) (hk : (k : Int) ≤ L.MAX_IR_COUNT) :
    (feed_stable L k c).1.state = IR ∧ (feed_stable L k c).1.mode = c.mode ∧
    (feed_stable L k c).1.specific.ir_count = k ∧
    (feed_stable L k c).1.specific.go_back_fo_count = 0 ∧
    (feed_stable L k c).1.specific.go_back_ir_count = 0 ∧
    (feed_stable L k c).2 = List.replicate k PACKET_IR := by
  induction k with
  | zero => simp [feed_stable, hstate, hic, hgf, hgi]
  | succ m ih =>
    have hm : (m : Int) < L.MAX_IR_COUNT := by push_cast at hk; omega
    obtain ⟨i1, i2, i3, i4, i5, i6⟩ := ih (by omega)
    obtain ⟨s1, s2, s3, -, s5, s6, -, -⟩ := set_changes_frame (feed_stable L m c).1 0 0
    have hun : decide_state L (set_changes (feed_stable L m c).1 0 0)
        = set_changes (feed_stable L m c).1 0 0 := by
      apply decide_state_IR_unchanged
      · rw [s1, i1]
      · rw [s3, i3]; exact hm
      · intro _
        rw [s5, s6, i4, i5]
        exact ⟨hfo, hir⟩
    obtain ⟨f1, f2, f3, f4, -, -, -⟩ := decide_packet_frame L (set_changes (feed_stable L m c).1 0 0)
    obtain ⟨p1, p2⟩ := decide_packet_IR L (set_changes (feed_stable L m c).1 0 0) (by rw [s1, i1])
    simp only [feed_stable, encode_step, hun]
    refine ⟨by rw [f1, s1, i1], by rw [f2, s2, i2], ?_, by rw [f3, s5, i4], by rw [f4, s6, i5], ?_⟩
    · rw [p2, s3, i3]; push_cast; rfl
    · rw [p1, i6, List.replicate_succ']

/-! ## Claim on the bits held by the selected format -/

/-- The SN and IP-ID bits of a UO-2 packet with the extension chosen by
`decide_extension`. -/
theorem uo2_extension_bits (L : generic_limits) (c : c_context) (have_outer : Bool)
    (rc rc2 : Int)
    (hsn : c.specific.tmp_variables.nr_sn_bits ≤ 13)
    (hid : c.specific.tmp_variables.nr_ip_id_bits ≤ 16)
    (hid2 : c.specific.tmp_variables.nr_ip_id_bits2 ≤ 16) :
    c.specific.tmp_variables.nr_sn_bits ≤ sn_bits_coded c PACKET_UOR_2 (decide_extension c) ∧
    (c.specific.ip_flags.rnd = 0 →
      (c.specific.tmp_variables.nr_of_ip_hdr = 1 ∨ decide_extension c ≠ PACKET_EXT_3 ∨
        have_outer = true) →
      c.specific.tmp_variables.nr_ip_id_bits
        ≤ outer_ip_id_bits_coded L c PACKET_UOR_2 (decide_extension c) have_outer rc) ∧
    (c.specific.ip2_flags.rnd = 0 → c.specific.tmp_variables.nr_of_ip_hdr ≠ 1 →
      c.specific.tmp_variables.nr_ip_id_bits2
        ≤ inner_ip_id_bits_coded L c PACKET_UOR_2 (decide_extension c) rc2) := by
  refine ⟨?_, ?_, ?_⟩
  · simp only [decide_extension, sn_bits_coded]
    split_ifs <;> dsimp only <;> omega
  · intro hr hcase
    by_cases h1 : c.specific.tmp_variables.nr_of_ip_hdr = 1
    · simp only [decide_extension, outer_ip_id_bits_coded, ext3_ip_id_test, h1, hr, if_true]
      split_ifs <;> first | omega | simp_all
    · generalize hext : decide_extension c = e at hcase ⊢
      simp only [decide_extension, h1, if_false] at hext
      by_cases he : e = PACKET_EXT_3
      · subst he
        have ho : have_outer = true := by simpa [h1] using hcase
        by_cases hp : c.specific.tmp_variables.nr_ip_id_bits > 0
        · simp [outer_ip_id_bits_coded, ext3_ip_id_test, h1, hr, ho, hp, hid]
        · simp only [outer_ip_id_bits_coded]
          split_ifs <;> omega
      · cases e <;> first
          | exact absurd rfl he
          | (simp only [outer_ip_id_bits_coded]
             split_ifs at hext
             omega)
  · intro hr h1
    simp only [decide_extension, inner_ip_id_bits_coded, ext3_ip_id_test, h1, hr, if_false]
    split_ifs <;> first | omega | simp_all

/-- The packet types `decide_SO_packet` returns without an extension hold the
required bits. -/
theorem decide_SO_packet_bits (c : c_context) :
    (decide_SO_packet c = PACKET_UO_0 →
      c.specific.tmp_variables.nr_sn_bits ≤ 4 ∧
      (c.specific.ip_flags.rnd = 0 → c.specific.tmp_variables.nr_ip_id_bits ≤ 0) ∧
      (c.specific.ip2_flags.rnd = 0 → c.specific.tmp_variables.nr_of_ip_hdr ≠ 1 →
        c.specific.tmp_variables.nr_ip_id_bits2 ≤ 0)) ∧
    (decide_SO_packet c = PACKET_UO_1 →
      c.specific.tmp_variables.nr_sn_bits ≤ 5 ∧
      c.specific.tmp_variables.nr_ip_id_bits ≤ 6 ∧
      (c.specific.ip2_flags.rnd = 0 → c.specific.tmp_variables.nr_of_ip_hdr ≠ 1 →
        c.specific.tmp_variables.nr_ip_id_bits2 ≤ 0)) ∧
    decide_SO_packet c ≠ PACKET_IR ∧ decide_SO_packet c ≠ PACKET_IR_DYN := by
  simp only [decide_SO_packet]
  refine ⟨fun h => ?_, fun h => ?_, ?_, ?_⟩
  · split_ifs at h <;> refine ⟨by omega, fun _ => by omega, fun _ _ => by omega⟩
  · split_ifs at h <;> refine ⟨by omega, by omega, fun _ _ => by omega⟩
  · split_ifs <;> decide
  · split_ifs <;> decide

theorem decide_packet_UO (L : generic_limits) (c : c_context)
    (h : (decide_packet L c).2 = PACKET_UO_0 ∨ (decide_packet L c).2 = PACKET_UO_1) :
    (decide_packet L c).2 = decide_SO_packet (decide_packet L c).1 := by
  revert h
  simp only [decide_packet]
  cases hs : c.state
  · simp
  · simp only [decide_FO_packet]
    split_ifs <;> simp
  · simp

/-- C5, as stated, fails: in state SO with one IP header and
`nr_sn_bits = 14` the format chosen is UO-2 with EXT-3, which holds 13 bits of
SN. -/
theorem C5_ext3_holds_13_sn_bits :
    (decide_packet sample_limits
      { state := SO,
        specific := { tmp_variables := { nr_of_ip_hdr := 1, send_static := 0, send_dynamic := 0,
                                         nr_sn_bits := 14, nr_ip_id_bits := 0,
                                         nr_ip_id_bits2 := 0 } } }).2 = PACKET_UOR_2 ∧
    decide_extension (decide_packet sample_limits
      { state := SO,
        specific := { tmp_variables := { nr_of_ip_hdr := 1, send_static := 0, send_dynamic := 0,
                                         nr_sn_bits := 14, nr_ip_id_bits := 0,
                                         nr_ip_id_bits2 := 0 } } }).1 = PACKET_EXT_3 ∧
    sn_bits_coded (decide_packet sample_limits
      { state := SO,
        specific := { tmp_variables := { nr_of_ip_hdr := 1, send_static := 0, send_dynamic := 0,
                                         nr_sn_bits := 14, nr_ip_id_bits := 0,
                                         nr_ip_id_bits2 := 0 } } }).1
      PACKET_UOR_2 PACKET_EXT_3 = 13 ∧
    ¬ ((14 : Int) ≤ 13) := by
  decide

/-- C5 amended: for every context state and all values with
`nr_sn_bits ≤ 13`, `nr_ip_id_bits ≤ 16` and `nr_ip_id_bits2 ≤ 16`, the packet
chosen by `decide_packet` (through `decide_FO_packet` / `decide_SO_packet`)
with the extension chosen by `decide_extension` holds at least `nr_sn_bits`
bits of SN; when the outer RND flag is 0 it holds at least `nr_ip_id_bits`
bits of the outer IP-ID, for one IP header always and for two IP headers
whenever the format is not UO-2 with EXT-3 or the outer header fields are
present in EXT-3 (`have_outer`); and with two IP headers and inner RND flag 0
it holds at least `nr_ip_id_bits2` bits of the inner IP-ID. -/
theorem C5_format_holds_required_bits (L : generic_limits) (c : c_context)
    (have_outer : Bool) (rc rc2 : Int)
    (hsn : c.specific.tmp_variables.nr_sn_bits ≤ 13)
    (hid : c.specific.tmp_variables.nr_ip_id_bits ≤ 16)
    (hid2 : c.specific.tmp_variables.nr_ip_id_bits2 ≤ 16) :
    c.specific.tmp_variables.nr_sn_bits
      ≤ sn_bits_coded (decide_packet L c).1 (decide_packet L c).2
          (decide_extension (decide_packet L c).1) ∧
    (c.specific.ip_flags.rnd = 0 →
      (c.specific.tmp_variables.nr_of_ip_hdr = 1 ∨ (decide_packet L c).2 ≠ PACKET_UOR_2 ∨
        decide_extension (decide_packet L c).1 ≠ PACKET_EXT_3 ∨ have_outer = true) →
      c.specific.tmp_variables.nr_ip_id_bits
        ≤ outer_ip_id_bits_coded L (decide_packet L c).1 (decide_packet L c).2
            (decide_extension (decide_packet L c).1) have_outer rc) ∧
    (c.specific.ip2_flags.rnd = 0 → c.specific.tmp_variables.nr_of_ip_hdr ≠ 1 →
      c.specific.tmp_variables.nr_ip_id_bits2
        ≤ inner_ip_id_bits_coded L (decide_packet L c).1 (decide_packet L c).2
            (decide_extension (decide_packet L c).1) rc2) := by
  obtain ⟨-, -, -, -, ft, f1, f2⟩ := decide_packet_frame L c
  have hso := decide_packet_UO L c
  rw [← ft] at hsn hid hid2
  rw [← ft, ← f1, ← f2]
  clear ft f1 f2
  generalize (decide_packet L c).1 = c1 at *
  generalize hp : (decide_packet L c).2 = p at *
  obtain ⟨e1, e2, e3⟩ := uo2_extension_bits L c1 have_outer rc rc2 hsn hid hid2
  obtain ⟨u0, u1, -, -⟩ := decide_SO_packet_bits c1
  cases p
  · exact ⟨by simp only [sn_bits_coded]; omega,
      fun _ _ => by simp only [outer_ip_id_bits_coded]; omega,
      fun _ _ => by simp only [inner_ip_id_bits_coded]; omega⟩
  · exact ⟨by simp only [sn_bits_coded]; omega,
      fun _ _ => by simp only [outer_ip_id_bits_coded]; omega,
      fun _ _ => by simp only [inner_ip_id_bits_coded]; omega⟩
  · obtain ⟨a1, a2, a3⟩ := u0 (hso (Or.inl rfl)).symm
    exact ⟨by simp only [sn_bits_coded]; omega,
      fun hr _ => by simp only [outer_ip_id_bits_coded]; exact a2 hr,
      fun hr h1 => by simp only [inner_ip_id_bits_coded]; exact a3 hr h1⟩
  · obtain ⟨a1, a2, a3⟩ := u1 (hso (Or.inr rfl)).symm
    exact ⟨by simp only [sn_bits_coded]; omega,
      fun _ _ => by simp only [outer_ip_id_bits_coded]; omega,
      fun hr h1 => by simp only [inner_ip_id_bits_coded]; exact a3 hr h1⟩
  · refine ⟨e1, fun hr hc => e2 hr ?_, e3⟩
    rcases hc with h | h | h | h
    · exact Or.inl h
    · exact absurd rfl h
    · exact Or.inr (Or.inl h)
    · exact Or.inr (Or.inr h)

/-- Witness of C5 amended: in state SO with one IP header, `nr_sn_bits = 7` and
`nr_ip_id_bits = 12`, the format is UO-2 with EXT-3, which holds 13 bits of SN
and the full 16-bit IP-ID. -/
theorem C5_format_holds_required_bits_witness :
    (7 : Int) ≤ sn_bits_coded
      (decide_packet sample_limits
        { state := SO,
          specific := { tmp_variables := { nr_of_ip_hdr := 1, send_static := 0,
                                           send_dynamic := 0, nr_sn_bits := 7,
                                           nr_ip_id_bits := 12, nr_ip_id_bits2 := 0 } } }).1
      PACKET_UOR_2 PACKET_EXT_3 ∧
    (12 : Int) ≤ outer_ip_id_bits_coded sample_limits
      (decide_packet sample_limits
        { state := SO,
          specific := { tmp_variables := { nr_of_ip_hdr := 1, send_static := 0,
                                           send_dynamic := 0, nr_sn_bits := 7,
                                           nr_ip_id_bits := 12, nr_ip_id_bits2 := 0 } } }).1
      PACKET_UOR_2 PACKET_EXT_3 false 4 :=
  have h := C5_format_holds_required_bits sample_limits
      { state := SO,
        specific := { tmp_variables := { nr_of_ip_hdr := 1, send_static := 0,
                                         send_dynamic := 0, nr_sn_bits := 7,
                                         nr_ip_id_bits := 12, nr_ip_id_bits2 := 0 } } }
      false 4 0 (by decide) (by decide) (by decide)
  ⟨h.1, h.2.1 rfl (Or.inl rfl)⟩

/-- With two IP headers, when the outer header fields are absent from EXT-3
(`have_outer` unset) the packet holds no bit of the outer IP-ID, whatever
`nr_ip_id_bits` is: the case the amended C5 leaves out. -/
theorem ext3_two_headers_outer_ip_id_absent :
    decide_extension
      { state := SO,
        specific := { tmp_variables := { nr_of_ip_hdr := 2, send_static := 0, send_dynamic := 0,
                                         nr_sn_bits := 4, nr_ip_id_bits := 2,
                                         nr_ip_id_bits2 := 5 } } } = PACKET_EXT_3 ∧
    outer_ip_id_bits_coded sample_limits
      { state := SO,
        specific := { tmp_variables := { nr_of_ip_hdr := 2, send_static := 0, send_dynamic := 0,
                                         nr_sn_bits := 4, nr_ip_id_bits := 2,
                                         nr_ip_id_bits2 := 5 } } }
      PACKET_UOR_2 PACKET_EXT_3 false 4 = 0 := by
  decide

/-! ## Claims on the state machine -/

/-- C6: state-machine progression.  Start from a fresh context (state IR,
`ir_count = 0`, go_back counters 0, any mode and any other field) and feed packets with `send_static = 0` and
`send_dynamic = 0` through `decide_state ; decide_packet`.  For every
`k ≤ MAX_IR_COUNT`, after `k` packets the state is IR and the `k` packets
emitted are IR packets; after packet number `MAX_IR_COUNT + 1` the state is
SO; and from the SO state so reached a packet with `send_dynamic > 0` moves
the state to FO.  The thresholds of the periodic transitions are assumed
positive (`CHANGE_TO_FO_COUNT > 0`, `CHANGE_TO_IR_COUNT > 1`). -/
theorem C6_state_progression (L : generic_limits) (c : c_context) (n : Nat)
    (hn : (n : Int) = L.MAX_IR_COUNT)
    (hfo : 0 < L.CHANGE_TO_FO_COUNT) (hir : 1 < L.CHANGE_TO_IR_COUNT)
    (hstate : c.state = IR) (hic : c.specific.ir_count = 0)
    (hgf : c.specific.go_back_fo_count = 0) (hgi : c.specific.go_back_ir_count = 0) :
    (∀ k : Nat, k ≤ n →
      (feed_stable L k c).1.state = IR ∧
      (feed_stable L k c).2 = List.replicate k PACKET_IR) ∧
    (feed_stable L (n + 1) c).1.state = SO ∧
    (∀ ss sd : Int, sd > 0 →
      (decide_state L (set_changes (feed_stable L (n + 1) c).1 ss sd)).state = FO) := by
  have hphase := feed_stable_IR_phase L c hfo (by omega) hstate hic hgf hgi
  obtain ⟨i1, -, i3, i4, i5, -⟩ := hphase n (by omega)
  obtain ⟨s1, s2, s3, s4, s5, s6, s7, s8⟩ := set_changes_frame (feed_stable L n c).1 0 0
  -- the state decided for packet `n + 1`
  have hso : (decide_state L (set_changes (feed_stable L n c).1 0 0)).state = SO := by
    rw [decide_state_state, s1, s3, s5, s6, s7, s8, i1, i3, i4, i5, hn]
    have e1 : ¬ (0 : Int) ≥ L.CHANGE_TO_FO_COUNT := by omega
    have e2 : ¬ (0 : Int) ≥ L.CHANGE_TO_IR_COUNT := by omega
    simp [spec_transition, e1, e2]
  have hgb := decide_state_go_back_ir L (set_changes (feed_stable L n c).1 0 0)
  rw [s6, i5] at hgb
  obtain ⟨f1, -, -, f4, -, -, -⟩ :=
    decide_packet_frame L (decide_state L (set_changes (feed_stable L n c).1 0 0))
  have hstep : (feed_stable L (n + 1) c).1
      = (decide_packet L (decide_state L (set_changes (feed_stable L n c).1 0 0))).1 := by
    simp [feed_stable, encode_step]
  refine ⟨fun k hk => ?_, ?_, fun ss sd hsd => ?_⟩
  · obtain ⟨j1, -, -, -, -, j6⟩ := hphase k (by omega)
    exact ⟨j1, j6⟩
  · rw [hstep, f1, hso]
  · obtain ⟨t1, -, -, -, -, t6, -, t8⟩ := set_changes_frame (feed_stable L (n + 1) c).1 ss sd
    rw [decide_state_state, t1, t6, t8, hstep, f1, f4, hso]
    have e2 : ¬ (decide_state L (set_changes (feed_stable L n c).1 0 0)).specific.go_back_ir_count
        ≥ L.CHANGE_TO_IR_COUNT := by
      rcases hgb with h | h | h | h <;> rw [h] <;> omega
    have e3 : sd ≠ 0 := by omega
    simp [spec_transition, e2, e3]

/-- Witness of C6 with the sample thresholds on the context `c_generic_create`
builds, in U-mode. -/
theorem C6_state_progression_witness :
    (feed_stable sample_limits 3 {}).1.state = IR ∧
    (feed_stable sample_limits 3 {}).2 = [PACKET_IR, PACKET_IR, PACKET_IR] ∧
    (feed_stable sample_limits 4 {}).1.state = SO ∧
    (decide_state sample_limits (set_changes (feed_stable sample_limits 4 {}).1 0 1)).state
      = FO :=
  have h := C6_state_progression sample_limits {} 3 (by decide) (by decide) (by decide)
    rfl rfl rfl rfl
  ⟨(h.1 3 (le_refl 3)).1, (h.1 3 (le_refl 3)).2, h.2.1, h.2.2 0 1 (by decide)⟩

/-- C7, as stated, fails: a context in state IR and U-mode with
`ir_count ≥ MAX_IR_COUNT`, no change, and a periodic refresh due
(`go_back_ir_count ≥ CHANGE_TO_IR_COUNT`) is left in IR by `decide_state`, not
moved to SO. -/
theorem C7_periodic_refresh_keeps_IR :
    (decide_state sample_limits
      { mode := U_MODE, state := IR,
        specific := { ir_count := 3, go_back_ir_count := 1700,
                      tmp_variables := { send_static := 0, send_dynamic := 0 } } }).state
      = IR ∧
    (3 : Int) ≥ sample_limits.MAX_IR_COUNT ∧ IR ≠ SO := by
  decide

/-- C7 amended: for every context in state IR: when the mode is not U, or no
periodic transition is due (`go_back_fo_count < CHANGE_TO_FO_COUNT` and
`go_back_ir_count < CHANGE_TO_IR_COUNT`), `decide_state` leaves the state IR
while `ir_count < MAX_IR_COUNT`, and once `ir_count ≥ MAX_IR_COUNT` it moves to
FO if `send_static > 0` or `send_dynamic > 0` and to SO if both are 0; in
U-mode with `go_back_fo_count < CHANGE_TO_FO_COUNT` and
`go_back_ir_count ≥ CHANGE_TO_IR_COUNT` the periodic refresh leaves the state
IR; in U-mode with `go_back_fo_count ≥ CHANGE_TO_FO_COUNT` and
`ir_count ≥ MAX_IR_COUNT` the state is FO. -/
theorem C7_leaving_IR (L : generic_limits) (c : c_context) (hs : c.state = IR) :
    ((c.mode ≠ U_MODE ∨
        (c.specific.go_back_fo_count < L.CHANGE_TO_FO_COUNT ∧
          c.specific.go_back_ir_count < L.CHANGE_TO_IR_COUNT)) →
      (c.specific.ir_count < L.MAX_IR_COUNT → (decide_state L c).state = IR) ∧
      (c.specific.ir_count ≥ L.MAX_IR_COUNT →
        (c.specific.tmp_variables.send_static > 0 ∨
          c.specific.tmp_variables.send_dynamic > 0) →
        (decide_state L c).state = FO) ∧
      (c.specific.ir_count ≥ L.MAX_IR_COUNT →
        c.specific.tmp_variables.send_static = 0 →
        c.specific.tmp_variables.send_dynamic = 0 →
        (decide_state L c).state = SO)) ∧
    (c.mode = U_MODE → c.specific.go_back_fo_count < L.CHANGE_TO_FO_COUNT →
      c.specific.go_back_ir_count ≥ L.CHANGE_TO_IR_COUNT → (decide_state L c).state = IR) ∧
    (c.mode = U_MODE → c.specific.go_back_fo_count ≥ L.CHANGE_TO_FO_COUNT →
      c.specific.ir_count ≥ L.MAX_IR_COUNT → (decide_state L c).state = FO) := by
  rw [decide_state_state, hs]
  refine ⟨fun hp => ?_, fun hm h1 h2 => ?_, fun hm h1 _ => ?_⟩
  · have hrule :
        (if c.mode = U_MODE then
          if c.specific.go_back_fo_count ≥ L.CHANGE_TO_FO_COUNT then FO
          else if c.specific.go_back_ir_count ≥ L.CHANGE_TO_IR_COUNT then IR
          else spec_transition L IR c.specific.ir_count c.specific.fo_count
            c.specific.tmp_variables.send_static c.specific.tmp_variables.send_dynamic
        else spec_transition L IR c.specific.ir_count c.specific.fo_count
          c.specific.tmp_variables.send_static c.specific.tmp_variables.send_dynamic)
        = spec_transition L IR c.specific.ir_count c.specific.fo_count
            c.specific.tmp_variables.send_static c.specific.tmp_variables.send_dynamic := by
      rcases hp with hp | ⟨p1, p2⟩
      · simp [hp]
      · simp [not_le.mpr p1, not_le.mpr p2]
    rw [hrule]
    refine ⟨fun h1 => ?_, fun h1 h2 => ?_, fun h1 h2 h3 => ?_⟩
    · simp [spec_transition, not_le.mpr h1]
    · have : c.specific.tmp_variables.send_static ≠ 0 ∨
          c.specific.tmp_variables.send_dynamic ≠ 0 := by omega
      simp [spec_transition, h1, this]
    · simp [spec_transition, h1, h2, h3]
  · simp [hm, not_le.mpr h1, h2]
  · simp [hm, h1]

/-- Witness of C7 amended: in U-mode with no periodic transition due, a context
in IR with `ir_count = MAX_IR_COUNT` and one changed dynamic field moves to
FO. -/
theorem C7_leaving_IR_witness :
    (decide_state sample_limits
      { mode := U_MODE, state := IR,
        specific := { ir_count := 3,
                      tmp_variables := { send_static := 0, send_dynamic := 1 } } }).state
      = FO :=
  ((C7_leaving_IR sample_limits
      { mode := U_MODE, state := IR,
        specific := { ir_count := 3,
                      tmp_variables := { send_static := 0, send_dynamic := 1 } } }
      rfl).1 (Or.inr ⟨by decide, by decide⟩)).2.1 (by decide) (Or.inr (by decide))

/-- C8, as stated, fails: a context in state FO and U-mode with
`fo_count ≥ MAX_FO_COUNT`, no change, and a periodic refresh due
(`go_back_ir_count ≥ CHANGE_TO_IR_COUNT`) ends in IR, not in SO. -/
theorem C8_periodic_refresh_overrides_SO :
    (decide_state sample_limits
      { mode := U_MODE, state := FO,
        specific := { fo_count := 3, go_back_fo_count := 250, go_back_ir_count := 1700,
                      tmp_variables := { send_static := 0, send_dynamic := 0 } } }).state
      = IR ∧
    (3 : Int) ≥ sample_limits.MAX_FO_COUNT ∧ IR ≠ SO := by
  decide

/-- C8 amended: for every context in state FO with `send_static = 0` and
`send_dynamic = 0`: if `fo_count ≥ MAX_FO_COUNT`, `decide_state` resets
`ir_count`, `fo_count` and `so_count` to 0 and moves the state to SO, unless
the mode is U and a periodic transition is due, in which case the state is FO
(`go_back_fo_count ≥ CHANGE_TO_FO_COUNT`) or IR (otherwise, with
`go_back_ir_count ≥ CHANGE_TO_IR_COUNT`); and for every context in state FO
with `fo_count < MAX_FO_COUNT` the state is not SO afterwards. -/
theorem C8_FO_to_SO (L : generic_limits) (c : c_context) (hs : c.state = FO) :
    (c.specific.fo_count ≥ L.MAX_FO_COUNT →
      c.specific.tmp_variables.send_static = 0 →
      c.specific.tmp_variables.send_dynamic = 0 →
      (decide_state L c).specific.ir_count = 0 ∧
      (decide_state L c).specific.fo_count = 0 ∧
      (decide_state L c).specific.so_count = 0 ∧
      (decide_state L c).state =
        if c.mode = U_MODE ∧ c.specific.go_back_fo_count ≥ L.CHANGE_TO_FO_COUNT then FO
        else if c.mode = U_MODE ∧ c.specific.go_back_ir_count ≥ L.CHANGE_TO_IR_COUNT then IR
        else SO) ∧
    (c.specific.fo_count < L.MAX_FO_COUNT → (decide_state L c).state ≠ SO) := by
  constructor
  · intro h1 h2 h3
    have hn : decide_next_state L c = SO := by
      rw [decide_next_state_eq_spec, hs]
      simp [spec_transition, h1, h2, h3]
    obtain ⟨k1, k2, k3⟩ := change_state_counts c SO (by rw [hs]; decide)
    refine ⟨?_, ?_, ?_, ?_⟩
    · simp only [decide_state, hn]
      split_ifs
      · exact (periodic_down_transition_counts L _ k1 k2 k3).1
      · exact k1
    · simp only [decide_state, hn]
      split_ifs
      · exact (periodic_down_transition_counts L _ k1 k2 k3).2.1
      · exact k2
    · simp only [decide_state, hn]
      split_ifs
      · exact (periodic_down_transition_counts L _ k1 k2 k3).2.2
      · exact k3
    · rw [decide_state_state, hs]
      by_cases hm : c.mode = U_MODE
      · simp only [hm, if_true, true_and]
        split_ifs <;> simp [spec_transition, h1, h2, h3]
      · simp [hm, spec_transition, h1, h2, h3]
  · intro h1
    rw [decide_state_state, hs]
    have e : ¬ c.specific.fo_count ≥ L.MAX_FO_COUNT := not_le.mpr h1
    split_ifs <;> simp [spec_transition, e]

/-- Witness of C8 amended: in O-mode a context in FO with
`fo_count = MAX_FO_COUNT` and no change moves to SO with its three counters
reset. -/
theorem C8_FO_to_SO_witness :
    (decide_state sample_limits
      { mode := O_MODE, state := FO,
        specific := { fo_count := 3,
                      tmp_variables := { send_static := 0, send_dynamic := 0 } } }).state
      = SO ∧
    (decide_state sample_limits
      { mode := O_MODE, state := FO,
        specific := { fo_count := 3,
                      tmp_variables := { send_static := 0, send_dynamic := 0 } } }).specific.fo_count
      = 0 :=
  have h := (C8_FO_to_SO sample_limits
      { mode := O_MODE, state := FO,
        specific := { fo_count := 3,
                      tmp_variables := { send_static := 0, send_dynamic := 0 } } } rfl).1
      (by decide) rfl rfl
  ⟨h.2.2.2, h.2.1⟩

/-- C9, as stated, fails: a context in state SO and U-mode with a changed
dynamic field and a periodic refresh due
(`go_back_ir_count ≥ CHANGE_TO_IR_COUNT`) ends in IR, not in FO. -/
theorem C9_periodic_refresh_overrides_FO :
    (decide_state sample_limits
      { mode := U_MODE, state := SO,
        specific := { so_count := 40, go_back_fo_count := 300, go_back_ir_count := 1700,
                      tmp_variables := { send_static := 0, send_dynamic := 1 } } }).state
      = IR ∧
    ((0 : Int) > 0 ∨ (1 : Int) > 0) ∧ IR ≠ FO := by
  decide

/-- C9 amended: for every context in state SO or FO, if `send_static > 0` or
`send_dynamic > 0` then after `decide_state` the state is FO, except in U-mode
when the periodic refresh is due (`go_back_ir_count ≥ CHANGE_TO_IR_COUNT` with
`go_back_fo_count < CHANGE_TO_FO_COUNT`), in which case the state is IR. -/
theorem C9_change_forces_FO (L : generic_limits) (c : c_context)
    (hs : c.state = SO ∨ c.state = FO)
    (hc : c.specific.tmp_variables.send_static > 0 ∨
      c.specific.tmp_variables.send_dynamic > 0) :
    (decide_state L c).state =
      if c.mode = U_MODE ∧ c.specific.go_back_fo_count < L.CHANGE_TO_FO_COUNT ∧
          c.specific.go_back_ir_count ≥ L.CHANGE_TO_IR_COUNT then IR
      else FO := by
  have hne : c.specific.tmp_variables.send_static ≠ 0 ∨
      c.specific.tmp_variables.send_dynamic ≠ 0 := by omega
  have hsp : spec_transition L c.state c.specific.ir_count c.specific.fo_count
      c.specific.tmp_variables.send_static c.specific.tmp_variables.send_dynamic = FO := by
    rcases hs with h | h <;> simp [spec_transition, h, hne]
  rw [decide_state_state, hsp]
  by_cases hm : c.mode = U_MODE
  · by_cases h1 : c.specific.go_back_fo_count ≥ L.CHANGE_TO_FO_COUNT
    · simp [hm, h1, not_lt.mpr h1]
    · by_cases h2 : c.specific.go_back_ir_count ≥ L.CHANGE_TO_IR_COUNT
      · simp [hm, h1, h2, not_le.mp h1]
      · simp [hm, h1, h2]
  · simp [hm]

/-- Witness of C9 amended: in U-mode with no periodic refresh due, a context in
SO with one changed dynamic field moves to FO. -/
theorem C9_change_forces_FO_witness :
    (decide_state sample_limits
      { mode := U_MODE, state := SO,
        specific := { go_back_fo_count := 5, go_back_ir_count := 5,
                      tmp_variables := { send_static := 0, send_dynamic := 1 } } }).state
      = FO :=
  C9_change_forces_FO sample_limits
    { mode := U_MODE, state := SO,
      specific := { go_back_fo_count := 5, go_back_ir_count := 5,
                    tmp_variables := { send_static := 0, send_dynamic := 1 } } }
    (Or.inl rfl) (Or.inr (by decide))

/-- C10: periodic transitions happen in U-mode only.  For every context whose
mode is O or R, `decide_state` leaves `go_back_fo_count`, `go_back_ir_count`
and `ir_dyn_count` unchanged, and the state it leaves is the one the IR/FO/SO
transition rules of the specification give on
`(state, ir_count, fo_count, send_static, send_dynamic)`. -/
theorem C10_no_periodic_transition_outside_U (L : generic_limits) (c : c_context)
    (hm : c.mode = O_MODE ∨ c.mode = R_MODE) :
    (decide_state L c).specific.go_back_fo_count = c.specific.go_back_fo_count ∧
    (decide_state L c).specific.go_back_ir_count = c.specific.go_back_ir_count ∧
    (decide_state L c).specific.ir_dyn_count = c.specific.ir_dyn_count ∧
    (decide_state L c).state =
      spec_transition L c.state c.specific.ir_count c.specific.fo_count
        c.specific.tmp_variables.send_static c.specific.tmp_variables.send_dynamic := by
  have hu : c.mode ≠ U_MODE := by
    rcases hm with h | h <;> rw [h] <;> decide
  obtain ⟨g1, g2, g3, -⟩ := change_state_go_back c (decide_next_state L c)
  have hd : decide_state L c = change_state c (decide_next_state L c) := by
    simp [decide_state, change_state_mode, hu]
  rw [hd, change_state_state, decide_next_state_eq_spec]
  rw [decide_next_state_eq_spec] at g1 g2 g3
  exact ⟨g1, g2, g3, rfl⟩

/-- Witness of C10: in R-mode a context in SO with both go_back counters past
their thresholds and no change stays in SO with the counters untouched. -/
theorem C10_no_periodic_transition_outside_U_witness :
    (decide_state sample_limits
      { mode := R_MODE, state := SO,
        specific := { go_back_fo_count := 800, go_back_ir_count := 1800,
                      tmp_variables := { send_static := 0, send_dynamic := 0 } } }).state
      = SO ∧
    (decide_state sample_limits
      { mode := R_MODE, state := SO,
        specific := { go_back_fo_count := 800, go_back_ir_count := 1800,
                      tmp_variables := { send_static := 0, send_dynamic := 0 } }
      }).specific.go_back_fo_count = 800 :=
  have h := C10_no_periodic_transition_outside_U sample_limits
      { mode := R_MODE, state := SO,
        specific := { go_back_fo_count := 800, go_back_ir_count := 1800,
                      tmp_variables := { send_static := 0, send_dynamic := 0 } } }
      (Or.inr rfl)
  ⟨h.2.2.2, h.1⟩

/-! ## Claim on the periodic transitions -/

/-- Whenever `go_back_fo_count ≥ CHANGE_TO_FO_COUNT`, `periodic_down_transition`
leaves the state FO, whatever the state was: a context in IR is moved up. -/
theorem periodic_down_transition_from_IR (L : generic_limits) (c : c_context)
    (h : c.specific.go_back_fo_count ≥ L.CHANGE_TO_FO_COUNT) :
    (periodic_down_transition L c).state = FO := by
  rw [periodic_down_transition_state, if_pos h]

/-- C11: the code at the failing input.  A context in state IR (in U-mode, with
`ir_count = 0`) whose `go_back_fo_count` has reached `CHANGE_TO_FO_COUNT` is
moved by `periodic_down_transition` to FO, a higher state than IR; and
`decide_state` on that context ends in FO as well. -/
theorem C11_periodic_transition_moves_IR_up :
    (periodic_down_transition sample_limits
      { mode := U_MODE, state := IR, specific := { go_back_fo_count := 700 } }).state = FO ∧
    (decide_state sample_limits
      { mode := U_MODE, state := IR,
        specific := { go_back_fo_count := 700,
                      tmp_variables := { send_static := 0, send_dynamic := 0 } } }).state
      = FO := by
  decide

/-! ## The option loop of the feedback -/

theorem int_and_15_range (x : Int) : 0 ≤ int_and x 0x0f ∧ int_and x 0x0f ≤ 15 := by
  have h15 : to_u32 0x0f = 15 := by decide
  have hle : to_u32 x &&& 15 ≤ 15 := Nat.and_le_right
  unfold int_and
  rw [h15, of_u32_of_lt _ (by omega)]
  omega

theorem feedback2_option_remaining (v : feedback2_vars) :
    (feedback2_option v).remaining ≤ v.remaining - 1 := by
  obtain ⟨h0, -⟩ := int_and_15_range (byte_at v.data v.p)
  simp only [feedback2_option]
  split_ifs <;> (try dsimp only) <;> omega

/-- The option loop stops because `remaining ≤ 0`, never for lack of fuel,
when it is started with at least `remaining` turns. -/
theorem feedback2_options_done (fuel : Nat) (v : feedback2_vars)
    (h : v.remaining ≤ fuel) : (feedback2_options fuel v).remaining ≤ 0 := by
  induction fuel generalizing v with
  | zero => simpa [feedback2_options] using h
  | succ n ih =>
    simp only [feedback2_options]
    split_ifs with hr
    · apply ih
      have := feedback2_option_remaining v
      push_cast at h
      omega
    · omega

theorem feedback2_parse_done (fb : c_feedback) : (feedback2_parse fb).remaining ≤ 0 := by
  simp only [feedback2_parse]
  apply feedback2_options_done
  exact Int.self_le_toNat _

/-! ## Claims on the feedback -/

theorem feedback_ack_windows_frame (c : c_context) (sn : Int) :
    (feedback_ack_windows c sn).mode = c.mode ∧
    (feedback_ack_windows c sn).state = c.state ∧
    (feedback_ack_windows c sn).specific.ip2_flags = c.specific.ip2_flags ∧
    (feedback_ack_windows c sn).specific.sn_window = c_ack_sn_wlsb c.specific.sn_window sn ∧
    (feedback_ack_windows c sn).specific.ip_flags.ip_id_window
      = c_ack_sn_wlsb c.specific.ip_flags.ip_id_window sn := by
  simp [feedback_ack_windows]

/-- With a FEEDBACK-2 whose CRC option, if any, verifies, `c_generic_feedback`
is the mode change followed by the switch on the acknowledgement type. -/
theorem c_generic_feedback_two (crc_calculate : Int → List Int → Int → Int) (c : c_context)
    (fb : c_feedback) (ht : fb.type = 2)
    (hcrc : (feedback2_parse fb).crc_used ≠ 0 →
      crc_calculate CRC_TYPE_8 (feedback2_parse fb).data fb.size = (feedback2_parse fb).crc) :
    c_generic_feedback crc_calculate c fb =
      feedback2_acktype
        (feedback2_change_mode c (int_and (int_shr (byte_at fb.data fb.specific_offset) 4) 3)
          (feedback2_parse fb).crc_used)
        fb.acktype (feedback2_parse fb).sn (feedback2_parse fb).sn_not_valid := by
  have h1 : ¬ (2 : Int) = 1 := by decide
  have hno : ¬ ((feedback2_parse fb).crc_used ≠ 0 ∧
      crc_calculate CRC_TYPE_8 (feedback2_parse fb).data fb.size ≠ (feedback2_parse fb).crc) :=
    fun h => h.2 (hcrc h.1)
  simp only [c_generic_feedback, ht, h1, hno, if_true, if_false]

/-- With a FEEDBACK-2 whose CRC option does not verify, `c_generic_feedback`
returns before it touches the context. -/
theorem c_generic_feedback_crc_failure (crc_calculate : Int → List Int → Int → Int)
    (c : c_context) (fb : c_feedback) (ht : fb.type = 2)
    (hu : (feedback2_parse fb).crc_used ≠ 0)
    (hc : crc_calculate CRC_TYPE_8 (feedback2_parse fb).data fb.size
      ≠ (feedback2_parse fb).crc) :
    c_generic_feedback crc_calculate c fb = c := by
  have h1 : ¬ (2 : Int) = 1 := by decide
  simp only [c_generic_feedback, ht, h1, if_false, if_true]
  rw [if_pos ⟨hu, hc⟩]

theorem feedback2_change_mode_none (c : c_context) (mode crc_used : Int)
    (h : mode = 0 ∨ crc_used = 0) : feedback2_change_mode c mode crc_used = c := by
  simp only [feedback2_change_mode]
  rcases h with h | h <;> simp [h]

/-- After the mode change the state is IR if it was IR; if it was not, either
the context is unchanged or the state is IR with the three counters reset. -/
theorem feedback2_change_mode_state (c : c_context) (mode crc_used : Int) :
    (c.state = IR → (feedback2_change_mode c mode crc_used).state = IR) ∧
    (c.state ≠ IR →
      (feedback2_change_mode c mode crc_used = c ∨
        ((feedback2_change_mode c mode crc_used).state = IR ∧
          (feedback2_change_mode c mode crc_used).specific.ir_count = 0 ∧
          (feedback2_change_mode c mode crc_used).specific.fo_count = 0 ∧
          (feedback2_change_mode c mode crc_used).specific.so_count = 0))) := by
  simp only [feedback2_change_mode, change_mode, change_state]
  split_ifs <;> simp_all

theorem feedback2_acktype_mode (c : c_context) (a : feedback_ack) (sn snv : Int) :
    (feedback2_acktype c a sn snv).mode = c.mode := by
  cases a <;> simp only [feedback2_acktype, change_state, feedback_ack_windows] <;>
    split_ifs <;> rfl

theorem feedback2_acktype_inner_window (c : c_context) (a : feedback_ack) (sn snv : Int) :
    (feedback2_acktype c a sn snv).specific.ip2_flags = c.specific.ip2_flags := by
  cases a <;> simp only [feedback2_acktype, change_state, feedback_ack_windows] <;>
    split_ifs <;> rfl

/-- C12, as stated, fails: a context in state IR that receives a FEEDBACK-2
NACK (mode field 0, no option) stays in IR and keeps its `ir_dyn_count`. -/
theorem C12_nack_in_IR_changes_nothing :
    (c_generic_feedback (fun _ _ _ => 0) { state := IR, specific := { ir_dyn_count := 2 } }
      { type := 2, data := [0x40, 5], size := 2, specific_size := 2,
        acktype := feedback_ack.NACK }).state = IR ∧
    (c_generic_feedback (fun _ _ _ => 0) { state := IR, specific := { ir_dyn_count := 2 } }
      { type := 2, data := [0x40, 5], size := 2, specific_size := 2,
        acktype := feedback_ack.NACK }).specific.ir_dyn_count = 2 ∧
    IR ≠ FO ∧ (2 : Int) ≠ 0 := by
  decide

/-- C12 amended: for every context in state SO or FO, after
`c_generic_feedback` processes a FEEDBACK-2 whose ack type is NACK, that
requests no mode change and whose CRC option (if any) verifies, the context
state is FO and `ir_dyn_count` is 0; a context in state IR is left
unchanged. -/
theorem C12_nack_feedback (crc_calculate : Int → List Int → Int → Int) (c : c_context)
    (fb : c_feedback) (ht : fb.type = 2) (ha : fb.acktype = feedback_ack.NACK)
    (hm : int_and (int_shr (byte_at fb.data fb.specific_offset) 4) 3 = 0)
    (hcrc : (feedback2_parse fb).crc_used ≠ 0 →
      crc_calculate CRC_TYPE_8 (feedback2_parse fb).data fb.size = (feedback2_parse fb).crc) :
    ((c.state = SO ∨ c.state = FO) →
      (c_generic_feedback crc_calculate c fb).state = FO ∧
      (c_generic_feedback crc_calculate c fb).specific.ir_dyn_count = 0) ∧
    (c.state = IR → c_generic_feedback crc_calculate c fb = c) := by
  rw [c_generic_feedback_two crc_calculate c fb ht hcrc, ha,
    feedback2_change_mode_none c _ _ (Or.inl hm)]
  refine ⟨fun h => ?_, fun h => ?_⟩
  · rcases h with h | h
    · simp [feedback2_acktype, h, change_state_state]
    · simp [feedback2_acktype, h]
  · simp [feedback2_acktype, h]

/-- Witness of C12 amended: a context in SO that receives a FEEDBACK-2 NACK
(mode field 0, no option) moves to FO with `ir_dyn_count = 0`. -/
theorem C12_nack_feedback_witness :
    (c_generic_feedback (fun _ _ _ => 0) { state := SO, specific := { ir_dyn_count := 3 } }
      { type := 2, data := [0x40, 5], size := 2, specific_size := 2,
        acktype := feedback_ack.NACK }).state = FO ∧
    (c_generic_feedback (fun _ _ _ => 0) { state := SO, specific := { ir_dyn_count := 3 } }
      { type := 2, data := [0x40, 5], size := 2, specific_size := 2,
        acktype := feedback_ack.NACK }).specific.ir_dyn_count = 0 :=
  (C12_nack_feedback (fun _ _ _ => 0) { state := SO, specific := { ir_dyn_count := 3 } }
      { type := 2, data := [0x40, 5], size := 2, specific_size := 2,
        acktype := feedback_ack.NACK } rfl rfl (by decide) (fun h => absurd rfl h)).1
    (Or.inl rfl)

/-- C13: STATIC-NACK feedback.  For every context state and every mode field,
after `c_generic_feedback` processes a FEEDBACK-2 with ack type STATIC-NACK
whose CRC option (if any) verifies, the context state is IR, and if the state
was not already IR then `ir_count`, `fo_count` and `so_count` are 0. -/
theorem C13_static_nack_feedback (crc_calculate : Int → List Int → Int → Int) (c : c_context)
    (fb : c_feedback) (ht : fb.type = 2) (ha : fb.acktype = feedback_ack.STATIC_NACK)
    (hcrc : (feedback2_parse fb).crc_used ≠ 0 →
      crc_calculate CRC_TYPE_8 (feedback2_parse fb).data fb.size = (feedback2_parse fb).crc) :
    (c_generic_feedback crc_calculate c fb).state = IR ∧
    (c.state ≠ IR →
      (c_generic_feedback crc_calculate c fb).specific.ir_count = 0 ∧
      (c_generic_feedback crc_calculate c fb).specific.fo_count = 0 ∧
      (c_generic_feedback crc_calculate c fb).specific.so_count = 0) := by
  rw [c_generic_feedback_two crc_calculate c fb ht hcrc, ha]
  simp only [feedback2_acktype]
  refine ⟨change_state_state _ _, fun h => ?_⟩
  obtain ⟨-, hs⟩ := feedback2_change_mode_state c
    (int_and (int_shr (byte_at fb.data fb.specific_offset) 4) 3) (feedback2_parse fb).crc_used
  rcases hs h with e | ⟨e1, e2, e3, e4⟩
  · rw [e]
    exact change_state_counts c IR h
  · have hsame := change_state_same (feedback2_change_mode c
      (int_and (int_shr (byte_at fb.data fb.specific_offset) 4) 3)
      (feedback2_parse fb).crc_used)
    rw [e1] at hsame
    rw [hsame]
    exact ⟨e2, e3, e4⟩

/-- Witness of C13: a context in SO with nonzero counters that receives a
FEEDBACK-2 STATIC-NACK (mode field 0, no option) moves to IR with the three
counters reset. -/
theorem C13_static_nack_feedback_witness :
    (c_generic_feedback (fun _ _ _ => 0)
      { state := SO, specific := { so_count := 12, go_back_fo_count := 12 } }
      { type := 2, data := [0x80, 5], size := 2, specific_size := 2,
        acktype := feedback_ack.STATIC_NACK }).state = IR ∧
    (c_generic_feedback (fun _ _ _ => 0)
      { state := SO, specific := { so_count := 12, go_back_fo_count := 12 } }
      { type := 2, data := [0x80, 5], size := 2, specific_size := 2,
        acktype := feedback_ack.STATIC_NACK }).specific.so_count = 0 :=
  have h := C13_static_nack_feedback (fun _ _ _ => 0)
      { state := SO, specific := { so_count := 12, go_back_fo_count := 12 } }
      { type := 2, data := [0x80, 5], size := 2, specific_size := 2,
        acktype := feedback_ack.STATIC_NACK } rfl rfl (fun h => absurd rfl h)
  ⟨h.1, (h.2 (by decide)).2.2⟩

theorem feedback2_change_mode_inner_window (c : c_context) (mode crc_used : Int) :
    (feedback2_change_mode c mode crc_used).specific.ip2_flags = c.specific.ip2_flags := by
  simp only [feedback2_change_mode, change_mode, change_state]
  split_ifs <;> rfl

/-- No feedback changes the header info of the inner IP header, its W-LSB
window included: `c_generic_feedback` never acknowledges on that window. -/
theorem c_generic_feedback_inner_window (crc_calculate : Int → List Int → Int → Int)
    (c : c_context) (fb : c_feedback) :
    (c_generic_feedback crc_calculate c fb).specific.ip2_flags = c.specific.ip2_flags := by
  simp only [c_generic_feedback]
  split_ifs
  · exact (feedback_ack_windows_frame c _).2.2.1
  · rfl
  · rw [feedback2_acktype_inner_window, feedback2_change_mode_inner_window]
  · rfl

/-- C14: the code at the failing input.  A context with an initialised inner
header whose three windows hold references sent at SN 3 and SN 9 receives a
FEEDBACK-1 that acknowledges SN 5, and then a FEEDBACK-2 ACK for SN 5: the SN
window and the outer IP-ID window lose the reference of SN 3, the inner IP-ID
window keeps it, although `ack(5)` removes it. -/
theorem C14_inner_window_not_acknowledged :
    (c_generic_feedback (fun _ _ _ => 0)
      { state := SO,
        specific := { is_ip2_initialized := 1, sn_window := [⟨3, 3⟩, ⟨9, 9⟩],
                      ip_flags := { ip_id_window := [⟨3, 70⟩, ⟨9, 71⟩] },
                      ip2_flags := { ip_id_window := [⟨3, 50⟩, ⟨9, 51⟩] } } }
      { type := 1, data := [5], size := 1, specific_size := 1 }).specific
      = { is_ip2_initialized := 1, sn_window := [⟨9, 9⟩],
          ip_flags := { ip_id_window := [⟨9, 71⟩] },
          ip2_flags := { ip_id_window := [⟨3, 50⟩, ⟨9, 51⟩] } } ∧
    (c_generic_feedback (fun _ _ _ => 0)
      { state := SO,
        specific := { is_ip2_initialized := 1, sn_window := [⟨3, 3⟩, ⟨9, 9⟩],
                      ip_flags := { ip_id_window := [⟨3, 70⟩, ⟨9, 71⟩] },
                      ip2_flags := { ip_id_window := [⟨3, 50⟩, ⟨9, 51⟩] } } }
      { type := 2, data := [0, 5], size := 2, specific_size := 2,
        acktype := feedback_ack.ACK }).specific
      = { is_ip2_initialized := 1, sn_window := [⟨9, 9⟩],
          ip_flags := { ip_id_window := [⟨9, 71⟩] },
          ip2_flags := { ip_id_window := [⟨3, 50⟩, ⟨9, 51⟩] } } ∧
    c_ack_sn_wlsb [⟨3, 50⟩, ⟨9, 51⟩] 5 = [⟨9, 51⟩] := by
  decide

/-- C15: feedback CRC failure is atomic for the context.  For every FEEDBACK-2
that carries a CRC option (`crc_used` is set by the option loop) whose value
differs from the CRC-8 computed over the feedback, `c_generic_feedback`
returns the context unchanged, whatever the ack type and the mode field are;
and for every FEEDBACK-2 without a CRC option the mode of the context is
unchanged, whatever mode the feedback requests. -/
theorem C15_feedback_crc_failure_atomic (crc_calculate : Int → List Int → Int → Int)
    (c : c_context) (fb : c_feedback) (ht : fb.type = 2) :
    ((feedback2_parse fb).crc_used ≠ 0 →
      crc_calculate CRC_TYPE_8 (feedback2_parse fb).data fb.size ≠ (feedback2_parse fb).crc →
      c_generic_feedback crc_calculate c fb = c) ∧
    ((feedback2_parse fb).crc_used = 0 →
      (c_generic_feedback crc_calculate c fb).mode = c.mode) := by
  refine ⟨fun hu hc => c_generic_feedback_crc_failure crc_calculate c fb ht hu hc, fun hu => ?_⟩
  rw [c_generic_feedback_two crc_calculate c fb ht (fun h => absurd hu h),
    feedback2_acktype_mode, feedback2_change_mode_none c _ _ (Or.inr hu)]

/-- Witness of C15: a FEEDBACK-2 STATIC-NACK that requests R-mode with a CRC
option of value 0x77, while the CRC computed is 0, leaves a context in SO and
U-mode unchanged; the same feedback without the CRC option leaves the mode
U. -/
theorem C15_feedback_crc_failure_atomic_witness :
    c_generic_feedback (fun _ _ _ => 0)
      { mode := U_MODE, state := SO, specific := { so_count := 12 } }
      { type := 2, data := [0xb0, 5, 0x11, 0x77], size := 4, specific_size := 4,
        acktype := feedback_ack.STATIC_NACK }
      = { mode := U_MODE, state := SO, specific := { so_count := 12 } } ∧
    (c_generic_feedback (fun _ _ _ => 0)
      { mode := U_MODE, state := SO, specific := { so_count := 12 } }
      { type := 2, data := [0xb0, 5], size := 2, specific_size := 2,
        acktype := feedback_ack.STATIC_NACK }).mode = U_MODE :=
  ⟨(C15_feedback_crc_failure_atomic (fun _ _ _ => 0)
      { mode := U_MODE, state := SO, specific := { so_count := 12 } }
      { type := 2, data := [0xb0, 5, 0x11, 0x77], size := 4, specific_size := 4,
        acktype := feedback_ack.STATIC_NACK } rfl).1 (by decide) (by decide),
   (C15_feedback_crc_failure_atomic (fun _ _ _ => 0)
      { mode := U_MODE, state := SO, specific := { so_count := 12 } }
      { type := 2, data := [0xb0, 5], size := 2, specific_size := 2,
        acktype := feedback_ack.STATIC_NACK } rfl).2 (by decide)⟩

/-! ## Claims on the packet and extension selection -/

/-- C16, the code at the failing input: with `ir_dyn_count ≥ MAX_FO_COUNT`,
one IP header, `send_dynamic = 3 > 2` and a changed static field
(`send_static = 1`), `decide_FO_packet` returns UO-2, not IR-DYN: the branch
`else if(send_static)` comes before the tests of `send_dynamic`. -/
theorem C16_static_change_selects_UO2 :
    (decide_FO_packet sample_limits
      { state := FO,
        specific := { ir_dyn_count := 3,
                      tmp_variables := { nr_of_ip_hdr := 1, send_static := 1,
                                         send_dynamic := 3 } } }).2 = PACKET_UOR_2 ∧
    ¬ ((3 : Int) < sample_limits.MAX_FO_COUNT) ∧ (3 : Int) > 2 ∧
    PACKET_UOR_2 ≠ PACKET_IR_DYN := by
  decide

/-- What `decide_FO_packet` returns, branch by branch: it returns IR-DYN and
increments `ir_dyn_count` (nothing else) while `ir_dyn_count < MAX_FO_COUNT`;
otherwise it leaves the context unchanged and returns UO-2 if `send_static` is
nonzero, and if `send_static = 0` it returns UO-2 unless `send_dynamic > 2`
with one IP header or `send_dynamic > 4` with more than one IP header, in
which case it returns IR-DYN. -/
theorem decide_FO_packet_selection (L : generic_limits) (c : c_context) :
    (c.specific.ir_dyn_count < L.MAX_FO_COUNT →
      decide_FO_packet L c =
        ({ c with specific := { c.specific with ir_dyn_count := c.specific.ir_dyn_count + 1 } },
         PACKET_IR_DYN)) ∧
    (¬ c.specific.ir_dyn_count < L.MAX_FO_COUNT →
      (decide_FO_packet L c).1 = c ∧
      (c.specific.tmp_variables.send_static ≠ 0 → (decide_FO_packet L c).2 = PACKET_UOR_2) ∧
      (c.specific.tmp_variables.send_static = 0 →
        (decide_FO_packet L c).2 =
          if (c.specific.tmp_variables.nr_of_ip_hdr = 1 ∧
                c.specific.tmp_variables.send_dynamic > 2) ∨
              (c.specific.tmp_variables.nr_of_ip_hdr > 1 ∧
                c.specific.tmp_variables.send_dynamic > 4)
          then PACKET_IR_DYN else PACKET_UOR_2)) := by
  refine ⟨fun h => ?_, fun h => ⟨?_, fun hs => ?_, fun hs => ?_⟩⟩
  · simp [decide_FO_packet, h]
  · simp only [decide_FO_packet, h, if_false]
    split_ifs <;> rfl
  · simp [decide_FO_packet, h, hs]
  · simp only [decide_FO_packet, h, hs, if_false, ne_eq, not_true_eq_false]
    split_ifs <;> first | rfl | (exfalso; omega)

/-- Two values of `decide_FO_packet`: with `ir_dyn_count = 1 < MAX_FO_COUNT`
the packet is IR-DYN and `ir_dyn_count` becomes 2; with `ir_dyn_count = 3`, no static
change, one IP header and `send_dynamic = 3` the packet is IR-DYN. -/
theorem decide_FO_packet_selection_example :
    decide_FO_packet sample_limits { state := FO, specific := { ir_dyn_count := 1 } } =
      ({ state := FO, specific := { ir_dyn_count := 2 } }, PACKET_IR_DYN) ∧
    (decide_FO_packet sample_limits
      { state := FO,
        specific := { ir_dyn_count := 3,
                      tmp_variables := { nr_of_ip_hdr := 1, send_static := 0,
                                         send_dynamic := 3 } } }).2 = PACKET_IR_DYN :=
  ⟨(decide_FO_packet_selection sample_limits
      { state := FO, specific := { ir_dyn_count := 1 } }).1 (by decide),
   ((decide_FO_packet_selection sample_limits
      { state := FO,
        specific := { ir_dyn_count := 3,
                      tmp_variables := { nr_of_ip_hdr := 1, send_static := 0,
                                         send_dynamic := 3 } } }).2 (by decide)).2.2 rfl⟩

/-- C17: SO packet selection with one IP header.  For every `nr_sn_bits`,
`nr_ip_id_bits` and RND flag, `decide_SO_packet` returns UO-0 if
`nr_sn_bits ≤ 4` and (`rnd = 1` or `nr_ip_id_bits = 0`); else UO-2 if
`nr_sn_bits = 5` and `nr_ip_id_bits = 0`; else UO-1 if `nr_sn_bits ≤ 5` and
`nr_ip_id_bits ≤ 6`; else UO-2.  It never returns IR or IR-DYN. -/
theorem C17_SO_packet_one_header (c : c_context)
    (h1 : c.specific.tmp_variables.nr_of_ip_hdr = 1) :
    decide_SO_packet c =
      (if c.specific.tmp_variables.nr_sn_bits ≤ 4 ∧
          (c.specific.ip_flags.rnd = 1 ∨ c.specific.tmp_variables.nr_ip_id_bits = 0)
        then PACKET_UO_0
      else if c.specific.tmp_variables.nr_sn_bits = 5 ∧
          c.specific.tmp_variables.nr_ip_id_bits = 0 then PACKET_UOR_2
      else if c.specific.tmp_variables.nr_sn_bits ≤ 5 ∧
          c.specific.tmp_variables.nr_ip_id_bits ≤ 6 then PACKET_UO_1
      else PACKET_UOR_2) ∧
    decide_SO_packet c ≠ PACKET_IR ∧ decide_SO_packet c ≠ PACKET_IR_DYN := by
  obtain ⟨-, -, n1, n2⟩ := decide_SO_packet_bits c
  refine ⟨?_, n1, n2⟩
  simp only [decide_SO_packet, h1, if_true]
  split_ifs <;> first | rfl | (exfalso; omega)

/-- Witness of C17: with one IP header, `rnd = 0`, `nr_sn_bits = 5` and
`nr_ip_id_bits = 4` the packet is UO-1. -/
theorem C17_SO_packet_one_header_witness :
    decide_SO_packet
      { state := SO,
        specific := { tmp_variables := { nr_of_ip_hdr := 1, nr_sn_bits := 5,
                                         nr_ip_id_bits := 4 } } } = PACKET_UO_1 :=
  (C17_SO_packet_one_header
      { state := SO,
        specific := { tmp_variables := { nr_of_ip_hdr := 1, nr_sn_bits := 5,
                                         nr_ip_id_bits := 4 } } } rfl).1

/-- C18: extension selection with one IP header.  `decide_extension` returns
EXT_3 whenever `send_static > 0` or `send_dynamic > 0`; otherwise NOEXT if
`nr_sn_bits < 5` and (`nr_ip_id_bits = 0` or `rnd = 1`); otherwise EXT_0 if
`nr_sn_bits ≤ 8` and `nr_ip_id_bits ≤ 3`; otherwise EXT_1 if `nr_sn_bits ≤ 8`
and `nr_ip_id_bits ≤ 11`; otherwise EXT_3. -/
theorem C18_extension_one_header (c : c_context)
    (h1 : c.specific.tmp_variables.nr_of_ip_hdr = 1) :
    decide_extension c =
      if c.specific.tmp_variables.send_static > 0 ∨
          c.specific.tmp_variables.send_dynamic > 0 then PACKET_EXT_3
      else if c.specific.tmp_variables.nr_sn_bits < 5 ∧
          (c.specific.tmp_variables.nr_ip_id_bits = 0 ∨ c.specific.ip_flags.rnd = 1)
        then PACKET_NOEXT
      else if c.specific.tmp_variables.nr_sn_bits ≤ 8 ∧
          c.specific.tmp_variables.nr_ip_id_bits ≤ 3 then PACKET_EXT_0
      else if c.specific.tmp_variables.nr_sn_bits ≤ 8 ∧
          c.specific.tmp_variables.nr_ip_id_bits ≤ 11 then PACKET_EXT_1
      else PACKET_EXT_3 := by
  simp only [decide_extension, h1, if_true]
  split_ifs <;> first | rfl | (exfalso; omega)

/-- Witness of C18: with one IP header, no change, `nr_sn_bits = 6` and
`nr_ip_id_bits = 7` the extension is EXT_1. -/
theorem C18_extension_one_header_witness :
    decide_extension
      { state := SO,
        specific := { tmp_variables := { nr_of_ip_hdr := 1, send_static := 0, send_dynamic := 0,
                                         nr_sn_bits := 6, nr_ip_id_bits := 7 } } }
      = PACKET_EXT_1 :=
  C18_extension_one_header
      { state := SO,
        specific := { tmp_variables := { nr_of_ip_hdr := 1, send_static := 0, send_dynamic := 0,
                                         nr_sn_bits := 6, nr_ip_id_bits := 7 } } } rfl

/-- C19: EXT_2 is for two headers only.  `decide_extension` never returns
EXT_2 when `nr_of_ip_hdr = 1`; when it returns EXT_2 there is no static or
dynamic change (neither count is positive), `nr_sn_bits ≤ 3`,
`nr_ip_id_bits ≤ 11` and `nr_ip_id_bits2 ≤ 8`; conversely, with two IP
headers, no change, `nr_sn_bits ≤ 3`, `nr_ip_id_bits ≤ 11`,
`0 < nr_ip_id_bits2 ≤ 8` and inner `rnd = 0`, it returns EXT_2. -/
theorem C19_extension_EXT2 (c : c_context) :
    (c.specific.tmp_variables.nr_of_ip_hdr = 1 → decide_extension c ≠ PACKET_EXT_2) ∧
    (decide_extension c = PACKET_EXT_2 →
      ¬ (c.specific.tmp_variables.send_static > 0 ∨
          c.specific.tmp_variables.send_dynamic > 0) ∧
      c.specific.tmp_variables.nr_sn_bits ≤ 3 ∧
      c.specific.tmp_variables.nr_ip_id_bits ≤ 11 ∧
      c.specific.tmp_variables.nr_ip_id_bits2 ≤ 8) ∧
    (c.specific.tmp_variables.nr_of_ip_hdr = 2 →
      c.specific.tmp_variables.send_static = 0 →
      c.specific.tmp_variables.send_dynamic = 0 →
      c.specific.tmp_variables.nr_sn_bits ≤ 3 →
      c.specific.tmp_variables.nr_ip_id_bits ≤ 11 →
      0 < c.specific.tmp_variables.nr_ip_id_bits2 →
      c.specific.tmp_variables.nr_ip_id_bits2 ≤ 8 →
      c.specific.ip2_flags.rnd = 0 →
      decide_extension c = PACKET_EXT_2) := by
  refine ⟨fun h1 => ?_, fun h => ?_, fun h2 hs hd a1 a2 a3 a4 hr => ?_⟩
  · simp only [decide_extension, h1, if_true]
    split_ifs <;> decide
  · simp only [decide_extension] at h
    split_ifs at h
    refine ⟨by assumption, ?_, ?_, ?_⟩ <;> omega
  · have n1 : ¬ c.specific.tmp_variables.nr_of_ip_hdr = 1 := by omega
    have n2 : ¬ c.specific.tmp_variables.nr_ip_id_bits2 = 0 := by omega
    simp [decide_extension, n1, n2, hs, hd, hr, a1, a2, a4]

/-- Witness of C19: with two IP headers, no change, `nr_sn_bits = 3`,
`nr_ip_id_bits = 11`, `nr_ip_id_bits2 = 8` and inner `rnd = 0` the extension
is EXT_2, and the bounds are read back from that result. -/
theorem C19_extension_EXT2_witness :
    decide_extension
      { state := SO,
        specific := { tmp_variables := { nr_of_ip_hdr := 2, send_static := 0, send_dynamic := 0,
                                         nr_sn_bits := 3, nr_ip_id_bits := 11,
                                         nr_ip_id_bits2 := 8 } } } = PACKET_EXT_2 ∧
    (3 : Int) ≤ 3 :=
  have h := C19_extension_EXT2
      { state := SO,
        specific := { tmp_variables := { nr_of_ip_hdr := 2, send_static := 0, send_dynamic := 0,
                                         nr_sn_bits := 3, nr_ip_id_bits := 11,
                                         nr_ip_id_bits2 := 8 } } }
  ⟨h.2.2 rfl rfl rfl (by decide) (by decide) (by decide) (by decide) rfl,
   (h.2.1 (h.2.2 rfl rfl rfl (by decide) (by decide) (by decide) (by decide) rfl)).2.1⟩

/-! ## Claim on the IP-ID behaviour -/

theorem nat_shiftLeft_and (a b k : Nat) : (a <<< k) &&& (b <<< k) = (a &&& b) <<< k := by
  apply Nat.eq_of_testBit_eq
  intro i
  simp only [Nat.testBit_and, Nat.testBit_shiftLeft]
  cases decide (i ≥ k) <;> simp

theorem int_and_65535 (a : Int) (h0 : 0 ≤ a) (h1 : a < 2147483648) :
    int_and a 65535 = a % 65536 := by
  simpa using int_and_low_mask a 16 h0 h1 (by norm_num)

/-- The byte swap of a 16-bit value, in arithmetic. -/
theorem swap_bytes_eq (x : Int) (h0 : 0 ≤ x) (h1 : x ≤ 65535) :
    swap_bytes x = x / 256 + x % 256 * 256 := by
  obtain ⟨n, rfl⟩ := Int.eq_ofNat_of_zero_le h0
  have hn : n ≤ 65535 := by exact_mod_cast h1
  have hshl : int_shl (n : Int) 8 = ((n * 256 : Nat) : Int) := by
    rw [int_shl_of_nonneg _ _ h0 (by norm_num; omega)]; norm_num
  have hmask : int_and ((n * 256 : Nat) : Int) 0xff00 = ((n % 256 * 256 : Nat) : Int) := by
    unfold int_and
    rw [to_u32_of_nonneg _ (by positivity) (by omega),
      to_u32_of_nonneg _ (by norm_num) (by norm_num)]
    simp only [Int.toNat_ofNat]
    have e1 : n * 256 = n <<< 8 := by rw [Nat.shiftLeft_eq]
    have e2 : (Int.toNat 0xff00) = 255 <<< 8 := by decide
    rw [e1, e2, nat_shiftLeft_and,
      show (255 : Nat) = 2 ^ 8 - 1 from rfl, Nat.and_pow_two_sub_one_eq_mod, Nat.shiftLeft_eq,
      of_u32_of_lt _ (by omega)]
  have hshr : int_shr (n : Int) 8 = ((n / 256 : Nat) : Int) := by
    simp [int_shr]
  unfold swap_bytes
  rw [hshl, hmask, hshr]
  have hcomm : int_or ((n / 256 : Nat) : Int) ((n % 256 * 256 : Nat) : Int)
      = int_or ((n % 256 * 256 : Nat) : Int) ((n / 256 : Nat) : Int) := by
    unfold int_or
    rw [Nat.lor_comm]
  rw [hcomm, int_or_disjoint _ _ 8 (Int.natCast_nonneg _) (Int.natCast_nonneg _)
    ⟨((n % 256 : Nat) : Int), by push_cast; ring⟩ (by norm_num; omega) (by omega)]
  push_cast
  omega

theorem swap_bytes_range (x : Int) (h0 : 0 ≤ x) (h1 : x ≤ 65535) :
    0 ≤ swap_bytes x ∧ swap_bytes x ≤ 65535 := by
  rw [swap_bytes_eq x h0 h1]
  omega

/-- The test `check_ip_identification` applies to a pair of 16-bit values
(c_generic.c:2774-2777 and 2788-2791) holds exactly when the difference
modulo `2^16` lies strictly between 0 and `IPID_MAX_DELTA`. -/
theorem ip_id_test_iff (D a b : Int) (hD : D ≤ 65536) (ha0 : 0 ≤ a) (ha1 : a ≤ 65535)
    (hb0 : 0 ≤ b) (hb1 : b ≤ 65535) :
    (((b - a) < D ∧ (b - a) > 0) ∨ ((a + D) > 0xffff ∧ b < int_and (a + D) 0xffff)) ↔
      (0 < (b - a) % 65536 ∧ (b - a) % 65536 < D) := by
  by_cases hw : a + D > 65535
  · have e : int_and (a + D) 0xffff = (a + D) % 65536 :=
      int_and_65535 _ (by omega) (by omega)
    rw [e]
    constructor
    · rintro (h | h) <;> omega
    · intro h
      by_cases hlt : a < b
      · left; omega
      · right; omega
  · have hw2 : ¬ a + D > 0xffff := hw
    constructor
    · rintro (h | h)
      · omega
      · exact absurd h.1 hw2
    · intro h
      left
      omega
/-- The value `check_ip_identification` computes for `nbo`, in terms of the
differences modulo `2^16` of the host-order values and of the byte-swapped
values. -/
theorem check_ip_identification_nbo_eq (D a b : Int) (hD : D ≤ 65536)
    (ha0 : 0 ≤ a) (ha1 : a ≤ 65535) (hb0 : 0 ≤ b) (hb1 : b ≤ 65535) :
    check_ip_identification_nbo D a b =
      if 0 < (b - a) % 65536 ∧ (b - a) % 65536 < D then 1
      else if 0 < (swap_bytes b - swap_bytes a) % 65536 ∧
          (swap_bytes b - swap_bytes a) % 65536 < D then 0
      else -1 := by
  have t1 := ip_id_test_iff D a b hD ha0 ha1 hb0 hb1
  obtain ⟨sa0, sa1⟩ := swap_bytes_range a ha0 ha1
  obtain ⟨sb0, sb1⟩ := swap_bytes_range b hb0 hb1
  have t2 := ip_id_test_iff D (swap_bytes a) (swap_bytes b) hD sa0 sa1 sb0 sb1
  simp only [check_ip_identification_nbo]
  by_cases h1 : 0 < (b - a) % 65536 ∧ (b - a) % 65536 < D
  · rw [if_pos h1]
    rcases t1.mpr h1 with h | h
    · simp [h]
    · by_cases h' : (b - a) < D ∧ (b - a) > 0
      · simp [h']
      · simp [h', h]
  · rw [if_neg h1]
    have n1 : ¬ ((b - a) < D ∧ (b - a) > 0) := fun h => h1 (t1.mp (Or.inl h))
    have n2 : ¬ ((a + D) > 0xffff ∧ b < int_and (a + D) 0xffff) :=
      fun h => h1 (t1.mp (Or.inr h))
    rw [if_neg n1, if_neg n2]
    by_cases h2 : 0 < (swap_bytes b - swap_bytes a) % 65536 ∧
        (swap_bytes b - swap_bytes a) % 65536 < D
    · rw [if_pos h2]
      rcases t2.mpr h2 with h | h
      · simp [h]
      · by_cases h' : (swap_bytes b - swap_bytes a) < D ∧ (swap_bytes b - swap_bytes a) > 0
        · simp [h']
        · simp [h', h]
    · rw [if_neg h2]
      have m1 : ¬ ((swap_bytes b - swap_bytes a) < D ∧ (swap_bytes b - swap_bytes a) > 0) :=
        fun h => h2 (t2.mp (Or.inl h))
      have m2 : ¬ ((swap_bytes a + D) > 0xffff ∧
          swap_bytes b < int_and (swap_bytes a + D) 0xffff) :=
        fun h => h2 (t2.mp (Or.inr h))
      rw [if_pos rfl, if_neg m1, if_neg m2]

/-- C20, as stated, fails: with `IPID_MAX_DELTA = 20`, a previous IP-ID of 100
and a new IP-ID of 120 in host order (delta `= IPID_MAX_DELTA`),
`check_ip_identification` sets RND = 1. -/
theorem C20_delta_equal_to_max_is_random :
    ntohs 25600 = 100 ∧ ntohs 30720 = 120 ∧ (120 : Int) - 100 = 20 ∧
    (check_ip_identification 20 { old_ip := { id := 25600 } } { id := 30720 }).rnd = 1 ∧
    ((1 : Int) ≠ 0) := by
  decide

/-- C20 amended: for every pair of 16-bit IP-IDs (previous, new) and
`IPID_MAX_DELTA ≤ 2^16`, `check_ip_identification` sets NBO = 1 and RND = 0
whenever the host-order delta new - old, taken modulo `2^16`, lies strictly
between 0 and `IPID_MAX_DELTA` (so a delta equal to `IPID_MAX_DELTA` is
excluded); otherwise it sets NBO = 0 and RND = 0 if the byte-swapped values
have a delta, modulo `2^16`, strictly between 0 and `IPID_MAX_DELTA`;
otherwise it sets RND = 1 and leaves NBO as it was. -/
theorem C20_ip_id_detection (D : Int) (header_info : ip_header_info) (ip : iphdr)
    (hD : D ≤ 65536)
    (ho0 : 0 ≤ header_info.old_ip.id) (ho1 : header_info.old_ip.id ≤ 65535)
    (hn0 : 0 ≤ ip.id) (hn1 : ip.id ≤ 65535) :
    (0 < (ntohs ip.id - ntohs header_info.old_ip.id) % 65536 ∧
        (ntohs ip.id - ntohs header_info.old_ip.id) % 65536 < D →
      (check_ip_identification D header_info ip).nbo = 1 ∧
      (check_ip_identification D header_info ip).rnd = 0) ∧
    (¬ (0 < (ntohs ip.id - ntohs header_info.old_ip.id) % 65536 ∧
        (ntohs ip.id - ntohs header_info.old_ip.id) % 65536 < D) →
      (0 < (swap_bytes (ntohs ip.id) - swap_bytes (ntohs header_info.old_ip.id)) % 65536 ∧
        (swap_bytes (ntohs ip.id) - swap_bytes (ntohs header_info.old_ip.id)) % 65536 < D →
        (check_ip_identification D header_info ip).nbo = 0 ∧
        (check_ip_identification D header_info ip).rnd = 0) ∧
      (¬ (0 < (swap_bytes (ntohs ip.id) - swap_bytes (ntohs header_info.old_ip.id)) % 65536 ∧
        (swap_bytes (ntohs ip.id) - swap_bytes (ntohs header_info.old_ip.id)) % 65536 < D) →
        (check_ip_identification D header_info ip).rnd = 1 ∧
        (check_ip_identification D header_info ip).nbo = header_info.nbo)) := by
  obtain ⟨a0, a1⟩ := swap_bytes_range _ ho0 ho1
  obtain ⟨b0, b1⟩ := swap_bytes_range _ hn0 hn1
  have hnbo := check_ip_identification_nbo_eq D (ntohs header_info.old_ip.id) (ntohs ip.id) hD
    a0 a1 b0 b1
  simp only [check_ip_identification, hnbo]
  refine ⟨fun h => ?_, fun h => ⟨fun h2 => ?_, fun h2 => ?_⟩⟩
  · simp [h]
  · simp [h, h2]
  · simp [h, h2]

/-- Witness of C20 amended: with `IPID_MAX_DELTA = 20`, a previous IP-ID of 100
and a new IP-ID of 119 in host order, the result is NBO = 1 and RND = 0. -/
theorem C20_ip_id_detection_witness :
    (check_ip_identification 20 { old_ip := { id := 25600 } } { id := 30464 }).nbo = 1 ∧
    (check_ip_identification 20 { old_ip := { id := 25600 } } { id := 30464 }).rnd = 0 :=
  (C20_ip_id_detection 20 { old_ip := { id := 25600 } } { id := 30464 } (by decide)
    (by decide) (by decide) (by decide) (by decide)).1 (by decide)

/-! ## More lemmas on the C integer operators -/

/-- The mask `2^k - 1` keeps the remainder modulo `2^k`, whatever the sign of
the operand. -/
theorem int_and_mask (x : Int) (k : Nat) (hk : k ≤ 31) :
    int_and x ((2 : Int) ^ k - 1) = x % 2 ^ k := by
  have hpos : 0 < (2 : Nat) ^ k := Nat.pow_pos (by norm_num)
  have hpow : (2 : Nat) ^ k ≤ 2 ^ 31 := Nat.pow_le_pow_right (by norm_num) hk
  have hm : ((2 : Int) ^ k - 1) = ((2 ^ k - 1 : Nat) : Int) := by
    rw [Nat.cast_sub hpos]; simp
  have hx0 : 0 ≤ x % 4294967296 := Int.emod_nonneg _ (by norm_num)
  unfold int_and
  rw [hm, to_u32_of_nonneg ((2 ^ k - 1 : Nat) : Int) (by positivity) (by omega)]
  simp only [Int.toNat_ofNat]
  rw [Nat.and_pow_two_sub_one_eq_mod, of_u32_of_lt]
  · unfold to_u32
    have hdvd : ((2 : Int) ^ k) ∣ 4294967296 := by
      refine ⟨2 ^ (32 - k), ?_⟩
      rw [← pow_add]
      have : k + (32 - k) = 32 := by omega
      rw [this]; norm_num
    push_cast
    rw [Int.toNat_of_nonneg hx0, Int.emod_emod_of_dvd _ hdvd]
  · have := Nat.mod_lt (to_u32 x) hpos
    omega

theorem int_and_0xff (x : Int) : int_and x 0xff = x % 256 := by
  simpa using int_and_mask x 8 (by norm_num)

theorem int_and_0x3f (x : Int) : int_and x 0x3f = x % 64 := by
  simpa using int_and_mask x 6 (by norm_num)

theorem int_and_0x1f (x : Int) : int_and x 0x1f = x % 32 := by
  simpa using int_and_mask x 5 (by norm_num)

theorem int_and_0x0f (x : Int) : int_and x 0x0f = x % 16 := by
  simpa using int_and_mask x 4 (by norm_num)

/-! ## The SDVL decoder on every first byte -/

set_option maxRecDepth 8000 in
theorem sdvl_discriminator : ∀ n : Nat, n < 256 →
    (GET_BIT_7 (n : Int) = 0 ↔ (n : Int) / 128 = 0) ∧
    (GET_BIT_6_7 (n : Int) = 2 ↔ (n : Int) / 64 = 2) ∧
    (GET_BIT_5_7 (n : Int) = 6 ↔ (n : Int) / 32 = 6) ∧
    (GET_BIT_5_7 (n : Int) = 7 ↔ (n : Int) / 32 = 7) ∧
    GET_BIT_0_6 (n : Int) = (n : Int) % 128 ∧ GET_BIT_0_5 (n : Int) = (n : Int) % 64 ∧
    GET_BIT_0_4 (n : Int) = (n : Int) % 32 := by
  decide

/-- C25: `d_sdvalue_size` returns 1, 2, 3 or 4 for every first byte in
0..255: 1 when the top bit is 0, 2 when the top bits are 10, 3 when they are
110 and 4 when they are 111, and never -1; `d_sdvalue_decode` never returns
-1 on such data and its result lies in `[0, 2^29)`, where `2^29 = 536870912`. -/
theorem C25_sdvl_decoder_total (data : List Int)
    (h0 : 0 ≤ byte_at data 0) (h1 : byte_at data 0 < 256) :
    (byte_at data 0 / 128 = 0 → d_sdvalue_size data = 1) ∧
    (byte_at data 0 / 64 = 2 → d_sdvalue_size data = 2) ∧
    (byte_at data 0 / 32 = 6 → d_sdvalue_size data = 3) ∧
    (byte_at data 0 / 32 = 7 → d_sdvalue_size data = 4) ∧
    1 ≤ d_sdvalue_size data ∧ d_sdvalue_size data ≤ 4 ∧
    d_sdvalue_decode data ≠ -1 ∧
    0 ≤ d_sdvalue_decode data ∧ d_sdvalue_decode data < 536870912 := by
  obtain ⟨n, hn⟩ := Int.eq_ofNat_of_zero_le h0
  have hn1 : n < 256 := by rw [hn] at h1; exact_mod_cast h1
  obtain ⟨d7, d67, d6, d57, e6, e5, e4⟩ := sdvl_discriminator n hn1
  rw [← hn] at d7 d67 d6 d57 e6 e5 e4
  have hs2 : int_shr 0x8 2 = 2 := by decide
  have hs3 : int_shr 0xc 1 = 6 := by decide
  have hs4 : int_shr 0xe 1 = 7 := by decide
  have b1 : GET_BIT_0_7 (byte_at data 1) = byte_at data 1 % 256 := int_and_0xff _
  have b2 : GET_BIT_0_7 (byte_at data 2) = byte_at data 2 % 256 := int_and_0xff _
  have b3 : GET_BIT_0_7 (byte_at data 3) = byte_at data 3 % 256 := int_and_0xff _
  have r1 : 0 ≤ byte_at data 1 % 256 ∧ byte_at data 1 % 256 < 256 := by omega
  have r2 : 0 ≤ byte_at data 2 % 256 ∧ byte_at data 2 % 256 < 256 := by omega
  have r3 : 0 ≤ byte_at data 3 % 256 ∧ byte_at data 3 % 256 < 256 := by omega
  simp only [d_sdvalue_size, d_sdvalue_decode, hs2, hs3, hs4, b1, b2, b3, e6, e5, e4, d7, d67,
    d6, d57]
  generalize byte_at data 0 = b at *
  generalize byte_at data 1 % 256 = x1 at *
  generalize byte_at data 2 % 256 = x2 at *
  generalize byte_at data 3 % 256 = x3 at *
  have sh8 : ∀ a : Int, 0 ≤ a → a < 256 → int_shl a 8 = a * 256 := fun a ha hb => by
    rw [int_shl_of_nonneg _ _ ha (by norm_num; omega)]; norm_num
  have sh16 : ∀ a : Int, 0 ≤ a → a < 256 → int_shl a 16 = a * 65536 := fun a ha hb => by
    rw [int_shl_of_nonneg _ _ ha (by norm_num; omega)]; norm_num
  have sh24 : ∀ a : Int, 0 ≤ a → a < 32 → int_shl a 24 = a * 16777216 := fun a ha hb => by
    rw [int_shl_of_nonneg _ _ ha (by norm_num; omega)]; norm_num
  clear d7 d67 d6 d57 e6 e5 e4 hn b1 b2 b3
  by_cases c1 : b / 128 = 0
  · simp only [c1, if_true]
    refine ⟨?_, ?_, ?_, ?_, ?_, ?_, ?_, ?_, ?_⟩ <;> first | omega | (intro h; first | exact h.elim | exact trivial)
  by_cases c2 : b / 64 = 2
  · have o1 : int_or (b % 64 * 256) x1 = b % 64 * 256 + x1 :=
      int_or_disjoint _ _ 8 (by omega) (by omega) (Dvd.intro_left (b % 64) (by norm_num))
        (by norm_num; omega) (by omega)
    simp only [c1, c2, if_true, if_false]
    rw [sh8 _ (by omega) (by omega), o1]
    refine ⟨?_, ?_, ?_, ?_, ?_, ?_, ?_, ?_, ?_⟩ <;> first | omega | (intro h; first | exact h.elim | exact trivial)
  by_cases c3 : b / 32 = 6
  · have o1 : int_or (b % 32 * 65536) (x1 * 256) = b % 32 * 65536 + x1 * 256 :=
      int_or_disjoint _ _ 16 (by omega) (by omega) (Dvd.intro_left (b % 32) (by norm_num))
        (by norm_num; omega) (by omega)
    have o2 : int_or (b % 32 * 65536 + x1 * 256) x2 = b % 32 * 65536 + x1 * 256 + x2 :=
      int_or_disjoint _ _ 8 (by omega) (by omega)
        (Dvd.intro_left (b % 32 * 256 + x1) (by norm_num; ring)) (by norm_num; omega) (by omega)
    simp only [c1, c2, c3, if_true, if_false]
    rw [sh16 _ (by omega) (by omega), sh8 _ r1.1 r1.2, o1, o2]
    refine ⟨?_, ?_, ?_, ?_, ?_, ?_, ?_, ?_, ?_⟩ <;> first | omega | (intro h; first | exact h.elim | exact trivial)
  have c4 : b / 32 = 7 := by omega
  have o1 : int_or (b % 32 * 16777216) (x1 * 65536) = b % 32 * 16777216 + x1 * 65536 :=
    int_or_disjoint _ _ 24 (by omega) (by omega) (Dvd.intro_left (b % 32) (by norm_num))
      (by norm_num; omega) (by omega)
  have o2 : int_or (b % 32 * 16777216 + x1 * 65536) (x2 * 256)
      = b % 32 * 16777216 + x1 * 65536 + x2 * 256 :=
    int_or_disjoint _ _ 16 (by omega) (by omega)
      (Dvd.intro_left (b % 32 * 256 + x1) (by norm_num; ring)) (by norm_num; omega) (by omega)
  have o3 : int_or (b % 32 * 16777216 + x1 * 65536 + x2 * 256) x3
      = b % 32 * 16777216 + x1 * 65536 + x2 * 256 + x3 :=
    int_or_disjoint _ _ 8 (by omega) (by omega)
      (Dvd.intro_left (b % 32 * 65536 + x1 * 256 + x2) (by norm_num; ring)) (by norm_num; omega)
      (by omega)
  simp only [c1, c2, c3, if_false, if_pos c4]
  rw [sh24 _ (by omega) (by omega), sh16 _ r1.1 r1.2, sh8 _ r2.1 r2.2, o1, o2, o3]
  refine ⟨?_, ?_, ?_, ?_, ?_, ?_, ?_, ?_, ?_⟩ <;> first | omega | (intro h; first | exact h.elim | exact trivial)

/-- C25 at a concrete input: the 4-byte encoding `e1 02 03 04` has size 4. -/
theorem C25_sdvl_decoder_total_witness :
    (0 : Int) ≤ byte_at [0xe1, 2, 3, 4] 0 ∧ byte_at [0xe1, 2, 3, 4] 0 < 256 ∧
    d_sdvalue_size [0xe1, 2, 3, 4] = 4 ∧ d_sdvalue_decode [0xe1, 2, 3, 4] < 536870912 :=
  ⟨by decide, by decide,
    (C25_sdvl_decoder_total [0xe1, 2, 3, 4] (by decide) (by decide)).2.2.2.1 (by decide),
    (C25_sdvl_decoder_total [0xe1, 2, 3, 4] (by decide) (by decide)).2.2.2.2.2.2.2.2⟩

theorem nat_and_not_df (n : Nat) (h : n < 65536) :
    n &&& 4294950911 = 0 ↔ (n % 16384 = 0 ∧ n / 32768 = 0) := by
  have h1 : n &&& 65535 = n := by
    rw [show (65535 : Nat) = 2 ^ 16 - 1 from rfl, Nat.and_pow_two_sub_one_eq_mod,
      Nat.mod_eq_of_lt h]
  have h2 : n &&& 4294950911 = n &&& 49151 := by
    calc n &&& 4294950911 = (n &&& 65535) &&& 4294950911 := by rw [h1]
      _ = n &&& (65535 &&& 4294950911) := by rw [Nat.and_assoc]
      _ = n &&& 49151 := by rfl
  have h3 : n &&& 49151 = (n % 2 ^ 14) ||| ((n.testBit 15).toNat * 2 ^ 15) := by
    rw [show (49151 : Nat) = (2 ^ 14 - 1) ||| 2 ^ 15 from rfl, Nat.and_or_distrib_left,
      Nat.and_pow_two_sub_one_eq_mod, Nat.and_two_pow]
  have h4 : n.testBit 15 = decide (n / 2 ^ 15 % 2 = 1) := Nat.testBit_to_div_mod
  have hlt : n % 2 ^ 14 < 2 ^ 15 := by
    have := Nat.mod_lt n (show 0 < 2 ^ 14 by norm_num)
    omega
  have h5 : (n % 2 ^ 14) ||| ((n.testBit 15).toNat * 2 ^ 15)
      = 2 ^ 15 * (n.testBit 15).toNat + n % 2 ^ 14 := by
    rw [Nat.mul_add_lt_is_or hlt, Nat.or_comm, Nat.mul_comm]
  rw [h2, h3, h5, h4]
  by_cases hb : n / 2 ^ 15 % 2 = 1
  · simp only [hb, decide_True, Bool.toNat_true]
    omega
  · simp only [hb, decide_False, Bool.toNat_false]
    omega

theorem ip_fragment_test_iff (ip : iphdr) (h0 : 0 ≤ ip.frag_off) (h1 : ip.frag_off ≤ 65535) :
    ip_fragment_test ip = true ↔
      (ntohs ip.frag_off % 16384 ≠ 0 ∨ ntohs ip.frag_off / 32768 ≠ 0) := by
  obtain ⟨f0, f1⟩ := swap_bytes_range ip.frag_off h0 h1
  simp only [ip_fragment_test, decide_eq_true_eq, ntohs]
  generalize swap_bytes ip.frag_off = f at *
  obtain ⟨n, rfl⟩ := Int.eq_ofNat_of_zero_le f0
  have hn : n < 65536 := by omega
  have key := nat_and_not_df n hn
  have hm : to_u32 (int_not IP_DF) = 4294950911 := by decide
  have hand : int_and (n : Int) (int_not IP_DF) = ((n &&& 4294950911 : Nat) : Int) := by
    unfold int_and
    rw [hm, to_u32_of_nonneg _ f0 (by omega)]
    simp only [Int.toNat_ofNat]
    have hle : n &&& 4294950911 ≤ n := Nat.and_le_left
    rw [of_u32_of_lt _ (by omega)]
  rw [hand]
  constructor
  · intro h
    by_contra hc
    push_neg at hc
    apply h
    have : n % 16384 = 0 ∧ n / 32768 = 0 := by omega
    exact_mod_cast key.mpr this
  · intro h hz
    have hz2 : n &&& 4294950911 = 0 := by exact_mod_cast hz
    have := key.mp hz2
    omega

theorem swap_bytes_involutive (x : Int) (h0 : 0 ≤ x) (h1 : x ≤ 65535) :
    swap_bytes (swap_bytes x) = x := by
  obtain ⟨s0, s1⟩ := swap_bytes_range x h0 h1
  rw [swap_bytes_eq _ s0 s1, swap_bytes_eq x h0 h1]
  omega

theorem store_same (dest : Int → Int) (i v : Int) : store dest i v i = v % 256 := by
  simp [store, to_uchar]

theorem store_other (dest : Int → Int) (i v j : Int) (h : j ≠ i) : store dest i v j = dest j := by
  simp [store, h]

theorem memcpy2_first (dest : Int → Int) (c x : Int) : memcpy2 dest c x c = x % 256 := by
  simp [memcpy2, store, to_uchar]

theorem memcpy2_second (dest : Int → Int) (c x : Int) :
    memcpy2 dest c x (c + 1) = x / 256 % 256 := by
  simp [memcpy2, store, to_uchar]

theorem memcpy2_other (dest : Int → Int) (c x j : Int) (h : j < c ∨ c + 2 ≤ j) :
    memcpy2 dest c x j = dest j := by
  have h1 : j ≠ c := by omega
  have h2 : j ≠ c + 1 := by omega
  simp [memcpy2, store, h1, h2]

theorem store_lt (dest : Int → Int) (i v j : Int) (h : j < i) : store dest i v j = dest j := by
  have h1 : j ≠ i := by omega
  simp [store, h1]

theorem memcpy2_lt (dest : Int → Int) (c x j : Int) (h : j < c) :
    memcpy2 dest c x j = dest j := by
  have h1 : j ≠ c := by omega
  have h2 : j ≠ c + 1 := by omega
  simp [memcpy2, store, h1, h2]

theorem udp_code_UO_packet_tail_frame (udp : udphdr) (s : packet_build) :
    (udp_code_UO_packet_tail udp s).context = s.context ∧
    s.counter ≤ (udp_code_UO_packet_tail udp s).counter ∧
    ∀ j, j < s.counter → (udp_code_UO_packet_tail udp s).dest j = s.dest j := by
  unfold udp_code_UO_packet_tail
  split_ifs
  · exact ⟨rfl, by simp, fun j hj => memcpy2_lt _ _ _ _ hj⟩
  · exact ⟨rfl, le_refl _, fun _ _ => rfl⟩

theorem code_UO_packet_tail_frame (pkt : ip_packet) (s : packet_build) :
    (code_UO_packet_tail pkt s).context = s.context ∧
    s.counter ≤ (code_UO_packet_tail pkt s).counter ∧
    ∀ j, j < s.counter → (code_UO_packet_tail pkt s).dest j = s.dest j := by
  simp only [code_UO_packet_tail, udp_code_UO_packet_tail]
  cases s.context.specific.code_UO_packet_tail with
  | none =>
    refine ⟨?_, ?_, ?_⟩ <;> split_ifs <;> intros <;>
      first
      | rfl
      | (dsimp only; omega)
      | (simp (disch := omega) only [memcpy2_lt])
  | some h =>
    cases h
    refine ⟨?_, ?_, ?_⟩ <;> split_ifs <;> intros <;>
      first
      | rfl
      | (dsimp only; omega)
      | (simp (disch := omega) only [memcpy2_lt])

theorem code_UO_packet_tail_rnd (pkt : ip_packet) (s : packet_build)
    (h : s.context.specific.ip_flags.rnd = 1) :
    (code_UO_packet_tail pkt s).dest s.counter = pkt.ip.id % 256 ∧
    (code_UO_packet_tail pkt s).dest (s.counter + 1) = pkt.ip.id / 256 % 256 ∧
    s.counter + 2 ≤ (code_UO_packet_tail pkt s).counter := by
  simp only [code_UO_packet_tail, udp_code_UO_packet_tail, h, if_true]
  cases s.context.specific.code_UO_packet_tail with
  | none =>
    refine ⟨?_, ?_, ?_⟩ <;> split_ifs <;>
      first
      | (dsimp only; omega)
      | (simp (disch := omega) only [memcpy2_lt, memcpy2_first, memcpy2_second])
  | some h =>
    cases h
    refine ⟨?_, ?_, ?_⟩ <;> split_ifs <;>
      first
      | (dsimp only; omega)
      | (simp (disch := omega) only [memcpy2_lt, memcpy2_first, memcpy2_second])

theorem decide_SO_packet_rnd (c : c_context)
    (h1 : c.specific.tmp_variables.nr_of_ip_hdr = 1) (hr : c.specific.ip_flags.rnd = 1) :
    (c.specific.tmp_variables.nr_sn_bits ≤ 4 → decide_SO_packet c = PACKET_UO_0) ∧
    (decide_SO_packet c = PACKET_UO_1 ↔
      c.specific.tmp_variables.nr_sn_bits = 5 ∧ c.specific.tmp_variables.nr_ip_id_bits ≠ 0 ∧
      c.specific.tmp_variables.nr_ip_id_bits ≤ 6) := by
  simp only [decide_SO_packet, h1, hr, if_true, true_and]
  constructor
  · intro h
    simp [h]
  · split_ifs <;> simp <;> omega

/-! ## C21: random IP-ID -/

/-- C21 is refuted: the host-order IP-IDs 256 and 512 differ by 256, which is
not below `IPID_MAX_DELTA = 20`, but the byte-swapped values 1 and 2 differ by
1, so `check_ip_identification` sets NBO = 0 and RND = 0; and with one IP
header and RND = 1, `decide_SO_packet` selects UO-1 when 5 SN bits and 3
IP-ID bits are needed. -/
theorem C21_swapped_ids_and_UO1_under_RND :
    ntohs 2 - ntohs 1 = 256 ∧ (256 : Int) ≥ 20 ∧
    (check_ip_identification 20 { old_ip := { id := 1 } } { id := 2 }).rnd = 0 ∧
    decide_SO_packet
      { state := SO
        specific :=
          { ip_flags := { rnd := 1 }
            tmp_variables := { nr_of_ip_hdr := 1, nr_sn_bits := 5, nr_ip_id_bits := 3 } } }
      = PACKET_UO_1 := by
  decide

/-- C21 amended: for 16-bit IP-IDs and `IPID_MAX_DELTA ≤ 2^16`, when the
host-order difference is at least `IPID_MAX_DELTA` and the difference of the
values as stored in the packet (the byte-swapped ones), modulo `2^16`, is not
strictly between 0 and `IPID_MAX_DELTA`, `check_ip_identification` sets
RND = 1.  With one IP header and RND = 1, `decide_SO_packet` selects UO-0
when at most 4 SN bits are needed, and it selects UO-1 exactly when 5 SN bits
are needed and `nr_ip_id_bits` is not 0 and at most 6.  With RND = 1 the UO
tail starts with the two octets of the IP-ID. -/
theorem C21_random_ip_id (D : Int) (header_info : ip_header_info) (ip : iphdr)
    (c : c_context) (pkt : ip_packet) (s : packet_build)
    (hD : D ≤ 65536)
    (ho0 : 0 ≤ header_info.old_ip.id) (ho1 : header_info.old_ip.id ≤ 65535)
    (hn0 : 0 ≤ ip.id) (hn1 : ip.id ≤ 65535) :
    (ntohs ip.id - ntohs header_info.old_ip.id ≥ D →
      ¬ (0 < (ip.id - header_info.old_ip.id) % 65536 ∧
          (ip.id - header_info.old_ip.id) % 65536 < D) →
      (check_ip_identification D header_info ip).rnd = 1) ∧
    (c.specific.tmp_variables.nr_of_ip_hdr = 1 → c.specific.ip_flags.rnd = 1 →
      (c.specific.tmp_variables.nr_sn_bits ≤ 4 → decide_SO_packet c = PACKET_UO_0) ∧
      (decide_SO_packet c = PACKET_UO_1 ↔
        c.specific.tmp_variables.nr_sn_bits = 5 ∧
        c.specific.tmp_variables.nr_ip_id_bits ≠ 0 ∧
        c.specific.tmp_variables.nr_ip_id_bits ≤ 6)) ∧
    (s.context.specific.ip_flags.rnd = 1 →
      (code_UO_packet_tail pkt s).dest s.counter = pkt.ip.id % 256 ∧
      (code_UO_packet_tail pkt s).dest (s.counter + 1) = pkt.ip.id / 256 % 256 ∧
      s.counter + 2 ≤ (code_UO_packet_tail pkt s).counter) := by
  refine ⟨?_, fun h1 hr => decide_SO_packet_rnd c h1 hr, fun hr => code_UO_packet_tail_rnd pkt s hr⟩
  intro hdiff hswap
  obtain ⟨a0, a1⟩ := swap_bytes_range _ ho0 ho1
  obtain ⟨b0, b1⟩ := swap_bytes_range _ hn0 hn1
  have hnbo := check_ip_identification_nbo_eq D (ntohs header_info.old_ip.id) (ntohs ip.id) hD
    a0 a1 b0 b1
  have e1 : swap_bytes (ntohs header_info.old_ip.id) = header_info.old_ip.id :=
    swap_bytes_involutive _ ho0 ho1
  have e2 : swap_bytes (ntohs ip.id) = ip.id := swap_bytes_involutive _ hn0 hn1
  have hfirst : ¬ (0 < (ntohs ip.id - ntohs header_info.old_ip.id) % 65536 ∧
      (ntohs ip.id - ntohs header_info.old_ip.id) % 65536 < D) := by
    have r1 : ntohs ip.id ≤ 65535 := b1
    have r2 : 0 ≤ ntohs header_info.old_ip.id := a0
    omega
  rw [e1, e2, if_neg hfirst, if_neg hswap] at hnbo
  simp [check_ip_identification, hnbo]

/-- C21 at concrete inputs: the IP-IDs stored as 100 and 13680 (host order 25600 and 28725) give
RND = 1 with `IPID_MAX_DELTA = 20`. -/
theorem C21_random_ip_id_witness :
    (check_ip_identification 20 { old_ip := { id := 100 } } { id := 13680 }).rnd = 1 :=
  (C21_random_ip_id 20 { old_ip := { id := 100 } } { id := 13680 } {} {}
    { context := {}, dest := fun _ => 0, counter := 0 }
    (by decide) (by decide) (by decide) (by decide) (by decide)).1 (by decide) (by decide)

/-! ## Fragments (`c_generic_encode`, `c_udp_encode`, `c_udp_check_context`) -/

/-- A header with MF = 1 or a fragment offset that is not 0 fails the test of
the code. -/
theorem spec_is_fragment_test (ip : iphdr) (h0 : 0 ≤ ip.frag_off) (h1 : ip.frag_off ≤ 65535)
    (h : spec_is_fragment ip = true) : ip_fragment_test ip = true := by
  rw [ip_fragment_test_iff ip h0 h1]
  simp only [spec_is_fragment, decide_eq_true_eq] at h
  omega

/-- A header whose `frag_off` has at most the DF bit set passes the test of
the code. -/
theorem at_most_DF_test (ip : iphdr) (h0 : 0 ≤ ip.frag_off) (h1 : ip.frag_off ≤ 65535)
    (h : ntohs ip.frag_off = 0 ∨ ntohs ip.frag_off = IP_DF) : ip_fragment_test ip = false := by
  have hiff := ip_fragment_test_iff ip h0 h1
  have hn : ¬ ip_fragment_test ip = true := by
    rw [hiff]
    have e : IP_DF = 16384 := rfl
    rw [e] at h
    omega
  simpa using hn

/-- What `encode_init` leaves as it was: everything but the temporary
variables and, at the first packet with two IP headers, the info of the inner
header. -/
theorem encode_init_frame (L : generic_limits) (c : c_context) (pkt : ip_packet) (n : Int) :
    (encode_init L c pkt n).mode = c.mode ∧
    (encode_init L c pkt n).state = c.state ∧
    (encode_init L c pkt n).specific.sn = c.specific.sn ∧
    (encode_init L c pkt n).specific.sn_window = c.specific.sn_window ∧
    (encode_init L c pkt n).specific.ir_count = c.specific.ir_count ∧
    (encode_init L c pkt n).specific.fo_count = c.specific.fo_count ∧
    (encode_init L c pkt n).specific.so_count = c.specific.so_count ∧
    (encode_init L c pkt n).specific.go_back_fo_count = c.specific.go_back_fo_count ∧
    (encode_init L c pkt n).specific.go_back_ir_count = c.specific.go_back_ir_count ∧
    (encode_init L c pkt n).specific.ir_dyn_count = c.specific.ir_dyn_count ∧
    (encode_init L c pkt n).specific.ip_flags = c.specific.ip_flags ∧
    (encode_init L c pkt n).specific.specific = c.specific.specific ∧
    (encode_init L c pkt n).specific.next_header_proto = c.specific.next_header_proto ∧
    (encode_init L c pkt n).specific.next_header_len = c.specific.next_header_len ∧
    (encode_init L c pkt n).specific.decide_state = c.specific.decide_state ∧
    (encode_init L c pkt n).specific.code_static_part = c.specific.code_static_part ∧
    (encode_init L c pkt n).specific.code_dynamic_part = c.specific.code_dynamic_part ∧
    (encode_init L c pkt n).specific.code_UO_packet_tail = c.specific.code_UO_packet_tail := by
  simp only [encode_init]
  split_ifs <;> simp

/-- The inner header info after `encode_init`. -/
theorem encode_init_inner (L : generic_limits) (c : c_context) (pkt : ip_packet) (n : Int) :
    ((pkt.ip.protocol ≠ IPPROTO_IPIP ∨ c.specific.is_ip2_initialized ≠ 0) →
      (encode_init L c pkt n).specific.ip2_flags = c.specific.ip2_flags ∧
      (encode_init L c pkt n).specific.is_ip2_initialized = c.specific.is_ip2_initialized) ∧
    (pkt.ip.protocol = IPPROTO_IPIP → c.specific.is_ip2_initialized = 0 →
      (encode_init L c pkt n).specific.ip2_flags =
        c_init_header_info L c.specific.ip2_flags pkt.ip2 ∧
      (encode_init L c pkt n).specific.is_ip2_initialized = 1) := by
  simp only [encode_init]
  constructor
  · rintro (h | h)
    · simp [h]
    · split_ifs <;> simp
  · intro h1 h2
    simp [h1, h2]

/-- The number of IP headers after `encode_init`. -/
theorem encode_init_nr_of_ip_hdr (L : generic_limits) (c : c_context) (pkt : ip_packet)
    (n : Int) :
    (encode_init L c pkt n).specific.tmp_variables.nr_of_ip_hdr =
      if pkt.ip.protocol = IPPROTO_IPIP then 2 else 1 := by
  simp only [encode_init]
  split_ifs <;> simp

/-- `c_generic_encode` on a fragment: it returns -1 and the context is the one
`encode_init` leaves. -/
theorem c_generic_encode_fragment (E : generic_deps) (c : c_context) (pkt : ip_packet)
    (dest : Int → Int) (n p : Int)
    (h : ip_fragment_test pkt.ip = true ∨
      (pkt.ip.protocol = IPPROTO_IPIP ∧ ip_fragment_test pkt.ip2 = true)) :
    (c_generic_encode E c pkt dest n p).size = -1 ∧
    (c_generic_encode E c pkt dest n p).context = encode_init E.L c pkt n ∧
    (c_generic_encode E c pkt dest n p).dest = dest := by
  simp only [c_generic_encode]
  split_ifs <;> first
    | exact ⟨rfl, rfl, rfl⟩
    | (rcases h with h | h <;> simp_all)

/-- `c_udp_check_context` returns -1 exactly on the fragments. -/
theorem c_udp_check_context_fragment (c : c_context) (pkt : ip_packet) :
    c_udp_check_context c pkt = -1 ↔
      (ip_fragment_test pkt.ip = true ∨
        (pkt.ip.protocol = IPPROTO_IPIP ∧ ip_fragment_test pkt.ip2 = true)) := by
  simp only [c_udp_check_context]
  split_ifs <;> simp_all

/-- What `udp_changed_udp_dynamic` leaves as it was: everything but the
counter of the UDP part. -/
theorem udp_changed_udp_dynamic_frame (L : generic_limits) (c : c_context) (udp : udphdr) :
    (udp_changed_udp_dynamic L c udp).1.mode = c.mode ∧
    (udp_changed_udp_dynamic L c udp).1.state = c.state ∧
    (udp_part (udp_changed_udp_dynamic L c udp).1).old_udp = (udp_part c).old_udp ∧
    (∀ g : c_generic_context, { (udp_changed_udp_dynamic L c udp).1.specific with
        specific := g.specific } = { c.specific with specific := g.specific }) := by
  simp only [udp_changed_udp_dynamic]
  split_ifs <;> simp [set_udp_part, udp_part]

/-- The counter of the UDP part after `udp_changed_udp_dynamic`: it is reset
when the packet has a checksum and the context has none, or the converse. -/
theorem udp_changed_udp_dynamic_count (L : generic_limits) (c : c_context) (udp : udphdr) :
    (udp_part (udp_changed_udp_dynamic L c udp).1).udp_checksum_change_count =
      if (udp.check ≠ 0 ∧ (udp_part c).old_udp.check = 0) ∨
          (udp.check = 0 ∧ (udp_part c).old_udp.check ≠ 0) then 0
      else (udp_part c).udp_checksum_change_count := by
  simp only [udp_changed_udp_dynamic]
  split_ifs with h1 h2 h3 <;> simp [set_udp_part, udp_part]
  · rcases h3 with h | h
    · exact (h1 (Or.inl h)).elim
    · exact (h1 (Or.inr (Or.inl h))).elim
/-- `c_udp_encode` on a fragment. -/
theorem c_udp_encode_fragment (E : generic_deps) (c : c_context) (pkt : ip_packet)
    (dest : Int → Int) (n p : Int)
    (h : ip_fragment_test pkt.ip = true ∨
      (pkt.ip.protocol = IPPROTO_IPIP ∧ ip_fragment_test pkt.ip2 = true)) :
    (c_udp_encode E c pkt dest n p).dest = dest ∧
    ((c.specific.specific = none ∨
        (if pkt.ip.protocol = IPPROTO_IPIP then pkt.ip2 else pkt.ip).protocol ≠ IPPROTO_UDP) →
      (c_udp_encode E c pkt dest n p).size = 0 ∧ (c_udp_encode E c pkt dest n p).context = c) ∧
    (c.specific.specific ≠ none →
      (if pkt.ip.protocol = IPPROTO_IPIP then pkt.ip2 else pkt.ip).protocol = IPPROTO_UDP →
      (c_udp_encode E c pkt dest n p).size = -1 ∧
      (c_udp_encode E c pkt dest n p).context =
        encode_init E.L (udp_encode_init E.L c pkt.udp) pkt n) := by
  simp only [c_udp_encode]
  cases hs : c.specific.specific with
  | none => simp
  | some u =>
    by_cases hp : (if pkt.ip.protocol = IPPROTO_IPIP then pkt.ip2 else pkt.ip).protocol
        = IPPROTO_UDP
    · obtain ⟨a, b, d⟩ := c_generic_encode_fragment E (udp_encode_init E.L c pkt.udp) pkt dest n p h
      simp [hp, a, b, d]
    · simp [hp]

/-! ## C22: fragments are rejected -/

/-- C22 is refuted: a fragment (MF = 1) whose protocol is TCP makes
`c_udp_encode` return 0, not a negative value, in a context that has its UDP
part. -/
theorem C22_udp_encode_returns_zero_for_non_udp_fragment :
    spec_is_fragment { frag_off := 0x0020, protocol := 6 } = true ∧
    (c_udp_encode sample_deps
      { specific := { specific := some {}, next_header_proto := 17, next_header_len := 8 } }
      { ip := { frag_off := 0x0020, protocol := 6 } } (fun _ => 0) 100 0).size = 0 := by
  decide

/-- C22 amended: for every packet whose outer header, or inner header when
the outer protocol is IP-in-IP, has MF = 1 or a fragment offset that is not 0,
`c_generic_encode` returns -1, `c_udp_check_context` returns -1, and
`c_udp_encode` returns -1 when the context has its UDP part and the last IP
header announces UDP (it returns 0 otherwise, before it looks at the
fragment bits).  When the `frag_off` field of these headers has at most the
DF bit set, `c_udp_check_context` does not return -1 and `c_generic_encode`
passes its two fragment tests: unless the protocol of the last header is not
the one of the context, it goes on with steps 2 to 6. -/
theorem C22_fragment_rejection (E : generic_deps) (c : c_context) (pkt : ip_packet)
    (dest : Int → Int) (n p : Int)
    (h0 : 0 ≤ pkt.ip.frag_off) (h1 : pkt.ip.frag_off ≤ 65535)
    (g0 : 0 ≤ pkt.ip2.frag_off) (g1 : pkt.ip2.frag_off ≤ 65535) :
    ((spec_is_fragment pkt.ip = true ∨
        (pkt.ip.protocol = IPPROTO_IPIP ∧ spec_is_fragment pkt.ip2 = true)) →
      (c_generic_encode E c pkt dest n p).size = -1 ∧
      c_udp_check_context c pkt = -1 ∧
      (c.specific.specific ≠ none →
        (if pkt.ip.protocol = IPPROTO_IPIP then pkt.ip2 else pkt.ip).protocol = IPPROTO_UDP →
        (c_udp_encode E c pkt dest n p).size = -1) ∧
      ((c.specific.specific = none ∨
          (if pkt.ip.protocol = IPPROTO_IPIP then pkt.ip2 else pkt.ip).protocol ≠ IPPROTO_UDP) →
        (c_udp_encode E c pkt dest n p).size = 0)) ∧
    ((ntohs pkt.ip.frag_off = 0 ∨ ntohs pkt.ip.frag_off = IP_DF) →
      (pkt.ip.protocol = IPPROTO_IPIP →
        ntohs pkt.ip2.frag_off = 0 ∨ ntohs pkt.ip2.frag_off = IP_DF) →
      c_udp_check_context c pkt ≠ -1 ∧
      (¬ ((encode_init E.L c pkt n).specific.next_header_proto ≠ 0 ∧
          (if pkt.ip.protocol = IPPROTO_IPIP then pkt.ip2 else pkt.ip).protocol ≠
            (encode_init E.L c pkt n).specific.next_header_proto) →
        c_generic_encode E c pkt dest n p =
          c_generic_encode_steps E (encode_init E.L c pkt n) pkt dest
            ((encode_init E.L c pkt n).specific.tmp_variables.nr_of_ip_hdr * 20 +
              (encode_init E.L c pkt n).specific.next_header_len))) := by
  constructor
  · intro hf
    have hf2 : ip_fragment_test pkt.ip = true ∨
        (pkt.ip.protocol = IPPROTO_IPIP ∧ ip_fragment_test pkt.ip2 = true) := by
      rcases hf with h | ⟨hi, h⟩
      · exact Or.inl (spec_is_fragment_test _ h0 h1 h)
      · exact Or.inr ⟨hi, spec_is_fragment_test _ g0 g1 h⟩
    obtain ⟨_, u0, u1⟩ := c_udp_encode_fragment E c pkt dest n p hf2
    exact ⟨(c_generic_encode_fragment E c pkt dest n p hf2).1,
      (c_udp_check_context_fragment c pkt).mpr hf2, fun a b => (u1 a b).1, fun a => (u0 a).1⟩
  · intro ha hb
    have t1 : ip_fragment_test pkt.ip = false := at_most_DF_test _ h0 h1 ha
    have t2 : ¬ (pkt.ip.protocol = IPPROTO_IPIP ∧ ip_fragment_test pkt.ip2 = true) := by
      rintro ⟨hi, ht⟩
      have := at_most_DF_test _ g0 g1 (hb hi)
      rw [this] at ht
      exact Bool.noConfusion ht
    constructor
    · intro hc
      rcases (c_udp_check_context_fragment c pkt).mp hc with h | h
      · rw [t1] at h
        exact Bool.noConfusion h
      · exact t2 h
    · intro hm
      simp only [c_generic_encode]
      rw [if_neg hm, t1, if_neg (by simp), if_neg t2]

/-- C22 at a concrete input: a UDP packet with MF = 1 is rejected by
`c_udp_encode` in a UDP context. -/
theorem C22_fragment_rejection_witness :
    (c_udp_encode sample_deps
      { specific := { specific := some {}, next_header_proto := 17, next_header_len := 8 } }
      { ip := { frag_off := 0x0020, protocol := 17 } } (fun _ => 0) 100 0).size = -1 :=
  ((C22_fragment_rejection sample_deps
      { specific := { specific := some {}, next_header_proto := 17, next_header_len := 8 } }
      { ip := { frag_off := 0x0020, protocol := 17 } } (fun _ => 0) 100 0
      (by decide) (by decide) (by decide) (by decide)).1 (Or.inl (by decide))).2.2.1
    (by decide) (by decide)

/-! ## C23: what a rejected fragment changes in the context -/

/-- C23, the code at the failing inputs: a fragment with a UDP checksum,
compressed in a context whose stored checksum is 0, resets
`udp_checksum_change_count` from 5 to 0 although `c_udp_encode` rejects the
packet; and a fragment with two IP headers,
compressed in a context that has not seen an inner header, initialises the
inner header info and sets `is_ip2_initialized` although `c_generic_encode`
rejects the packet. -/
theorem C23_rejected_fragment_changes_context :
    spec_is_fragment { frag_off := 0x0020, protocol := 17 } = true ∧
    (c_udp_encode sample_deps
      { specific :=
          { specific := some { udp_checksum_change_count := 5 }
            next_header_proto := 17, next_header_len := 8 } }
      { ip := { frag_off := 0x0020, protocol := 17 }, udp := { check := 7 } }
      (fun _ => 0) 100 0).size = -1 ∧
    (udp_part (c_udp_encode sample_deps
      { specific :=
          { specific := some { udp_checksum_change_count := 5 }
            next_header_proto := 17, next_header_len := 8 } }
      { ip := { frag_off := 0x0020, protocol := 17 }, udp := { check := 7 } }
      (fun _ => 0) 100 0).context).udp_checksum_change_count = 0 ∧
    spec_is_fragment { frag_off := 0x0020, protocol := 4 } = true ∧
    (c_generic_encode sample_deps {}
      { ip := { frag_off := 0x0020, protocol := 4 }, ip2 := { id := 9 } }
      (fun _ => 0) 100 0).size = -1 ∧
    (c_generic_encode sample_deps {}
      { ip := { frag_off := 0x0020, protocol := 4 }, ip2 := { id := 9 } }
      (fun _ => 0) 100 0).context.specific.is_ip2_initialized = 1 ∧
    (c_generic_encode sample_deps {}
      { ip := { frag_off := 0x0020, protocol := 4 }, ip2 := { id := 9 } }
      (fun _ => 0) 100 0).context.specific.ip2_flags.old_ip.id = 9 := by
  decide

/-- The context `c_udp_encode` hands to `c_generic_encode` (c_udp.c:244-248):
only the UDP part differs from the context before the call. -/
theorem udp_encode_init_frame (L : generic_limits) (c : c_context) (udp : udphdr)
    (c1 : c_context) (hc1 : c1 = udp_encode_init L c udp) :
    c1.mode = c.mode ∧ c1.state = c.state ∧
    c1.specific.sn = c.specific.sn ∧
    c1.specific.sn_window = c.specific.sn_window ∧
    c1.specific.ir_count = c.specific.ir_count ∧
    c1.specific.fo_count = c.specific.fo_count ∧
    c1.specific.so_count = c.specific.so_count ∧
    c1.specific.go_back_fo_count = c.specific.go_back_fo_count ∧
    c1.specific.go_back_ir_count = c.specific.go_back_ir_count ∧
    c1.specific.ir_dyn_count = c.specific.ir_dyn_count ∧
    c1.specific.ip_flags = c.specific.ip_flags ∧
    c1.specific.ip2_flags = c.specific.ip2_flags ∧
    c1.specific.is_ip2_initialized = c.specific.is_ip2_initialized ∧
    c1.specific.tmp_variables = c.specific.tmp_variables ∧
    c1.specific.next_header_proto = c.specific.next_header_proto ∧
    c1.specific.next_header_len = c.specific.next_header_len ∧
    c1.specific.decide_state = c.specific.decide_state ∧
    c1.specific.code_static_part = c.specific.code_static_part ∧
    c1.specific.code_dynamic_part = c.specific.code_dynamic_part ∧
    c1.specific.code_UO_packet_tail = c.specific.code_UO_packet_tail ∧
    (udp_part c1).old_udp = (udp_part c).old_udp ∧
    (udp_part c1).send_udp_dynamic = (udp_changed_udp_dynamic L c udp).2 ∧
    (udp_part c1).udp_checksum_change_count =
      (if (udp.check ≠ 0 ∧ (udp_part c).old_udp.check = 0) ∨
          (udp.check = 0 ∧ (udp_part c).old_udp.check ≠ 0) then 0
      else (udp_part c).udp_checksum_change_count) := by
  subst hc1
  have hcount := udp_changed_udp_dynamic_count L c udp
  simp only [udp_encode_init]
  refine ⟨?_, ?_, ?_, ?_, ?_, ?_, ?_, ?_, ?_, ?_, ?_, ?_, ?_, ?_, ?_, ?_, ?_, ?_, ?_, ?_, ?_, ?_,
    ?_⟩
  all_goals first
    | (rw [← hcount]; simp [set_udp_part, udp_part])
    | (simp only [udp_changed_udp_dynamic]; split_ifs <;> simp [set_udp_part, udp_part])

/-- What a rejected fragment leaves as it was: when `c_udp_encode` is given
a packet whose outer header, or inner header under IP-in-IP, has MF = 1 or a
fragment offset that is not 0,
the buffer, the mode, the state, the SN, the SN window, the six counters, the
info of the outer header and the stored UDP header are as before.  The info
of the inner header and `is_ip2_initialized` are as before when the packet has
one IP header or the inner info was already initialised, and
`udp_checksum_change_count` is as before when the packet and the context
agree on the presence of a UDP checksum.  Otherwise, when the context has its
UDP part and the last header announces UDP, the rejected packet resets
`udp_checksum_change_count` to 0 and initialises the info of the inner
header. -/
theorem c_udp_encode_fragment_context (E : generic_deps) (c : c_context) (pkt : ip_packet)
    (dest : Int → Int) (n p : Int)
    (h0 : 0 ≤ pkt.ip.frag_off) (h1 : pkt.ip.frag_off ≤ 65535)
    (g0 : 0 ≤ pkt.ip2.frag_off) (g1 : pkt.ip2.frag_off ≤ 65535)
    (hf : spec_is_fragment pkt.ip = true ∨
      (pkt.ip.protocol = IPPROTO_IPIP ∧ spec_is_fragment pkt.ip2 = true)) :
    (c_udp_encode E c pkt dest n p).dest = dest ∧
    (c_udp_encode E c pkt dest n p).context.mode = c.mode ∧
    (c_udp_encode E c pkt dest n p).context.state = c.state ∧
    (c_udp_encode E c pkt dest n p).context.specific.sn = c.specific.sn ∧
    (c_udp_encode E c pkt dest n p).context.specific.sn_window = c.specific.sn_window ∧
    (c_udp_encode E c pkt dest n p).context.specific.ir_count = c.specific.ir_count ∧
    (c_udp_encode E c pkt dest n p).context.specific.fo_count = c.specific.fo_count ∧
    (c_udp_encode E c pkt dest n p).context.specific.so_count = c.specific.so_count ∧
    (c_udp_encode E c pkt dest n p).context.specific.go_back_fo_count =
      c.specific.go_back_fo_count ∧
    (c_udp_encode E c pkt dest n p).context.specific.go_back_ir_count =
      c.specific.go_back_ir_count ∧
    (c_udp_encode E c pkt dest n p).context.specific.ir_dyn_count = c.specific.ir_dyn_count ∧
    (c_udp_encode E c pkt dest n p).context.specific.ip_flags = c.specific.ip_flags ∧
    (udp_part (c_udp_encode E c pkt dest n p).context).old_udp = (udp_part c).old_udp ∧
    ((pkt.ip.protocol ≠ IPPROTO_IPIP ∨ c.specific.is_ip2_initialized ≠ 0) →
      (c_udp_encode E c pkt dest n p).context.specific.ip2_flags = c.specific.ip2_flags ∧
      (c_udp_encode E c pkt dest n p).context.specific.is_ip2_initialized =
        c.specific.is_ip2_initialized) ∧
    (¬ ((pkt.udp.check ≠ 0 ∧ (udp_part c).old_udp.check = 0) ∨
        (pkt.udp.check = 0 ∧ (udp_part c).old_udp.check ≠ 0)) →
      (udp_part (c_udp_encode E c pkt dest n p).context).udp_checksum_change_count =
        (udp_part c).udp_checksum_change_count) ∧
    (c.specific.specific ≠ none →
      (if pkt.ip.protocol = IPPROTO_IPIP then pkt.ip2 else pkt.ip).protocol = IPPROTO_UDP →
      (((pkt.udp.check ≠ 0 ∧ (udp_part c).old_udp.check = 0) ∨
          (pkt.udp.check = 0 ∧ (udp_part c).old_udp.check ≠ 0)) →
        (udp_part (c_udp_encode E c pkt dest n p).context).udp_checksum_change_count = 0) ∧
      (pkt.ip.protocol = IPPROTO_IPIP → c.specific.is_ip2_initialized = 0 →
        (c_udp_encode E c pkt dest n p).context.specific.ip2_flags =
          c_init_header_info E.L c.specific.ip2_flags pkt.ip2 ∧
        (c_udp_encode E c pkt dest n p).context.specific.is_ip2_initialized = 1)) := by
  have hf2 : ip_fragment_test pkt.ip = true ∨
      (pkt.ip.protocol = IPPROTO_IPIP ∧ ip_fragment_test pkt.ip2 = true) := by
    rcases hf with h | ⟨hi, h⟩
    · exact Or.inl (spec_is_fragment_test _ h0 h1 h)
    · exact Or.inr ⟨hi, spec_is_fragment_test _ g0 g1 h⟩
  obtain ⟨hd, u0, u1⟩ := c_udp_encode_fragment E c pkt dest n p hf2
  by_cases hr : c.specific.specific = none ∨
      (if pkt.ip.protocol = IPPROTO_IPIP then pkt.ip2 else pkt.ip).protocol ≠ IPPROTO_UDP
  · obtain ⟨_, hc⟩ := u0 hr
    rw [hc]
    refine ⟨hd, rfl, rfl, rfl, rfl, rfl, rfl, rfl, rfl, rfl, rfl, rfl, rfl, fun _ => ⟨rfl, rfl⟩,
      fun _ => rfl, fun a b => ?_⟩
    rcases hr with hr | hr
    · exact absurd hr a
    · exact absurd b hr
  · push_neg at hr
    obtain ⟨_, hc⟩ := u1 hr.1 hr.2
    obtain ⟨e1, e2, e3, e4, e5, e6, e7, e8, e9, e10, e11, e12, e13, e14, e15, e16, e17, e18, e19,
      e20, e21, e22, e23⟩ := udp_encode_init_frame E.L c pkt.udp _ rfl
    obtain ⟨i1, i2, i3, i4, i5, i6, i7, i8, i9, i10, i11, i12, _⟩ :=
      encode_init_frame E.L (udp_encode_init E.L c pkt.udp) pkt n
    obtain ⟨j1, j2⟩ := encode_init_inner E.L (udp_encode_init E.L c pkt.udp) pkt n
    have hu : udp_part (encode_init E.L (udp_encode_init E.L c pkt.udp) pkt n) =
        udp_part (udp_encode_init E.L c pkt.udp) := by
      unfold udp_part
      rw [i12]
    rw [e12, e13] at j1 j2
    rw [hc, hu]
    refine ⟨hd, i1.trans e1, i2.trans e2, i3.trans e3, i4.trans e4, i5.trans e5, i6.trans e6,
      i7.trans e7, i8.trans e8, i9.trans e9, i10.trans e10, i11.trans e11, e21, j1, ?_, ?_⟩
    · intro hno
      rw [e23, if_neg hno]
    · intro _ _
      refine ⟨fun hyes => ?_, j2⟩
      rw [e23, if_pos hyes]

/-- At a concrete input: the SN and the stored UDP header are kept when a
fragment is rejected. -/
theorem c_udp_encode_fragment_context_example :
    (c_udp_encode sample_deps
      { specific :=
          { sn := 4, specific := some { udp_checksum_change_count := 5 }
            next_header_proto := 17, next_header_len := 8 } }
      { ip := { frag_off := 0x0020, protocol := 17 }, udp := { check := 7 } }
      (fun _ => 0) 100 0).context.specific.sn = 4 :=
  (c_udp_encode_fragment_context sample_deps
      { specific :=
          { sn := 4, specific := some { udp_checksum_change_count := 5 }
            next_header_proto := 17, next_header_len := 8 } }
      { ip := { frag_off := 0x0020, protocol := 17 }, udp := { check := 7 } }
      (fun _ => 0) 100 0 (by decide) (by decide) (by decide) (by decide)
      (Or.inl (by decide))).2.2.2.1

/-! ## C24: the value returned by `c_generic_create` -/

/-- The value `c_generic_create` returns. -/
theorem c_generic_create_value (L : generic_limits) (c : c_context) (ip ip2 : iphdr) :
    (c_generic_create L c ip ip2).1 =
      if ip.version ≠ 4 ∨ ip.ihl * 4 ≠ 20 then 0
      else if ip_fragment_test ip = true then -1
      else if ip.protocol = IPPROTO_IPIP ∧
          (ip2.version ≠ 4 ∨ ip2.ihl * 4 ≠ 20 ∨ ip_fragment_test ip2 = true) then 0
      else 1 := by
  simp only [c_generic_create]
  split_ifs <;> simp_all

/-- C24, the code at the failing input: for an IPv4 header of 20 bytes with
MF = 1, `c_generic_create` returns -1, which is neither 0 nor 1, and leaves
the context as it was; the same fragment as inner header makes it return 0.
`c_udp_create` only tests the value against 0, so it does not return 0 for
the outer fragment of a UDP packet. -/
theorem C24_create_returns_minus_one_on_outer_fragment :
    spec_is_fragment { frag_off := 0x0020, protocol := 17 } = true ∧
    (c_generic_create sample_limits {} { frag_off := 0x0020, protocol := 17 } {}).1 = -1 ∧
    (c_generic_create sample_limits {} { frag_off := 0x0020, protocol := 17 } {}).2 = {} ∧
    (c_generic_create sample_limits {} { protocol := 4 } { frag_off := 0x0020 }).1 = 0 ∧
    (c_udp_create sample_limits {} { ip := { frag_off := 0x0020, protocol := 17 } }).1 = 1 := by
  decide

/-! ## C28: the dynamic part of an IPv4 header -/

theorem int_and_one (x : Int) : int_and x 1 = x % 2 := by
  simpa using int_and_mask x 1 (by norm_num)

theorem df_rnd_nbo_value (df rnd nbo : Int) (hdf : df = 0 ∨ df = 1) :
    df_rnd_nbo df rnd nbo =
      128 * df + (if rnd ≠ 0 then 64 else 0) + (if nbo ≠ 0 then 32 else 0) := by
  rcases hdf with rfl | rfl <;> by_cases hr : rnd = 0 <;> by_cases hn : nbo = 0 <;>
    simp only [df_rnd_nbo, hr, hn, ne_eq, not_true_eq_false, not_false_eq_true, if_true,
      if_false] <;> decide

theorem octets_from_five (d : Int → Int) (c : Int) :
    octets_from d c 5 = [d c, d (c + 1), d (c + 2), d (c + 3), d (c + 4)] := by
  simp [octets_from, List.range_succ]

theorem store_eq (dest : Int → Int) (i v j : Int) (h : j = i) :
    store dest i v j = v % 256 := by
  simp [store, to_uchar, h]

theorem store_ne (dest : Int → Int) (i v j : Int) (h : j ≠ i) : store dest i v j = dest j := by
  simp [store, h]

theorem memcpy2_at0 (dest : Int → Int) (c x j : Int) (h : j = c) :
    memcpy2 dest c x j = x % 256 := by
  subst h
  simp [memcpy2, store, to_uchar]

theorem memcpy2_at1 (dest : Int → Int) (c x j : Int) (h : j = c + 1) :
    memcpy2 dest c x j = x / 256 % 256 := by
  subst h
  simp [memcpy2, store, to_uchar]

theorem memcpy2_ne (dest : Int → Int) (c x j : Int) (h : j < c ∨ c + 2 ≤ j) :
    memcpy2 dest c x j = dest j := by
  have h1 : j ≠ c := by omega
  have h2 : j ≠ c + 1 := by omega
  simp [memcpy2, store, h1, h2]

/-- `code_generic_dynamic_part` on a header that is not a fragment: five
octets are stored, the other positions of the buffer are as before. -/
theorem code_generic_dynamic_part_ok (pos : ip_header_pos) (ip : iphdr) (s : packet_build)
    (h0 : 0 ≤ ip.frag_off) (h1 : ip.frag_off ≤ 65535)
    (hnf : ntohs ip.frag_off = 0 ∨ ntohs ip.frag_off = IP_DF) :
    (code_generic_dynamic_part pos ip s).counter = s.counter + 5 ∧
    octets_from (code_generic_dynamic_part pos ip s).dest s.counter 5 =
      [ip.tos % 256, ip.ttl % 256, ip.id % 256, ip.id / 256 % 256,
        128 * (ntohs ip.frag_off / 16384) +
          (if (header_info_of s.context pos).rnd ≠ 0 then 64 else 0) +
          (if (header_info_of s.context pos).nbo ≠ 0 then 32 else 0)] ∧
    (∀ j, j < s.counter ∨ s.counter + 5 ≤ j →
      (code_generic_dynamic_part pos ip s).dest j = s.dest j) := by
  have e : IP_DF = 16384 := rfl
  rw [e] at hnf
  have hu : to_ushort (ntohs ip.frag_off) = ntohs ip.frag_off := by
    unfold to_ushort; omega
  have hdf : int_and (int_shr (ntohs ip.frag_off) 14) 1 = ntohs ip.frag_off / 16384 := by
    rw [int_and_one]
    simp only [int_shr]
    norm_num
    omega
  have hdf01 : ntohs ip.frag_off / 16384 = 0 ∨ ntohs ip.frag_off / 16384 = 1 := by omega
  have ht : ip_fragment_test ip = false := at_most_DF_test ip h0 h1 (by rw [e]; exact hnf)
  have ht2 : ¬ int_and (ntohs ip.frag_off) (int_not IP_DF) ≠ 0 := by
    simpa [ip_fragment_test] using ht
  simp only [code_generic_dynamic_part, hu, if_neg ht2, hdf, df_rnd_nbo_value _ _ _ hdf01,
    octets_from_five]
  refine ⟨trivial, ?_, ?_⟩
  · simp (disch := omega) only [store_eq, store_ne, memcpy2_at0, memcpy2_at1, memcpy2_ne]
    have hb : (128 * (ntohs ip.frag_off / 16384) +
          (if (header_info_of s.context pos).rnd ≠ 0 then 64 else 0) +
          (if (header_info_of s.context pos).nbo ≠ 0 then 32 else 0)) % 256 =
        128 * (ntohs ip.frag_off / 16384) +
          (if (header_info_of s.context pos).rnd ≠ 0 then 64 else 0) +
          (if (header_info_of s.context pos).nbo ≠ 0 then 32 else 0) := by
      split_ifs <;> omega
    rw [hb]
  · intro j hj
    simp (disch := omega) only [store_ne, memcpy2_ne]

/-- C28 is refuted: for a header with TOS 1, TTL 64, IP-ID octets 12 34 and
DF set, in a buffer filled with 0xAA, `code_generic_dynamic_part` stores the
five octets 01 40 12 34 A0 and returns the position 5, not 6; the octet at
position 5 is not written. -/
theorem C28_dynamic_part_has_five_octets :
    (code_generic_dynamic_part ip_header_pos.outer
      { tos := 1, ttl := 64, id := 0x3412, frag_off := 0x0040 }
      { context := {}, dest := fun _ => 0xAA, counter := 0 }).counter = 5 ∧
    octets_from (code_generic_dynamic_part ip_header_pos.outer
      { tos := 1, ttl := 64, id := 0x3412, frag_off := 0x0040 }
      { context := {}, dest := fun _ => 0xAA, counter := 0 }).dest 0 6
      = [0x01, 0x40, 0x12, 0x34, 0xA0, 0xAA] := by
  decide

/-- C28 amended: for every IPv4 header that is not a fragment (its host-order
`frag_off` has at most the DF bit set), `code_generic_dynamic_part` appends
exactly five octets: TOS, TTL, the two octets of the IP-ID as in the header,
and a flags octet whose bit 7 is DF, whose bit 6 is set when RND is not 0,
whose bit 5 is set when NBO is not 0 and whose five low bits are 0.  No octet
of a generic extension header list follows: the position returned is five
octets further and every other position of the buffer is as before. -/
theorem C28_dynamic_part_layout (pos : ip_header_pos) (ip : iphdr) (s : packet_build)
    (h0 : 0 ≤ ip.frag_off) (h1 : ip.frag_off ≤ 65535)
    (hnf : ntohs ip.frag_off = 0 ∨ ntohs ip.frag_off = IP_DF) :
    (code_generic_dynamic_part pos ip s).counter = s.counter + 5 ∧
    octets_from (code_generic_dynamic_part pos ip s).dest s.counter 5 =
      [ip.tos % 256, ip.ttl % 256, ip.id % 256, ip.id / 256 % 256,
        128 * (ntohs ip.frag_off / 16384) +
          (if (header_info_of s.context pos).rnd ≠ 0 then 64 else 0) +
          (if (header_info_of s.context pos).nbo ≠ 0 then 32 else 0)] ∧
    (∀ j, j < s.counter ∨ s.counter + 5 ≤ j →
      (code_generic_dynamic_part pos ip s).dest j = s.dest j) :=
  code_generic_dynamic_part_ok pos ip s h0 h1 hnf

/-- C28 at a concrete input: the five octets of a header with DF set. -/
theorem C28_dynamic_part_layout_witness :
    octets_from (code_generic_dynamic_part ip_header_pos.outer
      { tos := 1, ttl := 64, id := 0x3412, frag_off := 0x0040 }
      { context := {}, dest := fun _ => 0xAA, counter := 0 }).dest 0 5
      = [1, 64, 0x12, 0x34, 128 * 1 + 0 + 32] :=
  (C28_dynamic_part_layout ip_header_pos.outer
      { tos := 1, ttl := 64, id := 0x3412, frag_off := 0x0040 }
      { context := {}, dest := fun _ => 0xAA, counter := 0 }
      (by decide) (by decide) (Or.inr (by decide))).2.1

/-! ## The extensions of the UO-2 packet: positions and context -/

theorem set_header_info_view (c : c_context) (pos : ip_header_pos) (h : ip_header_info)
    (hr : h.rnd = (header_info_of c pos).rnd) (hn : h.nbo = (header_info_of c pos).nbo)
    (hd : h.id_delta = (header_info_of c pos).id_delta) :
    coding_view (set_header_info c pos h) = coding_view c := by
  cases pos <;> simp_all [set_header_info, coding_view, header_info_of]

theorem fo_count_view (c : c_context) (v : Int) :
    coding_view { c with specific := { c.specific with fo_count := v } } = coding_view c := rfl

theorem changed_static_one_hdr_view (E : generic_deps) (cf : Int) (pos : ip_header_pos)
    (c : c_context) : coding_view (changed_static_one_hdr E cf pos c).1 = coding_view c := by
  simp only [changed_static_one_hdr]
  split_ifs <;> first | rfl | (rw [fo_count_view]; exact set_header_info_view _ _ _ rfl rfl rfl)

theorem changed_dynamic_tos_view (E : generic_deps) (cf : Int) (pos : ip_header_pos)
    (c : c_context) : coding_view (changed_dynamic_tos E cf pos c).1 = coding_view c := by
  simp only [changed_dynamic_tos]
  split_ifs <;> first | rfl | (rw [fo_count_view]; exact set_header_info_view _ _ _ rfl rfl rfl)

theorem changed_dynamic_ttl_view (E : generic_deps) (cf : Int) (pos : ip_header_pos)
    (c : c_context) : coding_view (changed_dynamic_ttl E cf pos c).1 = coding_view c := by
  simp only [changed_dynamic_ttl]
  split_ifs <;> first | rfl | (rw [fo_count_view]; exact set_header_info_view _ _ _ rfl rfl rfl)

theorem changed_dynamic_df_view (E : generic_deps) (pos : ip_header_pos) (ip : iphdr)
    (c : c_context) : coding_view (changed_dynamic_df E pos ip c).1 = coding_view c := by
  simp only [changed_dynamic_df]
  split_ifs <;> first | rfl | (rw [fo_count_view]; exact set_header_info_view _ _ _ rfl rfl rfl)

theorem changed_dynamic_rnd_view (E : generic_deps) (pos : ip_header_pos)
    (c : c_context) : coding_view (changed_dynamic_rnd E pos c).1 = coding_view c := by
  simp only [changed_dynamic_rnd]
  split_ifs <;> first | rfl | (rw [fo_count_view]; exact set_header_info_view _ _ _ rfl rfl rfl)

theorem changed_dynamic_nbo_view (E : generic_deps) (pos : ip_header_pos)
    (c : c_context) : coding_view (changed_dynamic_nbo E pos c).1 = coding_view c := by
  simp only [changed_dynamic_nbo]
  split_ifs <;> first | rfl | (rw [fo_count_view]; exact set_header_info_view _ _ _ rfl rfl rfl)

theorem changed_dynamic_one_hdr_view (E : generic_deps) (cf : Int) (pos : ip_header_pos)
    (ip : iphdr) (c : c_context) :
    coding_view (changed_dynamic_one_hdr E cf pos ip c).1 = coding_view c := by
  simp only [changed_dynamic_one_hdr]
  rw [changed_dynamic_nbo_view, changed_dynamic_rnd_view, changed_dynamic_df_view,
    changed_dynamic_ttl_view, changed_dynamic_tos_view]

theorem ext3_header_changed_view (E : generic_deps) (cf : Int) (pos : ip_header_pos)
    (ip : iphdr) (c : c_context) :
    coding_view (ext3_header_changed E cf pos ip c).1 = coding_view c := by
  simp only [ext3_header_changed]
  split_ifs
  · exact changed_dynamic_one_hdr_view E cf pos ip c
  · dsimp only
    rw [changed_static_one_hdr_view, changed_dynamic_one_hdr_view]

/-- `header_flags` stores one octet and keeps what the coding reads. -/
theorem header_flags_step (E : generic_deps) (pos : ip_header_pos) (cf : Int) (ip : iphdr)
    (is_outer : Bool) (k : Int) (s : packet_build) :
    (header_flags E pos cf ip is_outer k s).counter = s.counter + 1 ∧
    coding_view (header_flags E pos cf ip is_outer k s).context = coding_view s.context := by
  simp only [header_flags]
  exact ⟨trivial, set_header_info_view _ _ _ rfl rfl rfl⟩

theorem header_fields_tos_step (E : generic_deps) (pos : ip_header_pos) (cf : Int) (ip : iphdr)
    (s : packet_build) :
    s.counter ≤ (header_fields_tos E pos cf ip s).counter ∧
    coding_view (header_fields_tos E pos cf ip s).context = coding_view s.context := by
  simp only [header_fields_tos]
  split_ifs
  · exact ⟨by dsimp only; omega, set_header_info_view _ _ _ rfl rfl rfl⟩
  · exact ⟨le_refl _, rfl⟩

theorem header_fields_ttl_step (E : generic_deps) (pos : ip_header_pos) (cf : Int) (ip : iphdr)
    (s : packet_build) :
    s.counter ≤ (header_fields_ttl E pos cf ip s).counter ∧
    coding_view (header_fields_ttl E pos cf ip s).context = coding_view s.context := by
  simp only [header_fields_ttl]
  split_ifs
  · exact ⟨by dsimp only; omega, set_header_info_view _ _ _ rfl rfl rfl⟩
  · exact ⟨le_refl _, rfl⟩

theorem header_fields_protocol_step (E : generic_deps) (pos : ip_header_pos) (cf : Int)
    (ip : iphdr) (s : packet_build) :
    s.counter ≤ (header_fields_protocol E pos cf ip s).counter ∧
    coding_view (header_fields_protocol E pos cf ip s).context = coding_view s.context := by
  simp only [header_fields_protocol]
  split_ifs
  · exact ⟨by dsimp only; omega, set_header_info_view _ _ _ rfl rfl rfl⟩
  · exact ⟨le_refl _, rfl⟩

theorem ext3_ip_id_field_step (E : generic_deps) (pos : ip_header_pos) (ip : iphdr) (k : Int)
    (s : packet_build) :
    s.counter ≤ (ext3_ip_id_field E pos ip k s).counter ∧
    coding_view (ext3_ip_id_field E pos ip k s).context = coding_view s.context := by
  simp only [ext3_ip_id_field]
  split_ifs
  · exact ⟨by dsimp only; omega, rfl⟩
  · exact ⟨le_refl _, rfl⟩

theorem ext3_sn_field_step (k : Int) (s : packet_build) :
    s.counter ≤ (ext3_sn_field k s).counter ∧
    coding_view (ext3_sn_field k s).context = coding_view s.context := by
  simp only [ext3_sn_field]
  split_ifs
  · exact ⟨by dsimp only; omega, rfl⟩
  · exact ⟨le_refl _, rfl⟩

theorem header_fields_step (E : generic_deps) (pos : ip_header_pos) (cf : Int) (ip : iphdr)
    (is_outer : Bool) (k : Int) (s : packet_build) :
    s.counter ≤ (header_fields E pos cf ip is_outer k s).counter ∧
    coding_view (header_fields E pos cf ip is_outer k s).context = coding_view s.context := by
  obtain ⟨a1, b1⟩ := header_fields_tos_step E pos cf ip s
  obtain ⟨a2, b2⟩ := header_fields_ttl_step E pos cf ip (header_fields_tos E pos cf ip s)
  obtain ⟨a3, b3⟩ := header_fields_protocol_step E pos cf ip
    (header_fields_ttl E pos cf ip (header_fields_tos E pos cf ip s))
  obtain ⟨a4, b4⟩ := ext3_ip_id_field_step E pos ip k
    (header_fields_protocol E pos cf ip
      (header_fields_ttl E pos cf ip (header_fields_tos E pos cf ip s)))
  simp only [header_fields]
  split_ifs
  · exact ⟨by omega, by rw [b4, b3, b2, b1]⟩
  · exact ⟨by omega, by rw [b3, b2, b1]⟩

/-- A step of the coding that may be skipped: the position does not go back
and what the coding reads is kept. -/
theorem optional_step (b : Bool) (f : packet_build → packet_build) (s : packet_build)
    (hf : s.counter ≤ (f s).counter ∧ coding_view (f s).context = coding_view s.context) :
    s.counter ≤ (if b then f s else s).counter ∧
    coding_view (if b then f s else s).context = coding_view s.context := by
  cases b
  · exact ⟨le_refl _, rfl⟩
  · exact hf

/-- Two steps of the coding, the last one given first. -/
theorem step_trans (s s1 s2 : packet_build)
    (h2 : s1.counter ≤ s2.counter ∧ coding_view s2.context = coding_view s1.context)
    (h1 : s.counter ≤ s1.counter ∧ coding_view s1.context = coding_view s.context) :
    s.counter ≤ s2.counter ∧ coding_view s2.context = coding_view s.context :=
  ⟨le_trans h1.1 h2.1, h2.2.trans h1.2⟩

theorem header_flags_step_le (E : generic_deps) (pos : ip_header_pos) (cf : Int) (ip : iphdr)
    (is_outer : Bool) (k : Int) (s : packet_build) :
    s.counter ≤ (header_flags E pos cf ip is_outer k s).counter ∧
    coding_view (header_flags E pos cf ip is_outer k s).context = coding_view s.context := by
  obtain ⟨a, b⟩ := header_flags_step E pos cf ip is_outer k s
  exact ⟨by omega, b⟩

/-- The steps of an extension after its first octet. -/
theorem steps_after_first (s s1 X : packet_build)
    (hs1 : s1.counter = s.counter + 1)
    (hv : coding_view s1.context = coding_view s.context)
    (h : s1.counter ≤ X.counter ∧ coding_view X.context = coding_view s1.context) :
    s.counter + 1 ≤ X.counter ∧ coding_view X.context = coding_view s.context :=
  ⟨by omega, h.2.trans hv⟩

/-- `code_EXT3_packet` stores at least one octet and keeps what the coding
reads. -/
theorem code_EXT3_packet_step (E : generic_deps) (pkt : ip_packet) (s : packet_build) :
    s.counter + 1 ≤ (code_EXT3_packet E pkt s).counter ∧
    coding_view (code_EXT3_packet E pkt s).context = coding_view s.context := by
  simp only [code_EXT3_packet]
  by_cases h1 : s.context.specific.tmp_variables.nr_of_ip_hdr = 1
  · rw [if_pos h1]
    refine steps_after_first s _ _ ?_ ?_
      (step_trans _ _ _ (ext3_ip_id_field_step E _ _ _ _)
      (step_trans _ _ _ (optional_step _ _ _ (header_fields_step E _ _ _ _ _ _))
      (step_trans _ _ _ (ext3_sn_field_step _ _)
        (optional_step _ _ _ (header_flags_step_le E _ _ _ _ _ _)))))
    · rfl
    · exact ext3_header_changed_view _ _ _ _ _
  · rw [if_neg h1]
    refine steps_after_first s _ _ ?_ ?_
      (step_trans _ _ _ (optional_step _ _ _ (header_fields_step E _ _ _ _ _ _))
      (step_trans _ _ _ (ext3_ip_id_field_step E _ _ _ _)
      (step_trans _ _ _ (optional_step _ _ _ (header_fields_step E _ _ _ _ _ _))
      (step_trans _ _ _ (ext3_sn_field_step _ _)
      (step_trans _ _ _ (optional_step _ _ _ (header_flags_step_le E _ _ _ _ _ _))
        (optional_step _ _ _ (header_flags_step_le E _ _ _ _ _ _)))))))
    · rfl
    · exact (ext3_header_changed_view _ _ _ _ _).trans (ext3_header_changed_view _ _ _ _ _)

theorem nat_or_mod_two_pow (a b n : Nat) : (a ||| b) % 2 ^ n = a % 2 ^ n ||| b % 2 ^ n := by
  apply Nat.eq_of_testBit_eq
  intro i
  simp only [Nat.testBit_mod_two_pow, Nat.testBit_or]
  cases decide (i < n) <;> simp

set_option maxRecDepth 8000 in
theorem nat_or_192 : ∀ k : Nat, k < 256 → 192 ≤ 192 ||| k ∧ 192 ||| k < 256 := by
  decide

theorem of_u32_mod_256 (n : Nat) : of_u32 n % 256 = ((n % 256 : Nat) : Int) := by
  unfold of_u32
  split_ifs <;> push_cast <;> omega

/-- The octet `0xc0 | y` has its two top bits set, whatever `y` is. -/
theorem to_uchar_or_0xc0 (y : Int) :
    192 ≤ to_uchar (int_or (to_uchar 0xc0) y) ∧ to_uchar (int_or (to_uchar 0xc0) y) < 256 := by
  have h192 : to_u32 (to_uchar 0xc0) = 192 := by decide
  unfold int_or
  rw [h192]
  unfold to_uchar
  rw [of_u32_mod_256, show (256 : Nat) = 2 ^ 8 from rfl, nat_or_mod_two_pow]
  have hk : to_u32 y % 2 ^ 8 < 256 := Nat.mod_lt _ (by norm_num)
  obtain ⟨a, b⟩ := nat_or_192 _ hk
  have e : (192 : Nat) % 2 ^ 8 = 192 := by norm_num
  rw [e]
  constructor
  · exact_mod_cast a
  · exact_mod_cast b

theorem int_or_comm (a b : Int) : int_or a b = int_or b a := by
  unfold int_or
  rw [Nat.or_comm]

/-- The octet `0xc0 | x` for five bits `x`. -/
theorem to_uchar_or_0xc0_low (x : Int) (h0 : 0 ≤ x) (h1 : x < 32) :
    to_uchar (int_or (to_uchar 0xc0) x) = 192 + x := by
  have e : to_uchar 0xc0 = 192 := by decide
  rw [e, int_or_disjoint 192 x 6 (by norm_num) h0 ⟨3, by norm_num⟩ (by norm_num; omega)
    (by omega)]
  unfold to_uchar
  omega

theorem uo2_f_byte_range (c : c_context) (e : rohc_ext) :
    192 ≤ uo2_f_byte c e ∧ uo2_f_byte c e < 256 := by
  simp only [uo2_f_byte]
  cases e <;> dsimp only
  · exact to_uchar_or_0xc0 _
  · exact to_uchar_or_0xc0 _
  · exact to_uchar_or_0xc0 _
  · exact to_uchar_or_0xc0 _
  · split_ifs <;> exact to_uchar_or_0xc0 _

/-- The first octet of UO-2 is `110` followed by five SN bits, except with
EXT-3 when more than 5 SN bits are needed. -/
theorem uo2_f_byte_value (c : c_context) (e : rohc_ext)
    (h : e ≠ PACKET_EXT_3 ∨ c.specific.tmp_variables.nr_sn_bits ≤ 5) :
    uo2_f_byte c e =
      192 + (if e = PACKET_NOEXT ∨ e = PACKET_EXT_3 then c.specific.sn % 32
        else c.specific.sn % 256 / 8) := by
  have h5 : int_and c.specific.sn 0x1f = c.specific.sn % 32 := int_and_0x1f _
  have h8 : int_shr (int_and c.specific.sn 0xff) 3 = c.specific.sn % 256 / 8 := by
    rw [int_and_0xff]; simp [int_shr]
  have h7 : e = PACKET_EXT_3 → ¬ c.specific.tmp_variables.nr_sn_bits > 5 := by
    intro he
    rcases h with h | h
    · exact absurd he h
    · omega
  simp only [uo2_f_byte, h5, h8]
  cases e
  · exact to_uchar_or_0xc0_low _ (by omega) (by omega)
  · exact to_uchar_or_0xc0_low _ (by omega) (by omega)
  · exact to_uchar_or_0xc0_low _ (by omega) (by omega)
  · exact to_uchar_or_0xc0_low _ (by omega) (by omega)
  · simp only [h7 rfl, if_false, or_true, if_true]
    exact to_uchar_or_0xc0_low _ (by omega) (by omega)

set_option maxRecDepth 8000 in
theorem uo2_s_byte_value : ∀ n : Nat, n < 128 →
    uo2_s_byte (n : Int) PACKET_NOEXT = (n : Int) ∧
    uo2_s_byte (n : Int) PACKET_EXT_0 = 128 + (n : Int) ∧
    uo2_s_byte (n : Int) PACKET_EXT_1 = 128 + (n : Int) ∧
    uo2_s_byte (n : Int) PACKET_EXT_2 = 128 + (n : Int) ∧
    uo2_s_byte (n : Int) PACKET_EXT_3 = 128 + (n : Int) := by
  decide

theorem code_extension_step (E : generic_deps) (e : rohc_ext) (pkt : ip_packet)
    (s : packet_build) :
    s.counter ≤ (code_extension E e pkt s).counter ∧
    coding_view (code_extension E e pkt s).context = coding_view s.context := by
  cases e
  · exact ⟨le_refl _, rfl⟩
  · exact ⟨by simp [code_extension, code_EXT0_packet], rfl⟩
  · exact ⟨by simp [code_extension, code_EXT1_packet], rfl⟩
  · exact ⟨by simp [code_extension, code_EXT2_packet], rfl⟩
  · obtain ⟨a, b⟩ := code_EXT3_packet_step E pkt s
    exact ⟨by simp only [code_extension]; omega, b⟩

theorem to_uchar_idem (x : Int) : to_uchar x % 256 = to_uchar x := by
  unfold to_uchar
  omega

theorem uo2_s_byte_uchar (crc7 : Int) (e : rohc_ext) :
    uo2_s_byte crc7 e % 256 = uo2_s_byte crc7 e := by
  cases e <;> exact to_uchar_idem _

/-- The two octets of the UO-2 base header in the packet `code_UO2_packet`
builds, when the CID code reserves the first position before the position it
returns. -/
theorem code_UO2_packet_base (E : generic_deps) (c : c_context) (pkt : ip_packet)
    (dest : Int → Int)
    (hcid : (E.code_cid_values c dest c.specific.tmp_variables.max_size).first_position <
      (E.code_cid_values c dest c.specific.tmp_variables.max_size).counter) :
    (code_UO2_packet E c pkt dest).dest
        (E.code_cid_values c dest c.specific.tmp_variables.max_size).first_position =
      uo2_f_byte c (decide_extension c) ∧
    (code_UO2_packet E c pkt dest).dest
        (E.code_cid_values c dest c.specific.tmp_variables.max_size).counter =
      uo2_s_byte (uo_crc7 E c pkt) (decide_extension c) ∧
    (E.code_cid_values c dest c.specific.tmp_variables.max_size).counter + 1 ≤
      (code_UO2_packet E c pkt dest).counter := by
  simp only [code_UO2_packet]
  generalize E.code_cid_values c dest c.specific.tmp_variables.max_size = cid at *
  obtain ⟨a, _⟩ := code_extension_step E (decide_extension c) pkt
    { context := c, dest := cid.dest, counter := cid.counter + 1 }
  obtain ⟨_, tc, td⟩ := code_UO_packet_tail_frame pkt
    { code_extension E (decide_extension c) pkt
        { context := c, dest := cid.dest, counter := cid.counter + 1 } with
      dest := store (store (code_extension E (decide_extension c) pkt
        { context := c, dest := cid.dest, counter := cid.counter + 1 }).dest
          cid.first_position (uo2_f_byte c (decide_extension c))) cid.counter
          (uo2_s_byte (uo_crc7 E c pkt) (decide_extension c)) }
  dsimp only at a tc td
  obtain ⟨f0, f1⟩ := uo2_f_byte_range c (decide_extension c)
  refine ⟨?_, ?_, by omega⟩
  · rw [td _ (by omega), store_ne _ _ _ _ (by omega), store_eq _ _ _ _ rfl]
    omega
  · rw [td _ (by omega), store_eq _ _ _ _ rfl, uo2_s_byte_uchar]

/-- The first octet of the packet `code_UO0_packet` builds. -/
theorem code_UO0_packet_base (E : generic_deps) (c : c_context) (pkt : ip_packet)
    (dest : Int → Int)
    (hcid : (E.code_cid_values c dest c.specific.tmp_variables.max_size).first_position <
      (E.code_cid_values c dest c.specific.tmp_variables.max_size).counter)
    (hc0 : 0 ≤ uo_crc3 E c pkt) (hc1 : uo_crc3 E c pkt < 8) :
    (code_UO0_packet E c pkt dest).dest
        (E.code_cid_values c dest c.specific.tmp_variables.max_size).first_position =
      c.specific.sn % 16 * 8 + uo_crc3 E c pkt := by
  simp only [code_UO0_packet]
  generalize E.code_cid_values c dest c.specific.tmp_variables.max_size = cid at *
  generalize uo_crc3 E c pkt = crc at *
  obtain ⟨_, _, td⟩ := code_UO_packet_tail_frame pkt
    { context := c
      dest := store cid.dest cid.first_position
        (to_uchar (int_or (to_uchar (int_shl (int_and c.specific.sn 0x0f) 3)) crc))
      counter := cid.counter }
  dsimp only at td
  rw [td _ hcid, store_eq _ _ _ _ rfl, to_uchar_idem, int_and_0x0f,
    int_shl_of_nonneg _ _ (by omega) (by norm_num; omega)]
  have e1 : to_uchar (c.specific.sn % 16 * 2 ^ 3) = c.specific.sn % 16 * 8 := by
    unfold to_uchar; omega
  rw [e1, int_or_disjoint _ _ 3 (by omega) hc0 ⟨c.specific.sn % 16, by ring⟩
    (by norm_num; omega) (by omega)]
  unfold to_uchar
  omega

/-- The two octets of the UO-1 base header in the packet `code_UO1_packet`
builds. -/
theorem code_UO1_packet_base (E : generic_deps) (c : c_context) (pkt : ip_packet)
    (dest : Int → Int)
    (hcid : (E.code_cid_values c dest c.specific.tmp_variables.max_size).first_position <
      (E.code_cid_values c dest c.specific.tmp_variables.max_size).counter)
    (hc0 : 0 ≤ uo_crc3 E c pkt) (hc1 : uo_crc3 E c pkt < 8) :
    (code_UO1_packet E c pkt dest).dest
        (E.code_cid_values c dest c.specific.tmp_variables.max_size).first_position =
      128 + c.specific.ip_flags.id_delta % 64 ∧
    (code_UO1_packet E c pkt dest).dest
        (E.code_cid_values c dest c.specific.tmp_variables.max_size).counter =
      c.specific.sn % 32 * 8 + uo_crc3 E c pkt := by
  simp only [code_UO1_packet]
  generalize E.code_cid_values c dest c.specific.tmp_variables.max_size = cid at *
  generalize uo_crc3 E c pkt = crc at *
  obtain ⟨_, _, td⟩ := code_UO_packet_tail_frame pkt
    { context := c
      dest := store (store cid.dest cid.first_position
          (to_uchar (int_or (to_uchar (int_and c.specific.ip_flags.id_delta 0x3f)) 0x80)))
        cid.counter (to_uchar (int_or (to_uchar (int_shl (int_and c.specific.sn 0x1f) 3)) crc))
      counter := cid.counter + 1 }
  dsimp only at td
  constructor
  · rw [td _ (by omega), store_ne _ _ _ _ (by omega), store_eq _ _ _ _ rfl, to_uchar_idem,
      int_and_0x3f]
    have e1 : to_uchar (c.specific.ip_flags.id_delta % 64) = c.specific.ip_flags.id_delta % 64 := by
      unfold to_uchar; omega
    rw [e1, int_or_comm, show (0x80 : Int) = 128 from rfl,
      int_or_disjoint 128 _ 7 (by norm_num) (by omega) ⟨1, by norm_num⟩ (by norm_num; omega)
        (by omega)]
    unfold to_uchar
    omega
  · rw [td _ (by omega), store_eq _ _ _ _ rfl, to_uchar_idem, int_and_0x1f,
      int_shl_of_nonneg _ _ (by omega) (by norm_num; omega)]
    have e1 : to_uchar (c.specific.sn % 32 * 2 ^ 3) = c.specific.sn % 32 * 8 := by
      unfold to_uchar; omega
    rw [e1, int_or_disjoint _ _ 3 (by omega) hc0 ⟨c.specific.sn % 32, by ring⟩
      (by norm_num; omega) (by omega)]
    unfold to_uchar
    omega

/-! ## C26: the discriminator of UO-2 -/

/-- C26, the code at the failing input: with SN = 0x2000 and 14 SN bits to
send, `decide_extension` chooses EXT-3 and `code_UO2_packet` stores
`0xc0 | (sn >> 8) = 0xE0` as first octet of the base header, whose three top
bits are 111 and not 110. -/
theorem C26_ext3_first_octet_breaks_discriminator :
    decide_extension
      { state := FO
        specific :=
          { sn := 0x2000
            tmp_variables :=
              { nr_of_ip_hdr := 1, changed_fields := 0, changed_fields2 := 0, send_static := 0,
                send_dynamic := 0, nr_ip_id_bits := 0, nr_sn_bits := 14, nr_ip_id_bits2 := 0,
                packet_type := some PACKET_UOR_2, max_size := 100 } } } = PACKET_EXT_3 ∧
    (code_UO2_packet sample_deps
      { state := FO
        specific :=
          { sn := 0x2000
            tmp_variables :=
              { nr_of_ip_hdr := 1, changed_fields := 0, changed_fields2 := 0, send_static := 0,
                send_dynamic := 0, nr_ip_id_bits := 0, nr_sn_bits := 14, nr_ip_id_bits2 := 0,
                packet_type := some PACKET_UOR_2, max_size := 100 } } }
      {} (fun _ => 0)).dest 0 = 0xE0 ∧
    (0xE0 : Int) / 32 = 7 := by
  decide

/-! ## The first octets of UO-0, UO-1 and UO-2 -/

/-- When the CRC-3 is below 8 (and the CID code reserves the first
position before the position it returns), `code_UO0_packet` stores the first
octet `(sn mod 16) * 8 + crc3`, whose top bit is 0; `code_UO1_packet` stores
the first octet `128 + (id_delta mod 64)`, that is `10` followed by the 6 low
bits of the outer `id_delta`, and the second octet `(sn mod 32) * 8 + crc3`;
the first octet of `code_UO2_packet` has its two top bits set.  So the first
octets of the three formats lie in `[0, 128)`, `[128, 192)` and `[192, 256)`
and a match on the prefix tells the formats apart. -/
theorem uo_first_octets (E : generic_deps) (c : c_context) (pkt : ip_packet)
    (dest : Int → Int)
    (hcid : (E.code_cid_values c dest c.specific.tmp_variables.max_size).first_position <
      (E.code_cid_values c dest c.specific.tmp_variables.max_size).counter)
    (hc0 : 0 ≤ uo_crc3 E c pkt) (hc1 : uo_crc3 E c pkt < 8) :
    (code_UO0_packet E c pkt dest).dest
        (E.code_cid_values c dest c.specific.tmp_variables.max_size).first_position =
      c.specific.sn % 16 * 8 + uo_crc3 E c pkt ∧
    (code_UO0_packet E c pkt dest).dest
        (E.code_cid_values c dest c.specific.tmp_variables.max_size).first_position / 128 = 0 ∧
    (code_UO1_packet E c pkt dest).dest
        (E.code_cid_values c dest c.specific.tmp_variables.max_size).first_position =
      128 + c.specific.ip_flags.id_delta % 64 ∧
    (code_UO1_packet E c pkt dest).dest
        (E.code_cid_values c dest c.specific.tmp_variables.max_size).first_position / 64 = 2 ∧
    (code_UO1_packet E c pkt dest).dest
        (E.code_cid_values c dest c.specific.tmp_variables.max_size).counter =
      c.specific.sn % 32 * 8 + uo_crc3 E c pkt ∧
    (code_UO2_packet E c pkt dest).dest
        (E.code_cid_values c dest c.specific.tmp_variables.max_size).first_position / 64 = 3 := by
  have h0 := code_UO0_packet_base E c pkt dest hcid hc0 hc1
  obtain ⟨h1, h2⟩ := code_UO1_packet_base E c pkt dest hcid hc0 hc1
  obtain ⟨h3, _, _⟩ := code_UO2_packet_base E c pkt dest hcid
  obtain ⟨f0, f1⟩ := uo2_f_byte_range c (decide_extension c)
  rw [h0, h1, h2, h3]
  refine ⟨rfl, by omega, rfl, by omega, rfl, by omega⟩

/-- At a concrete input: SN 0x25, `id_delta` 0x47 and CRC-3 0 give the
UO-0 octet 0x28 and the UO-1 octets 0x87 0x28. -/
theorem uo_first_octets_example :
    (code_UO0_packet sample_deps
      { specific := { sn := 0x25, ip_flags := { id_delta := 0x47 } } } {} (fun _ => 0)).dest 0
      = 0x25 % 16 * 8 + 0 ∧
    (code_UO1_packet sample_deps
      { specific := { sn := 0x25, ip_flags := { id_delta := 0x47 } } } {} (fun _ => 0)).dest 0
      = 128 + 0x47 % 64 :=
  ⟨(uo_first_octets sample_deps
      { specific := { sn := 0x25, ip_flags := { id_delta := 0x47 } } } {} (fun _ => 0)
      (by decide) (by decide) (by decide)).1,
   (uo_first_octets sample_deps
      { specific := { sn := 0x25, ip_flags := { id_delta := 0x47 } } } {} (fun _ => 0)
      (by decide) (by decide) (by decide)).2.2.1⟩

/-! ## The IR and IR-DYN packets -/

/-- The components of `coding_view`. -/
theorem coding_view_eq (c c' : c_context) (h : coding_view c' = coding_view c) :
    c'.mode = c.mode ∧ c'.state = c.state ∧ c'.specific.sn = c.specific.sn ∧
    c'.specific.tmp_variables = c.specific.tmp_variables ∧
    c'.specific.ip_flags.rnd = c.specific.ip_flags.rnd ∧
    c'.specific.ip2_flags.rnd = c.specific.ip2_flags.rnd ∧
    c'.specific.ip_flags.nbo = c.specific.ip_flags.nbo ∧
    c'.specific.ip2_flags.nbo = c.specific.ip2_flags.nbo ∧
    c'.specific.ip_flags.id_delta = c.specific.ip_flags.id_delta ∧
    c'.specific.ip2_flags.id_delta = c.specific.ip2_flags.id_delta ∧
    c'.specific.specific = c.specific.specific ∧
    c'.specific.code_static_part = c.specific.code_static_part ∧
    c'.specific.code_dynamic_part = c.specific.code_dynamic_part ∧
    c'.specific.code_UO_packet_tail = c.specific.code_UO_packet_tail ∧
    c'.specific.next_header_len = c.specific.next_header_len ∧
    c'.specific.decide_state = c.specific.decide_state := by
  simpa [coding_view] using h

theorem memcpy4_lt (dest : Int → Int) (c x j : Int) (h : j < c) :
    memcpy4 dest c x j = dest j := by
  simp (disch := omega) only [memcpy4, store_ne, memcpy2_ne]

theorem code_generic_static_part_step (pos : ip_header_pos) (ip : iphdr) (s : packet_build) :
    (code_generic_static_part pos ip s).counter = s.counter + 10 ∧
    coding_view (code_generic_static_part pos ip s).context = coding_view s.context ∧
    ∀ j, j < s.counter → (code_generic_static_part pos ip s).dest j = s.dest j := by
  simp only [code_generic_static_part]
  refine ⟨trivial, set_header_info_view _ _ _ rfl rfl rfl, fun j hj => ?_⟩
  simp (disch := omega) only [memcpy4_lt, store_ne]

theorem next_header_static_part_step (pkt : ip_packet) (s : packet_build) :
    (next_header_static_part pkt s).counter =
      s.counter + (if s.context.specific.code_static_part = none then 0 else 4) ∧
    (next_header_static_part pkt s).context = s.context ∧
    ∀ j, j < s.counter → (next_header_static_part pkt s).dest j = s.dest j := by
  simp only [next_header_static_part]
  rcases s.context.specific.code_static_part with _ | ⟨_⟩
  · simp
  · simp only [udp_code_static_udp_part]
    refine ⟨by simp; omega, trivial, fun j hj => ?_⟩
    simp (disch := omega) only [memcpy2_ne]

theorem next_header_dynamic_part_step (pkt : ip_packet) (s : packet_build) :
    (next_header_dynamic_part pkt s).counter =
      s.counter + (if s.context.specific.code_dynamic_part = none then 0 else 2) ∧
    (next_header_dynamic_part pkt s).context.specific.sn = s.context.specific.sn ∧
    ∀ j, j < s.counter → (next_header_dynamic_part pkt s).dest j = s.dest j := by
  simp only [next_header_dynamic_part]
  rcases s.context.specific.code_dynamic_part with _ | ⟨_⟩
  · simp
  · simp only [udp_code_dynamic_udp_part]
    refine ⟨by simp, by simp [set_udp_part], fun j hj => ?_⟩
    simp (disch := omega) only [memcpy2_ne]

/-- `code_generic_dynamic_part` on a header that is not a fragment keeps what
the coding reads. -/
theorem code_generic_dynamic_part_view (pos : ip_header_pos) (ip : iphdr) (s : packet_build)
    (h0 : 0 ≤ ip.frag_off) (h1 : ip.frag_off ≤ 65535)
    (hnf : ntohs ip.frag_off = 0 ∨ ntohs ip.frag_off = IP_DF) :
    coding_view (code_generic_dynamic_part pos ip s).context = coding_view s.context := by
  have e : IP_DF = 16384 := rfl
  rw [e] at hnf
  have hu : to_ushort (ntohs ip.frag_off) = ntohs ip.frag_off := by
    unfold to_ushort; omega
  have ht : ip_fragment_test ip = false := at_most_DF_test ip h0 h1 (by rw [e]; exact hnf)
  have ht2 : ¬ int_and (ntohs ip.frag_off) (int_not IP_DF) ≠ 0 := by
    simpa [ip_fragment_test] using ht
  simp only [code_generic_dynamic_part, hu, if_neg ht2]
  exact set_header_info_view _ _ _ rfl rfl rfl

/-- The static chain: its length and what it keeps. -/
theorem code_static_chain_step (pkt : ip_packet) (s : packet_build) (hs : 0 ≤ s.counter) :
    (code_static_chain pkt s).counter =
      s.counter + (if s.context.specific.tmp_variables.nr_of_ip_hdr > 1 then 20 else 10) +
        (if s.context.specific.code_static_part = none then 0 else 4) ∧
    coding_view (code_static_chain pkt s).context = coding_view s.context ∧
    ∀ j, j < s.counter → (code_static_chain pkt s).dest j = s.dest j := by
  obtain ⟨a1, b1, c1⟩ := code_generic_static_part_step ip_header_pos.outer pkt.ip s
  obtain ⟨a2, b2, c2⟩ := code_generic_static_part_step ip_header_pos.inner pkt.ip2
    (code_generic_static_part ip_header_pos.outer pkt.ip s)
  simp only [code_static_chain]
  have n1 : ¬ (code_generic_static_part ip_header_pos.outer pkt.ip s).counter < 0 := by omega
  rw [if_neg n1]
  by_cases hn : s.context.specific.tmp_variables.nr_of_ip_hdr > 1
  · simp only [if_pos hn]
    have n2 : ¬ (code_generic_static_part ip_header_pos.inner pkt.ip2
        (code_generic_static_part ip_header_pos.outer pkt.ip s)).counter < 0 := by omega
    rw [if_neg n2]
    obtain ⟨a3, b3, c3⟩ := next_header_static_part_step pkt
      (code_generic_static_part ip_header_pos.inner pkt.ip2
        (code_generic_static_part ip_header_pos.outer pkt.ip s))
    have hh := (coding_view_eq _ _ (b2.trans b1)).2.2.2.2.2.2.2.2.2.2.2.1
    rw [hh] at a3
    refine ⟨by rw [a3]; omega, by rw [b3]; exact b2.trans b1, fun j hj => ?_⟩
    rw [c3 j (by omega), c2 j (by omega), c1 j hj]
  · simp only [if_neg hn]
    rw [if_neg n1]
    obtain ⟨a3, b3, c3⟩ := next_header_static_part_step pkt
      (code_generic_static_part ip_header_pos.outer pkt.ip s)
    have hh := (coding_view_eq _ _ b1).2.2.2.2.2.2.2.2.2.2.2.1
    rw [hh] at a3
    refine ⟨by rw [a3]; omega, by rw [b3]; exact b1, fun j hj => ?_⟩
    rw [c3 j (by omega), c1 j hj]

/-- The dynamic chain of headers that are not fragments: its length and what
it keeps. -/
theorem code_dynamic_chain_step (pkt : ip_packet) (s : packet_build) (hs : 0 ≤ s.counter)
    (h0 : 0 ≤ pkt.ip.frag_off) (h1 : pkt.ip.frag_off ≤ 65535)
    (hnf : ntohs pkt.ip.frag_off = 0 ∨ ntohs pkt.ip.frag_off = IP_DF)
    (g0 : 0 ≤ pkt.ip2.frag_off) (g1 : pkt.ip2.frag_off ≤ 65535)
    (gnf : s.context.specific.tmp_variables.nr_of_ip_hdr > 1 →
      ntohs pkt.ip2.frag_off = 0 ∨ ntohs pkt.ip2.frag_off = IP_DF) :
    (code_dynamic_chain pkt s).counter =
      s.counter + (if s.context.specific.tmp_variables.nr_of_ip_hdr > 1 then 10 else 5) +
        (if s.context.specific.code_dynamic_part = none then 0 else 2) ∧
    (code_dynamic_chain pkt s).context.specific.sn = s.context.specific.sn ∧
    ∀ j, j < s.counter → (code_dynamic_chain pkt s).dest j = s.dest j := by
  obtain ⟨a1, _, c1⟩ := code_generic_dynamic_part_ok ip_header_pos.outer pkt.ip s h0 h1 hnf
  have b1 := code_generic_dynamic_part_view ip_header_pos.outer pkt.ip s h0 h1 hnf
  simp only [code_dynamic_chain]
  have n1 : ¬ (code_generic_dynamic_part ip_header_pos.outer pkt.ip s).counter < 0 := by omega
  rw [if_neg n1]
  by_cases hn : s.context.specific.tmp_variables.nr_of_ip_hdr > 1
  · simp only [if_pos hn]
    obtain ⟨a2, _, c2⟩ := code_generic_dynamic_part_ok ip_header_pos.inner pkt.ip2
      (code_generic_dynamic_part ip_header_pos.outer pkt.ip s) g0 g1 (gnf hn)
    have b2 := code_generic_dynamic_part_view ip_header_pos.inner pkt.ip2
      (code_generic_dynamic_part ip_header_pos.outer pkt.ip s) g0 g1 (gnf hn)
    have n2 : ¬ (code_generic_dynamic_part ip_header_pos.inner pkt.ip2
        (code_generic_dynamic_part ip_header_pos.outer pkt.ip s)).counter < 0 := by omega
    rw [if_neg n2]
    obtain ⟨a3, b3, c3⟩ := next_header_dynamic_part_step pkt
      (code_generic_dynamic_part ip_header_pos.inner pkt.ip2
        (code_generic_dynamic_part ip_header_pos.outer pkt.ip s))
    have hv := coding_view_eq _ _ (b2.trans b1)
    rw [hv.2.2.2.2.2.2.2.2.2.2.2.2.1] at a3
    refine ⟨by rw [a3]; omega, by rw [b3]; exact hv.2.2.1, fun j hj => ?_⟩
    rw [c3 j (by omega), c2 j (Or.inl (by omega)), c1 j (Or.inl hj)]
  · simp only [if_neg hn]
    rw [if_neg n1]
    obtain ⟨a3, b3, c3⟩ := next_header_dynamic_part_step pkt
      (code_generic_dynamic_part ip_header_pos.outer pkt.ip s)
    have hv := coding_view_eq _ _ b1
    rw [hv.2.2.2.2.2.2.2.2.2.2.2.2.1] at a3
    refine ⟨by rw [a3]; omega, by rw [b3]; exact hv.2.2.1, fun j hj => ?_⟩
    rw [c3 j (by omega), c1 j (Or.inl hj)]

/-- Clearing the octet that was just stored gives the buffer back when the
octet was 0 before. -/
theorem store_zero_back (d : Int → Int) (p v : Int) (h : d p = 0) :
    store (store d p v) p 0 = d := by
  funext j
  by_cases hj : j = p
  · subst hj
    rw [store_eq _ _ _ _ rfl, h]
    rfl
  · rw [store_ne _ _ _ _ hj, store_ne _ _ _ _ hj]

/-- The end of an IR or IR-DYN packet: the two octets of the SN and the CRC
over the header with a zero CRC octet. -/
theorem code_sn_and_crc_step (E : generic_deps) (p : Int) (s : packet_build)
    (hp : p < s.counter) (hz : s.dest p = 0) :
    (code_sn_and_crc E p s).counter = s.counter + 2 ∧
    (code_sn_and_crc E p s).dest s.counter = s.context.specific.sn / 256 % 256 ∧
    (code_sn_and_crc E p s).dest (s.counter + 1) = s.context.specific.sn % 256 ∧
    (code_sn_and_crc E p s).dest p =
      E.crc_calculate CRC_TYPE_8
        (octets_of (store (code_sn_and_crc E p s).dest p 0) (code_sn_and_crc E p s).counter)
        (code_sn_and_crc E p s).counter % 256 ∧
    ∀ j, j < s.counter → j ≠ p → (code_sn_and_crc E p s).dest j = s.dest j := by
  have hsn : int_and s.context.specific.sn 0xff % 256 = s.context.specific.sn % 256 := by
    rw [int_and_0xff]; omega
  have hshr : int_shr s.context.specific.sn 8 = s.context.specific.sn / 256 := by
    simp [int_shr]
  have hz2 : store (store s.dest s.counter (int_shr s.context.specific.sn 8)) (s.counter + 1)
      (int_and s.context.specific.sn 0xff) p = 0 := by
    rw [store_ne _ _ _ _ (by omega), store_ne _ _ _ _ (by omega), hz]
  simp only [code_sn_and_crc]
  refine ⟨trivial, ?_, ?_, ?_, fun j hj hjp => ?_⟩
  · rw [store_ne _ _ _ _ (by omega), store_ne _ _ _ _ (by omega), store_eq _ _ _ _ rfl, hshr]
  · rw [store_ne _ _ _ _ (by omega), store_eq _ _ _ _ rfl, hsn]
  · rw [store_zero_back _ _ _ hz2, store_eq _ _ _ _ rfl]
  · rw [store_ne _ _ _ _ hjp, store_ne _ _ _ _ (by omega), store_ne _ _ _ _ (by omega)]

/-- What `code_IR_packet` builds for headers that are not fragments. -/
theorem code_IR_packet_frame (E : generic_deps) (c : c_context) (pkt : ip_packet)
    (dest : Int → Int) (cid : cid_values)
    (hcv : E.code_cid_values c dest c.specific.tmp_variables.max_size = cid)
    (hfp : 0 ≤ cid.first_position) (hcid : cid.first_position < cid.counter)
    (h0 : 0 ≤ pkt.ip.frag_off) (h1 : pkt.ip.frag_off ≤ 65535)
    (hnf : ntohs pkt.ip.frag_off = 0 ∨ ntohs pkt.ip.frag_off = IP_DF)
    (g0 : 0 ≤ pkt.ip2.frag_off) (g1 : pkt.ip2.frag_off ≤ 65535)
    (gnf : c.specific.tmp_variables.nr_of_ip_hdr > 1 →
      ntohs pkt.ip2.frag_off = 0 ∨ ntohs pkt.ip2.frag_off = IP_DF) :
    (code_IR_packet E c pkt dest).counter =
      cid.counter + 2 +
        ((if c.specific.tmp_variables.nr_of_ip_hdr > 1 then 20 else 10) +
          (if c.specific.code_static_part = none then 0 else 4)) +
        ((if c.specific.tmp_variables.nr_of_ip_hdr > 1 then 10 else 5) +
          (if c.specific.code_dynamic_part = none then 0 else 2)) + 2 ∧
    (code_IR_packet E c pkt dest).dest cid.first_position = 0xFD ∧
    (code_IR_packet E c pkt dest).dest cid.counter = E.profile_id % 256 ∧
    (code_IR_packet E c pkt dest).dest (cid.counter + 1) =
      E.crc_calculate CRC_TYPE_8
        (octets_of (store (code_IR_packet E c pkt dest).dest (cid.counter + 1) 0)
          (code_IR_packet E c pkt dest).counter)
        (code_IR_packet E c pkt dest).counter % 256 ∧
    (code_IR_packet E c pkt dest).dest ((code_IR_packet E c pkt dest).counter - 2) =
      c.specific.sn / 256 % 256 ∧
    (code_IR_packet E c pkt dest).dest ((code_IR_packet E c pkt dest).counter - 1) =
      c.specific.sn % 256 := by
  simp only [code_IR_packet, hcv]
  set s0 : packet_build :=
    { context := c
      dest := store (store (store cid.dest cid.first_position
        (to_uchar (int_or (to_uchar 0xfc) 1))) cid.counter E.profile_id) (cid.counter + 1) 0
      counter := cid.counter + 1 + 1 } with hs0
  have s0c : s0.counter = cid.counter + 2 := by rw [hs0]; dsimp only; omega
  have s0x : s0.context = c := rfl
  have s0d : s0.dest = store (store (store cid.dest cid.first_position
        (to_uchar (int_or (to_uchar 0xfc) 1))) cid.counter E.profile_id) (cid.counter + 1) 0 :=
    rfl
  obtain ⟨a1, b1, c1⟩ := code_static_chain_step pkt s0 (by omega)
  rw [s0x] at a1 b1
  have hv := coding_view_eq _ _ b1
  set s1 := code_static_chain pkt s0 with hs1
  have n1 : ¬ s1.counter < 0 := by
    rw [a1]; split_ifs <;> omega
  rw [if_neg n1]
  obtain ⟨a2, b2, c2⟩ := code_dynamic_chain_step pkt s1 (not_lt.mp n1) h0 h1 hnf g0 g1
    (by rw [hv.2.2.2.1]; exact gnf)
  rw [hv.2.2.2.1, hv.2.2.2.2.2.2.2.2.2.2.2.2.1] at a2
  set s2 := code_dynamic_chain pkt s1 with hs2
  have hlen : cid.counter + 2 ≤ s1.counter := by
    rw [a1]; split_ifs <;> omega
  have n2 : ¬ s2.counter < 0 := by
    rw [a2]; split_ifs <;> omega
  rw [if_neg n2]
  have hlen2 : cid.counter + 2 ≤ s2.counter := by
    rw [a2]; split_ifs <;> omega
  have keep : ∀ j, j < cid.counter + 2 → s2.dest j = s0.dest j := by
    intro j hj
    rw [c2 j (by omega), c1 j (by omega)]
  obtain ⟨e1, e2, e3, e4, e5⟩ := code_sn_and_crc_step E (cid.counter + 1) s2 (by omega)
    (by rw [keep _ (by omega), s0d, store_eq _ _ _ _ rfl]; rfl)
  rw [b2, hv.2.2.1] at e2 e3
  refine ⟨?_, ?_, ?_, e4, ?_, ?_⟩
  · rw [e1, a2, a1, s0c]; omega
  · rw [e5 _ (by omega) (by omega), keep _ (by omega), s0d, store_ne _ _ _ _ (by omega),
      store_ne _ _ _ _ (by omega), store_eq _ _ _ _ rfl]
    decide
  · rw [e5 _ (by omega) (by omega), keep _ (by omega), s0d, store_ne _ _ _ _ (by omega),
      store_eq _ _ _ _ rfl]
  · rw [e1, ← e2]; congr 1; omega
  · rw [e1, ← e3]; congr 1; omega

/-- What `code_IR_DYN_packet` builds for headers that are not fragments. -/
theorem code_IR_DYN_packet_frame (E : generic_deps) (c : c_context) (pkt : ip_packet)
    (dest : Int → Int) (cid : cid_values)
    (hcv : E.code_cid_values c dest c.specific.tmp_variables.max_size = cid)
    (hfp : 0 ≤ cid.first_position) (hcid : cid.first_position < cid.counter)
    (h0 : 0 ≤ pkt.ip.frag_off) (h1 : pkt.ip.frag_off ≤ 65535)
    (hnf : ntohs pkt.ip.frag_off = 0 ∨ ntohs pkt.ip.frag_off = IP_DF)
    (g0 : 0 ≤ pkt.ip2.frag_off) (g1 : pkt.ip2.frag_off ≤ 65535)
    (gnf : c.specific.tmp_variables.nr_of_ip_hdr > 1 →
      ntohs pkt.ip2.frag_off = 0 ∨ ntohs pkt.ip2.frag_off = IP_DF) :
    (code_IR_DYN_packet E c pkt dest).counter =
      cid.counter + 2 +
        ((if c.specific.tmp_variables.nr_of_ip_hdr > 1 then 10 else 5) +
          (if c.specific.code_dynamic_part = none then 0 else 2)) + 2 ∧
    (code_IR_DYN_packet E c pkt dest).dest cid.first_position = 0xF8 ∧
    (code_IR_DYN_packet E c pkt dest).dest cid.counter = E.profile_id % 256 ∧
    (code_IR_DYN_packet E c pkt dest).dest (cid.counter + 1) =
      E.crc_calculate CRC_TYPE_8
        (octets_of (store (code_IR_DYN_packet E c pkt dest).dest (cid.counter + 1) 0)
          (code_IR_DYN_packet E c pkt dest).counter)
        (code_IR_DYN_packet E c pkt dest).counter % 256 ∧
    (code_IR_DYN_packet E c pkt dest).dest ((code_IR_DYN_packet E c pkt dest).counter - 2) =
      c.specific.sn / 256 % 256 ∧
    (code_IR_DYN_packet E c pkt dest).dest ((code_IR_DYN_packet E c pkt dest).counter - 1) =
      c.specific.sn % 256 := by
  simp only [code_IR_DYN_packet, hcv]
  set s0 : packet_build :=
    { context := c
      dest := store (store (store cid.dest cid.first_position 0xf8) cid.counter E.profile_id)
        (cid.counter + 1) 0
      counter := cid.counter + 1 + 1 } with hs0
  have s0c : s0.counter = cid.counter + 2 := by rw [hs0]; dsimp only; omega
  have s0x : s0.context = c := rfl
  have s0d : s0.dest = store (store (store cid.dest cid.first_position 0xf8) cid.counter
      E.profile_id) (cid.counter + 1) 0 := rfl
  obtain ⟨a2, b2, c2⟩ := code_dynamic_chain_step pkt s0 (by omega) h0 h1 hnf g0 g1 gnf
  rw [s0x] at a2 b2
  set s2 := code_dynamic_chain pkt s0 with hs2
  have n2 : ¬ s2.counter < 0 := by
    rw [a2]; split_ifs <;> omega
  rw [if_neg n2]
  have hlen2 : cid.counter + 2 ≤ s2.counter := by
    rw [a2]; split_ifs <;> omega
  have keep : ∀ j, j < cid.counter + 2 → s2.dest j = s0.dest j := by
    intro j hj
    rw [c2 j (by omega)]
  obtain ⟨e1, e2, e3, e4, e5⟩ := code_sn_and_crc_step E (cid.counter + 1) s2 (by omega)
    (by rw [keep _ (by omega), s0d, store_eq _ _ _ _ rfl]; rfl)
  rw [b2] at e2 e3
  refine ⟨?_, ?_, ?_, e4, ?_, ?_⟩
  · rw [e1, a2, s0c]; omega
  · rw [e5 _ (by omega) (by omega), keep _ (by omega), s0d, store_ne _ _ _ _ (by omega),
      store_ne _ _ _ _ (by omega), store_eq _ _ _ _ rfl]
    decide
  · rw [e5 _ (by omega) (by omega), keep _ (by omega), s0d, store_ne _ _ _ _ (by omega),
      store_eq _ _ _ _ rfl]
  · rw [e1, ← e2]; congr 1; omega
  · rw [e1, ← e3]; congr 1; omega

/-! ## The UO tail through `c_udp_encode` -/

theorem profile_view_eq (c c' : c_context) :
    profile_view c' = profile_view c ↔
      (c'.specific.specific = c.specific.specific ∧
        c'.specific.decide_state = c.specific.decide_state ∧
        c'.specific.code_UO_packet_tail = c.specific.code_UO_packet_tail ∧
        c'.specific.tmp_variables.nr_of_ip_hdr = c.specific.tmp_variables.nr_of_ip_hdr) := by
  simp [profile_view]

theorem profile_view_of_coding_view (c c' : c_context) (h : coding_view c' = coding_view c) :
    profile_view c' = profile_view c := by
  have hv := coding_view_eq _ _ h
  rw [profile_view_eq]
  exact ⟨hv.2.2.2.2.2.2.2.2.2.2.1, hv.2.2.2.2.2.2.2.2.2.2.2.2.2.2.2,
    hv.2.2.2.2.2.2.2.2.2.2.2.2.2.1, by rw [hv.2.2.2.1]⟩

theorem change_state_profile (c : c_context) (s : rohc_c_state) :
    profile_view (change_state c s) = profile_view c := by
  unfold change_state
  split_ifs <;> rfl

theorem periodic_down_transition_profile (L : generic_limits) (c : c_context) :
    profile_view (periodic_down_transition L c) = profile_view c := by
  simp only [periodic_down_transition, change_state]
  split_ifs <;> rfl

theorem decide_state_profile (L : generic_limits) (c : c_context) :
    profile_view (decide_state L c) = profile_view c := by
  simp only [decide_state]
  split_ifs
  · rw [periodic_down_transition_profile, change_state_profile]
  · rw [change_state_profile]

theorem call_decide_state_profile (L : generic_limits) (c : c_context) :
    profile_view (call_decide_state L c) = profile_view c := by
  simp only [call_decide_state]
  rcases c.specific.decide_state with _ | ⟨_ | _⟩
  · rfl
  · exact decide_state_profile L c
  · simp only [udp_decide_state]
    split_ifs
    · exact change_state_profile _ _
    · exact decide_state_profile L c

/-- With the state decision of the UDP profile, a packet whose UDP checksum
behaviour changed puts the context in state IR. -/
theorem call_decide_state_udp_IR (L : generic_limits) (c : c_context)
    (hd : c.specific.decide_state = some decide_state_handler.udp)
    (hs : (udp_part c).send_udp_dynamic ≠ 0) : (call_decide_state L c).state = IR := by
  simp only [call_decide_state, hd, udp_decide_state, if_pos hs]
  exact change_state_state _ _

theorem update_variables_frame (E : generic_deps) (c : c_context) (ip ip2 : iphdr) :
    (update_variables E c ip ip2).state = c.state ∧
    profile_view (update_variables E c ip ip2) = profile_view c := by
  simp only [update_variables]
  split_ifs <;> exact ⟨rfl, rfl⟩

theorem decide_packet_profile (L : generic_limits) (c : c_context) :
    profile_view (decide_packet L c).1 = profile_view c := by
  unfold decide_packet
  cases hs : c.state
  · rfl
  · simp only [decide_FO_packet]
    split_ifs <;> rfl
  · rfl

theorem changed_static_both_hdr_view (E : generic_deps) (c : c_context) :
    coding_view (changed_static_both_hdr E c).1 = coding_view c := by
  simp only [changed_static_both_hdr]
  split_ifs
  · dsimp only
    rw [changed_static_one_hdr_view, changed_static_one_hdr_view]
  · exact changed_static_one_hdr_view _ _ _ _

theorem changed_dynamic_both_hdr_view (E : generic_deps) (c : c_context) (ip ip2 : iphdr) :
    coding_view (changed_dynamic_both_hdr E c ip ip2).1 = coding_view c := by
  simp only [changed_dynamic_both_hdr]
  split_ifs
  · dsimp only
    rw [changed_dynamic_one_hdr_view, changed_dynamic_one_hdr_view]
  · exact changed_dynamic_one_hdr_view _ _ _ _ _

theorem encode_detect_changes_profile (E : generic_deps) (c : c_context) (pkt : ip_packet) :
    profile_view (encode_detect_changes E c pkt) = profile_view c := by
  simp only [encode_detect_changes]
  refine Eq.trans (b := profile_view (changed_dynamic_both_hdr E _ pkt.ip pkt.ip2).1) rfl ?_
  rw [profile_view_of_coding_view _ _ (changed_dynamic_both_hdr_view E _ pkt.ip pkt.ip2)]
  refine Eq.trans (b := profile_view (changed_static_both_hdr E _).1) rfl ?_
  rw [profile_view_of_coding_view _ _ (changed_static_both_hdr_view E _)]
  split_ifs <;> rfl

theorem octets_from_zero (d : Int → Int) (c : Int) : octets_from d c 0 = [] := rfl

theorem octets_from_two (d : Int → Int) (c : Int) : octets_from d c 2 = [d c, d (c + 1)] := by
  simp [octets_from, List.range_succ]

theorem octets_from_four (d : Int → Int) (c : Int) :
    octets_from d c 4 = [d c, d (c + 1), d (c + 2), d (c + 3)] := by
  simp [octets_from, List.range_succ]

theorem octets_from_six (d : Int → Int) (c : Int) :
    octets_from d c 6 = [d c, d (c + 1), d (c + 2), d (c + 3), d (c + 4), d (c + 5)] := by
  simp [octets_from, List.range_succ]

/-- The octets `code_UO_packet_tail` appends in a UDP context: the outer
IP-ID if the outer RND is 1, the inner IP-ID if there are two IP headers and
the inner RND is 1, the UDP checksum of the packet if it is not zero. -/
theorem code_UO_packet_tail_octets (pkt : ip_packet) (s : packet_build)
    (hh : s.context.specific.code_UO_packet_tail = some next_header_handler.udp) :
    (code_UO_packet_tail pkt s).counter =
      s.counter + ((spec_uo_tail s.context.specific.ip_flags.rnd
        (decide (s.context.specific.tmp_variables.nr_of_ip_hdr > 1))
        s.context.specific.ip2_flags.rnd pkt.udp.check pkt).length : Int) ∧
    octets_from (code_UO_packet_tail pkt s).dest s.counter
        ((spec_uo_tail s.context.specific.ip_flags.rnd
          (decide (s.context.specific.tmp_variables.nr_of_ip_hdr > 1))
          s.context.specific.ip2_flags.rnd pkt.udp.check pkt).length : Int) =
      spec_uo_tail s.context.specific.ip_flags.rnd
        (decide (s.context.specific.tmp_variables.nr_of_ip_hdr > 1))
        s.context.specific.ip2_flags.rnd pkt.udp.check pkt := by
  simp only [code_UO_packet_tail, hh, udp_code_UO_packet_tail, spec_uo_tail, field_octets,
    decide_eq_true_eq, ne_eq]
  by_cases h1 : s.context.specific.ip_flags.rnd = 1 <;>
  by_cases h2 : s.context.specific.tmp_variables.nr_of_ip_hdr > 1 ∧
      s.context.specific.ip2_flags.rnd = 1 <;>
  by_cases h3 : pkt.udp.check = 0 <;>
  simp only [h1, h2, h3, if_true, if_false, List.append_nil, List.nil_append, List.cons_append,
    List.length_cons, List.length_nil, not_true_eq_false, not_false_eq_true, Nat.cast_add,
    Nat.cast_one, Nat.cast_zero, Nat.cast_ofNat] <;>
  norm_num <;>
  first
  | rfl
  | (refine ⟨by ring, ?_⟩
     simp (disch := omega) only [octets_from_zero, octets_from_two, octets_from_four,
       octets_from_six, memcpy2_at0, memcpy2_at1, memcpy2_ne])
  | simp (disch := omega) only [octets_from_zero, octets_from_two, octets_from_four,
       octets_from_six, memcpy2_at0, memcpy2_at1, memcpy2_ne]

theorem set_header_info_tmp (c : c_context) (pos : ip_header_pos) (h : ip_header_info) :
    (set_header_info c pos h).specific.tmp_variables = c.specific.tmp_variables := by
  cases pos <;> rfl

theorem code_generic_dynamic_part_tmp (pos : ip_header_pos) (ip : iphdr) (s : packet_build) :
    (code_generic_dynamic_part pos ip s).context.specific.tmp_variables =
      s.context.specific.tmp_variables := by
  simp only [code_generic_dynamic_part]
  split_ifs <;> exact set_header_info_tmp _ _ _

theorem next_header_dynamic_part_tmp (pkt : ip_packet) (s : packet_build) :
    (next_header_dynamic_part pkt s).context.specific.tmp_variables =
      s.context.specific.tmp_variables := by
  simp only [next_header_dynamic_part]
  rcases s.context.specific.code_dynamic_part with _ | ⟨_⟩ <;> rfl

theorem code_dynamic_chain_tmp (pkt : ip_packet) (s : packet_build) :
    (code_dynamic_chain pkt s).context.specific.tmp_variables =
      s.context.specific.tmp_variables := by
  simp only [code_dynamic_chain]
  split_ifs <;>
    simp only [next_header_dynamic_part_tmp, code_generic_dynamic_part_tmp]

theorem code_static_chain_tmp (pkt : ip_packet) (s : packet_build) :
    (code_static_chain pkt s).context.specific.tmp_variables =
      s.context.specific.tmp_variables := by
  have h1 := fun pos ip t => (coding_view_eq _ _ (code_generic_static_part_step pos ip t).2.1).2.2.2.1
  have h2 := fun t => congrArg (fun c : c_context => c.specific.tmp_variables)
    (next_header_static_part_step pkt t).2.1
  simp only [code_static_chain]
  split_ifs <;> simp only [h1, h2]

theorem code_sn_and_crc_tmp (E : generic_deps) (p : Int) (s : packet_build) :
    (code_sn_and_crc E p s).context = s.context := rfl

theorem code_IR_packet_tmp (E : generic_deps) (c : c_context) (pkt : ip_packet)
    (dest : Int → Int) :
    (code_IR_packet E c pkt dest).context.specific.tmp_variables = c.specific.tmp_variables := by
  simp only [code_IR_packet]
  split_ifs <;>
    simp only [code_sn_and_crc_tmp, code_dynamic_chain_tmp, code_static_chain_tmp]

theorem code_IR_DYN_packet_tmp (E : generic_deps) (c : c_context) (pkt : ip_packet)
    (dest : Int → Int) :
    (code_IR_DYN_packet E c pkt dest).context.specific.tmp_variables =
      c.specific.tmp_variables := by
  simp only [code_IR_DYN_packet]
  split_ifs <;>
    simp only [code_sn_and_crc_tmp, code_dynamic_chain_tmp]

/-- A UO packet is a base header, for UO-2 with its extension, followed by
the tail `code_UO_packet_tail` appends. -/
theorem code_packet_UO (E : generic_deps) (c : c_context) (pkt : ip_packet) (dest : Int → Int)
    (h : c.specific.tmp_variables.packet_type = some PACKET_UO_0 ∨
      c.specific.tmp_variables.packet_type = some PACKET_UO_1 ∨
      c.specific.tmp_variables.packet_type = some PACKET_UOR_2) :
    ∃ s : packet_build, code_packet E c pkt dest = code_UO_packet_tail pkt s ∧
      coding_view s.context = coding_view c := by
  rcases h with h | h | h
  · simp only [code_packet, h, code_UO0_packet]
    exact ⟨_, rfl, rfl⟩
  · simp only [code_packet, h, code_UO1_packet]
    exact ⟨_, rfl, rfl⟩
  · simp only [code_packet, h, code_UO2_packet]
    exact ⟨_, rfl, (code_extension_step E _ pkt _).2⟩

theorem code_packet_tmp (E : generic_deps) (c : c_context) (pkt : ip_packet)
    (dest : Int → Int) :
    (code_packet E c pkt dest).context.specific.tmp_variables = c.specific.tmp_variables := by
  rcases hp : c.specific.tmp_variables.packet_type with _ | t
  · simp only [code_packet, hp]
  · cases t
    · simp only [code_packet, hp]
      exact code_IR_packet_tmp E c pkt dest
    · simp only [code_packet, hp]
      exact code_IR_DYN_packet_tmp E c pkt dest
    all_goals
      obtain ⟨s, e, v⟩ := code_packet_UO E c pkt dest (by simp [hp])
      rw [e, (code_UO_packet_tail_frame pkt s).1]
      exact (coding_view_eq _ _ v).2.2.2.1

theorem encode_update_context_frame (c : c_context) (pkt : ip_packet) :
    (encode_update_context c pkt).specific.tmp_variables = c.specific.tmp_variables ∧
    (encode_update_context c pkt).specific.specific = c.specific.specific ∧
    (encode_update_context c pkt).specific.ip_flags.rnd = c.specific.ip_flags.rnd ∧
    (encode_update_context c pkt).specific.ip2_flags.rnd = c.specific.ip2_flags.rnd := by
  simp only [encode_update_context]
  split_ifs <;> exact ⟨rfl, rfl, rfl, rfl⟩

/-- The value `udp_changed_udp_dynamic` returns is 0 only when the packet and
the context agree on the presence of a UDP checksum. -/
theorem udp_changed_udp_dynamic_zero (L : generic_limits) (c : c_context) (udp : udphdr)
    (h : (udp_changed_udp_dynamic L c udp).2 = 0) :
    (udp.check ≠ 0 ↔ (udp_part c).old_udp.check ≠ 0) := by
  simp only [udp_changed_udp_dynamic] at h
  split_ifs at h with h1 h2
  · simp at h
  · simp at h
  · by_cases a : udp.check = 0 <;> by_cases b : (udp_part c).old_udp.check = 0 <;>
      simp_all

/-- Steps 2 to 6 of `c_generic_encode` in a context of the UDP profile, when
they produce a UO packet: the checksum behaviour did not change, the UDP part
is the one before the call, and the packet ends with the tail. -/
theorem c_generic_encode_steps_UO (E : generic_deps) (c : c_context) (pkt : ip_packet)
    (dest : Int → Int) (off : Int)
    (hds : c.specific.decide_state = some decide_state_handler.udp)
    (htl : c.specific.code_UO_packet_tail = some next_header_handler.udp)
    (hsz : 0 ≤ (c_generic_encode_steps E c pkt dest off).size)
    (hpt : (c_generic_encode_steps E c pkt dest off).context.specific.tmp_variables.packet_type
        = some PACKET_UO_0 ∨
      (c_generic_encode_steps E c pkt dest off).context.specific.tmp_variables.packet_type
        = some PACKET_UO_1 ∨
      (c_generic_encode_steps E c pkt dest off).context.specific.tmp_variables.packet_type
        = some PACKET_UOR_2) :
    (udp_part c).send_udp_dynamic = 0 ∧
    (c_generic_encode_steps E c pkt dest off).context.specific.specific = c.specific.specific ∧
    octets_from (c_generic_encode_steps E c pkt dest off).dest
        ((c_generic_encode_steps E c pkt dest off).size -
          ((spec_uo_tail (c_generic_encode_steps E c pkt dest off).context.specific.ip_flags.rnd
            (decide (c.specific.tmp_variables.nr_of_ip_hdr > 1))
            (c_generic_encode_steps E c pkt dest off).context.specific.ip2_flags.rnd
            pkt.udp.check pkt).length : Int))
        ((spec_uo_tail (c_generic_encode_steps E c pkt dest off).context.specific.ip_flags.rnd
          (decide (c.specific.tmp_variables.nr_of_ip_hdr > 1))
          (c_generic_encode_steps E c pkt dest off).context.specific.ip2_flags.rnd
          pkt.udp.check pkt).length : Int) =
      spec_uo_tail (c_generic_encode_steps E c pkt dest off).context.specific.ip_flags.rnd
        (decide (c.specific.tmp_variables.nr_of_ip_hdr > 1))
        (c_generic_encode_steps E c pkt dest off).context.specific.ip2_flags.rnd
        pkt.udp.check pkt := by
  -- the contexts of the steps
  obtain ⟨c5, hc5⟩ : ∃ x, x = encode_detect_changes E c pkt := ⟨_, rfl⟩
  obtain ⟨c6, hc6⟩ : ∃ x, x = call_decide_state E.L c5 := ⟨_, rfl⟩
  obtain ⟨c7, hc7⟩ : ∃ x, x = update_variables E c6 pkt.ip pkt.ip2 := ⟨_, rfl⟩
  obtain ⟨c8, hc8⟩ : ∃ x : c_context, x =
    { (decide_packet E.L c7).1 with
      specific :=
        { (decide_packet E.L c7).1.specific with
          tmp_variables :=
            { (decide_packet E.L c7).1.specific.tmp_variables with
              packet_type := some (decide_packet E.L c7).2 } } } := ⟨_, rfl⟩
  have hsteps : c_generic_encode_steps E c pkt dest off =
      if (code_packet E c8 pkt dest).counter < 0 then
        { context := (code_packet E c8 pkt dest).context, dest := (code_packet E c8 pkt dest).dest,
          payload_offset := off, size := -1 }
      else
        { context := encode_update_context (code_packet E c8 pkt dest).context pkt
          dest := (code_packet E c8 pkt dest).dest
          payload_offset := off
          size := (code_packet E c8 pkt dest).counter } := by
    rw [hc8, hc7, hc6, hc5]
    rfl
  have p5 : profile_view c5 = profile_view c := by
    rw [hc5]; exact encode_detect_changes_profile E c pkt
  have p6 : profile_view c6 = profile_view c5 := by
    rw [hc6]; exact call_decide_state_profile E.L c5
  have p7 : profile_view c7 = profile_view c6 := by
    rw [hc7]; exact (update_variables_frame E c6 pkt.ip pkt.ip2).2
  have p8 : profile_view c8 = profile_view c7 := by
    rw [hc8]; exact decide_packet_profile E.L c7
  have hty : c8.specific.tmp_variables.packet_type = some (decide_packet E.L c7).2 := by
    rw [hc8]
  have pv := (profile_view_eq _ _).1 (p8.trans (p7.trans (p6.trans p5)))
  obtain ⟨v1, v2, v3, v4⟩ := pv
  clear hc8
  rw [hsteps] at hsz hpt ⊢
  by_cases hneg : (code_packet E c8 pkt dest).counter < 0
  · rw [if_pos hneg] at hsz
    exact absurd hsz (by norm_num)
  rw [if_neg hneg] at hpt ⊢
  dsimp only at hpt ⊢
  obtain ⟨u1, u2, u3, u4⟩ := encode_update_context_frame (code_packet E c8 pkt dest).context pkt
  rw [u1, code_packet_tmp] at hpt
  rw [u2, u3, u4]
  -- the checksum behaviour did not change
  have hsend : (udp_part c).send_udp_dynamic = 0 := by
    by_contra hne
    have h5 : (udp_part c5).send_udp_dynamic ≠ 0 := by
      have e5 := ((profile_view_eq _ _).1 p5).1
      simpa only [udp_part, e5] using hne
    have d5 : c5.specific.decide_state = some decide_state_handler.udp := by
      rw [((profile_view_eq _ _).1 p5).2.1]; exact hds
    have s6 : c6.state = IR := by
      rw [hc6]; exact call_decide_state_udp_IR E.L c5 d5 h5
    have s7 : c7.state = IR := by
      rw [hc7, (update_variables_frame E c6 pkt.ip pkt.ip2).1]; exact s6
    have t8 := (decide_packet_IR E.L c7 s7).1
    rw [hty, t8] at hpt
    simp at hpt
  obtain ⟨s, es, vs⟩ := code_packet_UO E c8 pkt dest hpt
  have hv := coding_view_eq _ _ vs
  obtain ⟨f1, _, _⟩ := code_UO_packet_tail_frame pkt s
  have htl8 : s.context.specific.code_UO_packet_tail = some next_header_handler.udp := by
    rw [hv.2.2.2.2.2.2.2.2.2.2.2.2.2.1, v3]; exact htl
  obtain ⟨k1, k2⟩ := code_UO_packet_tail_octets pkt s htl8
  have hn : s.context.specific.tmp_variables.nr_of_ip_hdr = c.specific.tmp_variables.nr_of_ip_hdr := by
    rw [hv.2.2.2.1]; exact v4
  rw [hn] at k1 k2
  rw [es, f1]
  refine ⟨hsend, ?_, ?_⟩
  · rw [hv.2.2.2.2.2.2.2.2.2.2.1]; exact v1
  · rw [k1, add_sub_cancel_right]
    exact k2

theorem spec_uo_tail_check (a : Int) (b : Bool) (d x y : Int) (pkt : ip_packet)
    (h : x ≠ 0 ↔ y ≠ 0) : spec_uo_tail a b d x pkt = spec_uo_tail a b d y pkt := by
  simp only [spec_uo_tail]
  by_cases hx : x = 0
  · have hy : y = 0 := by
      by_contra hy
      exact (h.2 hy) hx
    simp [hx, hy]
  · have hy : y ≠ 0 := h.1 hx
    simp [hx, hy]

/-- A call of `c_generic_encode` that does not fail went through steps 2 to 6
with the context `encode_init` leaves. -/
theorem c_generic_encode_steps_of_size (E : generic_deps) (c : c_context) (pkt : ip_packet)
    (dest : Int → Int) (n p : Int) (h : 0 ≤ (c_generic_encode E c pkt dest n p).size) :
    ∃ off, c_generic_encode E c pkt dest n p =
      c_generic_encode_steps E (encode_init E.L c pkt n) pkt dest off := by
  simp only [c_generic_encode] at h ⊢
  split_ifs at h ⊢ <;>
    first
    | exact ⟨_, rfl⟩
    | exact absurd h (by norm_num)

/-- A call of `c_udp_encode` that produces a UO packet yields what
`c_generic_encode` yields. -/
theorem c_udp_encode_UO (E : generic_deps) (c : c_context) (pkt : ip_packet)
    (dest : Int → Int) (n p : Int)
    (hsz : 0 < (c_udp_encode E c pkt dest n p).size)
    (hpt : (c_udp_encode E c pkt dest n p).context.specific.tmp_variables.packet_type
        = some PACKET_UO_0 ∨
      (c_udp_encode E c pkt dest n p).context.specific.tmp_variables.packet_type
        = some PACKET_UO_1 ∨
      (c_udp_encode E c pkt dest n p).context.specific.tmp_variables.packet_type
        = some PACKET_UOR_2) :
    c_udp_encode E c pkt dest n p =
      c_generic_encode E (udp_encode_init E.L c pkt.udp) pkt dest n p := by
  obtain ⟨r, hr⟩ : ∃ r, r = c_generic_encode E (udp_encode_init E.L c pkt.udp) pkt dest n p :=
    ⟨_, rfl⟩
  have hu : c_udp_encode E c pkt dest n p =
      match c.specific.specific with
      | none => { context := c, dest := dest, payload_offset := p, size := 0 }
      | some _ =>
        if (if pkt.ip.protocol = IPPROTO_IPIP then pkt.ip2 else pkt.ip).protocol ≠ IPPROTO_UDP then
          { context := c, dest := dest, payload_offset := p, size := 0 }
        else if r.size < 0 then r
        else if r.context.specific.tmp_variables.packet_type = some PACKET_IR ∨
            r.context.specific.tmp_variables.packet_type = some PACKET_IR_DYN then
          { r with context := set_udp_part r.context { udp_part r.context with old_udp := pkt.udp } }
        else r := by
    rw [hr]; rfl
  rw [← hr]
  rw [hu] at hsz hpt ⊢
  generalize c.specific.specific = o at hsz hpt ⊢
  generalize (if pkt.ip.protocol = IPPROTO_IPIP then pkt.ip2 else pkt.ip).protocol = lp
    at hsz hpt ⊢
  rcases o with _ | u
  · exact absurd hsz (by norm_num)
  · dsimp only at hsz hpt ⊢
    by_cases h1 : lp ≠ IPPROTO_UDP
    · rw [if_pos h1] at hsz
      exact absurd hsz (by norm_num)
    rw [if_neg h1] at hsz hpt ⊢
    by_cases h2 : r.size < 0
    · rw [if_pos h2]
    rw [if_neg h2] at hsz hpt ⊢
    by_cases h3 : r.context.specific.tmp_variables.packet_type = some PACKET_IR ∨
        r.context.specific.tmp_variables.packet_type = some PACKET_IR_DYN
    · exfalso
      rw [if_pos h3] at hpt
      have e : (set_udp_part r.context
          { udp_part r.context with old_udp := pkt.udp }).specific.tmp_variables =
          r.context.specific.tmp_variables := rfl
      dsimp only at hpt
      rw [e] at hpt
      rcases h3 with h3 | h3 <;> rw [h3] at hpt <;> simp at hpt
    · rw [if_neg h3]

/-- When `c_udp_encode`, in a context that has the functions of the UDP
profile, produces a UO-0, UO-1 or UO-2 packet, the packet has a UDP checksum
that is not zero exactly when the checksum `old_udp.check` stored in the
context is not zero, the stored UDP header is left as it was, and the packet
ends with the tail: the 2-byte outer IP-ID if the outer RND is 1, then the
2-byte inner IP-ID if there is an inner header and the inner RND is 1, then
the 2-byte UDP checksum if the checksum stored in the context is not zero. -/
theorem c_udp_encode_uo_tail_end (E : generic_deps) (c : c_context) (pkt : ip_packet)
    (dest : Int → Int) (n p : Int)
    (hds : c.specific.decide_state = some decide_state_handler.udp)
    (htl : c.specific.code_UO_packet_tail = some next_header_handler.udp)
    (hsz : 0 < (c_udp_encode E c pkt dest n p).size)
    (hpt : (c_udp_encode E c pkt dest n p).context.specific.tmp_variables.packet_type
        = some PACKET_UO_0 ∨
      (c_udp_encode E c pkt dest n p).context.specific.tmp_variables.packet_type
        = some PACKET_UO_1 ∨
      (c_udp_encode E c pkt dest n p).context.specific.tmp_variables.packet_type
        = some PACKET_UOR_2) :
    (pkt.udp.check ≠ 0 ↔ (udp_part c).old_udp.check ≠ 0) ∧
    (udp_part (c_udp_encode E c pkt dest n p).context).old_udp = (udp_part c).old_udp ∧
    octets_from (c_udp_encode E c pkt dest n p).dest
        ((c_udp_encode E c pkt dest n p).size -
          ((spec_uo_tail (c_udp_encode E c pkt dest n p).context.specific.ip_flags.rnd
            (decide (pkt.ip.protocol = IPPROTO_IPIP))
            (c_udp_encode E c pkt dest n p).context.specific.ip2_flags.rnd
            (udp_part c).old_udp.check pkt).length : Int))
        ((spec_uo_tail (c_udp_encode E c pkt dest n p).context.specific.ip_flags.rnd
          (decide (pkt.ip.protocol = IPPROTO_IPIP))
          (c_udp_encode E c pkt dest n p).context.specific.ip2_flags.rnd
          (udp_part c).old_udp.check pkt).length : Int) =
      spec_uo_tail (c_udp_encode E c pkt dest n p).context.specific.ip_flags.rnd
        (decide (pkt.ip.protocol = IPPROTO_IPIP))
        (c_udp_encode E c pkt dest n p).context.specific.ip2_flags.rnd
        (udp_part c).old_udp.check pkt := by
  have e1 := c_udp_encode_UO E c pkt dest n p hsz hpt
  rw [e1] at hsz hpt ⊢
  obtain ⟨off, e2⟩ := c_generic_encode_steps_of_size E (udp_encode_init E.L c pkt.udp) pkt dest
    n p (le_of_lt hsz)
  rw [e2] at hsz hpt ⊢
  have f0 := udp_encode_init_frame E.L c pkt.udp _ rfl
  have f1 := encode_init_frame E.L (udp_encode_init E.L c pkt.udp) pkt n
  have hds1 : (encode_init E.L (udp_encode_init E.L c pkt.udp) pkt n).specific.decide_state =
      some decide_state_handler.udp := by
    rw [f1.2.2.2.2.2.2.2.2.2.2.2.2.2.2.1, f0.2.2.2.2.2.2.2.2.2.2.2.2.2.2.2.2.1]; exact hds
  have htl1 : (encode_init E.L (udp_encode_init E.L c pkt.udp) pkt n).specific.code_UO_packet_tail
      = some next_header_handler.udp := by
    rw [f1.2.2.2.2.2.2.2.2.2.2.2.2.2.2.2.2.2, f0.2.2.2.2.2.2.2.2.2.2.2.2.2.2.2.2.2.2.2.1]
    exact htl
  obtain ⟨a1, a2, a3⟩ := c_generic_encode_steps_UO E _ pkt dest off hds1 htl1 (le_of_lt hsz) hpt
  have hsp : (encode_init E.L (udp_encode_init E.L c pkt.udp) pkt n).specific.specific =
      (udp_encode_init E.L c pkt.udp).specific.specific := f1.2.2.2.2.2.2.2.2.2.2.2.1
  have hup : udp_part (encode_init E.L (udp_encode_init E.L c pkt.udp) pkt n) =
      udp_part (udp_encode_init E.L c pkt.udp) := by
    simp only [udp_part, hsp]
  rw [hup, f0.2.2.2.2.2.2.2.2.2.2.2.2.2.2.2.2.2.2.2.2.2.1] at a1
  have hiff := udp_changed_udp_dynamic_zero E.L c pkt.udp a1
  have hnr : decide ((encode_init E.L (udp_encode_init E.L c pkt.udp) pkt n).specific.tmp_variables.nr_of_ip_hdr > 1)
      = decide (pkt.ip.protocol = IPPROTO_IPIP) := by
    rw [encode_init_nr_of_ip_hdr]
    by_cases h : pkt.ip.protocol = IPPROTO_IPIP <;> simp [h]
  rw [hnr] at a3
  refine ⟨hiff, ?_, ?_⟩
  · have : udp_part (c_generic_encode_steps E
        (encode_init E.L (udp_encode_init E.L c pkt.udp) pkt n) pkt dest off).context =
        udp_part (udp_encode_init E.L c pkt.udp) := by
      simp only [udp_part, a2, hsp]
    rw [this]
    exact f0.2.2.2.2.2.2.2.2.2.2.2.2.2.2.2.2.2.2.2.2.1
  · rw [← spec_uo_tail_check _ _ _ _ _ pkt hiff]
    exact a3

/-! ## What the change detection and the packet builders leave as it was -/

theorem set_header_info_erase (c : c_context) (pos : ip_header_pos) (h : ip_header_info)
    (e : erase_counters_info h = erase_counters_info (header_info_of c pos)) :
    erase_counters (set_header_info c pos h) = erase_counters c := by
  cases pos
  · simp only [set_header_info, header_info_of, erase_counters, udp_part] at e ⊢
    rw [e]
  · simp only [set_header_info, header_info_of, erase_counters, udp_part] at e ⊢
    rw [e]

theorem fo_count_erase (c : c_context) (v : Int) :
    erase_counters { c with specific := { c.specific with fo_count := v } } =
      erase_counters c := rfl

theorem changed_static_one_hdr_erase (E : generic_deps) (cf : Int) (pos : ip_header_pos)
    (c : c_context) : erase_counters (changed_static_one_hdr E cf pos c).1 = erase_counters c := by
  simp only [changed_static_one_hdr]
  split_ifs
  · exact (fo_count_erase _ _).trans (set_header_info_erase _ _ _ rfl)
  · rfl
  · rfl

theorem changed_dynamic_tos_erase (E : generic_deps) (cf : Int) (pos : ip_header_pos)
    (c : c_context) : erase_counters (changed_dynamic_tos E cf pos c).1 = erase_counters c := by
  simp only [changed_dynamic_tos]
  split_ifs
  · exact (fo_count_erase _ _).trans (set_header_info_erase _ _ _ rfl)
  · rfl
  · rfl

theorem changed_dynamic_ttl_erase (E : generic_deps) (cf : Int) (pos : ip_header_pos)
    (c : c_context) : erase_counters (changed_dynamic_ttl E cf pos c).1 = erase_counters c := by
  simp only [changed_dynamic_ttl]
  split_ifs
  · exact (fo_count_erase _ _).trans (set_header_info_erase _ _ _ rfl)
  · rfl
  · rfl

theorem changed_dynamic_df_erase (E : generic_deps) (pos : ip_header_pos) (ip : iphdr)
    (c : c_context) : erase_counters (changed_dynamic_df E pos ip c).1 = erase_counters c := by
  simp only [changed_dynamic_df]
  split_ifs
  · exact (fo_count_erase _ _).trans (set_header_info_erase _ _ _ rfl)
  · rfl
  · rfl

theorem changed_dynamic_rnd_erase (E : generic_deps) (pos : ip_header_pos)
    (c : c_context) : erase_counters (changed_dynamic_rnd E pos c).1 = erase_counters c := by
  simp only [changed_dynamic_rnd]
  split_ifs
  · exact (fo_count_erase _ _).trans (set_header_info_erase _ _ _ rfl)
  · rfl
  · rfl

theorem changed_dynamic_nbo_erase (E : generic_deps) (pos : ip_header_pos)
    (c : c_context) : erase_counters (changed_dynamic_nbo E pos c).1 = erase_counters c := by
  simp only [changed_dynamic_nbo]
  split_ifs
  · exact (fo_count_erase _ _).trans (set_header_info_erase _ _ _ rfl)
  · rfl
  · rfl

theorem changed_dynamic_one_hdr_erase (E : generic_deps) (cf : Int) (pos : ip_header_pos)
    (ip : iphdr) (c : c_context) :
    erase_counters (changed_dynamic_one_hdr E cf pos ip c).1 = erase_counters c := by
  simp only [changed_dynamic_one_hdr]
  rw [changed_dynamic_nbo_erase, changed_dynamic_rnd_erase, changed_dynamic_df_erase,
    changed_dynamic_ttl_erase, changed_dynamic_tos_erase]

theorem changed_static_both_hdr_erase (E : generic_deps) (c : c_context) :
    erase_counters (changed_static_both_hdr E c).1 = erase_counters c := by
  simp only [changed_static_both_hdr]
  split_ifs
  · dsimp only
    rw [changed_static_one_hdr_erase, changed_static_one_hdr_erase]
  · exact changed_static_one_hdr_erase _ _ _ _

theorem changed_dynamic_both_hdr_erase (E : generic_deps) (c : c_context) (ip ip2 : iphdr) :
    erase_counters (changed_dynamic_both_hdr E c ip ip2).1 = erase_counters c := by
  simp only [changed_dynamic_both_hdr]
  split_ifs
  · dsimp only
    rw [changed_dynamic_one_hdr_erase, changed_dynamic_one_hdr_erase]
  · exact changed_dynamic_one_hdr_erase _ _ _ _ _

theorem ext3_header_changed_erase (E : generic_deps) (cf : Int) (pos : ip_header_pos)
    (ip : iphdr) (c : c_context) :
    erase_counters (ext3_header_changed E cf pos ip c).1 = erase_counters c := by
  simp only [ext3_header_changed]
  split_ifs
  · exact changed_dynamic_one_hdr_erase _ _ _ _ _
  · dsimp only
    rw [changed_static_one_hdr_erase, changed_dynamic_one_hdr_erase]

theorem header_flags_erase (E : generic_deps) (pos : ip_header_pos) (cf : Int) (ip : iphdr)
    (o : Bool) (k : Int) (s : packet_build) :
    erase_counters (header_flags E pos cf ip o k s).context = erase_counters s.context := by
  simp only [header_flags]
  exact set_header_info_erase _ _ _ rfl

theorem header_fields_erase (E : generic_deps) (pos : ip_header_pos) (cf : Int) (ip : iphdr)
    (o : Bool) (k : Int) (s : packet_build) :
    erase_counters (header_fields E pos cf ip o k s).context = erase_counters s.context := by
  have h1 : ∀ t, erase_counters (header_fields_tos E pos cf ip t).context =
      erase_counters t.context := by
    intro t
    simp only [header_fields_tos]
    split_ifs
    · exact set_header_info_erase _ _ _ rfl
    · rfl
  have h2 : ∀ t, erase_counters (header_fields_ttl E pos cf ip t).context =
      erase_counters t.context := by
    intro t
    simp only [header_fields_ttl]
    split_ifs
    · exact set_header_info_erase _ _ _ rfl
    · rfl
  have h3 : ∀ t, erase_counters (header_fields_protocol E pos cf ip t).context =
      erase_counters t.context := by
    intro t
    simp only [header_fields_protocol]
    split_ifs
    · exact set_header_info_erase _ _ _ rfl
    · rfl
  have h4 : ∀ t, (ext3_ip_id_field E pos ip k t).context = t.context := by
    intro t
    simp only [ext3_ip_id_field]
    split_ifs <;> rfl
  simp only [header_fields]
  split_ifs
  · rw [h4, h3, h2, h1]
  · rw [h3, h2, h1]

theorem ext3_ip_id_field_context (E : generic_deps) (pos : ip_header_pos) (ip : iphdr)
    (k : Int) (s : packet_build) : (ext3_ip_id_field E pos ip k s).context = s.context := by
  simp only [ext3_ip_id_field]
  split_ifs <;> rfl

theorem ext3_sn_field_context (k : Int) (s : packet_build) :
    (ext3_sn_field k s).context = s.context := by
  simp only [ext3_sn_field]
  split_ifs <;> rfl

theorem code_EXT3_packet_erase (E : generic_deps) (pkt : ip_packet) (s : packet_build) :
    erase_counters (code_EXT3_packet E pkt s).context = erase_counters s.context := by
  simp only [code_EXT3_packet]
  split_ifs <;>
    simp only [header_fields_erase, header_flags_erase, ext3_ip_id_field_context,
      ext3_sn_field_context, ext3_header_changed_erase]

theorem code_extension_erase (E : generic_deps) (e : rohc_ext) (pkt : ip_packet)
    (s : packet_build) :
    erase_counters (code_extension E e pkt s).context = erase_counters s.context := by
  cases e
  · rfl
  · rfl
  · rfl
  · rfl
  · exact code_EXT3_packet_erase E pkt s

theorem code_UO_packet_tail_erase (pkt : ip_packet) (s : packet_build) :
    erase_counters (code_UO_packet_tail pkt s).context = erase_counters s.context := by
  rw [(code_UO_packet_tail_frame pkt s).1]

theorem code_generic_static_part_erase (pos : ip_header_pos) (ip : iphdr) (s : packet_build) :
    erase_counters (code_generic_static_part pos ip s).context = erase_counters s.context := by
  simp only [code_generic_static_part]
  exact set_header_info_erase _ _ _ rfl

theorem code_generic_dynamic_part_erase (pos : ip_header_pos) (ip : iphdr) (s : packet_build) :
    erase_counters (code_generic_dynamic_part pos ip s).context = erase_counters s.context := by
  simp only [code_generic_dynamic_part]
  split_ifs <;> exact set_header_info_erase _ _ _ rfl

theorem next_header_static_part_erase (pkt : ip_packet) (s : packet_build) :
    erase_counters (next_header_static_part pkt s).context = erase_counters s.context := by
  rw [(next_header_static_part_step pkt s).2.1]

theorem next_header_dynamic_part_erase (pkt : ip_packet) (s : packet_build) :
    erase_counters (next_header_dynamic_part pkt s).context = erase_counters s.context := by
  simp only [next_header_dynamic_part]
  rcases h : s.context.specific.code_dynamic_part with _ | ⟨_⟩
  · rfl
  · simp only [udp_code_dynamic_udp_part, set_udp_part, udp_part, erase_counters]
    rfl

theorem code_dynamic_chain_erase (pkt : ip_packet) (s : packet_build) :
    erase_counters (code_dynamic_chain pkt s).context = erase_counters s.context := by
  simp only [code_dynamic_chain]
  split_ifs <;>
    simp only [next_header_dynamic_part_erase, code_generic_dynamic_part_erase]

theorem code_static_chain_erase (pkt : ip_packet) (s : packet_build) :
    erase_counters (code_static_chain pkt s).context = erase_counters s.context := by
  simp only [code_static_chain]
  split_ifs <;>
    simp only [next_header_static_part_erase, code_generic_static_part_erase]

theorem code_IR_packet_erase (E : generic_deps) (c : c_context) (pkt : ip_packet)
    (dest : Int → Int) :
    erase_counters (code_IR_packet E c pkt dest).context = erase_counters c := by
  simp only [code_IR_packet]
  split_ifs <;>
    simp only [code_sn_and_crc_tmp, code_dynamic_chain_erase, code_static_chain_erase]

theorem code_IR_DYN_packet_erase (E : generic_deps) (c : c_context) (pkt : ip_packet)
    (dest : Int → Int) :
    erase_counters (code_IR_DYN_packet E c pkt dest).context = erase_counters c := by
  simp only [code_IR_DYN_packet]
  split_ifs <;>
    simp only [code_sn_and_crc_tmp, code_dynamic_chain_erase]

/-- The building of a packet writes nothing in the context but the change
counters. -/
theorem code_packet_erase (E : generic_deps) (c : c_context) (pkt : ip_packet)
    (dest : Int → Int) :
    erase_counters (code_packet E c pkt dest).context = erase_counters c := by
  rcases hp : c.specific.tmp_variables.packet_type with _ | t
  · simp only [code_packet, hp]
  · cases t <;> simp only [code_packet, hp]
    · exact code_IR_packet_erase E c pkt dest
    · exact code_IR_DYN_packet_erase E c pkt dest
    · simp only [code_UO0_packet, code_UO_packet_tail_erase]
    · simp only [code_UO1_packet, code_UO_packet_tail_erase]
    · simp only [code_UO2_packet, code_UO_packet_tail_erase, code_extension_erase]

/-! ## What the decisions of the state and of the packet leave as it was -/

theorem change_state_erase (c : c_context) (s : rohc_c_state) :
    erase_state (change_state c s) = erase_state c := by
  unfold change_state
  split_ifs <;> rfl

theorem periodic_down_transition_erase (L : generic_limits) (c : c_context) :
    erase_state (periodic_down_transition L c) = erase_state c := by
  simp only [periodic_down_transition, change_state]
  split_ifs <;> rfl

theorem decide_state_erase (L : generic_limits) (c : c_context) :
    erase_state (decide_state L c) = erase_state c := by
  simp only [decide_state]
  split_ifs
  · rw [periodic_down_transition_erase, change_state_erase]
  · rw [change_state_erase]

theorem call_decide_state_erase (L : generic_limits) (c : c_context) :
    erase_state (call_decide_state L c) = erase_state c := by
  simp only [call_decide_state]
  rcases c.specific.decide_state with _ | ⟨_ | _⟩
  · rfl
  · exact decide_state_erase L c
  · simp only [udp_decide_state]
    split_ifs
    · exact change_state_erase _ _
    · exact decide_state_erase L c

theorem decide_packet_erase (L : generic_limits) (c : c_context) :
    erase_state (decide_packet L c).1 = erase_state c := by
  unfold decide_packet
  cases hs : c.state
  · rfl
  · simp only [decide_FO_packet]
    split_ifs <;> rfl
  · rfl

/-- What two contexts share when they differ in the change counters only. -/
theorem erase_counters_fields (c c' : c_context) (h : erase_counters c' = erase_counters c) :
    c'.mode = c.mode ∧ c'.state = c.state ∧ c'.specific.sn = c.specific.sn ∧
    c'.specific.tmp_variables = c.specific.tmp_variables ∧
    c'.specific.ir_count = c.specific.ir_count ∧
    c'.specific.so_count = c.specific.so_count ∧
    c'.specific.go_back_fo_count = c.specific.go_back_fo_count ∧
    c'.specific.go_back_ir_count = c.specific.go_back_ir_count ∧
    c'.specific.ir_dyn_count = c.specific.ir_dyn_count ∧
    erase_counters_info c'.specific.ip_flags = erase_counters_info c.specific.ip_flags ∧
    erase_counters_info c'.specific.ip2_flags = erase_counters_info c.specific.ip2_flags ∧
    c'.specific.decide_state = c.specific.decide_state ∧
    c'.specific.sn_window = c.specific.sn_window ∧
    c'.specific.is_ip2_initialized = c.specific.is_ip2_initialized := by
  have a := congrArg c_context.mode h
  have b := congrArg c_context.state h
  have g := congrArg c_context.specific h
  have g1 := congrArg c_generic_context.sn g
  have g2 := congrArg c_generic_context.tmp_variables g
  have g3 := congrArg c_generic_context.ir_count g
  have g4 := congrArg c_generic_context.so_count g
  have g5 := congrArg c_generic_context.go_back_fo_count g
  have g6 := congrArg c_generic_context.go_back_ir_count g
  have g7 := congrArg c_generic_context.ir_dyn_count g
  have g8 := congrArg c_generic_context.ip_flags g
  have g9 := congrArg c_generic_context.ip2_flags g
  have g10 := congrArg c_generic_context.decide_state g
  have g11 := congrArg c_generic_context.sn_window g
  have g12 := congrArg c_generic_context.is_ip2_initialized g
  exact ⟨a, b, g1, g2, g3, g4, g5, g6, g7, g8, g9, g10, g11, g12⟩

/-- What two header infos share when they differ in the change counters only. -/
theorem erase_counters_info_fields (h h' : ip_header_info)
    (e : erase_counters_info h' = erase_counters_info h) :
    h'.rnd = h.rnd ∧ h'.nbo = h.nbo ∧ h'.old_rnd = h.old_rnd ∧ h'.old_nbo = h.old_nbo ∧
    h'.id_delta = h.id_delta ∧ h'.old_ip = h.old_ip ∧ h'.ip_id_window = h.ip_id_window := by
  have a1 := congrArg ip_header_info.rnd e
  have a2 := congrArg ip_header_info.nbo e
  have a3 := congrArg ip_header_info.old_rnd e
  have a4 := congrArg ip_header_info.old_nbo e
  have a5 := congrArg ip_header_info.id_delta e
  have a6 := congrArg ip_header_info.old_ip e
  have a7 := congrArg ip_header_info.ip_id_window e
  exact ⟨a1, a2, a3, a4, a5, a6, a7⟩

/-- What two contexts share when they differ in the state and its counters
only. -/
theorem erase_state_fields (c c' : c_context) (h : erase_state c' = erase_state c) :
    c'.mode = c.mode ∧ c'.specific.sn = c.specific.sn ∧
    c'.specific.tmp_variables = c.specific.tmp_variables ∧
    c'.specific.ip_flags = c.specific.ip_flags ∧
    c'.specific.ip2_flags = c.specific.ip2_flags ∧
    c'.specific.sn_window = c.specific.sn_window ∧
    c'.specific.is_ip2_initialized = c.specific.is_ip2_initialized ∧
    c'.specific.specific = c.specific.specific ∧
    c'.specific.decide_state = c.specific.decide_state := by
  have a := congrArg c_context.mode h
  have g := congrArg c_context.specific h
  have g1 := congrArg c_generic_context.sn g
  have g2 := congrArg c_generic_context.tmp_variables g
  have g3 := congrArg c_generic_context.ip_flags g
  have g4 := congrArg c_generic_context.ip2_flags g
  have g5 := congrArg c_generic_context.sn_window g
  have g6 := congrArg c_generic_context.is_ip2_initialized g
  have g7 := congrArg c_generic_context.specific g
  have g8 := congrArg c_generic_context.decide_state g
  exact ⟨a, g1, g2, g3, g4, g5, g6, g7, g8⟩

/-! ## C39: `check_ip_identification` and modular arithmetic -/

/-- The result of `check_ip_identification` on 16-bit IP-IDs, by the three
cases of the difference modulo `2^16`. -/
theorem check_ip_identification_cases (D : Int) (header_info : ip_header_info) (ip : iphdr)
    (hD : D ≤ 65536)
    (ho0 : 0 ≤ header_info.old_ip.id) (ho1 : header_info.old_ip.id ≤ 65535)
    (hn0 : 0 ≤ ip.id) (hn1 : ip.id ≤ 65535) :
    check_ip_identification D header_info ip =
      if 0 < (ntohs ip.id - ntohs header_info.old_ip.id) % 65536 ∧
          (ntohs ip.id - ntohs header_info.old_ip.id) % 65536 < D then
        { header_info with rnd := 0, nbo := 1 }
      else if 0 < (swap_bytes (ntohs ip.id) - swap_bytes (ntohs header_info.old_ip.id)) % 65536 ∧
          (swap_bytes (ntohs ip.id) - swap_bytes (ntohs header_info.old_ip.id)) % 65536 < D then
        { header_info with rnd := 0, nbo := 0 }
      else { header_info with rnd := 1 } := by
  obtain ⟨a0, a1⟩ := swap_bytes_range _ ho0 ho1
  obtain ⟨b0, b1⟩ := swap_bytes_range _ hn0 hn1
  have hnbo := check_ip_identification_nbo_eq D (ntohs header_info.old_ip.id) (ntohs ip.id) hD
    a0 a1 b0 b1
  simp only [check_ip_identification, hnbo]
  split_ifs <;> simp_all

/-- C39: for 16-bit IP-IDs and `IPID_MAX_DELTA ≤ 2^16`, after
`check_ip_identification` NBO = 1 and RND = 0 hold exactly when the
host-order difference new - old, modulo `2^16`, lies strictly between 0 and
`IPID_MAX_DELTA`; failing that, NBO = 0 and RND = 0 hold exactly when the
difference of the byte-swapped values does; failing both, RND = 1 and NBO is
the value before the call. -/
theorem C39_check_ip_identification_modular (D : Int) (header_info : ip_header_info)
    (ip : iphdr) (hD : D ≤ 65536)
    (ho0 : 0 ≤ header_info.old_ip.id) (ho1 : header_info.old_ip.id ≤ 65535)
    (hn0 : 0 ≤ ip.id) (hn1 : ip.id ≤ 65535) :
    (((check_ip_identification D header_info ip).nbo = 1 ∧
        (check_ip_identification D header_info ip).rnd = 0) ↔
      (0 < (ntohs ip.id - ntohs header_info.old_ip.id) % 65536 ∧
        (ntohs ip.id - ntohs header_info.old_ip.id) % 65536 < D)) ∧
    (¬ (0 < (ntohs ip.id - ntohs header_info.old_ip.id) % 65536 ∧
        (ntohs ip.id - ntohs header_info.old_ip.id) % 65536 < D) →
      (((check_ip_identification D header_info ip).nbo = 0 ∧
          (check_ip_identification D header_info ip).rnd = 0) ↔
        (0 < (swap_bytes (ntohs ip.id) - swap_bytes (ntohs header_info.old_ip.id)) % 65536 ∧
          (swap_bytes (ntohs ip.id) - swap_bytes (ntohs header_info.old_ip.id)) % 65536 < D)) ∧
      (¬ (0 < (swap_bytes (ntohs ip.id) - swap_bytes (ntohs header_info.old_ip.id)) % 65536 ∧
          (swap_bytes (ntohs ip.id) - swap_bytes (ntohs header_info.old_ip.id)) % 65536 < D) →
        (check_ip_identification D header_info ip).rnd = 1 ∧
        (check_ip_identification D header_info ip).nbo = header_info.nbo)) := by
  rw [check_ip_identification_cases D header_info ip hD ho0 ho1 hn0 hn1]
  by_cases h1 : 0 < (ntohs ip.id - ntohs header_info.old_ip.id) % 65536 ∧
      (ntohs ip.id - ntohs header_info.old_ip.id) % 65536 < D
  · simp [h1]
  · by_cases h2 : 0 < (swap_bytes (ntohs ip.id) - swap_bytes (ntohs header_info.old_ip.id))
        % 65536 ∧
        (swap_bytes (ntohs ip.id) - swap_bytes (ntohs header_info.old_ip.id)) % 65536 < D
    · simp [h1, h2]
    · simp [h1, h2]

/-- C39 at the wrap-around: host-order IP-IDs 0xffff then 3 (stored as 0xffff
and 0x0300) differ by 4 modulo `2^16`, so NBO = 1 and RND = 0 with
`IPID_MAX_DELTA = 20`. -/
theorem C39_check_ip_identification_modular_witness :
    (check_ip_identification 20 { old_ip := { id := 0xffff } } { id := 0x0300 }).nbo = 1 ∧
    (check_ip_identification 20 { old_ip := { id := 0xffff } } { id := 0x0300 }).rnd = 0 :=
  (C39_check_ip_identification_modular 20 { old_ip := { id := 0xffff } } { id := 0x0300 }
    (by decide) (by decide) (by decide) (by decide) (by decide)).1.mpr (by decide)
/-! ## The steps of `c_generic_encode` -/

/-- Step 2 of `c_generic_encode` is its two halves, one after the other. -/
theorem encode_detect_changes_split (E : generic_deps) (c : c_context) (pkt : ip_packet) :
    encode_detect_changes E c pkt =
      encode_count_changes E (encode_changed_fields E c pkt) pkt :=
  rfl

/-- The first half of step 2 writes the SN, the RND and NBO flags of the
headers and the changed fields. -/
theorem encode_changed_fields_fields (E : generic_deps) (c : c_context) (pkt : ip_packet) :
    erase_state (encode_changed_fields E c pkt) =
      erase_state
        { c with
          specific :=
            { c.specific with
              sn := c.specific.sn + 1
              ip_flags := (encode_changed_fields E c pkt).specific.ip_flags
              ip2_flags := (encode_changed_fields E c pkt).specific.ip2_flags
              tmp_variables := (encode_changed_fields E c pkt).specific.tmp_variables } } ∧
    (encode_changed_fields E c pkt).state = c.state ∧
    (encode_changed_fields E c pkt).specific.ir_count = c.specific.ir_count ∧
    (encode_changed_fields E c pkt).specific.fo_count = c.specific.fo_count ∧
    (encode_changed_fields E c pkt).specific.so_count = c.specific.so_count ∧
    (encode_changed_fields E c pkt).specific.go_back_fo_count = c.specific.go_back_fo_count ∧
    (encode_changed_fields E c pkt).specific.go_back_ir_count = c.specific.go_back_ir_count ∧
    (encode_changed_fields E c pkt).specific.ir_dyn_count = c.specific.ir_dyn_count ∧
    (encode_changed_fields E c pkt).specific.ip_flags =
      (if c.specific.sn ≠ 0 then
        check_ip_identification E.IPID_MAX_DELTA c.specific.ip_flags pkt.ip
      else c.specific.ip_flags) ∧
    (encode_changed_fields E c pkt).specific.tmp_variables.nr_of_ip_hdr =
      c.specific.tmp_variables.nr_of_ip_hdr ∧
    (encode_changed_fields E c pkt).specific.tmp_variables.changed_fields =
      changed_fields E
        (if c.specific.sn ≠ 0 then
          check_ip_identification E.IPID_MAX_DELTA c.specific.ip_flags pkt.ip
        else c.specific.ip_flags) pkt.ip := by
  simp only [encode_changed_fields]
  split_ifs <;> exact ⟨rfl, rfl, rfl, rfl, rfl, rfl, rfl, rfl, rfl, rfl, rfl⟩

theorem erase_counters_tmp (x y : c_context) (t : generic_tmp_variables)
    (h : erase_counters x = erase_counters y) :
    erase_counters { x with specific := { x.specific with tmp_variables := t } } =
      erase_counters { y with specific := { y.specific with tmp_variables := t } } :=
  congrArg (fun z : c_context => { z with specific := { z.specific with tmp_variables := t } }) h

/-- The second half of step 2 writes `send_static`, `send_dynamic` and change
counters only; `send_dynamic` is the value `changed_dynamic_both_hdr` returns
in a context that differs from the one before in `send_static` and the change
counters. -/
theorem encode_count_changes_fields (E : generic_deps) (c : c_context) (pkt : ip_packet) :
    ∃ c4 : c_context,
      encode_count_changes E c pkt =
        { (changed_dynamic_both_hdr E c4 pkt.ip pkt.ip2).1 with
          specific :=
            { (changed_dynamic_both_hdr E c4 pkt.ip pkt.ip2).1.specific with
              tmp_variables :=
                { (changed_dynamic_both_hdr E c4 pkt.ip pkt.ip2).1.specific.tmp_variables with
                  send_dynamic := (changed_dynamic_both_hdr E c4 pkt.ip pkt.ip2).2 } } } ∧
      erase_counters c4 =
        erase_counters
          { c with
            specific :=
              { c.specific with
                tmp_variables :=
                  { c.specific.tmp_variables with
                    send_static := c4.specific.tmp_variables.send_static } } } := by
  obtain ⟨r4, hr4⟩ : ∃ x, x = changed_static_both_hdr E c := ⟨_, rfl⟩
  have e := changed_static_both_hdr_erase E c
  rw [← hr4] at e
  refine ⟨{ r4.1 with
      specific :=
        { r4.1.specific with
          tmp_variables := { r4.1.specific.tmp_variables with send_static := r4.2 } } }, ?_, ?_⟩
  · rw [hr4]
    rfl
  · obtain ⟨-, -, -, a4, -⟩ := erase_counters_fields _ _ e
    dsimp only
    rw [a4]
    exact erase_counters_tmp _ _ _ e

/-- The second half of step 2 writes `send_static`, `send_dynamic` and change
counters only. -/
theorem encode_count_changes_erase (E : generic_deps) (c : c_context) (pkt : ip_packet) :
    erase_counters (encode_count_changes E c pkt) =
      erase_counters
        { c with
          specific :=
            { c.specific with
              tmp_variables := (encode_count_changes E c pkt).specific.tmp_variables } } := by
  obtain ⟨c4, h1, h2⟩ := encode_count_changes_fields E c pkt
  have e5 := changed_dynamic_both_hdr_erase E c4 pkt.ip pkt.ip2
  have e := erase_counters_tmp _ _ (encode_count_changes E c pkt).specific.tmp_variables
    (e5.trans h2)
  refine Eq.trans ?_ e
  rw [h1]

theorem erase_counters_info_ext (h h' : ip_header_info)
    (e1 : h'.ip_id_window = h.ip_id_window) (e2 : h'.old_ip = h.old_ip) (e3 : h'.rnd = h.rnd)
    (e4 : h'.old_rnd = h.old_rnd) (e5 : h'.nbo = h.nbo) (e6 : h'.old_nbo = h.old_nbo)
    (e7 : h'.id_delta = h.id_delta) : erase_counters_info h' = erase_counters_info h := by
  simp only [erase_counters_info, e1, e2, e3, e4, e5, e6, e7]

theorem update_variables_outer (E : generic_deps) (c : c_context) (ip ip2 : iphdr) :
    (update_variables E c ip ip2).specific.sn = c.specific.sn ∧
    (update_variables E c ip ip2).specific.ip_flags =
      { c.specific.ip_flags with
        id_delta :=
          if c.specific.ip_flags.nbo ≠ 0 then ntohs ip.id - c.specific.sn
          else ip.id - c.specific.sn
        ip_id_window :=
          E.c_add_wlsb c.specific.ip_flags.ip_id_window c.specific.sn 0
            (if c.specific.ip_flags.nbo ≠ 0 then ntohs ip.id - c.specific.sn
              else ip.id - c.specific.sn) } ∧
    (update_variables E c ip ip2).state = c.state ∧
    (update_variables E c ip ip2).mode = c.mode := by
  simp only [update_variables]
  split_ifs <;> exact ⟨rfl, rfl, rfl, rfl⟩

theorem encode_update_context_outer (c : c_context) (pkt : ip_packet) :
    (encode_update_context c pkt).specific.sn = c.specific.sn ∧
    (encode_update_context c pkt).specific.ip_flags =
      { c.specific.ip_flags with
        old_ip := pkt.ip, old_rnd := c.specific.ip_flags.rnd
        old_nbo := c.specific.ip_flags.nbo } ∧
    (encode_update_context c pkt).state = c.state ∧
    (encode_update_context c pkt).mode = c.mode := by
  simp only [encode_update_context]
  split_ifs <;> exact ⟨rfl, rfl, rfl, rfl⟩

/-- The SN and the info of the outer header after steps 2 to 6 of a call of
`c_generic_encode` that does not fail, up to the change counters: the SN is
one more; RND and NBO are those `check_ip_identification` finds (those of the
context for the first packet, `sn = 0`); `id_delta` is the IP-ID, in host
order when NBO is not 0, minus the new SN; the last header and the previous
RND and NBO are those of the packet. -/
theorem c_generic_encode_steps_outer (E : generic_deps) (c : c_context) (pkt : ip_packet)
    (dest : Int → Int) (off : Int) (hsz : 0 ≤ (c_generic_encode_steps E c pkt dest off).size) :
    (c_generic_encode_steps E c pkt dest off).context.specific.sn = c.specific.sn + 1 ∧
    erase_counters_info (c_generic_encode_steps E c pkt dest off).context.specific.ip_flags =
      erase_counters_info
        { (encode_changed_fields E c pkt).specific.ip_flags with
          id_delta :=
            if (encode_changed_fields E c pkt).specific.ip_flags.nbo ≠ 0 then
              ntohs pkt.ip.id - (c.specific.sn + 1)
            else pkt.ip.id - (c.specific.sn + 1)
          ip_id_window :=
            E.c_add_wlsb (encode_changed_fields E c pkt).specific.ip_flags.ip_id_window
              (c.specific.sn + 1) 0
              (if (encode_changed_fields E c pkt).specific.ip_flags.nbo ≠ 0 then
                ntohs pkt.ip.id - (c.specific.sn + 1)
              else pkt.ip.id - (c.specific.sn + 1))
          old_ip := pkt.ip
          old_rnd := (encode_changed_fields E c pkt).specific.ip_flags.rnd
          old_nbo := (encode_changed_fields E c pkt).specific.ip_flags.nbo } := by
  obtain ⟨c3, hc3⟩ : ∃ x, x = encode_changed_fields E c pkt := ⟨_, rfl⟩
  obtain ⟨c5, hc5⟩ : ∃ x, x = encode_count_changes E c3 pkt := ⟨_, rfl⟩
  obtain ⟨c6, hc6⟩ : ∃ x, x = call_decide_state E.L c5 := ⟨_, rfl⟩
  obtain ⟨c7, hc7⟩ : ∃ x, x = update_variables E c6 pkt.ip pkt.ip2 := ⟨_, rfl⟩
  obtain ⟨c8, hc8⟩ : ∃ x : c_context, x =
    { (decide_packet E.L c7).1 with
      specific :=
        { (decide_packet E.L c7).1.specific with
          tmp_variables :=
            { (decide_packet E.L c7).1.specific.tmp_variables with
              packet_type := some (decide_packet E.L c7).2 } } } := ⟨_, rfl⟩
  have hsteps : c_generic_encode_steps E c pkt dest off =
      if (code_packet E c8 pkt dest).counter < 0 then
        { context := (code_packet E c8 pkt dest).context, dest := (code_packet E c8 pkt dest).dest,
          payload_offset := off, size := -1 }
      else
        { context := encode_update_context (code_packet E c8 pkt dest).context pkt
          dest := (code_packet E c8 pkt dest).dest
          payload_offset := off
          size := (code_packet E c8 pkt dest).counter } := by
    rw [hc8, hc7, hc6, hc5, hc3]
    rfl
  rw [hsteps] at hsz ⊢
  by_cases hneg : (code_packet E c8 pkt dest).counter < 0
  · rw [if_pos hneg] at hsz
    exact absurd hsz (by norm_num)
  rw [if_neg hneg]
  dsimp only
  -- the facts of each step
  have s3 : c3.specific.sn = c.specific.sn + 1 := by
    have := congrArg (fun x : c_context => x.specific.sn)
      (encode_changed_fields_fields E c pkt).1
    rw [hc3]
    exact this
  obtain ⟨-, -, a5, -, -, -, -, -, -, b5, -⟩ :=
    erase_counters_fields _ _ (encode_count_changes_erase E c3 pkt)
  rw [← hc5] at a5 b5
  dsimp only at a5 b5
  obtain ⟨-, a6, -, b6, -⟩ := erase_state_fields _ _ (call_decide_state_erase E.L c5)
  rw [← hc6] at a6 b6
  obtain ⟨a7, b7, -, -⟩ := update_variables_outer E c6 pkt.ip pkt.ip2
  rw [← hc7] at a7 b7
  obtain ⟨-, a8, -, b8, -⟩ := erase_state_fields _ _ (decide_packet_erase E.L c7)
  have a8' : c8.specific.sn = c7.specific.sn := by rw [hc8]; exact a8
  have b8' : c8.specific.ip_flags = c7.specific.ip_flags := by rw [hc8]; exact b8
  obtain ⟨-, -, a9, -, -, -, -, -, -, b9, -⟩ :=
    erase_counters_fields _ _ (code_packet_erase E c8 pkt dest)
  obtain ⟨a10, b10, -, -⟩ := encode_update_context_outer (code_packet E c8 pkt dest).context pkt
  have hsn : c6.specific.sn = c.specific.sn + 1 := by rw [a6, a5, s3]
  refine ⟨by rw [a10, a9, a8', a7, hsn], ?_⟩
  rw [b10]
  -- the two updates commute with the erasure of the counters
  have step1 : erase_counters_info
      { (code_packet E c8 pkt dest).context.specific.ip_flags with
        old_ip := pkt.ip
        old_rnd := (code_packet E c8 pkt dest).context.specific.ip_flags.rnd
        old_nbo := (code_packet E c8 pkt dest).context.specific.ip_flags.nbo } =
      erase_counters_info
        { c8.specific.ip_flags with
          old_ip := pkt.ip, old_rnd := c8.specific.ip_flags.rnd
          old_nbo := c8.specific.ip_flags.nbo } :=
    congrArg (fun h : ip_header_info =>
      ({ h with old_ip := pkt.ip, old_rnd := h.rnd, old_nbo := h.nbo } : ip_header_info)) b9
  rw [step1, b8', b7, b6, hsn]
  obtain ⟨q1, q2, q3, q4, q5, q6, q7⟩ := erase_counters_info_fields _ _ b5
  rw [← hc3]
  apply erase_counters_info_ext <;> dsimp only <;> simp only [q1, q2, q3, q4, q5, q6, q7]

/-- The SN and the info of the outer header after a call of
`c_generic_encode` that does not fail, up to the change counters. -/
theorem c_generic_encode_outer (E : generic_deps) (c : c_context) (pkt : ip_packet)
    (dest : Int → Int) (n p : Int) (hsz : 0 ≤ (c_generic_encode E c pkt dest n p).size) :
    (c_generic_encode E c pkt dest n p).context.specific.sn = c.specific.sn + 1 ∧
    erase_counters_info (c_generic_encode E c pkt dest n p).context.specific.ip_flags =
      erase_counters_info
        { (if c.specific.sn ≠ 0 then
            check_ip_identification E.IPID_MAX_DELTA c.specific.ip_flags pkt.ip
          else c.specific.ip_flags) with
          id_delta :=
            if (if c.specific.sn ≠ 0 then
                check_ip_identification E.IPID_MAX_DELTA c.specific.ip_flags pkt.ip
              else c.specific.ip_flags).nbo ≠ 0 then
              ntohs pkt.ip.id - (c.specific.sn + 1)
            else pkt.ip.id - (c.specific.sn + 1)
          ip_id_window :=
            E.c_add_wlsb
              (if c.specific.sn ≠ 0 then
                check_ip_identification E.IPID_MAX_DELTA c.specific.ip_flags pkt.ip
              else c.specific.ip_flags).ip_id_window
              (c.specific.sn + 1) 0
              (if (if c.specific.sn ≠ 0 then
                  check_ip_identification E.IPID_MAX_DELTA c.specific.ip_flags pkt.ip
                else c.specific.ip_flags).nbo ≠ 0 then
                ntohs pkt.ip.id - (c.specific.sn + 1)
              else pkt.ip.id - (c.specific.sn + 1))
          old_ip := pkt.ip
          old_rnd :=
            (if c.specific.sn ≠ 0 then
              check_ip_identification E.IPID_MAX_DELTA c.specific.ip_flags pkt.ip
            else c.specific.ip_flags).rnd
          old_nbo :=
            (if c.specific.sn ≠ 0 then
              check_ip_identification E.IPID_MAX_DELTA c.specific.ip_flags pkt.ip
            else c.specific.ip_flags).nbo } := by
  obtain ⟨off, e⟩ := c_generic_encode_steps_of_size E c pkt dest n p hsz
  rw [e] at hsz ⊢
  obtain ⟨h1, h2⟩ := c_generic_encode_steps_outer E (encode_init E.L c pkt n) pkt dest off hsz
  obtain ⟨-, -, i3, -, -, -, -, -, -, -, i11, -⟩ := encode_init_frame E.L c pkt n
  have hf := (encode_changed_fields_fields E (encode_init E.L c pkt n) pkt).2.2.2.2.2.2.2.2.1
  rw [i3, i11] at hf
  rw [hf, i3] at h2
  rw [i3] at h1
  exact ⟨h1, h2⟩
/-! ## The change counters written by the change detection -/

theorem header_info_of_set (c : c_context) (pos : ip_header_pos) (h : ip_header_info) :
    header_info_of (set_header_info c pos h) pos = h := by
  cases pos <;> rfl

theorem header_info_of_fo_count (c : c_context) (pos : ip_header_pos) (v : Int) :
    header_info_of { c with specific := { c.specific with fo_count := v } } pos =
      header_info_of c pos := by
  cases pos <;> rfl

theorem changed_dynamic_tos_info (E : generic_deps) (cf : Int) (pos : ip_header_pos)
    (c : c_context) :
    header_info_of (changed_dynamic_tos E cf pos c).1 pos =
      { header_info_of c pos with
        tos_count :=
          if is_changed cf E.MOD_TOS then 0
          else (header_info_of c pos).tos_count } ∧
    (changed_dynamic_tos E cf pos c).2 =
      (if is_changed cf E.MOD_TOS ∨
          (header_info_of c pos).tos_count < E.L.MAX_FO_COUNT then 1
        else 0) ∧
    (changed_dynamic_tos E cf pos c).1.specific.fo_count =
      (if is_changed cf E.MOD_TOS then 0
        else c.specific.fo_count) := by
  simp only [changed_dynamic_tos]
  refine ⟨?_, ?_, ?_⟩ <;> split_ifs <;>
    first
    | rfl
    | exact (header_info_of_fo_count _ _ _).trans (header_info_of_set _ _ _)
    | (exfalso; tauto)

theorem changed_dynamic_ttl_info (E : generic_deps) (cf : Int) (pos : ip_header_pos)
    (c : c_context) :
    header_info_of (changed_dynamic_ttl E cf pos c).1 pos =
      { header_info_of c pos with
        ttl_count :=
          if is_changed cf E.MOD_TTL then 0
          else (header_info_of c pos).ttl_count } ∧
    (changed_dynamic_ttl E cf pos c).2 =
      (if is_changed cf E.MOD_TTL ∨
          (header_info_of c pos).ttl_count < E.L.MAX_FO_COUNT then 1
        else 0) ∧
    (changed_dynamic_ttl E cf pos c).1.specific.fo_count =
      (if is_changed cf E.MOD_TTL then 0
        else c.specific.fo_count) := by
  simp only [changed_dynamic_ttl]
  refine ⟨?_, ?_, ?_⟩ <;> split_ifs <;>
    first
    | rfl
    | exact (header_info_of_fo_count _ _ _).trans (header_info_of_set _ _ _)
    | (exfalso; tauto)

/-- The DF block of `changed_dynamic_one_hdr`: a change of the DF bit sets
`ttl_count` to 0 and leaves `df_count` as it was. -/
theorem changed_dynamic_df_info (E : generic_deps) (pos : ip_header_pos) (ip : iphdr)
    (c : c_context) :
    header_info_of (changed_dynamic_df E pos ip c).1 pos =
      { header_info_of c pos with
        ttl_count :=
          if E.GET_DF ip.frag_off ≠ E.GET_DF (header_info_of c pos).old_ip.frag_off then 0
          else (header_info_of c pos).ttl_count } ∧
    (changed_dynamic_df E pos ip c).2 =
      (if E.GET_DF ip.frag_off ≠ E.GET_DF (header_info_of c pos).old_ip.frag_off ∨
          (header_info_of c pos).df_count < E.L.MAX_FO_COUNT then 1
        else 0) ∧
    (changed_dynamic_df E pos ip c).1.specific.fo_count =
      (if E.GET_DF ip.frag_off ≠ E.GET_DF (header_info_of c pos).old_ip.frag_off then 0
        else c.specific.fo_count) := by
  simp only [changed_dynamic_df]
  refine ⟨?_, ?_, ?_⟩ <;> split_ifs <;>
    first
    | rfl
    | exact (header_info_of_fo_count _ _ _).trans (header_info_of_set _ _ _)
    | (exfalso; tauto)

theorem changed_dynamic_rnd_info (E : generic_deps) (pos : ip_header_pos)
    (c : c_context) :
    header_info_of (changed_dynamic_rnd E pos c).1 pos =
      { header_info_of c pos with
        rnd_count :=
          if (header_info_of c pos).rnd ≠ (header_info_of c pos).old_rnd then 0
          else (header_info_of c pos).rnd_count } ∧
    (changed_dynamic_rnd E pos c).2 =
      (if (header_info_of c pos).rnd ≠ (header_info_of c pos).old_rnd ∨
          (header_info_of c pos).rnd_count < E.L.MAX_FO_COUNT then 1
        else 0) ∧
    (changed_dynamic_rnd E pos c).1.specific.fo_count =
      (if (header_info_of c pos).rnd ≠ (header_info_of c pos).old_rnd then 0
        else c.specific.fo_count) := by
  simp only [changed_dynamic_rnd]
  refine ⟨?_, ?_, ?_⟩ <;> split_ifs <;>
    first
    | rfl
    | exact (header_info_of_fo_count _ _ _).trans (header_info_of_set _ _ _)
    | (exfalso; tauto)

theorem changed_dynamic_nbo_info (E : generic_deps) (pos : ip_header_pos)
    (c : c_context) :
    header_info_of (changed_dynamic_nbo E pos c).1 pos =
      { header_info_of c pos with
        nbo_count :=
          if (header_info_of c pos).nbo ≠ (header_info_of c pos).old_nbo then 0
          else (header_info_of c pos).nbo_count } ∧
    (changed_dynamic_nbo E pos c).2 =
      (if (header_info_of c pos).nbo ≠ (header_info_of c pos).old_nbo ∨
          (header_info_of c pos).nbo_count < E.L.MAX_FO_COUNT then 1
        else 0) ∧
    (changed_dynamic_nbo E pos c).1.specific.fo_count =
      (if (header_info_of c pos).nbo ≠ (header_info_of c pos).old_nbo then 0
        else c.specific.fo_count) := by
  simp only [changed_dynamic_nbo]
  refine ⟨?_, ?_, ?_⟩ <;> split_ifs <;>
    first
    | rfl
    | exact (header_info_of_fo_count _ _ _).trans (header_info_of_set _ _ _)
    | (exfalso; tauto)

theorem changed_static_one_hdr_info (E : generic_deps) (cf : Int) (pos : ip_header_pos)
    (c : c_context) :
    header_info_of (changed_static_one_hdr E cf pos c).1 pos =
      { header_info_of c pos with
        protocol_count :=
          if is_changed cf E.MOD_PROTOCOL then 0
          else (header_info_of c pos).protocol_count } ∧
    (changed_static_one_hdr E cf pos c).2 =
      (if is_changed cf E.MOD_PROTOCOL ∨
          (header_info_of c pos).protocol_count < E.L.MAX_FO_COUNT then 1
        else 0) ∧
    (changed_static_one_hdr E cf pos c).1.specific.fo_count =
      (if is_changed cf E.MOD_PROTOCOL then 0
        else c.specific.fo_count) := by
  simp only [changed_static_one_hdr]
  refine ⟨?_, ?_, ?_⟩ <;> split_ifs <;>
    first
    | rfl
    | exact (header_info_of_fo_count _ _ _).trans (header_info_of_set _ _ _)
    | (exfalso; tauto)

/-- What `changed_dynamic_one_hdr` does to the header info it is given and the
value it returns.  A change of TOS sets `tos_count` to 0, a change of TTL and
a change of the DF bit set `ttl_count` to 0, a change of RND sets `rnd_count`
to 0 and a change of NBO sets `nbo_count` to 0; `df_count` and
`protocol_count` are not written. -/
theorem changed_dynamic_one_hdr_info (E : generic_deps) (cf : Int) (pos : ip_header_pos)
    (ip : iphdr) (c : c_context) :
    header_info_of (changed_dynamic_one_hdr E cf pos ip c).1 pos =
      { header_info_of c pos with
        tos_count := if is_changed cf E.MOD_TOS then 0 else (header_info_of c pos).tos_count
        ttl_count :=
          if E.GET_DF ip.frag_off ≠ E.GET_DF (header_info_of c pos).old_ip.frag_off then 0
          else if is_changed cf E.MOD_TTL then 0
          else (header_info_of c pos).ttl_count
        rnd_count :=
          if (header_info_of c pos).rnd ≠ (header_info_of c pos).old_rnd then 0
          else (header_info_of c pos).rnd_count
        nbo_count :=
          if (header_info_of c pos).nbo ≠ (header_info_of c pos).old_nbo then 0
          else (header_info_of c pos).nbo_count } ∧
    (changed_dynamic_one_hdr E cf pos ip c).2 =
      (if is_changed cf E.MOD_TOS ∨ (header_info_of c pos).tos_count < E.L.MAX_FO_COUNT then 1
        else 0) +
      (if is_changed cf E.MOD_TTL ∨ (header_info_of c pos).ttl_count < E.L.MAX_FO_COUNT then 1
        else 0) +
      (if E.GET_DF ip.frag_off ≠ E.GET_DF (header_info_of c pos).old_ip.frag_off ∨
          (header_info_of c pos).df_count < E.L.MAX_FO_COUNT then 1
        else 0) +
      (if ((header_info_of c pos).rnd ≠ (header_info_of c pos).old_rnd ∨
            (header_info_of c pos).rnd_count < E.L.MAX_FO_COUNT) ∨
          ((header_info_of c pos).nbo ≠ (header_info_of c pos).old_nbo ∨
            (header_info_of c pos).nbo_count < E.L.MAX_FO_COUNT) then 1
        else 0) := by
  obtain ⟨a1, b1, -⟩ := changed_dynamic_tos_info E cf pos c
  obtain ⟨a2, b2, -⟩ := changed_dynamic_ttl_info E cf pos (changed_dynamic_tos E cf pos c).1
  obtain ⟨a3, b3, -⟩ := changed_dynamic_df_info E pos ip
    (changed_dynamic_ttl E cf pos (changed_dynamic_tos E cf pos c).1).1
  obtain ⟨a4, b4, -⟩ := changed_dynamic_rnd_info E pos
    (changed_dynamic_df E pos ip
      (changed_dynamic_ttl E cf pos (changed_dynamic_tos E cf pos c).1).1).1
  obtain ⟨a5, b5, -⟩ := changed_dynamic_nbo_info E pos
    (changed_dynamic_rnd E pos
      (changed_dynamic_df E pos ip
        (changed_dynamic_ttl E cf pos (changed_dynamic_tos E cf pos c).1).1).1).1
  simp only [changed_dynamic_one_hdr]
  rw [a5, b5, a4, b4, a3, b3, a2, b2, a1, b1]
  clear a1 b1 a2 b2 a3 b3 a4 b4 a5 b5
  generalize header_info_of c pos = hi
  dsimp only
  refine ⟨rfl, ?_⟩
  by_cases c4 : hi.rnd ≠ hi.old_rnd ∨ hi.rnd_count < E.L.MAX_FO_COUNT <;>
  by_cases c5 : hi.nbo ≠ hi.old_nbo ∨ hi.nbo_count < E.L.MAX_FO_COUNT <;>
  simp only [c4, c5, if_true, if_false, true_or, or_true, or_self] <;>
  norm_num

/-- A change of a dynamic field sets `fo_count` to 0. -/
theorem changed_dynamic_one_hdr_fo_count (E : generic_deps) (cf : Int) (pos : ip_header_pos)
    (ip : iphdr) (c : c_context)
    (h : is_changed cf E.MOD_TOS ∨ is_changed cf E.MOD_TTL ∨
      E.GET_DF ip.frag_off ≠ E.GET_DF (header_info_of c pos).old_ip.frag_off ∨
      (header_info_of c pos).rnd ≠ (header_info_of c pos).old_rnd ∨
      (header_info_of c pos).nbo ≠ (header_info_of c pos).old_nbo) :
    (changed_dynamic_one_hdr E cf pos ip c).1.specific.fo_count = 0 := by
  obtain ⟨a1, -, f1⟩ := changed_dynamic_tos_info E cf pos c
  obtain ⟨a2, -, f2⟩ := changed_dynamic_ttl_info E cf pos (changed_dynamic_tos E cf pos c).1
  obtain ⟨a3, -, f3⟩ := changed_dynamic_df_info E pos ip
    (changed_dynamic_ttl E cf pos (changed_dynamic_tos E cf pos c).1).1
  obtain ⟨a4, -, f4⟩ := changed_dynamic_rnd_info E pos
    (changed_dynamic_df E pos ip
      (changed_dynamic_ttl E cf pos (changed_dynamic_tos E cf pos c).1).1).1
  obtain ⟨-, -, f5⟩ := changed_dynamic_nbo_info E pos
    (changed_dynamic_rnd E pos
      (changed_dynamic_df E pos ip
        (changed_dynamic_ttl E cf pos (changed_dynamic_tos E cf pos c).1).1).1).1
  simp only [changed_dynamic_one_hdr]
  rw [f5, a4, f4, a3, f3, a2, f2, a1, f1]
  clear a1 f1 a2 f2 a3 f3 a4 f4 f5
  generalize header_info_of c pos = hi at h ⊢
  dsimp only
  split_ifs <;> first | rfl | (exfalso; tauto)
/-! ## C33: the counter reset by a change of the DF bit -/

/-- C33, the code at the failing input: the new header differs from the last
one in the DF bit only (`changed_fields` reports the `frag_off` field alone);
`changed_dynamic_one_hdr` sets `ttl_count` to 0 and leaves `df_count` at 3. -/
theorem C33_df_change_resets_ttl_count :
    changed_fields sample_deps
      { tos_count := 3, ttl_count := 3, df_count := 3, protocol_count := 3, rnd_count := 3,
        nbo_count := 3 } { frag_off := 0x0040 } = sample_deps.MOD_FRAG_OFF ∧
    sample_deps.GET_DF 0x0040 = 1 ∧ sample_deps.GET_DF 0 = 0 ∧
    (changed_dynamic_one_hdr sample_deps sample_deps.MOD_FRAG_OFF ip_header_pos.outer
      { frag_off := 0x0040 }
      { specific :=
          { ip_flags :=
              { tos_count := 3, ttl_count := 3, df_count := 3, protocol_count := 3
                rnd_count := 3, nbo_count := 3 } } }).1.specific.ip_flags.ttl_count = 0 ∧
    (changed_dynamic_one_hdr sample_deps sample_deps.MOD_FRAG_OFF ip_header_pos.outer
      { frag_off := 0x0040 }
      { specific :=
          { ip_flags :=
              { tos_count := 3, ttl_count := 3, df_count := 3, protocol_count := 3
                rnd_count := 3, nbo_count := 3 } } }).1.specific.ip_flags.df_count = 3 := by
  decide

/-! ## C34: a change of RND or NBO -/

/-- C34 is refuted: in state IR with `ir_count = 0`, a header info whose RND
flag changed makes `changed_dynamic_both_hdr` return 1 and reset `rnd_count`,
but `decide_state` leaves the context in state IR, not FO. -/
theorem C34_rnd_change_in_IR_stays_IR :
    (changed_dynamic_both_hdr sample_deps
      { mode := O_MODE, state := IR
        specific :=
          { ir_count := 0
            ip_flags :=
              { rnd := 1, old_rnd := 0, tos_count := 3, ttl_count := 3, df_count := 3
                protocol_count := 3, rnd_count := 3, nbo_count := 3 }
            tmp_variables := { nr_of_ip_hdr := 1, changed_fields := 0, send_static := 0 } } }
      {} {}).2 = 1 ∧
    (changed_dynamic_both_hdr sample_deps
      { mode := O_MODE, state := IR
        specific :=
          { ir_count := 0
            ip_flags :=
              { rnd := 1, old_rnd := 0, tos_count := 3, ttl_count := 3, df_count := 3
                protocol_count := 3, rnd_count := 3, nbo_count := 3 }
            tmp_variables := { nr_of_ip_hdr := 1, changed_fields := 0, send_static := 0 } } }
      {} {}).1.specific.ip_flags.rnd_count = 0 ∧
    (decide_state sample_limits
      { mode := O_MODE, state := IR
        specific :=
          { ir_count := 0
            ip_flags :=
              { rnd := 1, old_rnd := 0, tos_count := 3, ttl_count := 3, df_count := 3
                protocol_count := 3, rnd_count := 0, nbo_count := 3 }
            tmp_variables :=
              { nr_of_ip_hdr := 1, changed_fields := 0, send_static := 0
                send_dynamic := 1 } } }).state = IR := by
  decide

/-- The value `changed_dynamic_one_hdr` returns is not negative, and it is
positive when RND or NBO changed. -/
theorem changed_dynamic_one_hdr_count (E : generic_deps) (cf : Int) (pos : ip_header_pos)
    (ip : iphdr) (c : c_context) :
    0 ≤ (changed_dynamic_one_hdr E cf pos ip c).2 ∧
    ((header_info_of c pos).rnd ≠ (header_info_of c pos).old_rnd ∨
        (header_info_of c pos).nbo ≠ (header_info_of c pos).old_nbo →
      0 < (changed_dynamic_one_hdr E cf pos ip c).2) ∧
    (is_changed cf E.MOD_TTL = true → 0 < (changed_dynamic_one_hdr E cf pos ip c).2) := by
  rw [(changed_dynamic_one_hdr_info E cf pos ip c).2]
  refine ⟨?_, fun h => ?_, fun h => ?_⟩
  · split_ifs <;> norm_num
  · have h2 : ((header_info_of c pos).rnd ≠ (header_info_of c pos).old_rnd ∨
          (header_info_of c pos).rnd_count < E.L.MAX_FO_COUNT) ∨
        ((header_info_of c pos).nbo ≠ (header_info_of c pos).old_nbo ∨
          (header_info_of c pos).nbo_count < E.L.MAX_FO_COUNT) := by tauto
    rw [if_pos h2]
    split_ifs <;> norm_num
  · rw [if_pos (Or.inl h)]
    split_ifs <;> norm_num

theorem changed_dynamic_both_hdr_count (E : generic_deps) (c : c_context) (ip ip2 : iphdr) :
    (changed_dynamic_one_hdr E (to_ushort c.specific.tmp_variables.changed_fields)
        ip_header_pos.outer ip c).2 ≤ (changed_dynamic_both_hdr E c ip ip2).2 := by
  simp only [changed_dynamic_both_hdr]
  split_ifs
  · have := (changed_dynamic_one_hdr_count E
      (to_ushort c.specific.tmp_variables.changed_fields2) ip_header_pos.inner ip2
      (changed_dynamic_one_hdr E (to_ushort c.specific.tmp_variables.changed_fields)
        ip_header_pos.outer ip c).1).1
    dsimp only
    omega
  · exact le_refl _

/-- C34 amended: for every header info, if `rnd` differs from `old_rnd` then
`changed_dynamic_one_hdr` sets `rnd_count` to 0, if `nbo` differs from
`old_nbo` it sets `nbo_count` to 0, and in both cases it returns a count that
is positive and sets `fo_count` to 0.  When the change is in the outer header,
the `decide_state` that follows the assignment of `send_dynamic` leaves the
context in FO if it was in SO, in FO, or in IR with
`ir_count ≥ MAX_IR_COUNT`; in IR with `ir_count < MAX_IR_COUNT` it leaves it
in IR; in U-mode a periodic transition that is due decides instead (FO when
`go_back_fo_count ≥ CHANGE_TO_FO_COUNT`, else IR when
`go_back_ir_count ≥ CHANGE_TO_IR_COUNT`). -/
theorem C34_rnd_nbo_change (E : generic_deps) (cf : Int) (pos : ip_header_pos)
    (ip ip2 : iphdr) (c : c_context) :
    ((header_info_of c pos).rnd ≠ (header_info_of c pos).old_rnd →
      (header_info_of (changed_dynamic_one_hdr E cf pos ip c).1 pos).rnd_count = 0) ∧
    ((header_info_of c pos).nbo ≠ (header_info_of c pos).old_nbo →
      (header_info_of (changed_dynamic_one_hdr E cf pos ip c).1 pos).nbo_count = 0) ∧
    ((header_info_of c pos).rnd ≠ (header_info_of c pos).old_rnd ∨
        (header_info_of c pos).nbo ≠ (header_info_of c pos).old_nbo →
      0 < (changed_dynamic_one_hdr E cf pos ip c).2 ∧
      (changed_dynamic_one_hdr E cf pos ip c).1.specific.fo_count = 0) ∧
    (c.specific.ip_flags.rnd ≠ c.specific.ip_flags.old_rnd ∨
        c.specific.ip_flags.nbo ≠ c.specific.ip_flags.old_nbo →
      0 < (changed_dynamic_both_hdr E c ip ip2).2 ∧
      (decide_state E.L
        { (changed_dynamic_both_hdr E c ip ip2).1 with
          specific :=
            { (changed_dynamic_both_hdr E c ip ip2).1.specific with
              tmp_variables :=
                { (changed_dynamic_both_hdr E c ip ip2).1.specific.tmp_variables with
                  send_dynamic := (changed_dynamic_both_hdr E c ip ip2).2 } } }).state =
        if c.mode = U_MODE ∧ c.specific.go_back_fo_count ≥ E.L.CHANGE_TO_FO_COUNT then FO
        else if c.mode = U_MODE ∧ c.specific.go_back_ir_count ≥ E.L.CHANGE_TO_IR_COUNT then IR
        else if c.state = IR ∧ c.specific.ir_count < E.L.MAX_IR_COUNT then IR
        else FO) := by
  obtain ⟨hinfo, -⟩ := changed_dynamic_one_hdr_info E cf pos ip c
  refine ⟨fun h => ?_, fun h => ?_, fun h => ⟨?_, ?_⟩, fun h => ?_⟩
  · rw [hinfo]
    simp [h]
  · rw [hinfo]
    simp [h]
  · exact (changed_dynamic_one_hdr_count E cf pos ip c).2.1 h
  · exact changed_dynamic_one_hdr_fo_count E cf pos ip c (by tauto)
  · have hpos : 0 < (changed_dynamic_both_hdr E c ip ip2).2 :=
      lt_of_lt_of_le ((changed_dynamic_one_hdr_count E _ ip_header_pos.outer ip c).2.1 h)
        (changed_dynamic_both_hdr_count E c ip ip2)
    refine ⟨hpos, ?_⟩
    obtain ⟨e1, e2, -, -, e5, -, e7, e8, -⟩ :=
      erase_counters_fields _ _ (changed_dynamic_both_hdr_erase E c ip ip2)
    rw [decide_state_state]
    dsimp only
    rw [e1, e2, e5, e7, e8]
    have hne : (changed_dynamic_both_hdr E c ip ip2).2 ≠ 0 := by omega
    by_cases hm : c.mode = U_MODE
    · by_cases h1 : c.specific.go_back_fo_count ≥ E.L.CHANGE_TO_FO_COUNT
      · simp [hm, h1]
      · by_cases h2 : c.specific.go_back_ir_count ≥ E.L.CHANGE_TO_IR_COUNT
        · simp [hm, h1, h2]
        · simp only [hm, h1, h2, if_true, if_false, true_and]
          cases hs : c.state
          · simp only [spec_transition, hne, ne_eq, not_false_eq_true, or_true, if_true, true_and]
            split_ifs <;> first | rfl | omega
          · simp [spec_transition, hne]
          · simp [spec_transition, hne]
    · simp only [hm, if_false, false_and]
      cases hs : c.state
      · simp only [spec_transition, hne, ne_eq, not_false_eq_true, or_true, if_true, true_and]
        split_ifs <;> first | rfl | omega
      · simp [spec_transition, hne]
      · simp [spec_transition, hne]

/-- C34 at a concrete input: in state SO a change of RND resets `rnd_count`,
gives a positive count and moves the context to FO. -/
theorem C34_rnd_nbo_change_witness :
    (decide_state sample_limits
      { (changed_dynamic_both_hdr sample_deps
          { mode := O_MODE, state := SO
            specific :=
              { ip_flags :=
                  { rnd := 1, old_rnd := 0, tos_count := 3, ttl_count := 3, df_count := 3
                    protocol_count := 3, rnd_count := 3, nbo_count := 3 }
                tmp_variables := { nr_of_ip_hdr := 1, changed_fields := 0 } } } {} {}).1 with
        specific :=
          { (changed_dynamic_both_hdr sample_deps
              { mode := O_MODE, state := SO
                specific :=
                  { ip_flags :=
                      { rnd := 1, old_rnd := 0, tos_count := 3, ttl_count := 3, df_count := 3
                        protocol_count := 3, rnd_count := 3, nbo_count := 3 }
                    tmp_variables := { nr_of_ip_hdr := 1, changed_fields := 0 } } }
              {} {}).1.specific with
            tmp_variables :=
              { (changed_dynamic_both_hdr sample_deps
                  { mode := O_MODE, state := SO
                    specific :=
                      { ip_flags :=
                          { rnd := 1, old_rnd := 0, tos_count := 3, ttl_count := 3
                            df_count := 3, protocol_count := 3, rnd_count := 3, nbo_count := 3 }
                        tmp_variables := { nr_of_ip_hdr := 1, changed_fields := 0 } } }
                  {} {}).1.specific.tmp_variables with
                send_dynamic :=
                  (changed_dynamic_both_hdr sample_deps
                    { mode := O_MODE, state := SO
                      specific :=
                        { ip_flags :=
                            { rnd := 1, old_rnd := 0, tos_count := 3, ttl_count := 3
                              df_count := 3, protocol_count := 3, rnd_count := 3
                              nbo_count := 3 }
                          tmp_variables := { nr_of_ip_hdr := 1, changed_fields := 0 } } }
                    {} {}).2 } } }).state = FO :=
  ((C34_rnd_nbo_change sample_deps 0 ip_header_pos.outer {} {}
      { mode := O_MODE, state := SO
        specific :=
          { ip_flags :=
              { rnd := 1, old_rnd := 0, tos_count := 3, ttl_count := 3, df_count := 3
                protocol_count := 3, rnd_count := 3, nbo_count := 3 }
            tmp_variables := { nr_of_ip_hdr := 1, changed_fields := 0 } } }).2.2.2
    (Or.inl (by decide))).2
/-! ## C35: the stability of `id_delta` -/

/-- C35: after a call of `c_generic_encode` that does not fail and leaves
NBO = 1, the outer `id_delta` is the host-order IP-ID minus the SN, which the
call raised by 1.  For two consecutive such calls on 16-bit IP-IDs whose
host-order value increases by 1 modulo `2^16`, with
`1 < IPID_MAX_DELTA ≤ 2^16`, the second call finds NBO = 1 again and
`id_delta` modulo `2^16` is the same after both calls. -/
theorem C35_id_delta_stable (E : generic_deps) (c : c_context) (pkt1 pkt2 : ip_packet)
    (dest1 dest2 : Int → Int) (n1 p1 n2 p2 : Int)
    (hD1 : 1 < E.IPID_MAX_DELTA) (hD : E.IPID_MAX_DELTA ≤ 65536)
    (hsn : c.specific.sn + 1 ≠ 0)
    (ha0 : 0 ≤ pkt1.ip.id) (ha1 : pkt1.ip.id ≤ 65535)
    (hb0 : 0 ≤ pkt2.ip.id) (hb1 : pkt2.ip.id ≤ 65535)
    (hstep : (ntohs pkt2.ip.id - ntohs pkt1.ip.id) % 65536 = 1)
    (hsz1 : 0 ≤ (c_generic_encode E c pkt1 dest1 n1 p1).size)
    (hnbo : (c_generic_encode E c pkt1 dest1 n1 p1).context.specific.ip_flags.nbo = 1)
    (hsz2 : 0 ≤ (c_generic_encode E (c_generic_encode E c pkt1 dest1 n1 p1).context pkt2 dest2
      n2 p2).size) :
    (c_generic_encode E c pkt1 dest1 n1 p1).context.specific.sn = c.specific.sn + 1 ∧
    (c_generic_encode E c pkt1 dest1 n1 p1).context.specific.ip_flags.id_delta =
      ntohs pkt1.ip.id - (c_generic_encode E c pkt1 dest1 n1 p1).context.specific.sn ∧
    (c_generic_encode E (c_generic_encode E c pkt1 dest1 n1 p1).context pkt2 dest2
      n2 p2).context.specific.sn =
      (c_generic_encode E c pkt1 dest1 n1 p1).context.specific.sn + 1 ∧
    (c_generic_encode E (c_generic_encode E c pkt1 dest1 n1 p1).context pkt2 dest2
      n2 p2).context.specific.ip_flags.nbo = 1 ∧
    (c_generic_encode E (c_generic_encode E c pkt1 dest1 n1 p1).context pkt2 dest2
      n2 p2).context.specific.ip_flags.id_delta =
      ntohs pkt2.ip.id -
        (c_generic_encode E (c_generic_encode E c pkt1 dest1 n1 p1).context pkt2 dest2
          n2 p2).context.specific.sn ∧
    (c_generic_encode E (c_generic_encode E c pkt1 dest1 n1 p1).context pkt2 dest2
      n2 p2).context.specific.ip_flags.id_delta % 65536 =
      (c_generic_encode E c pkt1 dest1 n1 p1).context.specific.ip_flags.id_delta % 65536 := by
  obtain ⟨s1, f1⟩ := c_generic_encode_outer E c pkt1 dest1 n1 p1 hsz1
  obtain ⟨-, k2, -, -, k5, k6, -⟩ := erase_counters_info_fields _ _ f1
  dsimp only at k2 k5 k6
  obtain ⟨r1, hr1⟩ : ∃ x, x = c_generic_encode E c pkt1 dest1 n1 p1 := ⟨_, rfl⟩
  rw [← hr1] at s1 k2 k5 k6 hnbo hsz2 ⊢
  -- the first call
  have hn1 : (if c.specific.sn ≠ 0 then
      check_ip_identification E.IPID_MAX_DELTA c.specific.ip_flags pkt1.ip
      else c.specific.ip_flags).nbo ≠ 0 := by
    rw [← k2, hnbo]
    norm_num
  rw [if_pos hn1] at k5
  -- the second call
  obtain ⟨s2, f2⟩ := c_generic_encode_outer E r1.context pkt2 dest2 n2 p2 hsz2
  obtain ⟨-, m2, -, -, m5, -, -⟩ := erase_counters_info_fields _ _ f2
  dsimp only at m2 m5
  obtain ⟨r2, hr2⟩ : ∃ x, x = c_generic_encode E r1.context pkt2 dest2 n2 p2 := ⟨_, rfl⟩
  rw [← hr2] at s2 m2 m5 ⊢
  have hsn1 : r1.context.specific.sn ≠ 0 := by rw [s1]; exact hsn
  rw [if_pos hsn1] at m2 m5
  have hcheck := check_ip_identification_cases E.IPID_MAX_DELTA r1.context.specific.ip_flags
    pkt2.ip hD (by rw [k6]; exact ha0) (by rw [k6]; exact ha1) hb0 hb1
  rw [k6] at hcheck
  have hcond : 0 < (ntohs pkt2.ip.id - ntohs pkt1.ip.id) % 65536 ∧
      (ntohs pkt2.ip.id - ntohs pkt1.ip.id) % 65536 < E.IPID_MAX_DELTA := by
    rw [hstep]
    exact ⟨by norm_num, hD1⟩
  rw [if_pos hcond] at hcheck
  rw [hcheck] at m2 m5
  dsimp only at m2 m5
  rw [if_pos (by norm_num)] at m5
  refine ⟨s1, ?_, s2, m2, ?_, ?_⟩
  · rw [k5, s1]
  · rw [m5, s2]
  · rw [m5, k5, s1]
    omega
/-! ## C40: a constant IP-ID -/

/-- The value `send_dynamic` that step 2 of `c_generic_encode` stores is
positive when RND and the previous RND of the outer header differ after
`check_ip_identification`; the RND flags of the outer header are those of the
first half of the step. -/
theorem encode_count_changes_rnd (E : generic_deps) (c : c_context) (pkt : ip_packet) :
    (encode_count_changes E c pkt).specific.ip_flags.rnd = c.specific.ip_flags.rnd ∧
    (encode_count_changes E c pkt).specific.ip_flags.old_rnd = c.specific.ip_flags.old_rnd ∧
    (c.specific.ip_flags.rnd ≠ c.specific.ip_flags.old_rnd →
      0 < (encode_count_changes E c pkt).specific.tmp_variables.send_dynamic) := by
  obtain ⟨-, -, -, -, -, -, -, -, -, b, -⟩ :=
    erase_counters_fields _ _ (encode_count_changes_erase E c pkt)
  obtain ⟨b1, -, b3, -⟩ := erase_counters_info_fields _ _ b
  refine ⟨b1, b3, fun h => ?_⟩
  obtain ⟨c4, h1, h2⟩ := encode_count_changes_fields E c pkt
  obtain ⟨-, -, -, -, -, -, -, -, -, d, -⟩ := erase_counters_fields _ _ h2
  obtain ⟨d1, -, d3, -⟩ := erase_counters_info_fields _ _ d
  dsimp only at d1 d3
  rw [h1]
  dsimp only
  refine lt_of_lt_of_le ((changed_dynamic_one_hdr_count E _ ip_header_pos.outer pkt.ip c4).2.1
    (Or.inl ?_)) (changed_dynamic_both_hdr_count E c4 pkt.ip pkt.ip2)
  show c4.specific.ip_flags.rnd ≠ c4.specific.ip_flags.old_rnd
  rw [d1, d3]
  exact h

/-- C40: for 16-bit IP-IDs and `IPID_MAX_DELTA ≤ 2^16`, a packet whose IP-ID
is the one of the last header makes `check_ip_identification` set RND = 1.
Hence, for a context as `c_generic_create` leaves it (SN 0 and RND 0 in the
outer header) and a first packet that `c_generic_encode` accepts, a second
packet with the same IP-ID is seen, after the detection of the changes, with
RND = 1 and a previous RND of 0, and `send_dynamic` is positive. -/
theorem C40_constant_ip_id_is_random (E : generic_deps) (header_info : ip_header_info)
    (ip : iphdr) (c : c_context) (pkt pkt2 : ip_packet) (dest : Int → Int) (n p n2 : Int)
    (hD : E.IPID_MAX_DELTA ≤ 65536) :
    (0 ≤ ip.id → ip.id ≤ 65535 → ip.id = header_info.old_ip.id →
      (check_ip_identification E.IPID_MAX_DELTA header_info ip).rnd = 1 ∧
      (check_ip_identification E.IPID_MAX_DELTA header_info ip).nbo = header_info.nbo) ∧
    (c.specific.sn = 0 → c.specific.ip_flags.rnd = 0 →
      0 ≤ pkt.ip.id → pkt.ip.id ≤ 65535 → pkt2.ip.id = pkt.ip.id →
      0 ≤ (c_generic_encode E c pkt dest n p).size →
      (encode_detect_changes E
        (encode_init E.L (c_generic_encode E c pkt dest n p).context pkt2 n2)
        pkt2).specific.ip_flags.rnd = 1 ∧
      (encode_detect_changes E
        (encode_init E.L (c_generic_encode E c pkt dest n p).context pkt2 n2)
        pkt2).specific.ip_flags.old_rnd = 0 ∧
      0 < (encode_detect_changes E
        (encode_init E.L (c_generic_encode E c pkt dest n p).context pkt2 n2)
        pkt2).specific.tmp_variables.send_dynamic) := by
  have hconst : ∀ (hi : ip_header_info) (q : iphdr), 0 ≤ q.id → q.id ≤ 65535 →
      q.id = hi.old_ip.id →
      check_ip_identification E.IPID_MAX_DELTA hi q = { hi with rnd := 1 } := by
    intro hi q q0 q1 qe
    rw [check_ip_identification_cases E.IPID_MAX_DELTA hi q hD (by rw [← qe]; exact q0)
      (by rw [← qe]; exact q1) q0 q1, ← qe]
    simp
  refine ⟨fun h0 h1 he => ?_, fun hsn hrnd h0 h1 he hsz => ?_⟩
  · rw [hconst header_info ip h0 h1 he]
    exact ⟨rfl, rfl⟩
  · obtain ⟨s1, f1⟩ := c_generic_encode_outer E c pkt dest n p hsz
    obtain ⟨k1, -, k3, -, -, k6, -⟩ := erase_counters_info_fields _ _ f1
    dsimp only at k1 k3 k6
    have hz : ¬ c.specific.sn ≠ 0 := by rw [hsn]; simp
    rw [if_neg hz, hrnd] at k3
    obtain ⟨r1, hr1⟩ : ∃ x, x = c_generic_encode E c pkt dest n p := ⟨_, rfl⟩
    rw [← hr1] at s1 k3 k6 ⊢
    rw [encode_detect_changes_split]
    obtain ⟨-, -, i3, -, -, -, -, -, -, -, i11, -⟩ := encode_init_frame E.L r1.context pkt2 n2
    have hf := (encode_changed_fields_fields E (encode_init E.L r1.context pkt2 n2)
      pkt2).2.2.2.2.2.2.2.2.1
    have hsn1 : r1.context.specific.sn ≠ 0 := by rw [s1, hsn]; norm_num
    rw [i3, i11, if_pos hsn1, hconst r1.context.specific.ip_flags pkt2.ip (by rw [he]; exact h0)
      (by rw [he]; exact h1) (by rw [he, k6])] at hf
    obtain ⟨g1, g2, g3⟩ := encode_count_changes_rnd E
      (encode_changed_fields E (encode_init E.L r1.context pkt2 n2) pkt2) pkt2
    rw [hf] at g1 g2 g3
    dsimp only at g1 g2 g3
    rw [k3] at g2 g3
    exact ⟨g1, g2, g3 (by norm_num)⟩

set_option maxRecDepth 40000 in
/-- C35 at a concrete input: a context at SN 4 whose last IP-ID is 100 in host
order, then the IP-IDs 101 and 102: `id_delta` is 96 after both calls. -/
theorem C35_id_delta_stable_witness :
    (c_generic_encode sample_deps
      { state := SO
        specific :=
          { sn := 4
            ip_flags :=
              { old_ip := { id := 0x6400 }, tos_count := 3, ttl_count := 3, df_count := 3
                protocol_count := 3, rnd_count := 3, nbo_count := 3 } } }
      { ip := { id := 0x6500 } } (fun _ => 0) 100 0).context.specific.ip_flags.id_delta = 96 ∧
    (c_generic_encode sample_deps
      (c_generic_encode sample_deps
        { state := SO
          specific :=
            { sn := 4
              ip_flags :=
                { old_ip := { id := 0x6400 }, tos_count := 3, ttl_count := 3, df_count := 3
                  protocol_count := 3, rnd_count := 3, nbo_count := 3 } } }
        { ip := { id := 0x6500 } } (fun _ => 0) 100 0).context
      { ip := { id := 0x6600 } } (fun _ => 0) 100 0).context.specific.ip_flags.id_delta % 65536 =
    (c_generic_encode sample_deps
      { state := SO
        specific :=
          { sn := 4
            ip_flags :=
              { old_ip := { id := 0x6400 }, tos_count := 3, ttl_count := 3, df_count := 3
                protocol_count := 3, rnd_count := 3, nbo_count := 3 } } }
      { ip := { id := 0x6500 } } (fun _ => 0) 100 0).context.specific.ip_flags.id_delta % 65536 :=
  ⟨by decide,
    (C35_id_delta_stable sample_deps
      { state := SO
        specific :=
          { sn := 4
            ip_flags :=
              { old_ip := { id := 0x6400 }, tos_count := 3, ttl_count := 3, df_count := 3
                protocol_count := 3, rnd_count := 3, nbo_count := 3 } } }
      { ip := { id := 0x6500 } } { ip := { id := 0x6600 } } (fun _ => 0) (fun _ => 0) 100 0 100 0
      (by decide) (by decide) (by decide) (by decide) (by decide) (by decide) (by decide)
      (by decide) (by decide) (by decide) (by decide)).2.2.2.2.2⟩

set_option maxRecDepth 40000 in
/-- C40 at a concrete input: a context created for a packet with IP-ID 7,
which is then compressed twice. -/
theorem C40_constant_ip_id_is_random_witness :
    (check_ip_identification 20 { old_ip := { id := 7 } } { id := 7 }).rnd = 1 ∧
    0 < (encode_detect_changes sample_deps
      (encode_init sample_limits
        (c_generic_encode sample_deps
          (c_generic_create sample_limits {} { id := 7, protocol := 17 } {}).2
          { ip := { id := 7, protocol := 17 } } (fun _ => 0) 100 0).context
        { ip := { id := 7, protocol := 17 } } 100)
      { ip := { id := 7, protocol := 17 } }).specific.tmp_variables.send_dynamic :=
  ⟨((C40_constant_ip_id_is_random sample_deps { old_ip := { id := 7 } } { id := 7 } {} {} {}
      (fun _ => 0) 0 0 0 (by decide)).1 (by decide) (by decide) rfl).1,
    ((C40_constant_ip_id_is_random sample_deps {} {}
      (c_generic_create sample_limits {} { id := 7, protocol := 17 } {}).2
      { ip := { id := 7, protocol := 17 } } { ip := { id := 7, protocol := 17 } }
      (fun _ => 0) 100 0 100 (by decide)).2 (by decide) (by decide) (by decide) (by decide) rfl
      (by decide)).2.2⟩

/-- With fuel `remaining`, the option loop has run to its end: the number of
turns it makes is at most `remaining`. -/
theorem feedback2_options_turns_le (fuel : Nat) (v : feedback2_vars) :
    (feedback2_options_turns fuel v : Int) ≤ max v.remaining 0 := by
  induction fuel generalizing v with
  | zero => simp [feedback2_options_turns]
  | succ k ih =>
    unfold feedback2_options_turns
    split_ifs with h
    · have h1 := ih (feedback2_option v)
      have h2 := feedback2_option_remaining v
      push_cast
      omega
    · simp

/-- C38: a FEEDBACK-2 whose profile-specific data are the 3 bytes 0x00, 0x05,
0x10 ends with a CRC option: the parser takes the SN (0 * 256 + 5), makes one
turn of the option loop, and reads then writes the value byte of the option at
index 3, which is past the end of the 3 bytes. -/
theorem C38_feedback2_crc_option_past_end :
    (feedback2_parse
      { type := 2, data := [0x00, 0x05, 0x10], size := 3, specific_offset := 0
        specific_size := 3 }).sn = 5 ∧
    feedback2_options_turns 1
      { data := [0x00, 0x05, 0x10], p := 2, remaining := 1, sn := 5 } = 1 ∧
    feedback2_accesses
      { type := 2, data := [0x00, 0x05, 0x10], size := 3, specific_offset := 0
        specific_size := 3 } = [0, 0, 1, 2, 2, 3, 3] ∧
    ¬ (∀ i ∈ feedback2_accesses
        { type := 2, data := [0x00, 0x05, 0x10], size := 3, specific_offset := 0
          specific_size := 3 }, i < 3) := by
  decide

theorem int_and_0x07 (x : Int) : int_and x 0x07 = x % 8 := by
  simpa using int_and_mask x 3 (by norm_num)

theorem nat_and_0x0700 (n : Nat) : n &&& 0x0700 = n / 256 % 8 * 256 := by
  have e1 : (0x0700 : Nat) = (2 ^ 3 - 1) <<< 8 := by decide
  have e2 : n / 256 % 8 * 256 = ((n >>> 8) % 2 ^ 3) <<< 8 := by
    rw [Nat.shiftLeft_eq, Nat.shiftRight_eq_div_pow]
    norm_num
  rw [e1, e2]
  apply Nat.eq_of_testBit_eq
  intro i
  simp only [Nat.testBit_and, Nat.testBit_shiftLeft, Nat.testBit_mod_two_pow,
    Nat.testBit_shiftRight, Nat.testBit_two_pow_sub_one]
  by_cases h : i ≥ 8
  · have e3 : 8 + (i - 8) = i := by omega
    simp only [h, e3, decide_True, Bool.true_and]
    rw [Bool.and_comm]
  · simp [h]

/-- The three IP-ID bits `(id_delta & 0x0700) >> 8` of EXT-1 and EXT-2. -/
theorem int_and_0x0700_shr (x : Int) : int_shr (int_and x 0x0700) 8 = x / 256 % 8 := by
  have h : int_and x 0x0700 = x / 256 % 8 * 256 := by
    unfold int_and
    rw [show to_u32 0x0700 = 0x0700 from by decide, nat_and_0x0700, of_u32_of_lt _ (by omega)]
    unfold to_u32
    have h0 : 0 ≤ x % 4294967296 := Int.emod_nonneg _ (by norm_num)
    obtain ⟨m, hm⟩ := Int.eq_ofNat_of_zero_le h0
    rw [hm]
    simp only [Int.toNat_ofNat]
    push_cast
    rw [← hm]
    omega
  rw [h]
  simp only [int_shr]
  omega

/-- The first octet of EXT-0, EXT-1 and EXT-2 before the two type bits: three
SN bits then three IP-ID bits. -/
theorem ext_f_byte_value (sn y : Int) (h0 : 0 ≤ y) (h1 : y < 8) :
    to_uchar (int_or (to_uchar (int_shl (int_and sn 0x07) 3)) y) = sn % 8 * 8 + y := by
  have e1 : int_shl (sn % 8) 3 = sn % 8 * 8 := by
    rw [int_shl_of_nonneg _ _ (by omega) (by norm_num; omega)]
    norm_num
  rw [int_and_0x07, e1]
  have e2 : to_uchar (sn % 8 * 8) = sn % 8 * 8 := by
    unfold to_uchar
    omega
  rw [e2, int_or_disjoint _ y 3 (by omega) h0 ⟨sn % 8, by ring⟩ (by norm_num; omega) (by omega)]
  unfold to_uchar
  omega

/-- The type bits `0x40` and `0x80` on top of the six bits of the first
octet. -/
theorem ext_f_byte_type (x t : Int) (h0 : 0 ≤ x) (h1 : x < 64) (ht : t = 1 ∨ t = 2) :
    to_uchar (int_or x (t * 64)) = t * 64 + x := by
  rw [int_or_comm, int_or_disjoint _ x 6 (by omega) h0 ⟨t, by ring⟩ (by norm_num; omega)
    (by omega)]
  unfold to_uchar
  omega

/-- The octets `code_EXT0_packet`, `code_EXT1_packet` and `code_EXT2_packet`
write, in arithmetic. -/
theorem code_EXT_packets_octets (s : packet_build) :
    (code_EXT0_packet s).dest s.counter =
      s.context.specific.sn % 8 * 8 + s.context.specific.ip_flags.id_delta % 8 ∧
    (code_EXT1_packet s).dest s.counter =
      64 + (s.context.specific.sn % 8 * 8 + s.context.specific.ip_flags.id_delta / 256 % 8) ∧
    (code_EXT1_packet s).dest (s.counter + 1) = s.context.specific.ip_flags.id_delta % 256 ∧
    (code_EXT2_packet s).dest s.counter =
      128 + (s.context.specific.sn % 8 * 8 + s.context.specific.ip_flags.id_delta / 256 % 8) ∧
    (code_EXT2_packet s).dest (s.counter + 1) = s.context.specific.ip_flags.id_delta % 256 ∧
    (code_EXT2_packet s).dest (s.counter + 2) = s.context.specific.ip2_flags.id_delta % 256 := by
  have a0 := ext_f_byte_value s.context.specific.sn (s.context.specific.ip_flags.id_delta % 8)
    (by omega) (by omega)
  have a1 := ext_f_byte_value s.context.specific.sn
    (s.context.specific.ip_flags.id_delta / 256 % 8) (by omega) (by omega)
  have t1 := ext_f_byte_type
    (s.context.specific.sn % 8 * 8 + s.context.specific.ip_flags.id_delta / 256 % 8) 1
    (by omega) (by omega) (Or.inl rfl)
  have t2 := ext_f_byte_type
    (s.context.specific.sn % 8 * 8 + s.context.specific.ip_flags.id_delta / 256 % 8) 2
    (by omega) (by omega) (Or.inr rfl)
  norm_num at t1 t2
  have u : ∀ x : Int, to_uchar (x % 256) = x % 256 := by
    intro x
    unfold to_uchar
    omega
  refine ⟨?_, ?_, ?_, ?_, ?_, ?_⟩
  · simp (disch := omega) only [code_EXT0_packet, store_eq, int_and_0x07] at a0 ⊢
    rw [a0]
    omega
  · simp (disch := omega) only [code_EXT1_packet, store_eq, store_ne, int_and_0x0700_shr]
    rw [a1, t1]
    omega
  · simp (disch := omega) only [code_EXT1_packet, store_eq, store_ne, int_and_0xff, u]
    omega
  · simp (disch := omega) only [code_EXT2_packet, store_eq, store_ne, int_and_0x0700_shr]
    rw [a1, t2]
    omega
  · simp (disch := omega) only [code_EXT2_packet, store_eq, store_ne, int_and_0xff, u]
    omega
  · simp (disch := omega) only [code_EXT2_packet, store_eq, store_ne, int_and_0xff]
    omega

/-- C37: the SN and IP-ID bits of UO-2 with EXT-0, EXT-1 or EXT-2.  The five
SN bits of the first octet of the base header (`uo2_f_byte`) followed by the
three SN bits of the first octet of the extension are `sn mod 256`; the two
top bits of the extension are 0, 1 and 2; EXT-0 holds `id_delta mod 8`; EXT-1
and EXT-2 hold `id_delta mod 2^11` (three bits in the first octet, eight in
the second) and the third octet of EXT-2 is the inner `id_delta mod 256`. -/
theorem C37_sn_ip_id_reassembly (c : c_context) (dest : Int → Int) (counter : Int) :
    (uo2_f_byte c PACKET_EXT_0 / 32 = 6 ∧
      uo2_f_byte c PACKET_EXT_0 % 32 * 8 +
        (code_EXT0_packet { context := c, dest := dest, counter := counter }).dest counter / 8 % 8
        = c.specific.sn % 256 ∧
      (code_EXT0_packet { context := c, dest := dest, counter := counter }).dest counter / 64
        = 0 ∧
      (code_EXT0_packet { context := c, dest := dest, counter := counter }).dest counter % 8
        = c.specific.ip_flags.id_delta % 8 ∧
      (code_EXT0_packet { context := c, dest := dest, counter := counter }).counter
        = counter + 1) ∧
    (uo2_f_byte c PACKET_EXT_1 / 32 = 6 ∧
      uo2_f_byte c PACKET_EXT_1 % 32 * 8 +
        (code_EXT1_packet { context := c, dest := dest, counter := counter }).dest counter / 8 % 8
        = c.specific.sn % 256 ∧
      (code_EXT1_packet { context := c, dest := dest, counter := counter }).dest counter / 64
        = 1 ∧
      (code_EXT1_packet { context := c, dest := dest, counter := counter }).dest counter % 8
          * 256 +
        (code_EXT1_packet { context := c, dest := dest, counter := counter }).dest (counter + 1)
        = c.specific.ip_flags.id_delta % 2048 ∧
      (code_EXT1_packet { context := c, dest := dest, counter := counter }).counter
        = counter + 2) ∧
    (uo2_f_byte c PACKET_EXT_2 / 32 = 6 ∧
      uo2_f_byte c PACKET_EXT_2 % 32 * 8 +
        (code_EXT2_packet { context := c, dest := dest, counter := counter }).dest counter / 8 % 8
        = c.specific.sn % 256 ∧
      (code_EXT2_packet { context := c, dest := dest, counter := counter }).dest counter / 64
        = 2 ∧
      (code_EXT2_packet { context := c, dest := dest, counter := counter }).dest counter % 8
          * 256 +
        (code_EXT2_packet { context := c, dest := dest, counter := counter }).dest (counter + 1)
        = c.specific.ip_flags.id_delta % 2048 ∧
      (code_EXT2_packet { context := c, dest := dest, counter := counter }).dest (counter + 2)
        = c.specific.ip2_flags.id_delta % 256 ∧
      (code_EXT2_packet { context := c, dest := dest, counter := counter }).counter
        = counter + 3) := by
  obtain ⟨o0, o1, o1b, o2, o2b, o2c⟩ :=
    code_EXT_packets_octets { context := c, dest := dest, counter := counter }
  have b0 := uo2_f_byte_value c PACKET_EXT_0 (Or.inl (by decide))
  have b1 := uo2_f_byte_value c PACKET_EXT_1 (Or.inl (by decide))
  have b2 := uo2_f_byte_value c PACKET_EXT_2 (Or.inl (by decide))
  simp only [reduceCtorEq, or_self, if_false] at b0 b1 b2
  dsimp only at o0 o1 o1b o2 o2b o2c
  rw [o0, o1, o1b, o2, o2b, o2c, b0, b1, b2]
  refine ⟨⟨?_, ?_, ?_, ?_, rfl⟩, ⟨?_, ?_, ?_, ?_, rfl⟩, ⟨?_, ?_, ?_, ?_, ?_, rfl⟩⟩ <;> omega

/-! ## Bits of the 32-bit patterns -/

theorem to_u32_lt (x : Int) : to_u32 x < 4294967296 := by
  unfold to_u32
  have h0 : 0 ≤ x % 4294967296 := Int.emod_nonneg _ (by norm_num)
  have h1 : x % 4294967296 < 4294967296 := Int.emod_lt_of_pos _ (by norm_num)
  omega

theorem to_u32_cast (x : Int) : ((to_u32 x : Nat) : Int) = x % 4294967296 := by
  unfold to_u32
  have h0 : 0 ≤ x % 4294967296 := Int.emod_nonneg _ (by norm_num)
  omega

theorem to_u32_of_u32 (n : Nat) (h : n < 4294967296) : to_u32 (of_u32 n) = n := by
  have e : ((to_u32 (of_u32 n) : Nat) : Int) = (n : Int) := by
    rw [to_u32_cast]
    unfold of_u32
    split_ifs <;> omega
  exact_mod_cast e

theorem to_u32_int_or (a b : Int) : to_u32 (int_or a b) = to_u32 a ||| to_u32 b := by
  unfold int_or
  have h : to_u32 a ||| to_u32 b < 2 ^ 32 := Nat.or_lt_two_pow (to_u32_lt a) (to_u32_lt b)
  exact to_u32_of_u32 _ h

theorem to_u32_to_ushort (x : Int) : to_u32 (to_ushort x) = to_u32 x % 65536 := by
  have e : ((to_u32 (to_ushort x) : Nat) : Int) = ((to_u32 x % 65536 : Nat) : Int) := by
    push_cast
    rw [to_u32_cast, to_u32_cast]
    unfold to_ushort
    omega
  exact_mod_cast e

theorem to_u32_to_uchar (x : Int) : to_u32 (to_uchar x) = to_u32 x % 256 := by
  have e : ((to_u32 (to_uchar x) : Nat) : Int) = ((to_u32 x % 256 : Nat) : Int) := by
    push_cast
    rw [to_u32_cast, to_u32_cast]
    unfold to_uchar
    omega
  exact_mod_cast e

/-- The octet read back from a value has the bit `i` of the 32-bit pattern of
the value, for `i < 8`. -/
theorem octet_bit_of_testBit (x : Int) (i : Nat) (hi : i < 8)
    (h : (to_u32 x).testBit i = true) : x % 256 / 2 ^ i % 2 = 1 := by
  have e : x % 256 = ((to_u32 x % 256 : Nat) : Int) := by
    push_cast
    rw [to_u32_cast]
    omega
  have h2 : (to_u32 x % 2 ^ 8).testBit i = true := by
    rw [Nat.testBit_mod_two_pow]
    simp [hi, h]
  rw [Nat.testBit_to_div_mod] at h2
  have h3 : to_u32 x % 256 / 2 ^ i % 2 = 1 := by simpa using h2
  rw [e]
  exact_mod_cast h3

theorem testBit_int_or_left (a b : Int) (i : Nat) (h : (to_u32 a).testBit i = true) :
    (to_u32 (int_or a b)).testBit i = true := by
  rw [to_u32_int_or, Nat.testBit_or, h]
  rfl

theorem testBit_int_or_right (a b : Int) (i : Nat) (h : (to_u32 b).testBit i = true) :
    (to_u32 (int_or a b)).testBit i = true := by
  rw [to_u32_int_or, Nat.testBit_or, h]
  simp

theorem testBit_to_uchar (x : Int) (i : Nat) (hi : i < 8) (h : (to_u32 x).testBit i = true) :
    (to_u32 (to_uchar x)).testBit i = true := by
  rw [to_u32_to_uchar, show (256 : Nat) = 2 ^ 8 from rfl, Nat.testBit_mod_two_pow]
  simp [hi, h]

/-- Every bit of the mask `m` is set in `n`. -/
theorem nat_covers_or_self (a m : Nat) : (a ||| m) &&& m = m := by
  apply Nat.eq_of_testBit_eq
  intro i
  simp only [Nat.testBit_and, Nat.testBit_or]
  cases a.testBit i <;> cases m.testBit i <;> rfl

theorem nat_covers_or (a b m : Nat) (h : a &&& m = m) : (a ||| b) &&& m = m := by
  apply Nat.eq_of_testBit_eq
  intro i
  have hi := congrArg (fun n => n.testBit i) h
  simp only [Nat.testBit_and, Nat.testBit_or] at hi ⊢
  cases ha : a.testBit i <;> cases hm : m.testBit i <;> cases hb : b.testBit i <;>
    simp_all

theorem nat_covers_mod (a m : Nat) (hm : m < 65536) (h : a &&& m = m) :
    (a % 65536) &&& m = m := by
  apply Nat.eq_of_testBit_eq
  intro i
  have hi := congrArg (fun n => n.testBit i) h
  simp only [Nat.testBit_and] at hi
  rw [show (65536 : Nat) = 2 ^ 16 from rfl, Nat.testBit_and, Nat.testBit_mod_two_pow]
  by_cases h16 : i < 16
  · simp only [h16, decide_True, Bool.true_and]
    exact hi
  · have hlt : m < 2 ^ i :=
      lt_of_lt_of_le hm (by
        rw [show (65536 : Nat) = 2 ^ 16 from rfl]
        exact Nat.pow_le_pow_right (by norm_num) (by omega))
    rw [Nat.testBit_lt_two_pow hlt]
    simp

/-- A step of `changed_fields` keeps the bits of a mask below `2^16` that are
already set. -/
theorem changed_fields_step_covers (r k : Int) (m : Nat) (p : Prop) [Decidable p]
    (hm : m < 65536) (h : to_u32 r &&& m = m) :
    to_u32 (if p then to_ushort (int_or r k) else r) &&& m = m := by
  split_ifs
  · rw [to_u32_to_ushort, to_u32_int_or]
    exact nat_covers_mod _ _ hm (nat_covers_or _ _ _ h)
  · exact h

/-- `changed_fields` reports the TTL when it differs from the one of the last
header, whatever else changed: the bits of `MOD_TTL` are set in the result. -/
theorem changed_fields_ttl (E : generic_deps) (header_info : ip_header_info) (ip : iphdr)
    (h0 : 0 < E.MOD_TTL) (h1 : E.MOD_TTL < 65536) (hne : header_info.old_ip.ttl ≠ ip.ttl) :
    is_changed (to_ushort (changed_fields E header_info ip)) E.MOD_TTL = true := by
  obtain ⟨m, hm⟩ := Int.eq_ofNat_of_zero_le (le_of_lt h0)
  have hm1 : m < 65536 := by omega
  have hm0 : m ≠ 0 := by omega
  have hu : to_u32 E.MOD_TTL = m := by
    rw [to_u32_of_nonneg _ (by omega) (by omega), hm]
    rfl
  have hc : to_u32 (changed_fields E header_info ip) &&& m = m := by
    simp only [changed_fields, hne, ne_eq, not_false_eq_true, if_true]
    refine changed_fields_step_covers _ _ m _ hm1 (changed_fields_step_covers _ _ m _ hm1
      (changed_fields_step_covers _ _ m _ hm1 (changed_fields_step_covers _ _ m _ hm1 ?_)))
    rw [to_u32_to_ushort, to_u32_int_or, hu]
    exact nat_covers_mod _ _ hm1 (nat_covers_or_self _ _)
  have hc2 : to_u32 (to_ushort (changed_fields E header_info ip)) &&& m = m := by
    rw [to_u32_to_ushort]
    exact nat_covers_mod _ _ hm1 hc
  simp only [is_changed, decide_eq_true_eq, int_and]
  rw [hu, hc2, of_u32_of_lt _ (by omega)]
  exact_mod_cast hm0

/-! ## C31: a change of the TTL in state SO -/

theorem testBit_ite_or (p : Prop) [Decidable p] (x y : Int) (i : Nat)
    (h : (to_u32 x).testBit i = true) :
    (to_u32 (if p then int_or x y else x)).testBit i = true := by
  split_ifs
  · exact testBit_int_or_left _ _ _ h
  · exact h

theorem header_flags_ttl (E : generic_deps) (pos : ip_header_pos) (cf : Int) (ip : iphdr)
    (is_outer : Bool) (k : Int) (s : packet_build)
    (hT : is_changed cf E.MOD_TTL = true) :
    (header_flags E pos cf ip is_outer k s).counter = s.counter + 1 ∧
    (∀ j, j < s.counter → (header_flags E pos cf ip is_outer k s).dest j = s.dest j) ∧
    (header_flags E pos cf ip is_outer k s).dest s.counter / 64 % 2 = 1 ∧
    (header_info_of (header_flags E pos cf ip is_outer k s).context pos).tos_count =
      (header_info_of s.context pos).tos_count := by
  have b6 : (to_u32 0x40).testBit 6 = true := by decide
  refine ⟨rfl, fun j hj => ?_, ?_, ?_⟩
  · simp (disch := omega) only [header_flags, store_ne]
  · simp (disch := omega) only [header_flags, store_eq, hT, true_or, if_true]
    apply octet_bit_of_testBit _ 6 (by norm_num)
    apply testBit_ite_or
    apply testBit_int_or_left
    apply testBit_int_or_left
    apply testBit_int_or_left
    apply testBit_ite_or
    exact testBit_int_or_right _ _ _ b6
  · cases pos <;> rfl

theorem ext3_sn_field_below (n : Int) (s : packet_build) :
    (ext3_sn_field n s).counter = s.counter + (if n > 5 then 1 else 0) ∧
    (∀ j, j < s.counter → (ext3_sn_field n s).dest j = s.dest j) ∧
    (ext3_sn_field n s).context = s.context := by
  simp only [ext3_sn_field]
  split_ifs
  · exact ⟨rfl, fun j hj => store_ne _ _ _ _ (by omega), rfl⟩
  · exact ⟨by omega, fun j _ => rfl, rfl⟩

theorem header_fields_tos_below (E : generic_deps) (pos : ip_header_pos) (cf : Int) (ip : iphdr)
    (s : packet_build) :
    (header_fields_tos E pos cf ip s).counter =
      s.counter + (if is_changed cf E.MOD_TOS ∨
        (header_info_of s.context pos).tos_count < E.L.MAX_FO_COUNT then 1 else 0) ∧
    (∀ j, j < s.counter → (header_fields_tos E pos cf ip s).dest j = s.dest j) := by
  simp only [header_fields_tos]
  split_ifs
  · exact ⟨rfl, fun j hj => store_ne _ _ _ _ (by omega)⟩
  · exact ⟨by omega, fun j _ => rfl⟩

theorem header_fields_ttl_changed (E : generic_deps) (pos : ip_header_pos) (cf : Int)
    (ip : iphdr) (s : packet_build) (hT : is_changed cf E.MOD_TTL = true) :
    (header_fields_ttl E pos cf ip s).counter = s.counter + 1 ∧
    (∀ j, j < s.counter → (header_fields_ttl E pos cf ip s).dest j = s.dest j) ∧
    (header_fields_ttl E pos cf ip s).dest s.counter = ip.ttl % 256 := by
  simp only [header_fields_ttl, hT, true_or, if_true]
  exact ⟨trivial, fun j hj => store_ne _ _ _ _ (by omega), store_same _ _ _⟩

theorem header_fields_protocol_below (E : generic_deps) (pos : ip_header_pos) (cf : Int)
    (ip : iphdr) (s : packet_build) :
    ∀ j, j < s.counter → (header_fields_protocol E pos cf ip s).dest j = s.dest j := by
  intro j hj
  simp only [header_fields_protocol]
  split_ifs
  · exact store_ne _ _ _ _ (by omega)
  · rfl

theorem ext3_ip_id_field_below (E : generic_deps) (pos : ip_header_pos) (ip : iphdr) (k : Int)
    (s : packet_build) :
    ∀ j, j < s.counter → (ext3_ip_id_field E pos ip k s).dest j = s.dest j := by
  intro j hj
  simp only [ext3_ip_id_field]
  split_ifs
  · exact memcpy2_ne _ _ _ _ (Or.inl hj)
  · rfl

/-- The EXT-3 of a packet with one IP header whose TTL changed: the first
octet has the flag `ip` (0x02), the octet of the header flags follows with the
flag TTL (0x40), and the TTL of the packet is the octet after the SN octet
(present when `nr_sn_bits > 5`) and the TOS octet (present when the TOS
changed or `tos_count < MAX_FO_COUNT`). -/
theorem code_EXT3_packet_ttl (E : generic_deps) (pkt : ip_packet) (s : packet_build)
    (h1 : s.context.specific.tmp_variables.nr_of_ip_hdr = 1)
    (hT : is_changed (to_ushort s.context.specific.tmp_variables.changed_fields) E.MOD_TTL
      = true) :
    (code_EXT3_packet E pkt s).dest s.counter / 2 % 2 = 1 ∧
    (code_EXT3_packet E pkt s).dest (s.counter + 1) / 64 % 2 = 1 ∧
    (code_EXT3_packet E pkt s).dest
      (s.counter + 2 + (if s.context.specific.tmp_variables.nr_sn_bits > 5 then 1 else 0) +
        (if is_changed (to_ushort s.context.specific.tmp_variables.changed_fields) E.MOD_TOS ∨
          s.context.specific.ip_flags.tos_count < E.L.MAX_FO_COUNT then 1 else 0)) =
      pkt.ip.ttl % 256 := by
  obtain ⟨cf, hcf⟩ : ∃ x, x = to_ushort s.context.specific.tmp_variables.changed_fields :=
    ⟨_, rfl⟩
  rw [← hcf] at hT ⊢
  have hpos := (changed_dynamic_one_hdr_count E cf ip_header_pos.outer pkt.ip s.context).2.2 hT
  have hr : ext3_header_changed E cf ip_header_pos.outer pkt.ip s.context =
      ((changed_dynamic_one_hdr E cf ip_header_pos.outer pkt.ip s.context).1, true) := by
    simp only [ext3_header_changed]
    rw [if_pos (ne_of_gt hpos)]
  have htos : (header_info_of (changed_dynamic_one_hdr E cf ip_header_pos.outer pkt.ip
      s.context).1 ip_header_pos.outer).tos_count =
      if is_changed cf E.MOD_TOS then 0 else s.context.specific.ip_flags.tos_count := by
    rw [(changed_dynamic_one_hdr_info E cf ip_header_pos.outer pkt.ip s.context).1]
    rfl
  obtain ⟨f4, hf4⟩ : ∃ x, x = to_uchar (int_or
      (if ext3_I_flag_test E.L s.context.specific.tmp_variables.nr_ip_id_bits
          s.context.specific.ip_flags.rnd s.context.specific.ip_flags.rnd_count then
        to_uchar (int_or (to_uchar (int_or
          (if s.context.specific.tmp_variables.nr_sn_bits > 5 then
            to_uchar (int_or (to_uchar 0xc0) 0x20) else to_uchar 0xc0)
          (int_shl (mode_bits s.context.mode) 3))) 0x04)
      else to_uchar (int_or
          (if s.context.specific.tmp_variables.nr_sn_bits > 5 then
            to_uchar (int_or (to_uchar 0xc0) 0x20) else to_uchar 0xc0)
          (int_shl (mode_bits s.context.mode) 3))) 0x02) := ⟨_, rfl⟩
  have hbit : f4 % 256 / 2 % 2 = 1 := by
    rw [hf4]
    exact octet_bit_of_testBit _ 1 (by norm_num)
      (testBit_to_uchar _ 1 (by norm_num) (testBit_int_or_right _ _ _ (by decide)))
  obtain ⟨s1, hs1⟩ : ∃ x : packet_build, x =
      { context := (changed_dynamic_one_hdr E cf ip_header_pos.outer pkt.ip s.context).1
        dest := store s.dest s.counter f4
        counter := s.counter + 1 } := ⟨_, rfl⟩
  have hcode : code_EXT3_packet E pkt s =
      ext3_ip_id_field E ip_header_pos.outer pkt.ip s.context.specific.tmp_variables.nr_ip_id_bits
        (header_fields_protocol E ip_header_pos.outer cf pkt.ip
          (header_fields_ttl E ip_header_pos.outer cf pkt.ip
            (header_fields_tos E ip_header_pos.outer cf pkt.ip
              (ext3_sn_field s.context.specific.tmp_variables.nr_sn_bits
                (header_flags E ip_header_pos.outer cf pkt.ip false
                  s.context.specific.tmp_variables.nr_ip_id_bits s1))))) := by
    simp only [code_EXT3_packet, h1, if_true, ← hcf, hr, header_fields, Bool.false_eq_true,
      if_false, ← hf4, ← hs1]
  obtain ⟨a1, b1, c1, d1⟩ := header_flags_ttl E ip_header_pos.outer cf pkt.ip false
    s.context.specific.tmp_variables.nr_ip_id_bits s1 hT
  obtain ⟨S2, hS2⟩ : ∃ x, x = header_flags E ip_header_pos.outer cf pkt.ip false
    s.context.specific.tmp_variables.nr_ip_id_bits s1 := ⟨_, rfl⟩
  rw [← hS2] at hcode a1 b1 c1 d1
  obtain ⟨a2, b2, c2⟩ := ext3_sn_field_below s.context.specific.tmp_variables.nr_sn_bits S2
  obtain ⟨S3, hS3⟩ : ∃ x, x = ext3_sn_field s.context.specific.tmp_variables.nr_sn_bits S2 :=
    ⟨_, rfl⟩
  rw [← hS3] at hcode a2 b2 c2
  obtain ⟨a3, b3⟩ := header_fields_tos_below E ip_header_pos.outer cf pkt.ip S3
  obtain ⟨S4, hS4⟩ : ∃ x, x = header_fields_tos E ip_header_pos.outer cf pkt.ip S3 := ⟨_, rfl⟩
  rw [← hS4] at hcode a3 b3
  obtain ⟨a4, b4, c4⟩ := header_fields_ttl_changed E ip_header_pos.outer cf pkt.ip S4 hT
  obtain ⟨S5, hS5⟩ : ∃ x, x = header_fields_ttl E ip_header_pos.outer cf pkt.ip S4 := ⟨_, rfl⟩
  rw [← hS5] at hcode a4 b4 c4
  have b5 := header_fields_protocol_below E ip_header_pos.outer cf pkt.ip S5
  obtain ⟨a5, -⟩ := header_fields_protocol_step E ip_header_pos.outer cf pkt.ip S5
  obtain ⟨S6, hS6⟩ : ∃ x, x = header_fields_protocol E ip_header_pos.outer cf pkt.ip S5 :=
    ⟨_, rfl⟩
  rw [← hS6] at hcode a5 b5
  have b6 := ext3_ip_id_field_below E ip_header_pos.outer pkt.ip
    s.context.specific.tmp_variables.nr_ip_id_bits S6
  rw [hcode]
  have hc1 : s1.counter = s.counter + 1 := by rw [hs1]
  have hd0 : s1.dest s.counter = f4 % 256 := by
    rw [hs1]
    exact store_same _ _ _
  have htb : (header_info_of S3.context ip_header_pos.outer).tos_count =
      if is_changed cf E.MOD_TOS then 0 else s.context.specific.ip_flags.tos_count := by
    rw [c2, d1, hs1]
    exact htos
  have hcond : (is_changed cf E.MOD_TOS = true ∨
      (header_info_of S3.context ip_header_pos.outer).tos_count < E.L.MAX_FO_COUNT) ↔
      (is_changed cf E.MOD_TOS = true ∨
        s.context.specific.ip_flags.tos_count < E.L.MAX_FO_COUNT) := by
    rw [htb]
    by_cases hq : is_changed cf E.MOD_TOS = true
    · simp [hq]
    · simp [hq]
  have a3b : S4.counter = S3.counter +
      (if is_changed cf E.MOD_TOS = true ∨
        s.context.specific.ip_flags.tos_count < E.L.MAX_FO_COUNT then 1 else 0) := by
    rw [a3]
    simp only [hcond]
  have hsb : (if s.context.specific.tmp_variables.nr_sn_bits > 5 then (1 : Int) else 0) = 0 ∨
      (if s.context.specific.tmp_variables.nr_sn_bits > 5 then (1 : Int) else 0) = 1 := by
    split_ifs <;> simp
  have htb2 : (if is_changed cf E.MOD_TOS = true ∨
        s.context.specific.ip_flags.tos_count < E.L.MAX_FO_COUNT then (1 : Int) else 0) = 0 ∨
      (if is_changed cf E.MOD_TOS = true ∨
        s.context.specific.ip_flags.tos_count < E.L.MAX_FO_COUNT then (1 : Int) else 0) = 1 := by
    split_ifs <;> simp
  refine ⟨?_, ?_, ?_⟩
  · rw [b6 _ (by omega), b5 _ (by omega), b4 _ (by omega), b3 _ (by omega), b2 _ (by omega),
      b1 _ (by omega), hd0]
    exact hbit
  · rw [b6 _ (by omega), b5 _ (by omega), b4 _ (by omega), b3 _ (by omega), b2 _ (by omega),
      ← hc1]
    exact c1
  · rw [b6 _ (by omega), b5 _ (by omega)]
    have e : s.counter + 2 +
        (if s.context.specific.tmp_variables.nr_sn_bits > 5 then 1 else 0) +
        (if is_changed cf E.MOD_TOS = true ∨
          s.context.specific.ip_flags.tos_count < E.L.MAX_FO_COUNT then 1 else 0) =
        S4.counter := by
      rw [a3b, a2, a1, hc1]
      ring
    rw [e]
    exact c4

theorem check_ip_identification_old_ip (D : Int) (header_info : ip_header_info) (ip : iphdr) :
    (check_ip_identification D header_info ip).old_ip = header_info.old_ip := by
  simp only [check_ip_identification]
  split_ifs <;> rfl

/-- Step 2 of `c_generic_encode` on a packet whose TTL is not the one of the
last header: the TTL is among the changed fields and `send_dynamic` is
positive; the state, the mode and the counters of the periodic transitions
are not written. -/
theorem encode_detect_changes_ttl (E : generic_deps) (c : c_context) (pkt : ip_packet)
    (h0 : 0 < E.MOD_TTL) (h1 : E.MOD_TTL < 65536)
    (hne : c.specific.ip_flags.old_ip.ttl ≠ pkt.ip.ttl) :
    (encode_detect_changes E c pkt).state = c.state ∧
    (encode_detect_changes E c pkt).mode = c.mode ∧
    (encode_detect_changes E c pkt).specific.go_back_fo_count = c.specific.go_back_fo_count ∧
    (encode_detect_changes E c pkt).specific.go_back_ir_count = c.specific.go_back_ir_count ∧
    (encode_detect_changes E c pkt).specific.decide_state = c.specific.decide_state ∧
    (encode_detect_changes E c pkt).specific.tmp_variables.nr_of_ip_hdr =
      c.specific.tmp_variables.nr_of_ip_hdr ∧
    is_changed (to_ushort (encode_detect_changes E c pkt).specific.tmp_variables.changed_fields)
      E.MOD_TTL = true ∧
    0 < (encode_detect_changes E c pkt).specific.tmp_variables.send_dynamic := by
  rw [encode_detect_changes_split]
  obtain ⟨q0, q1, -, -, -, q5, q6, -, q8, q9, q10⟩ := encode_changed_fields_fields E c pkt
  obtain ⟨k1, -, -, -, -, -, -, -, k9⟩ := erase_state_fields _ _ q0
  dsimp only at k1 k9
  obtain ⟨c3, hc3⟩ : ∃ x, x = encode_changed_fields E c pkt := ⟨_, rfl⟩
  rw [← hc3] at q1 q5 q6 q8 q9 q10 k1 k9 ⊢
  have hold : c3.specific.ip_flags.old_ip = c.specific.ip_flags.old_ip := by
    rw [q8]
    split_ifs
    · exact check_ip_identification_old_ip _ _ _
    · rfl
  have hcf : is_changed (to_ushort c3.specific.tmp_variables.changed_fields) E.MOD_TTL
      = true := by
    rw [q10]
    refine changed_fields_ttl E _ pkt.ip h0 h1 ?_
    rw [← q8, hold]
    exact hne
  obtain ⟨c4, e1, e2⟩ := encode_count_changes_fields E c3 pkt
  obtain ⟨a1, a2, -, a4, -, -, a7, a8, -, -, -, a12, -⟩ := erase_counters_fields _ _ e2
  obtain ⟨b1, b2, -, b4, -, -, b7, b8, -, -, -, b12, -⟩ :=
    erase_counters_fields _ _ (changed_dynamic_both_hdr_erase E c4 pkt.ip pkt.ip2)
  dsimp only at a1 a2 a4 a7 a8 a12
  have hcf4 : is_changed (to_ushort c4.specific.tmp_variables.changed_fields) E.MOD_TTL
      = true := by
    rw [a4]
    exact hcf
  rw [e1]
  dsimp only
  refine ⟨?_, ?_, ?_, ?_, ?_, ?_, ?_, ?_⟩
  · rw [b2, a2, q1]
  · rw [b1, a1, k1]
  · rw [b7, a7, q5]
  · rw [b8, a8, q6]
  · rw [b12, a12, k9]
  · rw [b4, a4]
    exact q9
  · rw [b4]
    exact hcf4
  · exact lt_of_lt_of_le
      ((changed_dynamic_one_hdr_count E _ ip_header_pos.outer pkt.ip c4).2.2 hcf4)
      (changed_dynamic_both_hdr_count E c4 pkt.ip pkt.ip2)

/-- Steps 2 to 6 of `c_generic_encode` build the packet on the context of
steps 2 to 5. -/
theorem c_generic_encode_steps_decide (E : generic_deps) (c : c_context) (pkt : ip_packet)
    (dest : Int → Int) (off : Int) :
    c_generic_encode_steps E c pkt dest off =
      if (code_packet E (encode_decide E c pkt) pkt dest).counter < 0 then
        { context := (code_packet E (encode_decide E c pkt) pkt dest).context
          dest := (code_packet E (encode_decide E c pkt) pkt dest).dest
          payload_offset := off
          size := -1 }
      else
        { context :=
            encode_update_context (code_packet E (encode_decide E c pkt) pkt dest).context pkt
          dest := (code_packet E (encode_decide E c pkt) pkt dest).dest
          payload_offset := off
          size := (code_packet E (encode_decide E c pkt) pkt dest).counter } :=
  rfl

theorem update_variables_tmp (E : generic_deps) (c : c_context) (ip ip2 : iphdr) :
    (update_variables E c ip ip2).specific.tmp_variables.nr_of_ip_hdr =
      c.specific.tmp_variables.nr_of_ip_hdr ∧
    (update_variables E c ip ip2).specific.tmp_variables.changed_fields =
      c.specific.tmp_variables.changed_fields ∧
    (update_variables E c ip ip2).specific.tmp_variables.send_static =
      c.specific.tmp_variables.send_static ∧
    (update_variables E c ip ip2).specific.tmp_variables.send_dynamic =
      c.specific.tmp_variables.send_dynamic ∧
    (update_variables E c ip ip2).specific.ir_dyn_count = c.specific.ir_dyn_count := by
  simp only [update_variables]
  split_ifs <;> exact ⟨rfl, rfl, rfl, rfl, rfl⟩

theorem decide_packet_types (L : generic_limits) (c : c_context) :
    (c.state = IR → (decide_packet L c).2 = PACKET_IR) ∧
    (c.state = FO →
      (decide_packet L c).2 = PACKET_IR_DYN ∨ (decide_packet L c).2 = PACKET_UOR_2) := by
  constructor
  · intro hs
    exact (decide_packet_IR L c hs).1
  · intro hs
    unfold decide_packet
    simp only [hs, decide_FO_packet]
    split_ifs <;> simp

set_option maxRecDepth 40000 in
/-- C31 is refuted: a context in state SO and U-mode with one IP header and
`go_back_ir_count = CHANGE_TO_IR_COUNT` (1700 in `sample_limits`), then a
packet whose TTL is 63 where the last header had 64 (the IP-ID goes from 1 to
2): `decide_state` makes the periodic transition to IR and the packet chosen
is IR, neither IR-DYN nor UO-2. -/
theorem C31_ttl_change_periodic_refresh_sends_IR :
    (encode_decide sample_deps
      { mode := U_MODE, state := SO
        specific :=
          { sn := 7, go_back_ir_count := 1700, ir_dyn_count := 3
            ip_flags :=
              { old_ip := { id := 0x0100, ttl := 64 }, tos_count := 3, ttl_count := 3
                df_count := 3, protocol_count := 3, rnd_count := 3, nbo_count := 3 }
            tmp_variables := { nr_of_ip_hdr := 1 } } }
      { ip := { id := 0x0200, ttl := 63 } }).specific.tmp_variables.packet_type =
      some PACKET_IR := by
  decide

/-- C31 amended: for every context in state SO with one IP header whose
`decide_state` pointer is `decide_state`, and every packet whose TTL is not
the one of the last header (`MOD_TTL` being a nonzero 16-bit mask), the
packet chosen by steps 2 to 5 of `c_generic_encode` is IR, IR-DYN or UO-2; it
is IR exactly when, in U-mode, the periodic transition to IR is due
(`go_back_fo_count < CHANGE_TO_FO_COUNT` and
`go_back_ir_count ≥ CHANGE_TO_IR_COUNT`).  If it is UO-2 then
`decide_extension` returns EXT-3, and in the EXT-3 `code_EXT3_packet` builds
the first octet has the flag `ip` (0x02), the octet of the header flags
follows with its TTL flag (0x40) set, and the TTL of the packet is the octet
after the SN octet (present when `nr_sn_bits > 5`) and the TOS octet (present
when the TOS changed or `tos_count < MAX_FO_COUNT`). -/
theorem C31_ttl_change_in_SO (E : generic_deps) (c : c_context) (pkt : ip_packet)
    (dest : Int → Int) (counter : Int)
    (hs : c.state = SO) (hn : c.specific.tmp_variables.nr_of_ip_hdr = 1)
    (hd : c.specific.decide_state = some decide_state_handler.generic)
    (h0 : 0 < E.MOD_TTL) (h1 : E.MOD_TTL < 65536)
    (hne : c.specific.ip_flags.old_ip.ttl ≠ pkt.ip.ttl) :
    ((encode_decide E c pkt).specific.tmp_variables.packet_type = some PACKET_IR ∨
      (encode_decide E c pkt).specific.tmp_variables.packet_type = some PACKET_IR_DYN ∨
      (encode_decide E c pkt).specific.tmp_variables.packet_type = some PACKET_UOR_2) ∧
    ((encode_decide E c pkt).specific.tmp_variables.packet_type = some PACKET_IR ↔
      c.mode = U_MODE ∧ c.specific.go_back_fo_count < E.L.CHANGE_TO_FO_COUNT ∧
        c.specific.go_back_ir_count ≥ E.L.CHANGE_TO_IR_COUNT) ∧
    ((encode_decide E c pkt).specific.tmp_variables.packet_type = some PACKET_UOR_2 →
      decide_extension (encode_decide E c pkt) = PACKET_EXT_3 ∧
      (code_EXT3_packet E pkt
        { context := encode_decide E c pkt, dest := dest, counter := counter }).dest counter
        / 2 % 2 = 1 ∧
      (code_EXT3_packet E pkt
        { context := encode_decide E c pkt, dest := dest, counter := counter }).dest
        (counter + 1) / 64 % 2 = 1 ∧
      (code_EXT3_packet E pkt
        { context := encode_decide E c pkt, dest := dest, counter := counter }).dest
        (counter + 2 +
          (if (encode_decide E c pkt).specific.tmp_variables.nr_sn_bits > 5 then 1 else 0) +
          (if is_changed (to_ushort (encode_decide E c pkt).specific.tmp_variables.changed_fields)
              E.MOD_TOS ∨
            (encode_decide E c pkt).specific.ip_flags.tos_count < E.L.MAX_FO_COUNT then 1
            else 0)) = pkt.ip.ttl % 256) := by
  obtain ⟨p1, p2, p3, p4, p5, p6, p7, p8⟩ := encode_detect_changes_ttl E c pkt h0 h1 hne
  obtain ⟨c5, hc5⟩ : ∃ x, x = encode_detect_changes E c pkt := ⟨_, rfl⟩
  rw [← hc5] at p1 p2 p3 p4 p5 p6 p7 p8
  have hcall : call_decide_state E.L c5 = decide_state E.L c5 := by
    simp only [call_decide_state, p5, hd]
  have hst := decide_state_state E.L c5
  obtain ⟨-, -, d3, -⟩ := erase_state_fields _ _ (decide_state_erase E.L c5)
  obtain ⟨c6, hc6⟩ : ∃ x, x = decide_state E.L c5 := ⟨_, rfl⟩
  rw [← hc6] at hst d3
  obtain ⟨u1, u2, -, u4, -⟩ := update_variables_tmp E c6 pkt.ip pkt.ip2
  obtain ⟨v1, -⟩ := update_variables_frame E c6 pkt.ip pkt.ip2
  obtain ⟨c7, hc7⟩ : ∃ x, x = update_variables E c6 pkt.ip pkt.ip2 := ⟨_, rfl⟩
  rw [← hc7] at u1 u2 u4 v1
  obtain ⟨-, -, -, -, w5, -, -⟩ := decide_packet_frame E.L c7
  obtain ⟨t1, t2⟩ := decide_packet_types E.L c7
  obtain ⟨r8, hr8⟩ : ∃ x, x = decide_packet E.L c7 := ⟨_, rfl⟩
  rw [← hr8] at w5 t1 t2
  have hP : encode_decide E c pkt =
      { r8.1 with
        specific :=
          { r8.1.specific with
            tmp_variables := { r8.1.specific.tmp_variables with packet_type := some r8.2 } } } := by
    simp only [encode_decide, ← hc5, hcall, ← hc6, ← hc7, ← hr8]
  have hsd : (0 : Int) < c5.specific.tmp_variables.send_dynamic := p8
  have hsdne : c5.specific.tmp_variables.send_dynamic ≠ 0 := ne_of_gt hsd
  have hstate : c6.state =
      if c.mode = U_MODE ∧ c.specific.go_back_fo_count < E.L.CHANGE_TO_FO_COUNT ∧
        c.specific.go_back_ir_count ≥ E.L.CHANGE_TO_IR_COUNT then IR else FO := by
    rw [hst, p1, p2, p3, p4, hs]
    simp only [spec_transition, hsdne, ne_eq, not_false_eq_true, or_true, if_true]
    by_cases hm : c.mode = U_MODE
    · by_cases g1 : c.specific.go_back_fo_count ≥ E.L.CHANGE_TO_FO_COUNT
      · have g1b : ¬ c.specific.go_back_fo_count < E.L.CHANGE_TO_FO_COUNT := by omega
        simp [hm, g1, g1b]
      · have g1b : c.specific.go_back_fo_count < E.L.CHANGE_TO_FO_COUNT := by omega
        by_cases g2 : c.specific.go_back_ir_count ≥ E.L.CHANGE_TO_IR_COUNT
        · simp [hm, g1, g1b, g2]
        · simp [hm, g1, g1b, g2]
    · simp [hm]
  rw [hP]
  dsimp only
  by_cases hper : c.mode = U_MODE ∧ c.specific.go_back_fo_count < E.L.CHANGE_TO_FO_COUNT ∧
      c.specific.go_back_ir_count ≥ E.L.CHANGE_TO_IR_COUNT
  · rw [if_pos hper] at hstate
    have ht := t1 (v1.trans hstate)
    rw [ht]
    exact ⟨Or.inl rfl, ⟨fun _ => hper, fun _ => rfl⟩, fun h => absurd h (by simp)⟩
  · rw [if_neg hper] at hstate
    have ht := t2 (v1.trans hstate)
    refine ⟨?_, ?_, ?_⟩
    · rcases ht with ht | ht
      · exact Or.inr (Or.inl (by rw [ht]))
      · exact Or.inr (Or.inr (by rw [ht]))
    · constructor
      · intro h
        rcases ht with ht | ht <;> rw [ht] at h <;> simp at h
      · intro h
        exact absurd h hper
    · intro _
      have hnr : r8.1.specific.tmp_variables.nr_of_ip_hdr = 1 := by
        rw [w5, u1, d3, p6, hn]
      have hsd8 : 0 < r8.1.specific.tmp_variables.send_dynamic := by
        rw [w5, u4, d3]
        exact hsd
      have hcf8 : is_changed (to_ushort r8.1.specific.tmp_variables.changed_fields) E.MOD_TTL
          = true := by
        rw [w5, u2, d3]
        exact p7
      refine ⟨?_, ?_⟩
      · simp only [decide_extension, hnr, if_true]
        split_ifs
        · rfl
        · rfl
      · exact code_EXT3_packet_ttl E pkt _ hnr hcf8

set_option maxRecDepth 40000 in
/-- C31 at a concrete input: a context in state SO and O-mode whose last
header had the IP-ID 1 and the TTL 64, and a packet with the IP-ID 2 and the
TTL 63.  The packet is UO-2 with
EXT-3, whose octets are 0xd2 (flag `ip`), 0x44 (flag TTL) and 63. -/
theorem C31_ttl_change_in_SO_witness :
    (encode_decide sample_deps
      { mode := O_MODE, state := SO
        specific :=
          { sn := 7, ir_dyn_count := 3
            ip_flags :=
              { old_ip := { id := 0x0100, ttl := 64 }, tos_count := 3, ttl_count := 3
                df_count := 3, protocol_count := 3, rnd_count := 3, nbo_count := 3 }
            tmp_variables := { nr_of_ip_hdr := 1 } } }
      { ip := { id := 0x0200, ttl := 63 } }).specific.tmp_variables.packet_type =
      some PACKET_UOR_2 ∧
    decide_extension
      (encode_decide sample_deps
      { mode := O_MODE, state := SO
        specific :=
          { sn := 7, ir_dyn_count := 3
            ip_flags :=
              { old_ip := { id := 0x0100, ttl := 64 }, tos_count := 3, ttl_count := 3
                df_count := 3, protocol_count := 3, rnd_count := 3, nbo_count := 3 }
            tmp_variables := { nr_of_ip_hdr := 1 } } }
      { ip := { id := 0x0200, ttl := 63 } }) = PACKET_EXT_3 ∧
    octets_of
      (code_EXT3_packet sample_deps { ip := { id := 0x0200, ttl := 63 } }
      { context := (encode_decide sample_deps
          { mode := O_MODE, state := SO
            specific :=
              { sn := 7, ir_dyn_count := 3
                ip_flags :=
                  { old_ip := { id := 0x0100, ttl := 64 }, tos_count := 3, ttl_count := 3
                    df_count := 3, protocol_count := 3, rnd_count := 3, nbo_count := 3 }
                tmp_variables := { nr_of_ip_hdr := 1 } } }
          { ip := { id := 0x0200, ttl := 63 } })
        dest := fun _ => 0
        counter := 0 }).dest 3 = [0xd2, 0x44, 63] ∧
    (code_EXT3_packet sample_deps { ip := { id := 0x0200, ttl := 63 } }
      { context := (encode_decide sample_deps
          { mode := O_MODE, state := SO
            specific :=
              { sn := 7, ir_dyn_count := 3
                ip_flags :=
                  { old_ip := { id := 0x0100, ttl := 64 }, tos_count := 3, ttl_count := 3
                    df_count := 3, protocol_count := 3, rnd_count := 3, nbo_count := 3 }
                tmp_variables := { nr_of_ip_hdr := 1 } } }
          { ip := { id := 0x0200, ttl := 63 } })
        dest := fun _ => 0
        counter := 0 }).dest 0 / 2 % 2 = 1 ∧
    (code_EXT3_packet sample_deps { ip := { id := 0x0200, ttl := 63 } }
      { context := (encode_decide sample_deps
          { mode := O_MODE, state := SO
            specific :=
              { sn := 7, ir_dyn_count := 3
                ip_flags :=
                  { old_ip := { id := 0x0100, ttl := 64 }, tos_count := 3, ttl_count := 3
                    df_count := 3, protocol_count := 3, rnd_count := 3, nbo_count := 3 }
                tmp_variables := { nr_of_ip_hdr := 1 } } }
          { ip := { id := 0x0200, ttl := 63 } })
        dest := fun _ => 0
        counter := 0 }).dest (0 + 1) / 64 % 2 = 1 :=
  ⟨by decide,
    ((C31_ttl_change_in_SO sample_deps
      { mode := O_MODE, state := SO
        specific :=
          { sn := 7, ir_dyn_count := 3
            ip_flags :=
              { old_ip := { id := 0x0100, ttl := 64 }, tos_count := 3, ttl_count := 3
                df_count := 3, protocol_count := 3, rnd_count := 3, nbo_count := 3 }
            tmp_variables := { nr_of_ip_hdr := 1 } } }
      { ip := { id := 0x0200, ttl := 63 } } (fun _ => 0) 0 (by decide) (by decide) (by decide)
      (by decide) (by decide) (by decide)).2.2 (by decide)).1,
    by decide,
    ((C31_ttl_change_in_SO sample_deps
      { mode := O_MODE, state := SO
        specific :=
          { sn := 7, ir_dyn_count := 3
            ip_flags :=
              { old_ip := { id := 0x0100, ttl := 64 }, tos_count := 3, ttl_count := 3
                df_count := 3, protocol_count := 3, rnd_count := 3, nbo_count := 3 }
            tmp_variables := { nr_of_ip_hdr := 1 } } }
      { ip := { id := 0x0200, ttl := 63 } } (fun _ => 0) 0 (by decide) (by decide) (by decide)
      (by decide) (by decide) (by decide)).2.2 (by decide)).2.1,
    ((C31_ttl_change_in_SO sample_deps
      { mode := O_MODE, state := SO
        specific :=
          { sn := 7, ir_dyn_count := 3
            ip_flags :=
              { old_ip := { id := 0x0100, ttl := 64 }, tos_count := 3, ttl_count := 3
                df_count := 3, protocol_count := 3, rnd_count := 3, nbo_count := 3 }
            tmp_variables := { nr_of_ip_hdr := 1 } } }
      { ip := { id := 0x0200, ttl := 63 } } (fun _ => 0) 0 (by decide) (by decide) (by decide)
      (by decide) (by decide) (by decide)).2.2 (by decide)).2.2.1⟩

/-! ## C32: the change counters are not capped -/

theorem context_counters_within_mono (c : c_context) (bo bi bo' bi' : counter_bounds)
    (ho : bounds_le bo bo') (hi : bounds_le bi bi') (h : context_counters_within c bo bi) :
    context_counters_within c bo' bi' := by
  simp only [context_counters_within, counters_within, bounds_le] at *
  omega

theorem context_counters_within_congr (c c' : c_context) (bo bi : counter_bounds)
    (e1 : c'.specific.ip_flags = c.specific.ip_flags)
    (e2 : c'.specific.ip2_flags = c.specific.ip2_flags)
    (h : context_counters_within c bo bi) : context_counters_within c' bo bi := by
  unfold context_counters_within
  rw [e1, e2]
  exact h

theorem changed_static_one_hdr_within (E : generic_deps) (cf : Int) (pos : ip_header_pos)
    (c : c_context) (bo bi : counter_bounds) (h : context_counters_within c bo bi) :
    context_counters_within (changed_static_one_hdr E cf pos c).1 bo bi := by
  simp only [changed_static_one_hdr]
  split_ifs <;> cases pos <;>
    simp only [context_counters_within, counters_within, set_header_info, header_info_of]
      at h ⊢ <;>
    omega

theorem changed_dynamic_tos_within (E : generic_deps) (cf : Int) (pos : ip_header_pos)
    (c : c_context) (bo bi : counter_bounds) (h : context_counters_within c bo bi) :
    context_counters_within (changed_dynamic_tos E cf pos c).1 bo bi := by
  simp only [changed_dynamic_tos]
  split_ifs <;> cases pos <;>
    simp only [context_counters_within, counters_within, set_header_info, header_info_of]
      at h ⊢ <;>
    omega

theorem changed_dynamic_ttl_within (E : generic_deps) (cf : Int) (pos : ip_header_pos)
    (c : c_context) (bo bi : counter_bounds) (h : context_counters_within c bo bi) :
    context_counters_within (changed_dynamic_ttl E cf pos c).1 bo bi := by
  simp only [changed_dynamic_ttl]
  split_ifs <;> cases pos <;>
    simp only [context_counters_within, counters_within, set_header_info, header_info_of]
      at h ⊢ <;>
    omega

theorem changed_dynamic_df_within (E : generic_deps) (pos : ip_header_pos) (ip : iphdr)
    (c : c_context) (bo bi : counter_bounds) (h : context_counters_within c bo bi) :
    context_counters_within (changed_dynamic_df E pos ip c).1 bo bi := by
  simp only [changed_dynamic_df]
  split_ifs <;> cases pos <;>
    simp only [context_counters_within, counters_within, set_header_info, header_info_of]
      at h ⊢ <;>
    omega

theorem changed_dynamic_rnd_within (E : generic_deps) (pos : ip_header_pos)
    (c : c_context) (bo bi : counter_bounds) (h : context_counters_within c bo bi) :
    context_counters_within (changed_dynamic_rnd E pos c).1 bo bi := by
  simp only [changed_dynamic_rnd]
  split_ifs <;> cases pos <;>
    simp only [context_counters_within, counters_within, set_header_info, header_info_of]
      at h ⊢ <;>
    omega

theorem changed_dynamic_nbo_within (E : generic_deps) (pos : ip_header_pos)
    (c : c_context) (bo bi : counter_bounds) (h : context_counters_within c bo bi) :
    context_counters_within (changed_dynamic_nbo E pos c).1 bo bi := by
  simp only [changed_dynamic_nbo]
  split_ifs <;> cases pos <;>
    simp only [context_counters_within, counters_within, set_header_info, header_info_of]
      at h ⊢ <;>
    omega

theorem changed_dynamic_one_hdr_within (E : generic_deps) (cf : Int) (pos : ip_header_pos)
    (ip : iphdr) (c : c_context) (bo bi : counter_bounds)
    (h : context_counters_within c bo bi) :
    context_counters_within (changed_dynamic_one_hdr E cf pos ip c).1 bo bi := by
  simp only [changed_dynamic_one_hdr]
  exact changed_dynamic_nbo_within E pos _ bo bi (changed_dynamic_rnd_within E pos _ bo bi
    (changed_dynamic_df_within E pos ip _ bo bi (changed_dynamic_ttl_within E cf pos _ bo bi
      (changed_dynamic_tos_within E cf pos c bo bi h))))

theorem changed_static_both_hdr_within (E : generic_deps) (c : c_context)
    (bo bi : counter_bounds) (h : context_counters_within c bo bi) :
    context_counters_within (changed_static_both_hdr E c).1 bo bi := by
  simp only [changed_static_both_hdr]
  split_ifs
  · exact changed_static_one_hdr_within E _ _ _ bo bi
      (changed_static_one_hdr_within E _ _ _ bo bi h)
  · exact changed_static_one_hdr_within E _ _ _ bo bi h

theorem changed_dynamic_both_hdr_within (E : generic_deps) (c : c_context) (ip ip2 : iphdr)
    (bo bi : counter_bounds) (h : context_counters_within c bo bi) :
    context_counters_within (changed_dynamic_both_hdr E c ip ip2).1 bo bi := by
  simp only [changed_dynamic_both_hdr]
  split_ifs
  · exact changed_dynamic_one_hdr_within E _ _ _ _ bo bi
      (changed_dynamic_one_hdr_within E _ _ _ _ bo bi h)
  · exact changed_dynamic_one_hdr_within E _ _ _ _ bo bi h

theorem ext3_header_changed_within (E : generic_deps) (cf : Int) (pos : ip_header_pos)
    (ip : iphdr) (c : c_context) (bo bi : counter_bounds)
    (h : context_counters_within c bo bi) :
    context_counters_within (ext3_header_changed E cf pos ip c).1 bo bi := by
  simp only [ext3_header_changed]
  split_ifs
  · exact changed_dynamic_one_hdr_within E _ _ _ _ bo bi h
  · exact changed_static_one_hdr_within E _ _ _ bo bi
      (changed_dynamic_one_hdr_within E _ _ _ _ bo bi h)

/-- `header_flags` adds 1 to `df_count`, `rnd_count` and `nbo_count` of the
header it is given. -/
theorem header_flags_within (E : generic_deps) (pos : ip_header_pos) (cf : Int) (ip : iphdr)
    (o : Bool) (k : Int) (s : packet_build) (bo bi : counter_bounds)
    (h : context_counters_within s.context bo bi) :
    context_counters_within (header_flags E pos cf ip o k s).context
      (bounds_at pos ip_header_pos.outer bo { df := 1, rnd := 1, nbo := 1 })
      (bounds_at pos ip_header_pos.inner bi { df := 1, rnd := 1, nbo := 1 }) := by
  cases pos <;>
    simp only [context_counters_within, counters_within, header_flags,
      set_header_info, header_info_of, bounds_at, bounds_add, reduceCtorEq, if_true, if_false]
      at h ⊢ <;>
    omega

/-- `header_fields` adds at most 1 to `tos_count`, `ttl_count` and
`protocol_count` of the header it is given. -/
theorem header_fields_within (E : generic_deps) (pos : ip_header_pos) (cf : Int) (ip : iphdr)
    (o : Bool) (k : Int) (s : packet_build) (bo bi : counter_bounds)
    (h : context_counters_within s.context bo bi) :
    context_counters_within (header_fields E pos cf ip o k s).context
      (bounds_at pos ip_header_pos.outer bo { tos := 1, ttl := 1, protocol := 1 })
      (bounds_at pos ip_header_pos.inner bi { tos := 1, ttl := 1, protocol := 1 }) := by
  have e : (header_fields E pos cf ip o k s).context =
      (header_fields_protocol E pos cf ip
        (header_fields_ttl E pos cf ip (header_fields_tos E pos cf ip s))).context := by
    simp only [header_fields]
    split_ifs
    · exact ext3_ip_id_field_context _ _ _ _ _
    · rfl
  rw [e]
  simp only [header_fields_protocol, header_fields_ttl, header_fields_tos]
  split_ifs <;> cases pos <;>
    simp only [context_counters_within, counters_within,
      set_header_info, header_info_of, bounds_at, bounds_add, reduceCtorEq, if_true, if_false]
      at h ⊢ <;>
    omega

/-- `code_generic_static_part` adds 1 to `protocol_count` of the header it is
given. -/
theorem code_generic_static_part_within (pos : ip_header_pos) (ip : iphdr) (s : packet_build)
    (bo bi : counter_bounds) (h : context_counters_within s.context bo bi) :
    context_counters_within (code_generic_static_part pos ip s).context
      (bounds_at pos ip_header_pos.outer bo { protocol := 1 })
      (bounds_at pos ip_header_pos.inner bi { protocol := 1 }) := by
  cases pos <;>
    simp only [context_counters_within, counters_within, code_generic_static_part,
      set_header_info, header_info_of, bounds_at, bounds_add, reduceCtorEq, if_true, if_false]
      at h ⊢ <;>
    omega

/-- `code_generic_dynamic_part` adds 1 to `tos_count` and `ttl_count` and, for
a header that is not a fragment, to `df_count`, `rnd_count` and `nbo_count`
of the header it is given. -/
theorem code_generic_dynamic_part_within (pos : ip_header_pos) (ip : iphdr)
    (s : packet_build) (bo bi : counter_bounds)
    (h : context_counters_within s.context bo bi) :
    context_counters_within (code_generic_dynamic_part pos ip s).context
      (bounds_at pos ip_header_pos.outer bo { tos := 1, ttl := 1, df := 1, rnd := 1, nbo := 1 })
      (bounds_at pos ip_header_pos.inner bi
        { tos := 1, ttl := 1, df := 1, rnd := 1, nbo := 1 }) := by
  simp only [code_generic_dynamic_part]
  split_ifs <;> cases pos <;>
    simp only [context_counters_within, counters_within,
      set_header_info, header_info_of, bounds_at, bounds_add, reduceCtorEq, if_true, if_false]
      at h ⊢ <;>
    omega

theorem optional_within (b : Bool) (f : packet_build → packet_build) (s : packet_build)
    (bo bi bo' bi' : counter_bounds) (ho : bounds_le bo bo') (hi : bounds_le bi bi')
    (hf : context_counters_within (f s).context bo' bi')
    (h : context_counters_within s.context bo bi) :
    context_counters_within (if b then f s else s).context bo' bi' := by
  cases b
  · exact context_counters_within_mono _ bo bi bo' bi' ho hi h
  · exact hf

/-- `code_EXT3_packet` adds at most 1 to each change counter: `header_flags`
to `df_count`, `rnd_count` and `nbo_count`, `header_fields` to `tos_count`,
`ttl_count` and `protocol_count`. -/
theorem code_EXT3_packet_within (E : generic_deps) (pkt : ip_packet) (s : packet_build)
    (bo bi : counter_bounds) (h : context_counters_within s.context bo bi) :
    context_counters_within (code_EXT3_packet E pkt s).context
      (bounds_add bo (uniform_bounds 1)) (bounds_add bi (uniform_bounds 1)) := by
  simp only [code_EXT3_packet]
  by_cases hnr : s.context.specific.tmp_variables.nr_of_ip_hdr = 1
  · rw [if_pos hnr, ext3_ip_id_field_context]
    have h1 := ext3_header_changed_within E
      (to_ushort s.context.specific.tmp_variables.changed_fields) ip_header_pos.outer pkt.ip
      s.context bo bi h
    refine context_counters_within_mono _
      (bounds_add (bounds_add bo { df := 1, rnd := 1, nbo := 1 })
        { tos := 1, ttl := 1, protocol := 1 }) bi _ _
      (by simp only [bounds_le, bounds_add, uniform_bounds]; omega)
      (by simp only [bounds_le, bounds_add, uniform_bounds]; omega) ?_
    refine optional_within _ _ _ (bounds_add bo { df := 1, rnd := 1, nbo := 1 }) bi _ _
      (by simp only [bounds_le, bounds_add]; omega)
      (by simp only [bounds_le]; omega)
      (header_fields_within E _ _ _ _ _ _ _ _ ?_) ?_ <;>
    · rw [ext3_sn_field_context]
      exact optional_within _ _ _ bo bi _ _
        (by simp only [bounds_le, bounds_add]; omega)
        (by simp only [bounds_le]; omega)
        (header_flags_within E _ _ _ _ _ _ _ _ h1) h1
  · rw [if_neg hnr]
    have h1 := ext3_header_changed_within E
      (to_ushort s.context.specific.tmp_variables.changed_fields) ip_header_pos.outer pkt.ip
      s.context bo bi h
    have h2 := ext3_header_changed_within E
      (to_ushort s.context.specific.tmp_variables.changed_fields2) ip_header_pos.inner pkt.ip2
      _ bo bi h1
    refine context_counters_within_mono _
      (bounds_add (bounds_add bo { df := 1, rnd := 1, nbo := 1 })
        { tos := 1, ttl := 1, protocol := 1 })
      (bounds_add (bounds_add bi { df := 1, rnd := 1, nbo := 1 })
        { tos := 1, ttl := 1, protocol := 1 }) _ _
      (by simp only [bounds_le, bounds_add, uniform_bounds]; omega)
      (by simp only [bounds_le, bounds_add, uniform_bounds]; omega) ?_
    refine optional_within _ _ _ (bounds_add bo { df := 1, rnd := 1, nbo := 1 })
      (bounds_add (bounds_add bi { df := 1, rnd := 1, nbo := 1 })
        { tos := 1, ttl := 1, protocol := 1 }) _ _
      (by simp only [bounds_le, bounds_add]; omega)
      (by simp only [bounds_le]; omega)
      (header_fields_within E _ _ _ _ _ _ _ _ ?_) ?_ <;>
    · rw [ext3_ip_id_field_context]
      refine optional_within _ _ _ (bounds_add bo { df := 1, rnd := 1, nbo := 1 })
        (bounds_add bi { df := 1, rnd := 1, nbo := 1 }) _ _
        (by simp only [bounds_le]; omega)
        (by simp only [bounds_le, bounds_add]; omega)
        (header_fields_within E _ _ _ _ _ _ _ _ ?_) ?_ <;>
      · rw [ext3_sn_field_context]
        refine optional_within _ _ _ bo (bounds_add bi { df := 1, rnd := 1, nbo := 1 }) _ _
          (by simp only [bounds_le, bounds_add]; omega)
          (by simp only [bounds_le]; omega)
          (header_flags_within E _ _ _ _ _ _ _ _ ?_) ?_ <;>
        · exact optional_within _ _ _ bo bi _ _
            (by simp only [bounds_le]; omega)
            (by simp only [bounds_le, bounds_add]; omega)
            (header_flags_within E _ _ _ _ _ _ _ _ h2) h2

theorem next_header_dynamic_part_within (pkt : ip_packet) (s : packet_build)
    (bo bi : counter_bounds) (h : context_counters_within s.context bo bi) :
    context_counters_within (next_header_dynamic_part pkt s).context bo bi := by
  simp only [next_header_dynamic_part]
  rcases hq : s.context.specific.code_dynamic_part with _ | ⟨_⟩
  · exact h
  · simp only [udp_code_dynamic_udp_part]
    exact h

/-- The dynamic chain adds at most 1 to `tos_count`, `ttl_count`, `df_count`,
`rnd_count` and `nbo_count` of each header. -/
theorem code_dynamic_chain_within (pkt : ip_packet) (s : packet_build)
    (bo bi : counter_bounds) (h : context_counters_within s.context bo bi) :
    context_counters_within (code_dynamic_chain pkt s).context
      (bounds_add bo { tos := 1, ttl := 1, df := 1, rnd := 1, nbo := 1 })
      (bounds_add bi { tos := 1, ttl := 1, df := 1, rnd := 1, nbo := 1 }) := by
  have h1 := code_generic_dynamic_part_within ip_header_pos.outer pkt.ip s bo bi h
  have h2 := code_generic_dynamic_part_within ip_header_pos.inner pkt.ip2 _ _ _ h1
  have h1' := context_counters_within_mono _ _ _
    (bounds_add bo { tos := 1, ttl := 1, df := 1, rnd := 1, nbo := 1 })
    (bounds_add bi { tos := 1, ttl := 1, df := 1, rnd := 1, nbo := 1 })
    (by simp only [bounds_le, bounds_at, bounds_add, if_true]; omega)
    (by simp only [bounds_le, bounds_at, bounds_add, reduceCtorEq, if_false]; omega) h1
  have h2' := context_counters_within_mono _ _ _
    (bounds_add bo { tos := 1, ttl := 1, df := 1, rnd := 1, nbo := 1 })
    (bounds_add bi { tos := 1, ttl := 1, df := 1, rnd := 1, nbo := 1 })
    (by simp only [bounds_le, bounds_at, bounds_add, reduceCtorEq, if_true, if_false]; omega)
    (by simp only [bounds_le, bounds_at, bounds_add, reduceCtorEq, if_true, if_false]; omega) h2
  simp only [code_dynamic_chain]
  split_ifs <;>
    first
    | exact h1'
    | exact h2'
    | exact next_header_dynamic_part_within pkt _ _ _ h1'
    | exact next_header_dynamic_part_within pkt _ _ _ h2'

/-- The static chain adds at most 1 to `protocol_count` of each header. -/
theorem code_static_chain_within (pkt : ip_packet) (s : packet_build)
    (bo bi : counter_bounds) (h : context_counters_within s.context bo bi) :
    context_counters_within (code_static_chain pkt s).context
      (bounds_add bo { protocol := 1 }) (bounds_add bi { protocol := 1 }) := by
  have h1 := code_generic_static_part_within ip_header_pos.outer pkt.ip s bo bi h
  have h2 := code_generic_static_part_within ip_header_pos.inner pkt.ip2 _ _ _ h1
  have h1' := context_counters_within_mono _ _ _
    (bounds_add bo { protocol := 1 }) (bounds_add bi { protocol := 1 })
    (by simp only [bounds_le, bounds_at, bounds_add, if_true]; omega)
    (by simp only [bounds_le, bounds_at, bounds_add, reduceCtorEq, if_false]; omega) h1
  have h2' := context_counters_within_mono _ _ _
    (bounds_add bo { protocol := 1 }) (bounds_add bi { protocol := 1 })
    (by simp only [bounds_le, bounds_at, bounds_add, reduceCtorEq, if_true, if_false]; omega)
    (by simp only [bounds_le, bounds_at, bounds_add, reduceCtorEq, if_true, if_false]; omega) h2
  simp only [code_static_chain]
  split_ifs <;>
    first
    | exact h1'
    | exact h2'
    | (rw [(next_header_static_part_step pkt _).2.1]; exact h1')
    | (rw [(next_header_static_part_step pkt _).2.1]; exact h2')

theorem code_IR_packet_within (E : generic_deps) (c : c_context) (pkt : ip_packet)
    (dest : Int → Int) (bo bi : counter_bounds) (h : context_counters_within c bo bi) :
    context_counters_within (code_IR_packet E c pkt dest).context
      (bounds_add bo (uniform_bounds 1)) (bounds_add bi (uniform_bounds 1)) := by
  have hs : ∀ s : packet_build, s.context = c →
      context_counters_within (code_static_chain pkt s).context
        (bounds_add bo (uniform_bounds 1)) (bounds_add bi (uniform_bounds 1)) := by
    intro s e
    exact context_counters_within_mono _ _ _ _ _
      (by simp only [bounds_le, bounds_add, uniform_bounds]; omega)
      (by simp only [bounds_le, bounds_add, uniform_bounds]; omega)
      (code_static_chain_within pkt s bo bi (e ▸ h))
  have hd : ∀ s : packet_build, s.context = c →
      context_counters_within (code_dynamic_chain pkt (code_static_chain pkt s)).context
        (bounds_add bo (uniform_bounds 1)) (bounds_add bi (uniform_bounds 1)) := by
    intro s e
    exact context_counters_within_mono _ _ _ _ _
      (by simp only [bounds_le, bounds_add, uniform_bounds]; omega)
      (by simp only [bounds_le, bounds_add, uniform_bounds]; omega)
      (code_dynamic_chain_within pkt _ _ _ (code_static_chain_within pkt s bo bi (e ▸ h)))
  simp only [code_IR_packet]
  split_ifs
  · exact hs _ rfl
  · exact hd _ rfl
  · rw [code_sn_and_crc_tmp]
    exact hd _ rfl

theorem code_IR_DYN_packet_within (E : generic_deps) (c : c_context) (pkt : ip_packet)
    (dest : Int → Int) (bo bi : counter_bounds) (h : context_counters_within c bo bi) :
    context_counters_within (code_IR_DYN_packet E c pkt dest).context
      (bounds_add bo (uniform_bounds 1)) (bounds_add bi (uniform_bounds 1)) := by
  have hd : ∀ s : packet_build, s.context = c →
      context_counters_within (code_dynamic_chain pkt s).context
        (bounds_add bo (uniform_bounds 1)) (bounds_add bi (uniform_bounds 1)) := by
    intro s e
    exact context_counters_within_mono _ _ _ _ _
      (by simp only [bounds_le, bounds_add, uniform_bounds]; omega)
      (by simp only [bounds_le, bounds_add, uniform_bounds]; omega)
      (code_dynamic_chain_within pkt s bo bi (e ▸ h))
  simp only [code_IR_DYN_packet]
  split_ifs
  · exact hd _ rfl
  · rw [code_sn_and_crc_tmp]
    exact hd _ rfl

theorem bounds_le_add_uniform (b : counter_bounds) :
    bounds_le b (bounds_add b (uniform_bounds 1)) := by
  simp only [bounds_le, bounds_add, uniform_bounds]
  omega

theorem code_extension_within (E : generic_deps) (e : rohc_ext) (pkt : ip_packet)
    (s : packet_build) (bo bi : counter_bounds) (h : context_counters_within s.context bo bi) :
    context_counters_within (code_extension E e pkt s).context
      (bounds_add bo (uniform_bounds 1)) (bounds_add bi (uniform_bounds 1)) := by
  have h0 := context_counters_within_mono _ _ _ _ _
    (bounds_le_add_uniform bo) (bounds_le_add_uniform bi) h
  cases e
  · exact h0
  · exact h0
  · exact h0
  · exact h0
  · exact code_EXT3_packet_within E pkt s bo bi h

/-- Building one packet adds at most 1 to each change counter. -/
theorem code_packet_within (E : generic_deps) (c : c_context) (pkt : ip_packet)
    (dest : Int → Int) (bo bi : counter_bounds) (h : context_counters_within c bo bi) :
    context_counters_within (code_packet E c pkt dest).context
      (bounds_add bo (uniform_bounds 1)) (bounds_add bi (uniform_bounds 1)) := by
  have h0 := context_counters_within_mono _ _ _ _ _
    (bounds_le_add_uniform bo) (bounds_le_add_uniform bi) h
  rcases hp : c.specific.tmp_variables.packet_type with _ | t
  · simp only [code_packet, hp]
    exact h0
  · cases t <;> simp only [code_packet, hp]
    · exact code_IR_packet_within E c pkt dest bo bi h
    · exact code_IR_DYN_packet_within E c pkt dest bo bi h
    · simp only [code_UO0_packet]
      rw [(code_UO_packet_tail_frame pkt _).1]
      exact h0
    · simp only [code_UO1_packet]
      rw [(code_UO_packet_tail_frame pkt _).1]
      exact h0
    · simp only [code_UO2_packet]
      rw [(code_UO_packet_tail_frame pkt _).1]
      exact code_extension_within E _ pkt _ bo bi h

theorem check_ip_identification_within (D : Int) (header_info : ip_header_info) (ip : iphdr)
    (b : counter_bounds) (h : counters_within header_info b) :
    counters_within (check_ip_identification D header_info ip) b := by
  simp only [check_ip_identification]
  split_ifs <;> exact h

theorem encode_changed_fields_within (E : generic_deps) (c : c_context) (pkt : ip_packet)
    (bo bi : counter_bounds) (h : context_counters_within c bo bi) :
    context_counters_within (encode_changed_fields E c pkt) bo bi := by
  have h1 := check_ip_identification_within E.IPID_MAX_DELTA c.specific.ip_flags pkt.ip bo h.1
  have h2 := check_ip_identification_within E.IPID_MAX_DELTA c.specific.ip2_flags pkt.ip2 bi h.2
  simp only [encode_changed_fields]
  split_ifs <;>
    first
    | exact ⟨h1, h2⟩
    | exact ⟨h1, h.2⟩
    | exact h

theorem encode_count_changes_within (E : generic_deps) (c : c_context) (pkt : ip_packet)
    (bo bi : counter_bounds) (h : context_counters_within c bo bi) :
    context_counters_within (encode_count_changes E c pkt) bo bi := by
  simp only [encode_count_changes]
  exact changed_dynamic_both_hdr_within E _ pkt.ip pkt.ip2 bo bi
    (changed_static_both_hdr_within E c bo bi h)

theorem call_decide_state_within (L : generic_limits) (c : c_context)
    (bo bi : counter_bounds) (h : context_counters_within c bo bi) :
    context_counters_within (call_decide_state L c) bo bi := by
  obtain ⟨-, -, -, a, b, -⟩ := erase_state_fields _ _ (call_decide_state_erase L c)
  exact context_counters_within_congr _ _ bo bi a b h

theorem update_variables_within (E : generic_deps) (c : c_context) (ip ip2 : iphdr)
    (bo bi : counter_bounds) (h : context_counters_within c bo bi) :
    context_counters_within (update_variables E c ip ip2) bo bi := by
  simp only [update_variables]
  split_ifs <;> exact h

theorem decide_packet_within (L : generic_limits) (c : c_context)
    (bo bi : counter_bounds) (h : context_counters_within c bo bi) :
    context_counters_within (decide_packet L c).1 bo bi := by
  obtain ⟨-, -, -, a, b, -⟩ := erase_state_fields _ _ (decide_packet_erase L c)
  exact context_counters_within_congr _ _ bo bi a b h

theorem encode_update_context_within (c : c_context) (pkt : ip_packet)
    (bo bi : counter_bounds) (h : context_counters_within c bo bi) :
    context_counters_within (encode_update_context c pkt) bo bi := by
  simp only [encode_update_context]
  split_ifs <;> exact h

theorem c_generic_encode_steps_within (E : generic_deps) (c : c_context) (pkt : ip_packet)
    (dest : Int → Int) (off : Int) (bo bi : counter_bounds)
    (h : context_counters_within c bo bi) :
    context_counters_within (c_generic_encode_steps E c pkt dest off).context
      (bounds_add bo (uniform_bounds 1)) (bounds_add bi (uniform_bounds 1)) := by
  have h5 : context_counters_within (encode_detect_changes E c pkt) bo bi := by
    rw [encode_detect_changes_split]
    exact encode_count_changes_within E _ pkt bo bi (encode_changed_fields_within E c pkt bo bi h)
  have h8 := decide_packet_within E.L _ bo bi
    (update_variables_within E _ pkt.ip pkt.ip2 bo bi (call_decide_state_within E.L _ bo bi h5))
  simp only [c_generic_encode_steps]
  split_ifs
  · exact code_packet_within E _ pkt dest bo bi h8
  · exact encode_update_context_within _ pkt _ _ (code_packet_within E _ pkt dest bo bi h8)

theorem c_init_header_info_within (L : generic_limits) (header_info : ip_header_info)
    (ip : iphdr) (B : Int) (hL : 0 ≤ L.MAX_FO_COUNT) (hB : L.MAX_FO_COUNT ≤ B) :
    counters_within (c_init_header_info L header_info ip) (uniform_bounds B) :=
  ⟨⟨hL, hB⟩, ⟨hL, hB⟩, ⟨hL, hB⟩, ⟨hL, hB⟩, ⟨hL, hB⟩, ⟨hL, hB⟩⟩

theorem encode_init_within (L : generic_limits) (c : c_context) (pkt : ip_packet) (n B : Int)
    (hL : 0 ≤ L.MAX_FO_COUNT) (hB : L.MAX_FO_COUNT ≤ B)
    (h : context_counters_within c (uniform_bounds B) (uniform_bounds B)) :
    context_counters_within (encode_init L c pkt n) (uniform_bounds B) (uniform_bounds B) := by
  simp only [encode_init]
  split_ifs
  · exact ⟨h.1, c_init_header_info_within L _ _ B hL hB⟩
  · exact h
  · exact h

/-- A call of `c_generic_encode` adds at most 1 to each change counter of the
two header infos, whatever it returns: counters between 0 and `B` are between
0 and `B + 1` after the call. -/
theorem c_generic_encode_within (E : generic_deps) (c : c_context) (pkt : ip_packet)
    (dest : Int → Int) (n p B : Int) (hL : 0 ≤ E.L.MAX_FO_COUNT) (hB : E.L.MAX_FO_COUNT ≤ B)
    (h : context_counters_within c (uniform_bounds B) (uniform_bounds B)) :
    context_counters_within (c_generic_encode E c pkt dest n p).context
      (uniform_bounds (B + 1)) (uniform_bounds (B + 1)) := by
  have h1 := encode_init_within E.L c pkt n B hL hB h
  have hle : bounds_le (uniform_bounds B) (uniform_bounds (B + 1)) := by
    simp only [bounds_le, uniform_bounds]
    omega
  have hle' : bounds_le (bounds_add (uniform_bounds B) (uniform_bounds 1))
      (uniform_bounds (B + 1)) := by
    simp only [bounds_le, bounds_add, uniform_bounds]
    omega
  have h1' := context_counters_within_mono _ _ _ _ _ hle hle h1
  simp only [c_generic_encode]
  split_ifs <;>
    first
    | exact h1'
    | exact context_counters_within_mono _ _ _ _ _ hle' hle'
        (c_generic_encode_steps_within E _ pkt dest _ _ _ h1)

/-- After a list of calls of `c_generic_encode` the change counters are
between 0 and the bound they had before plus the number of calls. -/
theorem encode_packets_within (E : generic_deps) (hL : 0 ≤ E.L.MAX_FO_COUNT)
    (calls : List encode_call) :
    ∀ (c : c_context) (B : Int), E.L.MAX_FO_COUNT ≤ B →
      context_counters_within c (uniform_bounds B) (uniform_bounds B) →
      context_counters_within (encode_packets E c calls)
        (uniform_bounds (B + calls.length)) (uniform_bounds (B + calls.length)) := by
  induction calls with
  | nil =>
    intro c B _ h
    simpa using h
  | cons a rest ih =>
    intro c B hB h
    have h1 := ih _ (B + 1) (by omega)
      (c_generic_encode_within E c a.pkt a.dest a.dest_size a.payload_offset B hL hB h)
    have e : B + ((a :: rest).length : Int) = B + 1 + (rest.length : Int) := by
      simp only [List.length_cons, Nat.cast_add, Nat.cast_one]
      ring
    rw [e]
    exact h1

theorem c_generic_create_within (L : generic_limits) (c : c_context) (ip ip2 : iphdr)
    (hL : 0 ≤ L.MAX_FO_COUNT) (h : (c_generic_create L c ip ip2).1 = 1) :
    context_counters_within (c_generic_create L c ip ip2).2
      (uniform_bounds L.MAX_FO_COUNT) (uniform_bounds L.MAX_FO_COUNT) := by
  simp only [c_generic_create] at h ⊢
  split_ifs at h ⊢ <;>
    first
    | exact ⟨c_init_header_info_within L _ _ _ hL (le_refl _),
        ⟨⟨le_refl _, hL⟩, ⟨le_refl _, hL⟩, ⟨le_refl _, hL⟩, ⟨le_refl _, hL⟩, ⟨le_refl _, hL⟩,
          ⟨le_refl _, hL⟩⟩⟩
    | exact absurd h (by norm_num)

/-- C32 amended: for `MAX_FO_COUNT ≥ 0`, in the context `c_generic_create`
builds the six change counters of the outer header are `MAX_FO_COUNT`; after
`n` calls of `c_generic_encode` from there, on any packets and whatever the
calls return, each of `tos_count`, `ttl_count`, `df_count`, `protocol_count`,
`rnd_count` and `nbo_count` of the two header infos is between 0 and
`MAX_FO_COUNT + n`, so that as long as `MAX_FO_COUNT + n ≤ 2147483647` no
counter leaves the range of the C type `int`. -/
theorem C32_counters_bounded (E : generic_deps) (context : c_context) (ip ip2 : iphdr)
    (calls : List encode_call)
    (hL : 0 ≤ E.L.MAX_FO_COUNT) (hc : (c_generic_create E.L context ip ip2).1 = 1)
    (hn : E.L.MAX_FO_COUNT + (calls.length : Int) ≤ 2147483647) :
    ((c_generic_create E.L context ip ip2).2.specific.ip_flags.tos_count = E.L.MAX_FO_COUNT ∧
      (c_generic_create E.L context ip ip2).2.specific.ip_flags.ttl_count = E.L.MAX_FO_COUNT ∧
      (c_generic_create E.L context ip ip2).2.specific.ip_flags.df_count = E.L.MAX_FO_COUNT ∧
      (c_generic_create E.L context ip ip2).2.specific.ip_flags.protocol_count
        = E.L.MAX_FO_COUNT ∧
      (c_generic_create E.L context ip ip2).2.specific.ip_flags.rnd_count = E.L.MAX_FO_COUNT ∧
      (c_generic_create E.L context ip ip2).2.specific.ip_flags.nbo_count
        = E.L.MAX_FO_COUNT) ∧
    counters_within
      (encode_packets E (c_generic_create E.L context ip ip2).2 calls).specific.ip_flags
      (uniform_bounds (E.L.MAX_FO_COUNT + (calls.length : Int))) ∧
    counters_within
      (encode_packets E (c_generic_create E.L context ip ip2).2 calls).specific.ip2_flags
      (uniform_bounds (E.L.MAX_FO_COUNT + (calls.length : Int))) ∧
    counters_within
      (encode_packets E (c_generic_create E.L context ip ip2).2 calls).specific.ip_flags
      (uniform_bounds 2147483647) ∧
    counters_within
      (encode_packets E (c_generic_create E.L context ip ip2).2 calls).specific.ip2_flags
      (uniform_bounds 2147483647) := by
  have hI := encode_packets_within E hL calls _ _ (le_refl _)
    (c_generic_create_within E.L context ip ip2 hL hc)
  have hle : bounds_le (uniform_bounds (E.L.MAX_FO_COUNT + (calls.length : Int)))
      (uniform_bounds 2147483647) := by
    simp only [bounds_le, uniform_bounds]
    omega
  have hJ := context_counters_within_mono _ _ _ _ _ hle hle hI
  refine ⟨?_, hI.1, hI.2, hJ.1, hJ.2⟩
  simp only [c_generic_create] at hc ⊢
  split_ifs at hc ⊢ <;>
    first
    | exact ⟨rfl, rfl, rfl, rfl, rfl, rfl⟩
    | exact absurd hc (by norm_num)

set_option maxRecDepth 40000 in
/-- C32 at a concrete input: a context created for a packet and two calls of
`c_generic_encode`, the second with a changed TTL; the counters of the outer
header lie between 0 and 3 + 2. -/
theorem C32_counters_bounded_witness :
    counters_within
      (encode_packets sample_deps
        (c_generic_create sample_deps.L {} { id := 7, protocol := 17 } {}).2
        [{ pkt := { ip := { id := 7, protocol := 17 } }, dest_size := 100 },
          { pkt := { ip := { id := 0x0107, protocol := 17, ttl := 3 } }
            dest_size := 100 }]).specific.ip_flags
      (uniform_bounds (sample_deps.L.MAX_FO_COUNT +
        (([{ pkt := { ip := { id := 7, protocol := 17 } }, dest_size := 100 },
          { pkt := { ip := { id := 0x0107, protocol := 17, ttl := 3 } }
            dest_size := 100 }] : List encode_call).length : Int))) :=
  (C32_counters_bounded sample_deps {} { id := 7, protocol := 17 } {}
    [{ pkt := { ip := { id := 7, protocol := 17 } }, dest_size := 100 },
      { pkt := { ip := { id := 0x0107, protocol := 17, ttl := 3 } }, dest_size := 100 }]
    (by decide) (by decide) (by decide)).2.1

set_option maxRecDepth 40000 in
/-- C32 is refuted: with `MAX_FO_COUNT = 3`, a context created by
`c_generic_create` has its change counters at 3, and after the first packet,
an IR packet, `tos_count`, `ttl_count`, `df_count`, `protocol_count`,
`rnd_count` and `nbo_count` of the outer header are all 4. -/
theorem C32_counters_exceed_MAX_FO_COUNT :
    (c_generic_create sample_limits {} { id := 7, protocol := 17 } {}).1 = 1 ∧
    (c_generic_encode sample_deps
      (c_generic_create sample_limits {} { id := 7, protocol := 17 } {}).2
      { ip := { id := 7, protocol := 17 } } (fun _ => 0) 100 0).size = 20 ∧
    (encode_packets sample_deps
      (c_generic_create sample_limits {} { id := 7, protocol := 17 } {}).2
      [{ pkt := { ip := { id := 7, protocol := 17 } }, dest_size := 100 }]).specific.ip_flags =
      { old_ip := { id := 7, protocol := 17 }, id_delta := 1791
        ip_id_window := [{ sn := 1, value := 1791 }]
        tos_count := 4, ttl_count := 4, df_count := 4, protocol_count := 4, rnd_count := 4
        nbo_count := 4 } ∧
    ¬ counters_capped sample_limits
      (encode_packets sample_deps
        (c_generic_create sample_limits {} { id := 7, protocol := 17 } {}).2
        [{ pkt := { ip := { id := 7, protocol := 17 } }, dest_size := 100 }]).specific.ip_flags := by
  decide

/-! ## C36: the I flag of EXT-3 -/

set_option maxRecDepth 40000 in
/-- C36, the code at two inputs that reach `code_EXT3_packet` through
`code_UO2_packet` (limits and masks of `sample_deps`, `MAX_FO_COUNT = 3`).
One IP header in state SO, 9 SN bits needed, `nr_ip_id_bits = 0`, `rnd = 0`,
`rnd_count = 3` and no changed field but the IP-ID: the packet is UO-2 with
EXT-3, six octets `c1 80 e8 09 34 12`; the first octet of the extension,
`0xe8`, has its I bit (0x04) clear and yet the two octets of the IP-ID follow
the SN octet.  Two IP headers in state FO, the TTL of the outer header
changed, `nr_ip_id_bits = 3`, `nr_ip_id_bits2 = 0` and `rnd_count = 4` in the
inner header: the packet is UO-2 with EXT-3, seven octets
`c4 80 cd 45 3f 34 12`; the first octet of the extension, `0xcd`, has its I
bit set and no inner IP-ID (`78 56`) is written: the octets after the flags
are the TTL and the IP-ID of the outer header. -/
theorem C36_ext3_I_flag_mismatch :
    (decide_SO_packet
      { state := SO
        specific :=
          { sn := 0x0109
            ip_flags :=
              { old_ip := { id := 0x1134 }, tos_count := 3, ttl_count := 3, df_count := 3
                protocol_count := 3, rnd_count := 3, nbo_count := 3 }
            tmp_variables :=
              { nr_of_ip_hdr := 1, changed_fields := 0x0004, changed_fields2 := 0
                send_static := 0, send_dynamic := 0, nr_ip_id_bits := 0, nr_sn_bits := 9
                nr_ip_id_bits2 := 0, packet_type := some PACKET_UOR_2, max_size := 100 } } } = PACKET_UOR_2 ∧
    decide_extension
      { state := SO
        specific :=
          { sn := 0x0109
            ip_flags :=
              { old_ip := { id := 0x1134 }, tos_count := 3, ttl_count := 3, df_count := 3
                protocol_count := 3, rnd_count := 3, nbo_count := 3 }
            tmp_variables :=
              { nr_of_ip_hdr := 1, changed_fields := 0x0004, changed_fields2 := 0
                send_static := 0, send_dynamic := 0, nr_ip_id_bits := 0, nr_sn_bits := 9
                nr_ip_id_bits2 := 0, packet_type := some PACKET_UOR_2, max_size := 100 } } } = PACKET_EXT_3 ∧
    (code_UO2_packet sample_deps
      { state := SO
        specific :=
          { sn := 0x0109
            ip_flags :=
              { old_ip := { id := 0x1134 }, tos_count := 3, ttl_count := 3, df_count := 3
                protocol_count := 3, rnd_count := 3, nbo_count := 3 }
            tmp_variables :=
              { nr_of_ip_hdr := 1, changed_fields := 0x0004, changed_fields2 := 0
                send_static := 0, send_dynamic := 0, nr_ip_id_bits := 0, nr_sn_bits := 9
                nr_ip_id_bits2 := 0, packet_type := some PACKET_UOR_2, max_size := 100 } } }
      { ip := { id := 0x1234 } } (fun _ => 0)).counter = 6 ∧
    octets_of (code_UO2_packet sample_deps
      { state := SO
        specific :=
          { sn := 0x0109
            ip_flags :=
              { old_ip := { id := 0x1134 }, tos_count := 3, ttl_count := 3, df_count := 3
                protocol_count := 3, rnd_count := 3, nbo_count := 3 }
            tmp_variables :=
              { nr_of_ip_hdr := 1, changed_fields := 0x0004, changed_fields2 := 0
                send_static := 0, send_dynamic := 0, nr_ip_id_bits := 0, nr_sn_bits := 9
                nr_ip_id_bits2 := 0, packet_type := some PACKET_UOR_2, max_size := 100 } } }
      { ip := { id := 0x1234 } } (fun _ => 0)).dest 6 = [0xc1, 0x80, 0xe8, 0x09, 0x34, 0x12] ∧
    int_and 0xe8 0x04 = 0) ∧
    ((decide_FO_packet sample_limits
      { state := FO
        specific :=
          { sn := 0x0104, ir_dyn_count := 3, is_ip2_initialized := 1
            ip_flags :=
              { old_ip := { id := 0x1134, protocol := 4, ttl := 64 }, tos_count := 4
                ttl_count := 4, df_count := 4, protocol_count := 4, rnd_count := 4
                nbo_count := 4 }
            ip2_flags :=
              { old_ip := { id := 0x5578 }, tos_count := 4, ttl_count := 4, df_count := 4
                protocol_count := 4, rnd_count := 4, nbo_count := 4 }
            tmp_variables :=
              { nr_of_ip_hdr := 2, changed_fields := 0x0014, changed_fields2 := 0x0004
                send_static := 0, send_dynamic := 1, nr_ip_id_bits := 3, nr_sn_bits := 4
                nr_ip_id_bits2 := 0, packet_type := some PACKET_UOR_2, max_size := 100 } } }).2 = PACKET_UOR_2 ∧
    decide_extension
      { state := FO
        specific :=
          { sn := 0x0104, ir_dyn_count := 3, is_ip2_initialized := 1
            ip_flags :=
              { old_ip := { id := 0x1134, protocol := 4, ttl := 64 }, tos_count := 4
                ttl_count := 4, df_count := 4, protocol_count := 4, rnd_count := 4
                nbo_count := 4 }
            ip2_flags :=
              { old_ip := { id := 0x5578 }, tos_count := 4, ttl_count := 4, df_count := 4
                protocol_count := 4, rnd_count := 4, nbo_count := 4 }
            tmp_variables :=
              { nr_of_ip_hdr := 2, changed_fields := 0x0014, changed_fields2 := 0x0004
                send_static := 0, send_dynamic := 1, nr_ip_id_bits := 3, nr_sn_bits := 4
                nr_ip_id_bits2 := 0, packet_type := some PACKET_UOR_2, max_size := 100 } } } = PACKET_EXT_3 ∧
    (code_UO2_packet sample_deps
      { state := FO
        specific :=
          { sn := 0x0104, ir_dyn_count := 3, is_ip2_initialized := 1
            ip_flags :=
              { old_ip := { id := 0x1134, protocol := 4, ttl := 64 }, tos_count := 4
                ttl_count := 4, df_count := 4, protocol_count := 4, rnd_count := 4
                nbo_count := 4 }
            ip2_flags :=
              { old_ip := { id := 0x5578 }, tos_count := 4, ttl_count := 4, df_count := 4
                protocol_count := 4, rnd_count := 4, nbo_count := 4 }
            tmp_variables :=
              { nr_of_ip_hdr := 2, changed_fields := 0x0014, changed_fields2 := 0x0004
                send_static := 0, send_dynamic := 1, nr_ip_id_bits := 3, nr_sn_bits := 4
                nr_ip_id_bits2 := 0, packet_type := some PACKET_UOR_2, max_size := 100 } } }
      { ip := { id := 0x1234, protocol := 4, ttl := 63 }, ip2 := { id := 0x5678 } }
      (fun _ => 0)).counter = 7 ∧
    octets_of (code_UO2_packet sample_deps
      { state := FO
        specific :=
          { sn := 0x0104, ir_dyn_count := 3, is_ip2_initialized := 1
            ip_flags :=
              { old_ip := { id := 0x1134, protocol := 4, ttl := 64 }, tos_count := 4
                ttl_count := 4, df_count := 4, protocol_count := 4, rnd_count := 4
                nbo_count := 4 }
            ip2_flags :=
              { old_ip := { id := 0x5578 }, tos_count := 4, ttl_count := 4, df_count := 4
                protocol_count := 4, rnd_count := 4, nbo_count := 4 }
            tmp_variables :=
              { nr_of_ip_hdr := 2, changed_fields := 0x0014, changed_fields2 := 0x0004
                send_static := 0, send_dynamic := 1, nr_ip_id_bits := 3, nr_sn_bits := 4
                nr_ip_id_bits2 := 0, packet_type := some PACKET_UOR_2, max_size := 100 } } }
      { ip := { id := 0x1234, protocol := 4, ttl := 63 }, ip2 := { id := 0x5678 } }
      (fun _ => 0)).dest 7 = [0xc4, 0x80, 0xcd, 0x45, 0x3f, 0x34, 0x12] ∧
    int_and 0xcd 0x04 = 4) := by
  decide

/-! ## C27: the prefixes of UO-0, UO-1 and UO-2 -/

set_option maxRecDepth 40000 in
/-- C27, the code at the failing input: a context in state SO with one IP
header, SN 0x3f07 and 14 SN bits to send.  `decide_SO_packet` chooses UO-2,
`decide_extension` chooses EXT-3 and `code_UO2_packet` stores the first octet
`0xc0 | (sn >> 8)` without a mask: it is `0xff`, whose three top bits are 111
and not 110, so the match on the prefix `110` does not find the UO-2 packet. -/
theorem C27_uo2_first_octet_not_110 :
    decide_SO_packet
      { mode := O_MODE, state := SO
        specific :=
          { sn := 0x3f07
            ip_flags :=
              { tos_count := 3, ttl_count := 3, df_count := 3, protocol_count := 3
                rnd_count := 4, nbo_count := 3 }
            tmp_variables :=
              { nr_of_ip_hdr := 1, changed_fields := 0, changed_fields2 := 0, send_static := 0
                send_dynamic := 0, nr_ip_id_bits := 0, nr_sn_bits := 14, nr_ip_id_bits2 := 0
                packet_type := some PACKET_UOR_2, max_size := 100 } } } = PACKET_UOR_2 ∧
    decide_extension
      { mode := O_MODE, state := SO
        specific :=
          { sn := 0x3f07
            ip_flags :=
              { tos_count := 3, ttl_count := 3, df_count := 3, protocol_count := 3
                rnd_count := 4, nbo_count := 3 }
            tmp_variables :=
              { nr_of_ip_hdr := 1, changed_fields := 0, changed_fields2 := 0, send_static := 0
                send_dynamic := 0, nr_ip_id_bits := 0, nr_sn_bits := 14, nr_ip_id_bits2 := 0
                packet_type := some PACKET_UOR_2, max_size := 100 } } } = PACKET_EXT_3 ∧
    (code_UO2_packet sample_deps
      { mode := O_MODE, state := SO
        specific :=
          { sn := 0x3f07
            ip_flags :=
              { tos_count := 3, ttl_count := 3, df_count := 3, protocol_count := 3
                rnd_count := 4, nbo_count := 3 }
            tmp_variables :=
              { nr_of_ip_hdr := 1, changed_fields := 0, changed_fields2 := 0, send_static := 0
                send_dynamic := 0, nr_ip_id_bits := 0, nr_sn_bits := 14, nr_ip_id_bits2 := 0
                packet_type := some PACKET_UOR_2, max_size := 100 } } }
      {} (fun _ => 0)).dest 0 = 0xff ∧
    (0xff : Int) / 32 = 7 := by
  decide

/-! ## C29: the tail of the UO packets -/

/-- The tail of a UO packet starts at `uo_tail_position`. -/
theorem code_packet_UO_position (E : generic_deps) (c : c_context) (pkt : ip_packet)
    (dest : Int → Int)
    (h : c.specific.tmp_variables.packet_type = some PACKET_UO_0 ∨
      c.specific.tmp_variables.packet_type = some PACKET_UO_1 ∨
      c.specific.tmp_variables.packet_type = some PACKET_UOR_2) :
    ∃ s : packet_build, code_packet E c pkt dest = code_UO_packet_tail pkt s ∧
      coding_view s.context = coding_view c ∧ s.counter = uo_tail_position E c pkt dest := by
  rcases h with h | h | h
  · simp only [code_packet, h, code_UO0_packet, uo_tail_position]
    exact ⟨_, rfl, rfl, rfl⟩
  · simp only [code_packet, h, code_UO1_packet, uo_tail_position]
    exact ⟨_, rfl, rfl, rfl⟩
  · simp only [code_packet, h, code_UO2_packet, uo_tail_position]
    exact ⟨_, rfl, (code_extension_step E _ pkt _).2, rfl⟩

theorem spec_uo_tail_length (a : Int) (b : Bool) (d x : Int) (pkt : ip_packet) :
    ((spec_uo_tail a b d x pkt).length : Int) =
      (if a = 1 then 2 else 0) + (if b = true ∧ d = 1 then 2 else 0) +
        (if x ≠ 0 then 2 else 0) := by
  simp only [spec_uo_tail, field_octets]
  split_ifs <;> simp

/-- Steps 2 to 6 of `c_generic_encode` in a context of the UDP profile, when
they produce a UO packet: the length returned is the position of the tail
plus the length of the tail. -/
theorem c_generic_encode_steps_UO_size (E : generic_deps) (c : c_context) (pkt : ip_packet)
    (dest : Int → Int) (off : Int)
    (htl : c.specific.code_UO_packet_tail = some next_header_handler.udp)
    (hsz : 0 ≤ (c_generic_encode_steps E c pkt dest off).size)
    (hpt : (c_generic_encode_steps E c pkt dest off).context.specific.tmp_variables.packet_type
        = some PACKET_UO_0 ∨
      (c_generic_encode_steps E c pkt dest off).context.specific.tmp_variables.packet_type
        = some PACKET_UO_1 ∨
      (c_generic_encode_steps E c pkt dest off).context.specific.tmp_variables.packet_type
        = some PACKET_UOR_2) :
    (c_generic_encode_steps E c pkt dest off).size =
      uo_tail_position E (encode_decide E c pkt) pkt dest +
        ((spec_uo_tail (c_generic_encode_steps E c pkt dest off).context.specific.ip_flags.rnd
          (decide (c.specific.tmp_variables.nr_of_ip_hdr > 1))
          (c_generic_encode_steps E c pkt dest off).context.specific.ip2_flags.rnd
          pkt.udp.check pkt).length : Int) := by
  obtain ⟨c5, hc5⟩ : ∃ x, x = encode_detect_changes E c pkt := ⟨_, rfl⟩
  obtain ⟨c6, hc6⟩ : ∃ x, x = call_decide_state E.L c5 := ⟨_, rfl⟩
  obtain ⟨c7, hc7⟩ : ∃ x, x = update_variables E c6 pkt.ip pkt.ip2 := ⟨_, rfl⟩
  obtain ⟨c8, hc8⟩ : ∃ x : c_context, x =
    { (decide_packet E.L c7).1 with
      specific :=
        { (decide_packet E.L c7).1.specific with
          tmp_variables :=
            { (decide_packet E.L c7).1.specific.tmp_variables with
              packet_type := some (decide_packet E.L c7).2 } } } := ⟨_, rfl⟩
  have hdec : encode_decide E c pkt = c8 := by
    rw [hc8, hc7, hc6, hc5]
    rfl
  have hsteps : c_generic_encode_steps E c pkt dest off =
      if (code_packet E c8 pkt dest).counter < 0 then
        { context := (code_packet E c8 pkt dest).context, dest := (code_packet E c8 pkt dest).dest,
          payload_offset := off, size := -1 }
      else
        { context := encode_update_context (code_packet E c8 pkt dest).context pkt
          dest := (code_packet E c8 pkt dest).dest
          payload_offset := off
          size := (code_packet E c8 pkt dest).counter } := by
    rw [hc8, hc7, hc6, hc5]
    rfl
  have p5 : profile_view c5 = profile_view c := by
    rw [hc5]; exact encode_detect_changes_profile E c pkt
  have p6 : profile_view c6 = profile_view c5 := by
    rw [hc6]; exact call_decide_state_profile E.L c5
  have p7 : profile_view c7 = profile_view c6 := by
    rw [hc7]; exact (update_variables_frame E c6 pkt.ip pkt.ip2).2
  have p8 : profile_view c8 = profile_view c7 := by
    rw [hc8]; exact decide_packet_profile E.L c7
  have pv := (profile_view_eq _ _).1 (p8.trans (p7.trans (p6.trans p5)))
  obtain ⟨v1, v2, v3, v4⟩ := pv
  clear hc8
  rw [hdec]
  rw [hsteps] at hsz hpt ⊢
  by_cases hneg : (code_packet E c8 pkt dest).counter < 0
  · rw [if_pos hneg] at hsz
    exact absurd hsz (by norm_num)
  rw [if_neg hneg] at hpt ⊢
  dsimp only at hpt ⊢
  obtain ⟨u1, u2, u3, u4⟩ := encode_update_context_frame (code_packet E c8 pkt dest).context pkt
  rw [u1, code_packet_tmp] at hpt
  rw [u3, u4]
  obtain ⟨s, es, vs, ps⟩ := code_packet_UO_position E c8 pkt dest hpt
  have hv := coding_view_eq _ _ vs
  obtain ⟨f1, _, _⟩ := code_UO_packet_tail_frame pkt s
  have htl8 : s.context.specific.code_UO_packet_tail = some next_header_handler.udp := by
    rw [hv.2.2.2.2.2.2.2.2.2.2.2.2.2.1, v3]; exact htl
  obtain ⟨k1, -⟩ := code_UO_packet_tail_octets pkt s htl8
  have hn : s.context.specific.tmp_variables.nr_of_ip_hdr = c.specific.tmp_variables.nr_of_ip_hdr := by
    rw [hv.2.2.2.1]; exact v4
  rw [hn] at k1
  rw [es, f1, k1, ps]

/-- C29: when `c_udp_encode`, in a context that has the functions of the UDP
profile, produces a UO-0, UO-1 or UO-2 packet, the packet has a UDP checksum
that is not zero exactly when the checksum `old_udp.check` stored in the
context is not zero, and the stored UDP header is left as it was.  The packet
is the base header (with its extension for UO-2), which ends at
`uo_tail_position`, followed by the tail and nothing else: the length
returned is that position plus the length of the tail, the tail has 2 octets
for the outer IP-ID exactly when the outer RND is 1, 2 octets for the inner
IP-ID exactly when there is an inner header and the inner RND is 1, and 2
octets for the UDP checksum exactly when the checksum stored in the context
is not zero, and the octets from that position on are these fields, in this
order. -/
theorem C29_uo_tail (E : generic_deps) (c : c_context) (pkt : ip_packet)
    (dest : Int → Int) (n p : Int)
    (hds : c.specific.decide_state = some decide_state_handler.udp)
    (htl : c.specific.code_UO_packet_tail = some next_header_handler.udp)
    (hsz : 0 < (c_udp_encode E c pkt dest n p).size)
    (hpt : (c_udp_encode E c pkt dest n p).context.specific.tmp_variables.packet_type
        = some PACKET_UO_0 ∨
      (c_udp_encode E c pkt dest n p).context.specific.tmp_variables.packet_type
        = some PACKET_UO_1 ∨
      (c_udp_encode E c pkt dest n p).context.specific.tmp_variables.packet_type
        = some PACKET_UOR_2) :
    (pkt.udp.check ≠ 0 ↔ (udp_part c).old_udp.check ≠ 0) ∧
    (udp_part (c_udp_encode E c pkt dest n p).context).old_udp = (udp_part c).old_udp ∧
    (c_udp_encode E c pkt dest n p).size =
      uo_tail_position E
          (encode_decide E (encode_init E.L (udp_encode_init E.L c pkt.udp) pkt n) pkt) pkt dest +
        ((spec_uo_tail (c_udp_encode E c pkt dest n p).context.specific.ip_flags.rnd
          (decide (pkt.ip.protocol = IPPROTO_IPIP))
          (c_udp_encode E c pkt dest n p).context.specific.ip2_flags.rnd
          (udp_part c).old_udp.check pkt).length : Int) ∧
    ((spec_uo_tail (c_udp_encode E c pkt dest n p).context.specific.ip_flags.rnd
        (decide (pkt.ip.protocol = IPPROTO_IPIP))
        (c_udp_encode E c pkt dest n p).context.specific.ip2_flags.rnd
        (udp_part c).old_udp.check pkt).length : Int) =
      (if (c_udp_encode E c pkt dest n p).context.specific.ip_flags.rnd = 1 then 2 else 0) +
        (if pkt.ip.protocol = IPPROTO_IPIP ∧
            (c_udp_encode E c pkt dest n p).context.specific.ip2_flags.rnd = 1 then 2 else 0) +
        (if (udp_part c).old_udp.check ≠ 0 then 2 else 0) ∧
    octets_from (c_udp_encode E c pkt dest n p).dest
        (uo_tail_position E
          (encode_decide E (encode_init E.L (udp_encode_init E.L c pkt.udp) pkt n) pkt) pkt dest)
        ((spec_uo_tail (c_udp_encode E c pkt dest n p).context.specific.ip_flags.rnd
          (decide (pkt.ip.protocol = IPPROTO_IPIP))
          (c_udp_encode E c pkt dest n p).context.specific.ip2_flags.rnd
          (udp_part c).old_udp.check pkt).length : Int) =
      spec_uo_tail (c_udp_encode E c pkt dest n p).context.specific.ip_flags.rnd
        (decide (pkt.ip.protocol = IPPROTO_IPIP))
        (c_udp_encode E c pkt dest n p).context.specific.ip2_flags.rnd
        (udp_part c).old_udp.check pkt := by
  obtain ⟨hiff, hold, hoct⟩ := c_udp_encode_uo_tail_end E c pkt dest n p hds htl hsz hpt
  have hsize : (c_udp_encode E c pkt dest n p).size =
      uo_tail_position E
          (encode_decide E (encode_init E.L (udp_encode_init E.L c pkt.udp) pkt n) pkt) pkt dest +
        ((spec_uo_tail (c_udp_encode E c pkt dest n p).context.specific.ip_flags.rnd
          (decide (pkt.ip.protocol = IPPROTO_IPIP))
          (c_udp_encode E c pkt dest n p).context.specific.ip2_flags.rnd
          (udp_part c).old_udp.check pkt).length : Int) := by
    have e1 := c_udp_encode_UO E c pkt dest n p hsz hpt
    rw [e1] at hsz hpt ⊢
    obtain ⟨off, e2⟩ := c_generic_encode_steps_of_size E (udp_encode_init E.L c pkt.udp) pkt
      dest n p (le_of_lt hsz)
    rw [e2] at hsz hpt ⊢
    have f0 := udp_encode_init_frame E.L c pkt.udp _ rfl
    have f1 := encode_init_frame E.L (udp_encode_init E.L c pkt.udp) pkt n
    have htl1 :
        (encode_init E.L (udp_encode_init E.L c pkt.udp) pkt n).specific.code_UO_packet_tail
          = some next_header_handler.udp := by
      rw [f1.2.2.2.2.2.2.2.2.2.2.2.2.2.2.2.2.2, f0.2.2.2.2.2.2.2.2.2.2.2.2.2.2.2.2.2.2.2.1]
      exact htl
    have a := c_generic_encode_steps_UO_size E _ pkt dest off htl1 (le_of_lt hsz) hpt
    have hnr : decide ((encode_init E.L (udp_encode_init E.L c pkt.udp) pkt
        n).specific.tmp_variables.nr_of_ip_hdr > 1) = decide (pkt.ip.protocol = IPPROTO_IPIP) := by
      rw [encode_init_nr_of_ip_hdr]
      by_cases h : pkt.ip.protocol = IPPROTO_IPIP <;> simp [h]
    rw [hnr] at a
    rw [← spec_uo_tail_check _ _ _ _ _ pkt hiff]
    exact a
  refine ⟨hiff, hold, hsize, ?_, ?_⟩
  · rw [spec_uo_tail_length]
    simp only [decide_eq_true_eq]
  · rw [hsize, add_sub_cancel_right] at hoct
    exact hoct

set_option maxRecDepth 20000 in
/-- C29 at a UO-0 packet of five octets: in a context in state SO with
RND = 1 and a stored checksum that is not zero, the tail starts at position 1,
after the octet of UO-0, and is the two octets of the IP-ID and the two octets
of the UDP checksum; the stored UDP header is left as it was. -/
theorem C29_uo_tail_witness :
    (c_udp_encode sample_deps
      { state := SO
        specific :=
          { sn := 4
            ip_flags :=
              { old_ip := { protocol := 17, id := 100 }, rnd := 1, old_rnd := 1
                tos_count := 3, ttl_count := 3, df_count := 3, protocol_count := 3
                rnd_count := 3, nbo_count := 3 }
            specific := some { udp_checksum_change_count := 3, old_udp := { check := 7 } }
            next_header_proto := 17, next_header_len := 8
            decide_state := some decide_state_handler.udp
            code_static_part := some next_header_handler.udp
            code_dynamic_part := some next_header_handler.udp
            code_UO_packet_tail := some next_header_handler.udp } }
      { ip := { protocol := 17, id := 13680 }, udp := { check := 0x1234 } }
      (fun _ => 0) 100 0).size = 5 ∧
    (uo_tail_position sample_deps
      (encode_decide sample_deps
        (encode_init sample_deps.L
          (udp_encode_init sample_deps.L
            { state := SO
              specific :=
                { sn := 4
                  ip_flags :=
                    { old_ip := { protocol := 17, id := 100 }, rnd := 1, old_rnd := 1
                      tos_count := 3, ttl_count := 3, df_count := 3, protocol_count := 3
                      rnd_count := 3, nbo_count := 3 }
                  specific := some { udp_checksum_change_count := 3, old_udp := { check := 7 } }
                  next_header_proto := 17, next_header_len := 8
                  decide_state := some decide_state_handler.udp
                  code_static_part := some next_header_handler.udp
                  code_dynamic_part := some next_header_handler.udp
                  code_UO_packet_tail := some next_header_handler.udp } }
            { check := 0x1234 })
          { ip := { protocol := 17, id := 13680 }, udp := { check := 0x1234 } } 100)
        { ip := { protocol := 17, id := 13680 }, udp := { check := 0x1234 } })
      { ip := { protocol := 17, id := 13680 }, udp := { check := 0x1234 } } (fun _ => 0)) = 1 ∧
    octets_from (c_udp_encode sample_deps
      { state := SO
        specific :=
          { sn := 4
            ip_flags :=
              { old_ip := { protocol := 17, id := 100 }, rnd := 1, old_rnd := 1
                tos_count := 3, ttl_count := 3, df_count := 3, protocol_count := 3
                rnd_count := 3, nbo_count := 3 }
            specific := some { udp_checksum_change_count := 3, old_udp := { check := 7 } }
            next_header_proto := 17, next_header_len := 8
            decide_state := some decide_state_handler.udp
            code_static_part := some next_header_handler.udp
            code_dynamic_part := some next_header_handler.udp
            code_UO_packet_tail := some next_header_handler.udp } }
      { ip := { protocol := 17, id := 13680 }, udp := { check := 0x1234 } }
      (fun _ => 0) 100 0).dest 1 4 = [112, 53, 52, 18] ∧
    (udp_part (c_udp_encode sample_deps
      { state := SO
        specific :=
          { sn := 4
            ip_flags :=
              { old_ip := { protocol := 17, id := 100 }, rnd := 1, old_rnd := 1
                tos_count := 3, ttl_count := 3, df_count := 3, protocol_count := 3
                rnd_count := 3, nbo_count := 3 }
            specific := some { udp_checksum_change_count := 3, old_udp := { check := 7 } }
            next_header_proto := 17, next_header_len := 8
            decide_state := some decide_state_handler.udp
            code_static_part := some next_header_handler.udp
            code_dynamic_part := some next_header_handler.udp
            code_UO_packet_tail := some next_header_handler.udp } }
      { ip := { protocol := 17, id := 13680 }, udp := { check := 0x1234 } }
      (fun _ => 0) 100 0).context).old_udp.check = 7 :=
  ⟨by decide, by decide, by decide,
    congrArg udphdr.check (C29_uo_tail sample_deps
      { state := SO
        specific :=
          { sn := 4
            ip_flags :=
              { old_ip := { protocol := 17, id := 100 }, rnd := 1, old_rnd := 1
                tos_count := 3, ttl_count := 3, df_count := 3, protocol_count := 3
                rnd_count := 3, nbo_count := 3 }
            specific := some { udp_checksum_change_count := 3, old_udp := { check := 7 } }
            next_header_proto := 17, next_header_len := 8
            decide_state := some decide_state_handler.udp
            code_static_part := some next_header_handler.udp
            code_dynamic_part := some next_header_handler.udp
            code_UO_packet_tail := some next_header_handler.udp } }
      { ip := { protocol := 17, id := 13680 }, udp := { check := 0x1234 } }
      (fun _ => 0) 100 0 rfl rfl (by decide) (Or.inl (by decide))).2.1⟩

/-! ## C30: the framing, the chains and the CRC of IR and IR-DYN -/

theorem map_flatMap_cast (f : Int → Int) (l : List Nat) :
    List.map f (l.flatMap fun a => [(a : Int)]) = l.map (fun i : Nat => f (i : Int)) := by
  induction l with
  | nil => rfl
  | cons x xs ih => simp [List.flatMap_cons, ih]

theorem octets_from_map (d : Int → Int) (a n : Int) :
    octets_from d a n = (List.range n.toNat).map (fun i : Nat => d (a + (i : Int))) := by
  simpa [octets_from] using map_flatMap_cast (fun i => d (a + i)) (List.range n.toNat)

/-- Octets stored after a list of octets extend the list, when the second
store keeps the positions of the first. -/
theorem octets_from_append (d d' : Int → Int) (a : Int) (l l' : List Int)
    (h1 : octets_from d a (l.length : Int) = l)
    (keep : ∀ j, j < a + (l.length : Int) → d' j = d j)
    (h2 : octets_from d' (a + (l.length : Int)) (l'.length : Int) = l') :
    octets_from d' a ((l ++ l').length : Int) = l ++ l' := by
  have e1 : octets_from d' a (l.length : Int) = l := by
    rw [octets_from_map] at h1 ⊢
    rw [← h1]
    simp only [Int.toNat_ofNat, List.length_map, List.length_range]
    apply List.map_congr_left
    intro i hi
    simp only [List.mem_range] at hi
    exact keep _ (by omega)
  rw [octets_from_map] at e1 h2 ⊢
  simp only [Int.toNat_ofNat] at e1 h2 ⊢
  rw [List.length_append, List.range_add, List.map_append, List.map_map, e1]
  congr 1
  rw [← h2]
  simp only [List.length_map, List.length_range]
  apply List.map_congr_left
  intro i _
  simp only [Function.comp_apply, Nat.cast_add]
  congr 1
  ring

theorem octets_from_congr (d d' : Int → Int) (a n : Int)
    (h : ∀ j, a ≤ j → j < a + n → d' j = d j) : octets_from d' a n = octets_from d a n := by
  rw [octets_from_map, octets_from_map]
  apply List.map_congr_left
  intro i hi
  simp only [List.mem_range] at hi
  exact h _ (by omega) (by omega)

theorem octets_from_ten (d : Int → Int) (c : Int) :
    octets_from d c 10 = [d c, d (c + 1), d (c + 2), d (c + 3), d (c + 4), d (c + 5), d (c + 6),
      d (c + 7), d (c + 8), d (c + 9)] := by
  simp [octets_from, List.range_succ]

theorem spec_ipv4_static_length (ip : iphdr) : ((spec_ipv4_static ip).length : Int) = 10 := rfl

theorem spec_ipv4_dynamic_length (ip : iphdr) (rnd nbo : Int) :
    ((spec_ipv4_dynamic ip rnd nbo).length : Int) = 5 := rfl

theorem spec_udp_static_length (udp : udphdr) : ((spec_udp_static udp).length : Int) = 4 := rfl

theorem spec_udp_dynamic_length (udp : udphdr) : ((spec_udp_dynamic udp).length : Int) = 2 := rfl

/-- The ten octets `code_generic_static_part` stores. -/
theorem code_generic_static_part_octets (pos : ip_header_pos) (ip : iphdr) (s : packet_build) :
    octets_from (code_generic_static_part pos ip s).dest s.counter
      ((spec_ipv4_static ip).length : Int) = spec_ipv4_static ip := by
  rw [spec_ipv4_static_length]
  simp only [code_generic_static_part, octets_from_ten, spec_ipv4_static, field_octets4, memcpy4,
    memcpy2, List.cons_append, List.nil_append]
  simp (disch := omega) only [store_eq, store_ne]
  norm_num

/-- The five octets `code_generic_dynamic_part` stores for a header that is
not a fragment. -/
theorem code_generic_dynamic_part_octets (pos : ip_header_pos) (ip : iphdr) (s : packet_build)
    (h0 : 0 ≤ ip.frag_off) (h1 : ip.frag_off ≤ 65535)
    (hnf : ntohs ip.frag_off = 0 ∨ ntohs ip.frag_off = IP_DF) :
    octets_from (code_generic_dynamic_part pos ip s).dest s.counter
      ((spec_ipv4_dynamic ip (header_info_of s.context pos).rnd
        (header_info_of s.context pos).nbo).length : Int) =
      spec_ipv4_dynamic ip (header_info_of s.context pos).rnd
        (header_info_of s.context pos).nbo := by
  rw [spec_ipv4_dynamic_length]
  exact (code_generic_dynamic_part_ok pos ip s h0 h1 hnf).2.1

/-- The octets the static part of the next header stores. -/
theorem next_header_static_part_octets (pkt : ip_packet) (s : packet_build) :
    octets_from (next_header_static_part pkt s).dest s.counter
      ((if s.context.specific.code_static_part = none then []
        else spec_udp_static pkt.udp).length : Int) =
      (if s.context.specific.code_static_part = none then [] else spec_udp_static pkt.udp) := by
  simp only [next_header_static_part]
  rcases s.context.specific.code_static_part with _ | ⟨_⟩
  · rfl
  · simp only [reduceCtorEq, if_false, spec_udp_static_length]
    simp only [udp_code_static_udp_part, octets_from_four, spec_udp_static, field_octets,
      List.cons_append, List.nil_append]
    simp (disch := omega) only [memcpy2_at0, memcpy2_at1, memcpy2_ne]

/-- The octets the dynamic part of the next header stores. -/
theorem next_header_dynamic_part_octets (pkt : ip_packet) (s : packet_build) :
    octets_from (next_header_dynamic_part pkt s).dest s.counter
      ((if s.context.specific.code_dynamic_part = none then []
        else spec_udp_dynamic pkt.udp).length : Int) =
      (if s.context.specific.code_dynamic_part = none then [] else spec_udp_dynamic pkt.udp) := by
  simp only [next_header_dynamic_part]
  rcases s.context.specific.code_dynamic_part with _ | ⟨_⟩
  · rfl
  · simp only [reduceCtorEq, if_false, spec_udp_dynamic_length]
    simp only [udp_code_dynamic_udp_part, octets_from_two, spec_udp_dynamic, field_octets]
    simp (disch := omega) only [memcpy2_at0, memcpy2_at1, memcpy2_ne]

theorem spec_static_chain_length (c : c_context) (pkt : ip_packet) :
    ((spec_static_chain c pkt).length : Int) =
      (if c.specific.tmp_variables.nr_of_ip_hdr > 1 then 20 else 10) +
        (if c.specific.code_static_part = none then 0 else 4) := by
  simp only [spec_static_chain]
  split_ifs <;> rfl

theorem spec_dynamic_chain_length (c : c_context) (pkt : ip_packet) :
    ((spec_dynamic_chain c pkt).length : Int) =
      (if c.specific.tmp_variables.nr_of_ip_hdr > 1 then 10 else 5) +
        (if c.specific.code_dynamic_part = none then 0 else 2) := by
  simp only [spec_dynamic_chain]
  split_ifs <;> rfl

/-- The octets of the static chain. -/
theorem code_static_chain_octets (pkt : ip_packet) (s : packet_build) (hs : 0 ≤ s.counter) :
    octets_from (code_static_chain pkt s).dest s.counter
      ((spec_static_chain s.context pkt).length : Int) = spec_static_chain s.context pkt := by
  obtain ⟨a1, b1, c1⟩ := code_generic_static_part_step ip_header_pos.outer pkt.ip s
  obtain ⟨a2, b2, c2⟩ := code_generic_static_part_step ip_header_pos.inner pkt.ip2
    (code_generic_static_part ip_header_pos.outer pkt.ip s)
  have o1 := code_generic_static_part_octets ip_header_pos.outer pkt.ip s
  have o2 := code_generic_static_part_octets ip_header_pos.inner pkt.ip2
    (code_generic_static_part ip_header_pos.outer pkt.ip s)
  have l1 := spec_ipv4_static_length pkt.ip
  have l2 := spec_ipv4_static_length pkt.ip2
  simp only [code_static_chain, spec_static_chain]
  have n1 : ¬ (code_generic_static_part ip_header_pos.outer pkt.ip s).counter < 0 := by omega
  rw [if_neg n1]
  by_cases hn : s.context.specific.tmp_variables.nr_of_ip_hdr > 1
  · simp only [if_pos hn]
    have n2 : ¬ (code_generic_static_part ip_header_pos.inner pkt.ip2
        (code_generic_static_part ip_header_pos.outer pkt.ip s)).counter < 0 := by omega
    rw [if_neg n2]
    obtain ⟨a3, b3, c3⟩ := next_header_static_part_step pkt
      (code_generic_static_part ip_header_pos.inner pkt.ip2
        (code_generic_static_part ip_header_pos.outer pkt.ip s))
    have o3 := next_header_static_part_octets pkt
      (code_generic_static_part ip_header_pos.inner pkt.ip2
        (code_generic_static_part ip_header_pos.outer pkt.ip s))
    have hh := (coding_view_eq _ _ (b2.trans b1)).2.2.2.2.2.2.2.2.2.2.2.1
    rw [hh] at o3
    have o12 := octets_from_append _ _ s.counter (spec_ipv4_static pkt.ip)
      (spec_ipv4_static pkt.ip2) o1 (fun j hj => c2 j (by omega))
      (by
        have e : s.counter + ((spec_ipv4_static pkt.ip).length : Int) =
            (code_generic_static_part ip_header_pos.outer pkt.ip s).counter := by omega
        rw [e]
        exact o2)
    refine octets_from_append _ _ s.counter _ _ o12 (fun j hj => c3 j ?_) ?_
    · rw [List.length_append, Nat.cast_add] at hj
      omega
    · have e : s.counter + ((spec_ipv4_static pkt.ip ++ spec_ipv4_static pkt.ip2).length : Int) =
          (code_generic_static_part ip_header_pos.inner pkt.ip2
            (code_generic_static_part ip_header_pos.outer pkt.ip s)).counter := by
        rw [List.length_append, Nat.cast_add]
        omega
      rw [e]
      exact o3
  · simp only [if_neg hn, List.append_nil]
    rw [if_neg n1]
    obtain ⟨a3, b3, c3⟩ := next_header_static_part_step pkt
      (code_generic_static_part ip_header_pos.outer pkt.ip s)
    have o3 := next_header_static_part_octets pkt
      (code_generic_static_part ip_header_pos.outer pkt.ip s)
    have hh := (coding_view_eq _ _ b1).2.2.2.2.2.2.2.2.2.2.2.1
    rw [hh] at o3
    refine octets_from_append _ _ s.counter _ _ o1 (fun j hj => c3 j (by omega)) ?_
    have e : s.counter + ((spec_ipv4_static pkt.ip).length : Int) =
        (code_generic_static_part ip_header_pos.outer pkt.ip s).counter := by omega
    rw [e]
    exact o3

/-- The octets of the dynamic chain of headers that are not fragments. -/
theorem code_dynamic_chain_octets (pkt : ip_packet) (s : packet_build) (hs : 0 ≤ s.counter)
    (h0 : 0 ≤ pkt.ip.frag_off) (h1 : pkt.ip.frag_off ≤ 65535)
    (hnf : ntohs pkt.ip.frag_off = 0 ∨ ntohs pkt.ip.frag_off = IP_DF)
    (g0 : 0 ≤ pkt.ip2.frag_off) (g1 : pkt.ip2.frag_off ≤ 65535)
    (gnf : s.context.specific.tmp_variables.nr_of_ip_hdr > 1 →
      ntohs pkt.ip2.frag_off = 0 ∨ ntohs pkt.ip2.frag_off = IP_DF) :
    octets_from (code_dynamic_chain pkt s).dest s.counter
      ((spec_dynamic_chain s.context pkt).length : Int) = spec_dynamic_chain s.context pkt := by
  obtain ⟨a1, _, c1⟩ := code_generic_dynamic_part_ok ip_header_pos.outer pkt.ip s h0 h1 hnf
  have b1 := code_generic_dynamic_part_view ip_header_pos.outer pkt.ip s h0 h1 hnf
  have o1 := code_generic_dynamic_part_octets ip_header_pos.outer pkt.ip s h0 h1 hnf
  have l1 := spec_ipv4_dynamic_length pkt.ip s.context.specific.ip_flags.rnd
    s.context.specific.ip_flags.nbo
  have l2 := spec_ipv4_dynamic_length pkt.ip2 s.context.specific.ip2_flags.rnd
    s.context.specific.ip2_flags.nbo
  have hv1 := coding_view_eq _ _ b1
  simp only [header_info_of] at o1
  simp only [code_dynamic_chain, spec_dynamic_chain]
  have n1 : ¬ (code_generic_dynamic_part ip_header_pos.outer pkt.ip s).counter < 0 := by omega
  rw [if_neg n1]
  by_cases hn : s.context.specific.tmp_variables.nr_of_ip_hdr > 1
  · simp only [if_pos hn]
    obtain ⟨a2, _, c2⟩ := code_generic_dynamic_part_ok ip_header_pos.inner pkt.ip2
      (code_generic_dynamic_part ip_header_pos.outer pkt.ip s) g0 g1 (gnf hn)
    have b2 := code_generic_dynamic_part_view ip_header_pos.inner pkt.ip2
      (code_generic_dynamic_part ip_header_pos.outer pkt.ip s) g0 g1 (gnf hn)
    have o2 := code_generic_dynamic_part_octets ip_header_pos.inner pkt.ip2
      (code_generic_dynamic_part ip_header_pos.outer pkt.ip s) g0 g1 (gnf hn)
    simp only [header_info_of] at o2
    rw [hv1.2.2.2.2.2.1, hv1.2.2.2.2.2.2.2.1] at o2
    have n2 : ¬ (code_generic_dynamic_part ip_header_pos.inner pkt.ip2
        (code_generic_dynamic_part ip_header_pos.outer pkt.ip s)).counter < 0 := by omega
    rw [if_neg n2]
    obtain ⟨a3, b3, c3⟩ := next_header_dynamic_part_step pkt
      (code_generic_dynamic_part ip_header_pos.inner pkt.ip2
        (code_generic_dynamic_part ip_header_pos.outer pkt.ip s))
    have o3 := next_header_dynamic_part_octets pkt
      (code_generic_dynamic_part ip_header_pos.inner pkt.ip2
        (code_generic_dynamic_part ip_header_pos.outer pkt.ip s))
    have hv := coding_view_eq _ _ (b2.trans b1)
    rw [hv.2.2.2.2.2.2.2.2.2.2.2.2.1] at o3
    have o12 := octets_from_append _ _ s.counter _ _ o1 (fun j hj => c2 j (Or.inl (by omega)))
      (by
        have e : s.counter + ((spec_ipv4_dynamic pkt.ip s.context.specific.ip_flags.rnd
            s.context.specific.ip_flags.nbo).length : Int) =
            (code_generic_dynamic_part ip_header_pos.outer pkt.ip s).counter := by omega
        rw [e]
        exact o2)
    refine octets_from_append _ _ s.counter _ _ o12 (fun j hj => c3 j ?_) ?_
    · rw [List.length_append, Nat.cast_add] at hj
      omega
    · have e : s.counter + ((spec_ipv4_dynamic pkt.ip s.context.specific.ip_flags.rnd
          s.context.specific.ip_flags.nbo ++ spec_ipv4_dynamic pkt.ip2
            s.context.specific.ip2_flags.rnd s.context.specific.ip2_flags.nbo).length : Int) =
          (code_generic_dynamic_part ip_header_pos.inner pkt.ip2
            (code_generic_dynamic_part ip_header_pos.outer pkt.ip s)).counter := by
        rw [List.length_append, Nat.cast_add]
        omega
      rw [e]
      exact o3
  · simp only [if_neg hn, List.append_nil]
    rw [if_neg n1]
    obtain ⟨a3, b3, c3⟩ := next_header_dynamic_part_step pkt
      (code_generic_dynamic_part ip_header_pos.outer pkt.ip s)
    have o3 := next_header_dynamic_part_octets pkt
      (code_generic_dynamic_part ip_header_pos.outer pkt.ip s)
    rw [hv1.2.2.2.2.2.2.2.2.2.2.2.2.1] at o3
    refine octets_from_append _ _ s.counter _ _ o1 (fun j hj => c3 j (by omega)) ?_
    have e : s.counter + ((spec_ipv4_dynamic pkt.ip s.context.specific.ip_flags.rnd
        s.context.specific.ip_flags.nbo).length : Int) =
        (code_generic_dynamic_part ip_header_pos.outer pkt.ip s).counter := by omega
    rw [e]
    exact o3

theorem spec_dynamic_chain_congr (c c' : c_context) (pkt : ip_packet)
    (h : coding_view c' = coding_view c) :
    spec_dynamic_chain c' pkt = spec_dynamic_chain c pkt := by
  have hv := coding_view_eq _ _ h
  simp only [spec_dynamic_chain, hv.2.2.2.1, hv.2.2.2.2.1, hv.2.2.2.2.2.1, hv.2.2.2.2.2.2.1,
    hv.2.2.2.2.2.2.2.1, hv.2.2.2.2.2.2.2.2.2.2.2.2.1]

/-- The chains `code_IR_packet` stores after the CRC octet, for headers that
are not fragments. -/
theorem code_IR_packet_chains (E : generic_deps) (c : c_context) (pkt : ip_packet)
    (dest : Int → Int) (cid : cid_values)
    (hcv : E.code_cid_values c dest c.specific.tmp_variables.max_size = cid)
    (hfp : 0 ≤ cid.first_position) (hcid : cid.first_position < cid.counter)
    (h0 : 0 ≤ pkt.ip.frag_off) (h1 : pkt.ip.frag_off ≤ 65535)
    (hnf : ntohs pkt.ip.frag_off = 0 ∨ ntohs pkt.ip.frag_off = IP_DF)
    (g0 : 0 ≤ pkt.ip2.frag_off) (g1 : pkt.ip2.frag_off ≤ 65535)
    (gnf : c.specific.tmp_variables.nr_of_ip_hdr > 1 →
      ntohs pkt.ip2.frag_off = 0 ∨ ntohs pkt.ip2.frag_off = IP_DF) :
    (code_IR_packet E c pkt dest).counter =
      cid.counter + 2 + ((spec_static_chain c pkt ++ spec_dynamic_chain c pkt).length : Int)
        + 2 ∧
    octets_from (code_IR_packet E c pkt dest).dest (cid.counter + 2)
      ((spec_static_chain c pkt ++ spec_dynamic_chain c pkt).length : Int) =
      spec_static_chain c pkt ++ spec_dynamic_chain c pkt := by
  have hcount := (code_IR_packet_frame E c pkt dest cid hcv hfp hcid h0 h1 hnf g0 g1 gnf).1
  have hlenS := spec_static_chain_length c pkt
  have hlenD := spec_dynamic_chain_length c pkt
  refine ⟨by rw [hcount, List.length_append, Nat.cast_add, hlenS, hlenD]; ring, ?_⟩
  simp only [code_IR_packet, hcv]
  set s0 : packet_build :=
    { context := c
      dest := store (store (store cid.dest cid.first_position
        (to_uchar (int_or (to_uchar 0xfc) 1))) cid.counter E.profile_id) (cid.counter + 1) 0
      counter := cid.counter + 1 + 1 } with hs0
  have s0c : s0.counter = cid.counter + 2 := by rw [hs0]; dsimp only; omega
  have s0x : s0.context = c := rfl
  obtain ⟨a1, b1, c1⟩ := code_static_chain_step pkt s0 (by omega)
  have o1 := code_static_chain_octets pkt s0 (by omega)
  rw [s0x] at a1 b1 o1
  have hv := coding_view_eq _ _ b1
  set s1 := code_static_chain pkt s0 with hs1
  have n1 : ¬ s1.counter < 0 := by
    rw [a1]; split_ifs <;> omega
  rw [if_neg n1]
  obtain ⟨a2, b2, c2⟩ := code_dynamic_chain_step pkt s1 (not_lt.mp n1) h0 h1 hnf g0 g1
    (by rw [hv.2.2.2.1]; exact gnf)
  have o2 := code_dynamic_chain_octets pkt s1 (not_lt.mp n1) h0 h1 hnf g0 g1
    (by rw [hv.2.2.2.1]; exact gnf)
  rw [spec_dynamic_chain_congr _ _ pkt b1] at o2
  rw [hv.2.2.2.1, hv.2.2.2.2.2.2.2.2.2.2.2.2.1] at a2
  set s2 := code_dynamic_chain pkt s1 with hs2
  have n2 : ¬ s2.counter < 0 := by
    rw [a2]; split_ifs <;> omega
  rw [if_neg n2]
  have hlen1 : s1.counter = cid.counter + 2 + ((spec_static_chain c pkt).length : Int) := by
    rw [a1, hlenS, s0c]; ring
  have hlen2 : s2.counter = s1.counter + ((spec_dynamic_chain c pkt).length : Int) := by
    rw [a2, hlenD]; ring
  have hS0 : 0 ≤ ((spec_static_chain c pkt).length : Int) := Int.natCast_nonneg _
  have hD0 : 0 ≤ ((spec_dynamic_chain c pkt).length : Int) := Int.natCast_nonneg _
  have o12 : octets_from s2.dest (cid.counter + 2)
      ((spec_static_chain c pkt ++ spec_dynamic_chain c pkt).length : Int) =
      spec_static_chain c pkt ++ spec_dynamic_chain c pkt := by
    refine octets_from_append s1.dest _ _ _ _ (by rw [← s0c]; exact o1)
      (fun j hj => c2 j (by omega)) ?_
    rw [← hlen1]
    exact o2
  refine Eq.trans (octets_from_congr s2.dest _ _ _ ?_) o12
  intro j hj1 hj2
  rw [List.length_append, Nat.cast_add] at hj2
  simp only [code_sn_and_crc]
  rw [store_ne _ _ _ _ (by omega), store_ne _ _ _ _ (by omega), store_ne _ _ _ _ (by omega)]

/-- The chain `code_IR_DYN_packet` stores after the CRC octet, for headers
that are not fragments. -/
theorem code_IR_DYN_packet_chain (E : generic_deps) (c : c_context) (pkt : ip_packet)
    (dest : Int → Int) (cid : cid_values)
    (hcv : E.code_cid_values c dest c.specific.tmp_variables.max_size = cid)
    (hfp : 0 ≤ cid.first_position) (hcid : cid.first_position < cid.counter)
    (h0 : 0 ≤ pkt.ip.frag_off) (h1 : pkt.ip.frag_off ≤ 65535)
    (hnf : ntohs pkt.ip.frag_off = 0 ∨ ntohs pkt.ip.frag_off = IP_DF)
    (g0 : 0 ≤ pkt.ip2.frag_off) (g1 : pkt.ip2.frag_off ≤ 65535)
    (gnf : c.specific.tmp_variables.nr_of_ip_hdr > 1 →
      ntohs pkt.ip2.frag_off = 0 ∨ ntohs pkt.ip2.frag_off = IP_DF) :
    (code_IR_DYN_packet E c pkt dest).counter =
      cid.counter + 2 + ((spec_dynamic_chain c pkt).length : Int) + 2 ∧
    octets_from (code_IR_DYN_packet E c pkt dest).dest (cid.counter + 2)
      ((spec_dynamic_chain c pkt).length : Int) = spec_dynamic_chain c pkt := by
  have hcount := (code_IR_DYN_packet_frame E c pkt dest cid hcv hfp hcid h0 h1 hnf g0 g1 gnf).1
  have hlenD := spec_dynamic_chain_length c pkt
  refine ⟨by rw [hcount, hlenD], ?_⟩
  simp only [code_IR_DYN_packet, hcv]
  set s0 : packet_build :=
    { context := c
      dest := store (store (store cid.dest cid.first_position 0xf8) cid.counter E.profile_id)
        (cid.counter + 1) 0
      counter := cid.counter + 1 + 1 } with hs0
  have s0c : s0.counter = cid.counter + 2 := by rw [hs0]; dsimp only; omega
  have s0x : s0.context = c := rfl
  obtain ⟨a2, b2, c2⟩ := code_dynamic_chain_step pkt s0 (by omega) h0 h1 hnf g0 g1 gnf
  have o2 := code_dynamic_chain_octets pkt s0 (by omega) h0 h1 hnf g0 g1 gnf
  rw [s0x] at a2 b2 o2
  set s2 := code_dynamic_chain pkt s0 with hs2
  have n2 : ¬ s2.counter < 0 := by
    rw [a2]; split_ifs <;> omega
  rw [if_neg n2]
  have hlen2 : s2.counter = cid.counter + 2 + ((spec_dynamic_chain c pkt).length : Int) := by
    rw [a2, hlenD, s0c]; ring
  have hD0 : 0 ≤ ((spec_dynamic_chain c pkt).length : Int) := Int.natCast_nonneg _
  rw [s0c] at o2
  refine Eq.trans (octets_from_congr s2.dest _ _ _ ?_) o2
  intro j hj1 hj2
  simp only [code_sn_and_crc]
  rw [store_ne _ _ _ _ (by omega), store_ne _ _ _ _ (by omega), store_ne _ _ _ _ (by omega)]

/-- C30: for every context and every packet whose IP headers are not
fragments, when the CID code reserves the first position before the position
it returns, `code_IR_packet` stores the type octet 0xFD and
`code_IR_DYN_packet` the type octet 0xF8 at the first position; the profile
id and the CRC octet follow the CID octets; then come the chains and the two
octets of the SN, most significant first, which end the header.  The chains
are, octet for octet, the static chain followed by the dynamic chain for IR,
and the dynamic chain for IR-DYN: they start right after the CRC octet, and
the length returned is the two octets of the profile id and the CRC, the
chains and the two octets of the SN after the CID octets.  The CRC octet is
the octet of `crc_calculate(CRC_TYPE_8, ...)` over the whole header, of the
length returned, with the CRC octet set to zero. -/
theorem C30_ir_framing_and_crc (E : generic_deps) (c : c_context) (pkt : ip_packet)
    (dest : Int → Int) (cid : cid_values)
    (hcv : E.code_cid_values c dest c.specific.tmp_variables.max_size = cid)
    (hfp : 0 ≤ cid.first_position) (hcid : cid.first_position < cid.counter)
    (h0 : 0 ≤ pkt.ip.frag_off) (h1 : pkt.ip.frag_off ≤ 65535)
    (hnf : ntohs pkt.ip.frag_off = 0 ∨ ntohs pkt.ip.frag_off = IP_DF)
    (g0 : 0 ≤ pkt.ip2.frag_off) (g1 : pkt.ip2.frag_off ≤ 65535)
    (gnf : c.specific.tmp_variables.nr_of_ip_hdr > 1 →
      ntohs pkt.ip2.frag_off = 0 ∨ ntohs pkt.ip2.frag_off = IP_DF) :
    ((code_IR_packet E c pkt dest).counter =
        cid.counter + 2 +
          ((if c.specific.tmp_variables.nr_of_ip_hdr > 1 then 20 else 10) +
            (if c.specific.code_static_part = none then 0 else 4)) +
          ((if c.specific.tmp_variables.nr_of_ip_hdr > 1 then 10 else 5) +
            (if c.specific.code_dynamic_part = none then 0 else 2)) + 2 ∧
      (code_IR_packet E c pkt dest).dest cid.first_position = 0xFD ∧
      (code_IR_packet E c pkt dest).dest cid.counter = E.profile_id % 256 ∧
      (code_IR_packet E c pkt dest).dest (cid.counter + 1) =
        E.crc_calculate CRC_TYPE_8
          (octets_of (store (code_IR_packet E c pkt dest).dest (cid.counter + 1) 0)
            (code_IR_packet E c pkt dest).counter)
          (code_IR_packet E c pkt dest).counter % 256 ∧
      (code_IR_packet E c pkt dest).dest ((code_IR_packet E c pkt dest).counter - 2) =
        c.specific.sn / 256 % 256 ∧
      (code_IR_packet E c pkt dest).dest ((code_IR_packet E c pkt dest).counter - 1) =
        c.specific.sn % 256) ∧
    ((code_IR_DYN_packet E c pkt dest).counter =
        cid.counter + 2 +
          ((if c.specific.tmp_variables.nr_of_ip_hdr > 1 then 10 else 5) +
            (if c.specific.code_dynamic_part = none then 0 else 2)) + 2 ∧
      (code_IR_DYN_packet E c pkt dest).dest cid.first_position = 0xF8 ∧
      (code_IR_DYN_packet E c pkt dest).dest cid.counter = E.profile_id % 256 ∧
      (code_IR_DYN_packet E c pkt dest).dest (cid.counter + 1) =
        E.crc_calculate CRC_TYPE_8
          (octets_of (store (code_IR_DYN_packet E c pkt dest).dest (cid.counter + 1) 0)
            (code_IR_DYN_packet E c pkt dest).counter)
          (code_IR_DYN_packet E c pkt dest).counter % 256 ∧
      (code_IR_DYN_packet E c pkt dest).dest ((code_IR_DYN_packet E c pkt dest).counter - 2) =
        c.specific.sn / 256 % 256 ∧
      (code_IR_DYN_packet E c pkt dest).dest ((code_IR_DYN_packet E c pkt dest).counter - 1) =
        c.specific.sn % 256) ∧
    ((code_IR_packet E c pkt dest).counter =
        cid.counter + 2 + ((spec_static_chain c pkt ++ spec_dynamic_chain c pkt).length : Int)
          + 2 ∧
      octets_from (code_IR_packet E c pkt dest).dest (cid.counter + 2)
        ((spec_static_chain c pkt ++ spec_dynamic_chain c pkt).length : Int) =
        spec_static_chain c pkt ++ spec_dynamic_chain c pkt) ∧
    ((code_IR_DYN_packet E c pkt dest).counter =
        cid.counter + 2 + ((spec_dynamic_chain c pkt).length : Int) + 2 ∧
      octets_from (code_IR_DYN_packet E c pkt dest).dest (cid.counter + 2)
        ((spec_dynamic_chain c pkt).length : Int) = spec_dynamic_chain c pkt) :=
  ⟨code_IR_packet_frame E c pkt dest cid hcv hfp hcid h0 h1 hnf g0 g1 gnf,
    code_IR_DYN_packet_frame E c pkt dest cid hcv hfp hcid h0 h1 hnf g0 g1 gnf,
    code_IR_packet_chains E c pkt dest cid hcv hfp hcid h0 h1 hnf g0 g1 gnf,
    code_IR_DYN_packet_chain E c pkt dest cid hcv hfp hcid h0 h1 hnf g0 g1 gnf⟩

set_option maxRecDepth 20000 in
/-- C30 at a concrete input: a UDP packet with one IP header, the addresses
127.0.0.1 and 127.0.0.2, TOS 1, TTL 64, IP-ID octets 12 34 and DF set, the
ports 53 and 12345, the checksum octets EF BE, SN 0x1234 and the CID code of
a small CID 0.  After the type octet, the profile id and the CRC octet, the
IR packet has the 14 octets of the static chain and the 7 octets of the
dynamic chain, and the IR-DYN packet the 7 octets of the dynamic chain. -/
theorem C30_ir_framing_and_crc_witness :
    octets_from (code_IR_packet sample_deps
      { specific :=
          { sn := 0x1234
            ip_flags := { nbo := 1 }
            tmp_variables := { nr_of_ip_hdr := 1 }
            code_static_part := some next_header_handler.udp
            code_dynamic_part := some next_header_handler.udp } }
      { ip :=
          { protocol := 17, saddr := 0x0100007f, daddr := 0x0200007f, tos := 1, ttl := 64
            id := 0x3412, frag_off := 0x0040 }
        udp := { source := 0x3500, dest := 0x3930, check := 0xbeef } }
      (fun _ => 0)).dest 3 21 =
      [0x40, 17, 127, 0, 0, 1, 127, 0, 0, 2, 0, 53, 48, 57, 1, 64, 0x12, 0x34, 0xA0, 0xEF,
        0xBE] ∧
    octets_from (code_IR_DYN_packet sample_deps
      { specific :=
          { sn := 0x1234
            ip_flags := { nbo := 1 }
            tmp_variables := { nr_of_ip_hdr := 1 }
            code_static_part := some next_header_handler.udp
            code_dynamic_part := some next_header_handler.udp } }
      { ip :=
          { protocol := 17, saddr := 0x0100007f, daddr := 0x0200007f, tos := 1, ttl := 64
            id := 0x3412, frag_off := 0x0040 }
        udp := { source := 0x3500, dest := 0x3930, check := 0xbeef } }
      (fun _ => 0)).dest 3 7 = [1, 64, 0x12, 0x34, 0xA0, 0xEF, 0xBE] :=
  ⟨(C30_ir_framing_and_crc sample_deps
      { specific :=
          { sn := 0x1234
            ip_flags := { nbo := 1 }
            tmp_variables := { nr_of_ip_hdr := 1 }
            code_static_part := some next_header_handler.udp
            code_dynamic_part := some next_header_handler.udp } }
      { ip :=
          { protocol := 17, saddr := 0x0100007f, daddr := 0x0200007f, tos := 1, ttl := 64
            id := 0x3412, frag_off := 0x0040 }
        udp := { source := 0x3500, dest := 0x3930, check := 0xbeef } }
      (fun _ => 0) { dest := fun _ => 0, counter := 1, first_position := 0 } rfl
      (by decide) (by decide) (by decide) (by decide) (Or.inr (by decide)) (by decide)
      (by decide) (fun _ => Or.inl (by decide))).2.2.1.2,
   (C30_ir_framing_and_crc sample_deps
      { specific :=
          { sn := 0x1234
            ip_flags := { nbo := 1 }
            tmp_variables := { nr_of_ip_hdr := 1 }
            code_static_part := some next_header_handler.udp
            code_dynamic_part := some next_header_handler.udp } }
      { ip :=
          { protocol := 17, saddr := 0x0100007f, daddr := 0x0200007f, tos := 1, ttl := 64
            id := 0x3412, frag_off := 0x0040 }
        udp := { source := 0x3500, dest := 0x3930, check := 0xbeef } }
      (fun _ => 0) { dest := fun _ => 0, counter := 1, first_position := 0 } rfl
      (by decide) (by decide) (by decide) (by decide) (Or.inr (by decide)) (by decide)
      (by decide) (fun _ => Or.inl (by decide))).2.2.2.2⟩

end Rohc
